import Mathlib

/-!
# BNEP network server (bluez/network/server.c): setup protocol

A shallow embedding of the connection-setup path of the PAN network server:
the role validator `bnep_setup_chk`, the frame decoder `bnep_setup_decode`,
the response encoder `send_bnep_ctrl_rsp`, and the event handlers `bnep_setup`
and `confirm_event`.

Conventions of the embedding.

* A byte buffer is a `List Nat`; a byte is read with `byte_at`, which reduces the
  stored value modulo 256. Pointers into a buffer are offsets.
* Machine integers are natural numbers, reduced modulo `2 ^ w` wherever the C
  type truncates.
* The host is little-endian (the ARM target of this tree): `bt_get_unaligned`
  loads least-significant byte first and `ntohs`, `ntohl`, `htons` swap bytes.
* Calls that leave the process (socket sends, D-Bus signals, kernel BNEP
  ioctls, GLib watches) are recorded in order in an effect log; their results
  are supplied by an `environment` record.
-/

namespace NetworkServer

/-! ## Constants of `bluetooth/bnep.h` -/

/-- Modelled from the spec: constant `BNEP_SVC_PANU` of bluetooth/bnep.h (header
not under src/), the client role identifier 0x1115. -/
def BNEP_SVC_PANU : Nat := 0x1115

/-- Modelled from the spec: constant `BNEP_SVC_NAP` of bluetooth/bnep.h (header
not under src/), the gateway role identifier 0x1116. -/
def BNEP_SVC_NAP : Nat := 0x1116

/-- Modelled from the spec: constant `BNEP_SVC_GN` of bluetooth/bnep.h (header
not under src/), the hub role identifier 0x1117. -/
def BNEP_SVC_GN : Nat := 0x1117

/-- Modelled from the spec: constant `BNEP_CONTROL` of bluetooth/bnep.h, the
packet type of a control frame, 0x01. -/
def BNEP_CONTROL : Nat := 0x01

/-- Modelled from the spec: constant `BNEP_TYPE_MASK` of bluetooth/bnep.h, the low
seven bits of the type byte. -/
def BNEP_TYPE_MASK : Nat := 0x7f

/-- Modelled from the spec: constant `BNEP_EXT_HEADER` of bluetooth/bnep.h, the
extension bit (top bit) of the type byte. -/
def BNEP_EXT_HEADER : Nat := 0x80

/-- Modelled from the spec: constant `BNEP_CMD_NOT_UNDERSTOOD` of bluetooth/bnep.h,
control command 0x00. -/
def BNEP_CMD_NOT_UNDERSTOOD : Nat := 0x00

/-- Modelled from the spec: constant `BNEP_SETUP_CONN_REQ` of bluetooth/bnep.h,
control command 0x01. -/
def BNEP_SETUP_CONN_REQ : Nat := 0x01

/-- Modelled from the spec: constant `BNEP_SETUP_CONN_RSP` of bluetooth/bnep.h,
control command 0x02. -/
def BNEP_SETUP_CONN_RSP : Nat := 0x02

/-- Modelled from the spec: constant `BNEP_FILTER_NET_TYPE_SET` of
bluetooth/bnep.h, control command 0x03. -/
def BNEP_FILTER_NET_TYPE_SET : Nat := 0x03

/-- Modelled from the spec: constant `BNEP_FILTER_NET_TYPE_RSP` of
bluetooth/bnep.h, control command 0x04. -/
def BNEP_FILTER_NET_TYPE_RSP : Nat := 0x04

/-- Modelled from the spec: constant `BNEP_FILTER_MULT_ADDR_SET` of
bluetooth/bnep.h, control command 0x05. -/
def BNEP_FILTER_MULT_ADDR_SET : Nat := 0x05

/-- Modelled from the spec: constant `BNEP_FILTER_MULT_ADDR_RSP` of
bluetooth/bnep.h, control command 0x06, the highest known command. -/
def BNEP_FILTER_MULT_ADDR_RSP : Nat := 0x06

/-- Modelled from the spec: constant `BNEP_SUCCESS` of bluetooth/bnep.h, setup
response code 0x0000. -/
def BNEP_SUCCESS : Nat := 0x0000

/-- Modelled from the spec: constant `BNEP_CONN_INVALID_DST` of bluetooth/bnep.h,
setup response code 0x0001. -/
def BNEP_CONN_INVALID_DST : Nat := 0x0001

/-- Modelled from the spec: constant `BNEP_CONN_INVALID_SRC` of bluetooth/bnep.h,
setup response code 0x0002. -/
def BNEP_CONN_INVALID_SRC : Nat := 0x0002

/-- Modelled from the spec: constant `BNEP_CONN_INVALID_SVC` of bluetooth/bnep.h,
setup response code 0x0003. -/
def BNEP_CONN_INVALID_SVC : Nat := 0x0003

/-- Modelled from the spec: constant `BNEP_CONN_NOT_ALLOWED` of bluetooth/bnep.h,
setup response code 0x0004. -/
def BNEP_CONN_NOT_ALLOWED : Nat := 0x0004

/-- Modelled from the spec: constant `BNEP_FILTER_UNSUPPORTED_REQ` of
bluetooth/bnep.h, filter response code 0x0001. -/
def BNEP_FILTER_UNSUPPORTED_REQ : Nat := 0x0001

/-- The local definition `#define BNEP_EXT_CONTROL 0` of server.c. -/
def BNEP_EXT_CONTROL : Nat := 0

/-! ## Bytes, loads and byte order (little-endian host) -/

/-- The byte stored at offset `i` of a buffer. -/
def byte_at (mem : List Nat) (i : Nat) : Nat := mem.getD i 0 % 256

/-- Modelled from the spec: macro `bt_get_unaligned` of bluetooth/bluetooth.h (header
not under src/) at type `uint16_t`: an unaligned load in host byte order, here
little-endian; followed by `ntohs` it reads a big-endian identifier. -/
def bt_get_unaligned_u16 (mem : List Nat) (p : Nat) : Nat :=
  byte_at mem p + byte_at mem (p + 1) * 256

/-- Modelled from the spec: macro `bt_get_unaligned` of bluetooth/bluetooth.h (header
not under src/) at type `uint32_t`: an unaligned load in host byte order, here
little-endian; followed by `ntohl` it reads a big-endian identifier. -/
def bt_get_unaligned_u32 (mem : List Nat) (p : Nat) : Nat :=
  byte_at mem p + byte_at mem (p + 1) * 2 ^ 8 + byte_at mem (p + 2) * 2 ^ 16
    + byte_at mem (p + 3) * 2 ^ 24

/-- Modelled from the spec: macro `bt_get_unaligned` of bluetooth/bluetooth.h (header
not under src/) at type `uint64_t`: an unaligned load in host byte order, here
little-endian. -/
def bt_get_unaligned_u64 (mem : List Nat) (p : Nat) : Nat :=
  bt_get_unaligned_u32 mem p + bt_get_unaligned_u32 mem (p + 4) * 2 ^ 32

/-- The libc `ntohs` on a little-endian host: swap the two bytes of a `uint16_t`. -/
def ntohs (x : Nat) : Nat := x % 256 * 256 + x / 256 % 256

/-- The libc `htons` on a little-endian host: the same byte swap as `ntohs`. -/
def htons (x : Nat) : Nat := x % 256 * 256 + x / 256 % 256

/-- The libc `ntohl` on a little-endian host: reverse the four bytes of a `uint32_t`. -/
def ntohl (x : Nat) : Nat :=
  x % 256 * 2 ^ 24 + x / 2 ^ 8 % 256 * 2 ^ 16 + x / 2 ^ 16 % 256 * 2 ^ 8 + x / 2 ^ 24 % 256

/-- The bytes a native (little-endian) `uint16_t` occupies in memory. -/
def store_u16 (x : Nat) : List Nat := [x % 256, x / 256 % 256]

/-! ## Role validation -/

/-- The function `bnep_setup_chk` of server.c: the allowed PAN profile scenarios. -/
def bnep_setup_chk (dst_role src_role : Nat) : Nat :=
  if dst_role = BNEP_SVC_NAP ∨ dst_role = BNEP_SVC_GN then
    if src_role = BNEP_SVC_PANU then 0 else BNEP_CONN_INVALID_SRC
  else if dst_role = BNEP_SVC_PANU then
    if src_role = BNEP_SVC_PANU ∨ src_role = BNEP_SVC_GN ∨ src_role = BNEP_SVC_NAP then 0
    else BNEP_CONN_INVALID_SRC
  else BNEP_CONN_INVALID_DST

/-! ## Setup request decoding -/

/-- The struct `svc_uuid` of server.c: the two 64-bit halves of a 128-bit UUID. -/
structure svc_uuid where
  h : Nat
  l : Nat
  deriving DecidableEq, Repr

/-- The macro `PANU_SVC_UUID_H` of server.c. -/
def PANU_SVC_UUID_H : Nat := 0x0000111500001000
/-- The macro `PANU_SVC_UUID_L` of server.c. -/
def PANU_SVC_UUID_L : Nat := 0x800000805F9B34FB
/-- The macro `NAP_SVC_UUID_H` of server.c. -/
def NAP_SVC_UUID_H : Nat := 0x0000111600001000
/-- The macro `NAP_SVC_UUID_L` of server.c. -/
def NAP_SVC_UUID_L : Nat := 0x800000805F9B34FB
/-- The macro `GN_SVC_UUID_H` of server.c. -/
def GN_SVC_UUID_H : Nat := 0x0000111700001000
/-- The macro `GN_SVC_UUID_L` of server.c. -/
def GN_SVC_UUID_L : Nat := 0x800000805F9B34FB

/-- The table `bnep_svc_uuid` of server.c: PANU, NAP, GN. -/
def bnep_svc_uuid : List svc_uuid :=
  [ ⟨PANU_SVC_UUID_H, PANU_SVC_UUID_L⟩,
    ⟨NAP_SVC_UUID_H, NAP_SVC_UUID_L⟩,
    ⟨GN_SVC_UUID_H, GN_SVC_UUID_L⟩ ]

/-- Modelled from the spec: struct `bnep_setup_conn_req` of bluetooth/bnep.h (header not
under src/), packed: a type byte, a command byte, a UUID-size byte, then the
service bytes (destination identifier, source identifier, and what follows). -/
structure bnep_setup_conn_req where
  type : Nat
  ctrl : Nat
  uuid_size : Nat
  service : List Nat
  deriving DecidableEq, Repr

/-- The function `get_u64` of server.c, reading at offset `src` of `mem`. -/
def get_u64 (mem : List Nat) (src : Nat) : Nat :=
  let u64 := bt_get_unaligned_u64 mem src
  let temp := ntohl ((u64 &&& 0xFFFFFFFF) % 2 ^ 32)
  ((temp <<< 32) ||| ntohl ((u64 >>> 32) % 2 ^ 32)) % 2 ^ 64

/-- The matching loop of `bnep_setup_decode` over the UUID table, started at index
`i`: the value of the loop index when the loop is left (the index of the first
matching entry, or the table size when none matches). -/
def svc_loop (uuid_h uuid_l : Nat) : List svc_uuid → Nat → Nat
  | [], i => i
  | e :: rest, i =>
    if uuid_h = e.h ∧ uuid_l = e.l then i else svc_loop uuid_h uuid_l rest (i + 1)

/-- The function `bnep_setup_decode` of server.c. The result is the returned code
with the final contents of the output parameters `*dst_role` and `*src_role`, whose
contents on entry are the arguments `dst_role` and `src_role`. -/
def bnep_setup_decode (req : bnep_setup_conn_req) (dst_role src_role : Nat) :
    Nat × Nat × Nat :=
  let dest := 0
  let source := req.uuid_size
  if req.uuid_size = 2 then
    (0, ntohs (bt_get_unaligned_u16 req.service dest),
      ntohs (bt_get_unaligned_u16 req.service source))
  else if req.uuid_size = 4 then
    let uuid_l := ntohl (bt_get_unaligned_u32 req.service dest)
    if uuid_l ≠ BNEP_SVC_NAP ∧ uuid_l ≠ BNEP_SVC_GN ∧ uuid_l ≠ BNEP_SVC_PANU then
      (BNEP_CONN_INVALID_DST, dst_role, src_role)
    else
      let dst_role := uuid_l % 2 ^ 16
      let uuid_l := ntohl (bt_get_unaligned_u32 req.service source)
      if uuid_l ≠ BNEP_SVC_NAP ∧ uuid_l ≠ BNEP_SVC_GN ∧ uuid_l ≠ BNEP_SVC_PANU then
        (BNEP_CONN_INVALID_SRC, dst_role, src_role)
      else
        (0, dst_role, uuid_l % 2 ^ 16)
  else if req.uuid_size = 16 then
    let svc_cnt := bnep_svc_uuid.length
    let uuid_h := get_u64 req.service dest
    let uuid_l := get_u64 req.service (dest + 8)
    if svc_loop uuid_h uuid_l bnep_svc_uuid 0 = svc_cnt then
      (BNEP_CONN_INVALID_DST, dst_role, src_role)
    else
      let dst_role := ((uuid_h >>> 32) &&& 0xFFFFFFFF) % 2 ^ 16
      let uuid_h := get_u64 req.service source
      let uuid_l := get_u64 req.service (source + 8)
      if svc_loop uuid_h uuid_l bnep_svc_uuid 0 = svc_cnt then
        (BNEP_CONN_INVALID_SRC, dst_role, src_role)
      else
        (0, dst_role, ((uuid_h >>> 32) &&& 0xFFFFFFFF) % 2 ^ 16)
  else
    (BNEP_CONN_INVALID_SVC, dst_role, src_role)

/-! ## Response encoding -/

/-- Modelled from the spec: struct `bnep_control_rsp` of bluetooth/bnep.h (header not
under src/), packed: type byte, command byte, 16-bit response; its bytes in
memory. -/
def bnep_control_rsp_bytes (type ctrl resp : Nat) : List Nat :=
  [type % 256, ctrl % 256] ++ store_u16 resp

/-- The function `send_bnep_ctrl_rsp` of server.c: the bytes handed to `send`. -/
def send_bnep_ctrl_rsp (val : Nat) : List Nat :=
  bnep_control_rsp_bytes BNEP_CONTROL BNEP_SETUP_CONN_RSP (htons (val % 2 ^ 16))

/-- The function `send_bnep_ext_ctrl_rsp` of server.c: the bytes handed to `send`. -/
def send_bnep_ext_ctrl_rsp (ctrl : Nat) (val : Nat) : List Nat :=
  bnep_control_rsp_bytes BNEP_CONTROL ctrl (htons (val % 2 ^ 16))

/-! ## Sessions, servers, adapters -/

/-- The struct `network_session` of server.c. A Bluetooth address is a number, an
I/O channel is identified with its socket descriptor, `none` is the NULL channel. -/
structure network_session where
  dst : Nat
  io : Option Nat
  watch : Nat
  io_watch : Nat
  deriving DecidableEq, Repr

/-- The struct `network_server` of server.c (the back reference `na` is left out:
a server is reached through the list of its adapter). `bridge = none` is the NULL
bridge name. -/
structure network_server where
  src : Nat
  iface : String
  name : String
  bridge : Option String
  record_id : Nat
  id : Nat
  sessions : List network_session
  watch_id : Nat
  deriving DecidableEq, Repr

/-- The struct `network_adapter` of server.c. `setup = none` is the NULL setup slot. -/
structure network_adapter where
  adapter : Nat
  io : Option Nat
  setup : Option network_session
  servers : List network_server
  deriving DecidableEq, Repr

/-- Calls that leave the process, in the order in which the code makes them. -/
inductive effect where
  | send (sk : Nat) (bytes : List Nat)
  | bnep_connadd (sk : Nat) (role : Nat)
  | bnep_add_to_bridge (devname : String) (bridge : String)
  | bnep_if_up (devname : String)
  | emit_DeviceConnected (address : Nat) (devname : String) (dst_role : Nat)
  | emit_DeviceDisconnected (address : Nat)
  | g_io_add_watch (chan : Nat)
  | g_io_channel_shutdown (chan : Nat)
  | g_io_channel_unref (chan : Nat)
  | g_source_remove (id : Nat)
  | btd_request_authorization (src : Nat) (dst : Nat)
  deriving DecidableEq, Repr

/-- Results of the calls that leave the process, and compile-time configuration. -/
structure environment where
  /-- Return value of `bnep_connadd`. -/
  connadd_err : Int
  /-- Interface name written into `devname` by `bnep_connadd`. -/
  devname : String
  /-- Return value of `bnep_add_to_bridge`. -/
  add_to_bridge : Int
  /-- Whether the build defines `ANDROID_NO_BRIDGE`. -/
  android_no_bridge : Bool
  /-- Source id returned by `g_io_add_watch`. -/
  watch_id : Nat
  /-- Whether `bt_io_get` reports an error. -/
  bt_io_get_err : Bool
  /-- Local address reported by `bt_io_get`. -/
  src : Nat
  /-- Peer address reported by `bt_io_get`. -/
  dst : Nat
  /-- Return value of `btd_request_authorization`. -/
  request_authorization : Int
  /-- Indeterminate initial content of the local `dst_role` of `bnep_setup`. -/
  uninit_dst_role : Nat
  /-- Indeterminate initial content of the local `src_role` of `bnep_setup`. -/
  uninit_src_role : Nat
  deriving DecidableEq, Repr

/-- State and effect log after a handler has run. -/
structure outcome where
  na : network_adapter
  log : List effect
  deriving DecidableEq, Repr

/-- The errno value `EPERM`. -/
def EPERM : Int := 1

/-- GLib condition flag `G_IO_ERR`. -/
def G_IO_ERR : Nat := 8
/-- GLib condition flag `G_IO_HUP`. -/
def G_IO_HUP : Nat := 16
/-- GLib condition flag `G_IO_NVAL`. -/
def G_IO_NVAL : Nat := 32

/-- The function `find_server` of server.c: the first server with the given id. -/
def find_server : List network_server → Nat → Option network_server
  | [], _ => none
  | ns :: list, id => if ns.id = id then some ns else find_server list id

/-- Write back the server that `find_server` returned: the list holds pointers, so a
store through the returned pointer changes the first list entry with that id. -/
def store_server : List network_server → Nat → network_server → List network_server
  | [], _, _ => []
  | ns :: list, id, ns1 =>
    if ns.id = id then ns1 :: list else ns :: store_server list id ns1

/-- The function `session_free` of server.c: the calls it makes. -/
def session_free (session : network_session) : List effect :=
  (if session.watch ≠ 0 then [effect.g_source_remove session.watch] else [])
  ++ (if session.io_watch ≠ 0 then [effect.g_source_remove session.io_watch] else [])
  ++ (match session.io with
      | some chan => [effect.g_io_channel_unref chan]
      | none => [])

/-- The function `setup_destroy` of server.c. -/
def setup_destroy (na : network_adapter) : outcome :=
  match na.setup with
  | none => ⟨na, []⟩
  | some setup => ⟨{ na with setup := none }, session_free setup⟩

/-- The function `server_connadd` of server.c: return value, the server after
the call and the calls made (the session is stored in the list with its new `io_watch`). The block
under `#ifndef ANDROID_NO_BRIDGE` is compiled in when `android_no_bridge` is false.
The result is `none` when the code passes on a NULL pointer to be dereferenced: a
session without channel, or a NULL bridge name given to `bnep_add_to_bridge`. -/
def server_connadd (env : environment) (ns : network_server) (session : network_session)
    (dst_role : Nat) : Option (Int × network_server × List effect) :=
  match session.io with
  | none => none
  | some nsk =>
    let err := env.connadd_err
    if err < 0 then
      some (err, ns, [effect.bnep_connadd nsk dst_role])
    else
      let devname := env.devname
      let connadd := effect.bnep_connadd nsk dst_role
      let bridged : Option (Int × List effect) :=
        if env.android_no_bridge then some (0, [])
        else
          match ns.bridge with
          | none => none
          | some bridge =>
            some (env.add_to_bridge, [effect.bnep_add_to_bridge devname bridge])
      match bridged with
      | none => none
      | some (r, calls) =>
        if r < 0 then some (-EPERM, ns, connadd :: calls)
        else
          let session1 := { session with io_watch := env.watch_id }
          some (0, { ns with sessions := ns.sessions ++ [session1] },
            connadd :: calls
            ++ [effect.bnep_if_up devname,
                effect.emit_DeviceConnected session.dst devname dst_role,
                effect.g_io_add_watch nsk])

/-- The packet buffer of `bnep_setup` viewed as a `struct bnep_setup_conn_req`. -/
def packet_req (packet : List Nat) : bnep_setup_conn_req :=
  { type := byte_at packet 0, ctrl := byte_at packet 1, uuid_size := byte_at packet 2,
    service := packet.drop 3 }

/-- The `switch` in the loop body of `parse_extension_data` for the header at offset
`ext` of the memory `mem` (struct `bnep_ext_hdr`: type byte, length byte, data): the
response frames it sends. -/
def ext_header_reply (mem : List Nat) (ext : Nat) : List (List Nat) :=
  let h_type := byte_at mem ext
  if h_type &&& BNEP_TYPE_MASK = BNEP_EXT_CONTROL then
    let ext_ctrl_type := byte_at mem (ext + 2)
    if ext_ctrl_type = BNEP_FILTER_NET_TYPE_SET then
      [send_bnep_ext_ctrl_rsp BNEP_FILTER_NET_TYPE_RSP BNEP_FILTER_UNSUPPORTED_REQ]
    else if ext_ctrl_type = BNEP_FILTER_MULT_ADDR_SET then
      [send_bnep_ext_ctrl_rsp BNEP_FILTER_MULT_ADDR_RSP BNEP_FILTER_UNSUPPORTED_REQ]
    else []
  else []

/-- The loop of `parse_extension_data` of server.c over the memory `mem`, with the
header pointer at offset `ext`: the response frames sent, in order. The first
argument bounds the number of headers visited. -/
def parse_extension_loop : Nat → List Nat → Nat → List (List Nat)
  | 0, _, _ => []
  | fuel + 1, mem, ext =>
    let h_type := byte_at mem ext
    let h_len := byte_at mem (ext + 1)
    let sent := ext_header_reply mem ext
    if h_type &&& BNEP_EXT_HEADER ≠ 0 then
      sent ++ parse_extension_loop fuel mem (ext + 2 + h_len)
    else sent

/-- The function `parse_extension_data` of server.c. A header with the extension bit
set lies inside `mem` and every step advances by at least two bytes, so
`mem.length + 1` iterations are never exhausted. -/
def parse_extension_data (mem : List Nat) (ext : Nat) : List (List Nat) :=
  parse_extension_loop (mem.length + 1) mem ext

/-- The code after the label `reply` of `bnep_setup`: the setup response, then the
replies of the extension walk, which starts at `req->service + 4`. -/
def bnep_setup_reply (sk : Nat) (packet : List Nat) (rsp : Nat) : List effect :=
  effect.send sk (send_bnep_ctrl_rsp rsp)
  :: (if (packet_req packet).type &&& BNEP_EXT_HEADER ≠ 0 then
        (parse_extension_data packet (3 + 4)).map (effect.send sk)
      else [])

/-- The part of `bnep_setup` between the role check and the label `reply`, for a
request that decoded to destination `dst_role` and passed the role check: the
lookup of the server, interface creation through `server_connadd`, and the reply.
The result is `none` when the code dereferences a NULL pointer (no pending setup,
or a pending setup without channel). -/
def bnep_setup_connect (env : environment) (na : network_adapter) (sk : Nat)
    (packet : List Nat) (dst_role : Nat) : Option outcome :=
  let rsp := BNEP_CONN_NOT_ALLOWED
  match find_server na.servers dst_role with
  | none => some ⟨na, bnep_setup_reply sk packet rsp⟩
  | some ns =>
    if ns.record_id = 0 then some ⟨na, bnep_setup_reply sk packet rsp⟩
    else if ns.bridge = none then some ⟨na, bnep_setup_reply sk packet rsp⟩
    else
      match na.setup with
      | none => none
      | some session =>
        match server_connadd env ns session dst_role with
        | none => none
        | some (ret, ns1, calls) =>
          if ret < 0 then
            some ⟨{ na with servers := store_server na.servers dst_role ns1 },
              calls ++ bnep_setup_reply sk packet rsp⟩
          else
            some ⟨{ na with setup := none,
                            servers := store_server na.servers dst_role ns1 },
              calls ++ bnep_setup_reply sk packet BNEP_SUCCESS⟩

/-- The function `bnep_setup` of server.c, called on channel `chan` with condition
`cond`; `rd` is `none` when `read` fails and otherwise the contents of the packet
buffer after `read`. Every path returns FALSE. The result is `none` when the code
dereferences a NULL pointer. -/
def bnep_setup (env : environment) (na : network_adapter) (chan : Nat) (cond : Nat)
    (rd : Option (List Nat)) : Option outcome :=
  if cond &&& G_IO_NVAL ≠ 0 then some ⟨na, []⟩
  else if cond &&& (G_IO_ERR ||| G_IO_HUP) ≠ 0 then some ⟨na, []⟩
  else
    let sk := chan
    match rd with
    | none => some ⟨na, []⟩
    | some packet =>
      let req := packet_req packet
      if req.type = BNEP_CONTROL ∧ req.ctrl > BNEP_FILTER_MULT_ADDR_RSP then
        some ⟨na, [effect.send sk [BNEP_CONTROL, BNEP_CMD_NOT_UNDERSTOOD, req.ctrl]]⟩
      else if req.type &&& BNEP_TYPE_MASK ≠ BNEP_CONTROL ∨ req.ctrl ≠ BNEP_SETUP_CONN_REQ then
        some ⟨na, []⟩
      else
        let dec := bnep_setup_decode req env.uninit_dst_role env.uninit_src_role
        let rsp := dec.1
        let dst_role := dec.2.1
        let src_role := dec.2.2
        if rsp ≠ 0 then some ⟨na, bnep_setup_reply sk packet rsp⟩
        else
          let rsp := bnep_setup_chk dst_role src_role
          if rsp ≠ 0 then some ⟨na, bnep_setup_reply sk packet rsp⟩
          else bnep_setup_connect env na sk packet dst_role

/-- The function `confirm_event` of server.c for an incoming connection on `chan`. -/
def confirm_event (env : environment) (na : network_adapter) (chan : Nat) : outcome :=
  let drop : List effect := [effect.g_io_channel_shutdown chan]
  if env.bt_io_get_err then ⟨na, drop⟩
  else if na.setup.isSome then ⟨na, drop⟩
  else
    match find_server na.servers BNEP_SVC_NAP with
    | none => ⟨na, drop⟩
    | some ns =>
      if ns.record_id = 0 then ⟨na, drop⟩
      else if ns.bridge = none then ⟨na, drop⟩
      else
        let setup : network_session :=
          { dst := env.dst, io := some chan, watch := 0, io_watch := 0 }
        let na1 := { na with setup := some setup }
        let auth := effect.btd_request_authorization env.src env.dst
        if env.request_authorization < 0 then
          let d := setup_destroy na1
          ⟨d.na, auth :: d.log ++ drop⟩
        else ⟨na1, [auth]⟩

/-- A run of incoming connections, each handled by `confirm_event`: the adapter
after the last and all calls made. -/
def confirm_events : List (environment × Nat) → network_adapter → outcome
  | [], na => ⟨na, []⟩
  | (env, chan) :: rest, na =>
    let o := confirm_event env na chan
    let r := confirm_events rest o.na
    ⟨r.na, o.log ++ r.log⟩

/-! ## Definitions that follow the specification's wording -/

/-- The three PAN roles: client (PANU), gateway (NAP), hub (GN). -/
def pan_roles : List Nat := [0x1115, 0x1116, 0x1117]

/-- The allowed scenarios in the specification's words: a gateway or hub destination
requires a client source; a client destination accepts a client, hub or gateway
source. -/
def pan_scenario_allowed (dst src : Nat) : Prop :=
  ((dst = 0x1116 ∨ dst = 0x1117) ∧ src = 0x1115) ∨
  (dst = 0x1115 ∧ (src = 0x1115 ∨ src = 0x1117 ∨ src = 0x1116))

instance (dst src : Nat) : Decidable (pan_scenario_allowed dst src) := by
  unfold pan_scenario_allowed; infer_instance

/-- The big-endian value of the `n` bytes at offset `p` of `mem`. -/
def be_value (mem : List Nat) (p : Nat) : Nat → Nat
  | 0 => 0
  | n + 1 => be_value mem p n * 256 + byte_at mem (p + n)

/-- The big-endian encoding of `v` in `n` bytes. -/
def be_bytes : Nat → Nat → List Nat
  | 0, _ => []
  | n + 1, v => be_bytes n (v / 256) ++ [v % 256]

/-- The 128-bit identifier 0000xxxx-0000-1000-8000-00805F9B34FB with `xxxx = role`. -/
def base_uuid128 (role : Nat) : Nat := role * 2 ^ 96 + 0x00001000800000805F9B34FB

/-- Whether an identifier of `size` bytes names one of the three roles: for 16 bytes
the base UUID with the role in its role field, otherwise the role number itself. -/
def known_role_id (size id : Nat) : Bool :=
  if size = 16 then pan_roles.any (fun r => id = base_uuid128 r)
  else pan_roles.any (fun r => id = r)

/-- The encoding of a role as an identifier of `size` bytes: the role number for 2
and 4 bytes (zero-extended), the base UUID carrying it for 16 bytes. -/
def encode_role (size role : Nat) : List Nat :=
  if size = 16 then be_bytes 16 (base_uuid128 role) else be_bytes size role

/-- A setup request for destination `d` and source `s` with identifiers of `size`
bytes, followed by arbitrary further bytes `tail`. -/
def encode_setup_req (type size d s : Nat) (tail : List Nat) : bnep_setup_conn_req :=
  { type := type, ctrl := BNEP_SETUP_CONN_REQ, uuid_size := size,
    service := encode_role size d ++ encode_role size s ++ tail }

/-- Decoding of a setup response frame as the specification words it: bytes 2 and 3
read as a big-endian 16-bit integer. -/
def decode_rsp_status (frame : List Nat) : Nat := be_value frame 2 2

/-- The code that rejects a setup request, in the specification's words: the code of
`bnep_setup_decode`, or failing that the code of `bnep_setup_chk` on the decoded
roles. -/
def setup_reject_code (req : bnep_setup_conn_req) (dst_role src_role : Nat) : Nat :=
  let dec := bnep_setup_decode req dst_role src_role
  if dec.1 ≠ 0 then dec.1 else bnep_setup_chk dec.2.1 dec.2.2

/-- The condition flags with which `bnep_setup` goes on to read the socket. -/
def cond_readable (cond : Nat) : Prop :=
  cond &&& G_IO_NVAL = 0 ∧ cond &&& (G_IO_ERR ||| G_IO_HUP) = 0

instance (cond : Nat) : Decidable (cond_readable cond) := by
  unfold cond_readable; infer_instance

/-- A packet that `bnep_setup` takes for a setup request: control type in the low
seven bits of the type byte and the setup-request command. -/
def is_setup_req (packet : List Nat) : Prop :=
  byte_at packet 0 &&& BNEP_TYPE_MASK = BNEP_CONTROL ∧ byte_at packet 1 = BNEP_SETUP_CONN_REQ

instance (packet : List Nat) : Decidable (is_setup_req packet) := by
  unfold is_setup_req; infer_instance

/-- The setup response carried by an effect, if it is the sending of one: a frame
whose command byte is the setup-response command. -/
def setup_response_of : effect → Option (List Nat)
  | effect.send _ bytes => if byte_at bytes 1 = BNEP_SETUP_CONN_RSP then some bytes else none
  | _ => none

/-- The setup responses sent in a log, in order. -/
def setup_responses (log : List effect) : List (List Nat) := log.filterMap setup_response_of

/-- The (address, interface name, role) of a DeviceConnected notification. -/
def connected_signal_of : effect → Option (Nat × String × Nat)
  | effect.emit_DeviceConnected address devname dst_role => some (address, devname, dst_role)
  | _ => none

/-- The DeviceConnected notifications emitted in a log, in order. -/
def connected_signals (log : List effect) : List (Nat × String × Nat) :=
  log.filterMap connected_signal_of

/-- Whether an effect is the sending of bytes on socket `sk`. -/
def is_send_on (sk : Nat) : effect → Bool
  | effect.send sk1 _ => sk1 = sk
  | _ => false

/-- The conditions under which a validated setup request is refused, in the
specification's words: no server registered for the destination role, or that
server has record id 0, or no bridge name, or session finalisation fails. -/
def setup_refused (env : environment) (na : network_adapter) (session : network_session)
    (dst_role : Nat) : Prop :=
  match find_server na.servers dst_role with
  | none => True
  | some ns =>
    ns.record_id = 0 ∨ ns.bridge = none ∨
      (match server_connadd env ns session dst_role with
       | some (ret, _, _) => ret < 0
       | none => False)

/-! ## Sample values -/

/-- A sample environment: interface `bnep0` is created and attached to the bridge. -/
def sample_env : environment :=
  { connadd_err := 0, devname := "bnep0", add_to_bridge := 0, android_no_bridge := false,
    watch_id := 42, bt_io_get_err := false, src := 0x001122334455, dst := 0xAABBCCDDEEFF,
    request_authorization := 0, uninit_dst_role := 0, uninit_src_role := 0 }

/-- A sample pending setup: peer AA:BB:CC:DD:EE:FF on channel 5. -/
def sample_session : network_session :=
  { dst := 0xAABBCCDDEEFF, io := some 5, watch := 7, io_watch := 0 }

/-- A sample gateway server, registered (record 0x10001) with bridge `pan0`. -/
def sample_server : network_server :=
  { src := 0x001122334455, iface := "org.bluez.NetworkServer", name := "Network service",
    bridge := some "pan0", record_id := 0x10001, id := 0x1116, sessions := [], watch_id := 3 }

/-- A sample adapter with the sample gateway server and the sample pending setup. -/
def sample_adapter : network_adapter :=
  { adapter := 0, io := some 4, setup := some sample_session, servers := [sample_server] }

/-- The function `find_session` of server.c: the first session of the list whose
channel is `chan`. -/
def find_session (list : List network_session) (chan : Nat) : Option network_session :=
  list.find? (fun session => session.io = some chan)

/-- The function `find_session_by_addr` of server.c, by which `disconnect_device`
looks a session up: the first session of the list whose peer address is `dst_addr`. -/
def find_session_by_addr (list : List network_session) (dst_addr : Nat) :
    Option network_session :=
  list.find? (fun session => session.dst = dst_addr)

/-- The list of sessions after `session->io = NULL` has been written through the
pointer returned by `find_session`: the entry stays in the list. -/
def clear_session_io : List network_session → Nat → List network_session
  | [], _ => []
  | session :: rest, chan =>
    if session.io = some chan then { session with io := none } :: rest
    else session :: clear_session_io rest chan

/-- The function `bnep_watchdog_cb` of server.c, run for the channel `chan` on the
server `ns`; `connection` tells whether the global bus connection is set. The session
is released by `session_free`, and the list `ns->sessions` is not written: it keeps
the entry of the session that was released. -/
def bnep_watchdog_cb (connection : Bool) (ns : network_server) (chan : Nat) :
    network_server × List effect :=
  match find_session ns.sessions chan with
  | none => (ns, [])
  | some session =>
    if !connection then (ns, [])
    else
      ({ ns with sessions := clear_session_io ns.sessions chan },
        [effect.emit_DeviceDisconnected session.dst, effect.g_io_channel_shutdown chan,
          effect.g_io_channel_unref chan]
        ++ session_free { session with io := none })

/-! ## Definitions that follow the specification's wording -/

/-- An extension header as the specification lays it out: a type byte and the data,
of which the length byte gives the size. -/
structure ext_header where
  type : Nat
  data : List Nat
  deriving DecidableEq, Repr

/-- The bytes of a chain of extension headers, each laid out as type, length, data. -/
def encode_chain : List ext_header → List Nat
  | [] => []
  | h :: rest => h.type :: h.data.length :: (h.data ++ encode_chain rest)

/-- The response the specification gives for one header: a control header whose first
data byte is a filter-set command is answered with status unsupported, any other
header is not answered. -/
def header_reply (h : ext_header) : List (List Nat) :=
  if h.type % 128 = 0 then
    match h.data with
    | 0x03 :: _ => [[0x01, 0x04, 0x00, 0x01]]
    | 0x05 :: _ => [[0x01, 0x06, 0x00, 0x01]]
    | _ => []
  else []

/-- The responses the specification gives for a chain: the headers are visited in
order for as long as the top bit of the type of the header before is set. -/
def chain_reply : List ext_header → List (List Nat)
  | [] => []
  | h :: rest => header_reply h ++ (if 128 ≤ h.type % 256 then chain_reply rest else [])

/-- Whether the bytes of a chain fit their fields: type and data bytes below 256,
less than 256 data bytes. -/
def chain_fits (chain : List ext_header) : Prop :=
  ∀ h ∈ chain, h.type < 256 ∧ h.data.length < 256 ∧ ∀ b ∈ h.data, b < 256

/-- A sample setup request with two-byte roles (gateway 0x1116, client 0x1115) and
the extension bit set, followed by a control header without data and a last header
of type 3 without data. -/
def sample_frame_empty_control : List Nat :=
  [0x81, 0x01, 0x02, 0x11, 0x16, 0x11, 0x15] ++ encode_chain [⟨0x80, []⟩, ⟨0x03, []⟩]

/-- A sample setup request with four-byte roles and the extension bit set, followed
by one control header that carries the net-type filter-set command. -/
def sample_frame_uuid32 : List Nat :=
  [0x81, 0x01, 0x04, 0x00, 0x00, 0x11, 0x16, 0x00, 0x00, 0x11, 0x15]
    ++ encode_chain [⟨0x00, [0x03]⟩]

/-- A sample server with one established session on channel 5. -/
def sample_server_connected : network_server :=
  { sample_server with sessions := [sample_session] }

end NetworkServer

namespace Device

/-! # Device manager (bluez/src/device.c): browse, drivers, bonding

A shallow embedding of the service-discovery browse engine, the driver binding and
the bonding completion of device.c.

Conventions of the embedding.

* A C string is the list of its bytes; `strcmp` and `strcasecmp` give the sign the C
  standard fixes, as a difference of bytes where the strings differ.
* A GLib or SDP list is a `List`; the NULL list is `[]`. A nullable pointer is an
  `Option`.
* List entries that the code compares by address (`g_slist_remove` on strings of
  `device->uuids`, on drivers) are compared by value: the entries of such a list are
  taken to be pairwise different values, as `device_probe_drivers` keeps them.
* Calls that leave the file (storage, D-Bus, agent, adapter, SDP search, timers,
  driver callbacks) are recorded in order in an effect log; their results come from
  an `environment` record. Callbacks are taken not to re-enter the device.
* Memory management (`g_free`, message and connection references) is left out.
-/

/-! ## C strings and their comparison -/

/-- A C string: its bytes, without the terminating NUL. -/
abbrev cstring := List Nat

/-- A string literal as a C string. -/
def cstr (s : String) : cstring := s.toList.map Char.toNat

/-- The libc `tolower` on a byte (C locale). -/
def tolower (c : Nat) : Nat := if 65 ≤ c ∧ c ≤ 90 then c + 32 else c

/-- The libc `strcmp`: negative, zero or positive; a proper initial part of a string
comes first. -/
def strcmp : cstring → cstring → Int
  | [], [] => 0
  | [], _ :: _ => -1
  | _ :: _, [] => 1
  | a :: l, b :: r => if a = b then strcmp l r else (a : Int) - (b : Int)

/-- The libc `strcasecmp`: the comparison of `strcmp` on the lower-cased bytes. -/
def strcasecmp : cstring → cstring → Int
  | [], [] => 0
  | [], _ :: _ => -1
  | _ :: _, [] => 1
  | a :: l, b :: r =>
    if tolower a = tolower b then strcasecmp l r else (tolower a : Int) - (tolower b : Int)

/-- The GLib `g_slist_find_custom`: the first element `e` of the list with
`func e data = 0`. -/
def g_slist_find_custom (list : List cstring) (data : cstring)
    (func : cstring → cstring → Int) : Option cstring :=
  list.find? (fun e => func e data = 0)

/-- The GLib `g_slist_insert_sorted`: `data` goes before the first element `e` with
`func data e ≤ 0`, or to the end. -/
def g_slist_insert_sorted (list : List cstring) (data : cstring)
    (func : cstring → cstring → Int) : List cstring :=
  match list with
  | [] => [data]
  | e :: rest =>
    if func data e > 0 then e :: g_slist_insert_sorted rest data func
    else data :: e :: rest

/-! ## Constants -/

/-- The macro `HSP_HS_UUID` of device.c. -/
def HSP_HS_UUID : cstring := cstr "00001108-0000-1000-8000-00805f9b34fb"
/-- The macro `HSP_AG_UUID` of device.c. -/
def HSP_AG_UUID : cstring := cstr "00001112-0000-1000-8000-00805f9b34fb"
/-- The macro `HFP_HS_UUID` of device.c. -/
def HFP_HS_UUID : cstring := cstr "0000111e-0000-1000-8000-00805f9b34fb"
/-- The macro `HFP_AG_UUID` of device.c. -/
def HFP_AG_UUID : cstring := cstr "0000111f-0000-1000-8000-00805f9b34fb"
/-- The macro `ADVANCED_AUDIO_UUID` of device.c. -/
def ADVANCED_AUDIO_UUID : cstring := cstr "0000110d-0000-1000-8000-00805f9b34fb"
/-- The macro `A2DP_SOURCE_UUID` of device.c. -/
def A2DP_SOURCE_UUID : cstring := cstr "0000110a-0000-1000-8000-00805f9b34fb"
/-- The macro `A2DP_SINK_UUID` of device.c. -/
def A2DP_SINK_UUID : cstring := cstr "0000110b-0000-1000-8000-00805f9b34fb"
/-- The macro `AVRCP_REMOTE_UUID` of device.c. -/
def AVRCP_REMOTE_UUID : cstring := cstr "0000110e-0000-1000-8000-00805f9b34fb"
/-- The macro `AVRCP_TARGET_UUID` of device.c. -/
def AVRCP_TARGET_UUID : cstring := cstr "0000110c-0000-1000-8000-00805f9b34fb"

/-- Modelled from the spec: macro `PNP_UUID` of glib-helper.h (header not under src/),
the service class of the device-identification record. -/
def PNP_UUID : cstring := cstr "00001200-0000-1000-8000-00805f9b34fb"

/-- Modelled from the spec: the string of the attribute-protocol identifier `ATT_UUID`
(0x0007, header not under src/) as `bt_uuid2string` renders it. -/
def ATT_UUID_STR : cstring := cstr "00000007-0000-1000-8000-00805f9b34fb"

/-- Modelled from the spec: constant `L2CAP_UUID` of bluetooth/sdp.h (header not under
src/), the first well-known class queried. -/
def L2CAP_UUID : Nat := 0x0100
/-- Modelled from the spec: constant `PNP_INFO_SVCLASS_ID` of bluetooth/sdp.h (header
not under src/), the second well-known class queried. -/
def PNP_INFO_SVCLASS_ID : Nat := 0x1200
/-- Modelled from the spec: constant `PUBLIC_BROWSE_GROUP` of bluetooth/sdp.h (header
not under src/), the third well-known class queried. -/
def PUBLIC_BROWSE_GROUP : Nat := 0x1002

/-- The table `uuid_list` of device.c. -/
def uuid_list : List Nat := [L2CAP_UUID, PNP_INFO_SVCLASS_ID, PUBLIC_BROWSE_GROUP, 0]

/-- Read of `uuid_list[i]` for an `int` index; `none` outside the array. -/
def uuid_list_at (i : Int) : Option Nat :=
  if 0 ≤ i then uuid_list.get? i.toNat else none

/-- The errno value `EPERM`. -/
def EPERM : Int := 1
/-- The errno value `EIO`. -/
def EIO : Int := 5
/-- The errno value `EBUSY`. -/
def EBUSY : Int := 16
/-- The errno value `EINVAL`. -/
def EINVAL : Int := 22
/-- The errno value `ECONNRESET`. -/
def ECONNRESET : Int := 104
/-- The errno value `ETIMEDOUT`. -/
def ETIMEDOUT : Int := 110
/-- The errno value `EHOSTDOWN`. -/
def EHOSTDOWN : Int := 112
/-- The errno value `EALREADY`. -/
def EALREADY : Int := 114

/-- Modelled from the spec: constant `HCI_AUTHENTICATION_FAILURE` of bluetooth/hci.h
(header not under src/), status 0x05. -/
def HCI_AUTHENTICATION_FAILURE : Nat := 0x05
/-- Modelled from the spec: constant `HCI_PIN_OR_KEY_MISSING` of bluetooth/hci.h
(header not under src/), status 0x06. -/
def HCI_PIN_OR_KEY_MISSING : Nat := 0x06
/-- Modelled from the spec: constant `HCI_PAIRING_NOT_ALLOWED` of bluetooth/hci.h
(header not under src/), status 0x18. -/
def HCI_PAIRING_NOT_ALLOWED : Nat := 0x18

/-! ## Data -/

/-- Modelled from the spec: enum `auth_type_t` of device.h (header not under src/), the
sub-kinds of an authentication request; `other` is a value outside the enum. -/
inductive auth_type_t where
  | AUTH_TYPE_PINCODE
  | AUTH_TYPE_PASSKEY
  | AUTH_TYPE_CONFIRM
  | AUTH_TYPE_NOTIFY
  | AUTH_TYPE_AUTO
  | AUTH_TYPE_OOB
  | AUTH_TYPE_PAIRING_CONSENT
  | other (v : Nat)
  deriving DecidableEq, Repr

/-- Modelled from the spec: enum `device_type_t` of device.h (header not under src/):
classic, low-energy, dual. -/
inductive device_type_t where
  | DEVICE_TYPE_UNKNOWN
  | DEVICE_TYPE_BREDR
  | DEVICE_TYPE_LE
  | DEVICE_TYPE_DUALMODE
  deriving DecidableEq, Repr

/-- A D-Bus method call, as far as the code looks at it. -/
structure DBusMessage where
  sender : String
  interface : String
  member : String
  serial : Nat
  deriving DecidableEq, Repr

/-- An SDP record (`sdp_record_t`), as far as the code looks at it: the handle, the
service-class list as `sdp_get_service_classes` returns it (`none` when it fails) with
each identifier as `bt_uuid2string` renders it (`none` for NULL), the pattern list
rendered likewise, and the four device-identification attributes. -/
structure sdp_record where
  handle : Nat
  svclass : Option (List (Option cstring))
  pattern : List (Option cstring)
  vendor_id_source : Option Nat
  vendor_id : Option Nat
  product_id : Option Nat
  version : Option Nat
  deriving DecidableEq, Repr

/-- A GATT primary service (`struct att_primary`). -/
structure att_primary where
  start : Nat
  finish : Nat
  uuid : cstring
  deriving DecidableEq, Repr

/-- A device driver (`struct btd_device_driver`): its name and declared ids; its
`probe` and `remove` callbacks are calls that leave the file. -/
structure btd_device_driver where
  name : String
  uuids : List cstring
  deriving DecidableEq, Repr

/-- The struct `btd_disconnect_data` of device.c; `watch` and `destroy` are callback
pointers, `none` for NULL. -/
structure btd_disconnect_data where
  id : Nat
  watch : Option Nat
  user_data : Nat
  destroy : Option Nat
  deriving DecidableEq, Repr

/-- The struct `bonding_req` of device.c; `device` tells whether the back pointer is
set. -/
structure bonding_req where
  conn : Nat
  msg : DBusMessage
  io : Option Nat
  listener_id : Nat
  device : Bool
  deriving DecidableEq, Repr

/-- The struct `authentication_req` of device.c; `cb` is the callback pointer. -/
structure authentication_req where
  type : auth_type_t
  cb : Option Nat
  agent : Option Nat
  deriving DecidableEq, Repr

/-- The struct `browse_req` of device.c (the back pointer `device` is left out: a
request is reached through its device); `sdata` tells whether the timeout data is
allocated. -/
structure browse_req where
  conn : Option Nat
  msg : Option DBusMessage
  attrib : Option Nat
  profiles_added : List cstring
  profiles_removed : List cstring
  records : List sdp_record
  search_uuid : Int
  reconnect_attempt : Int
  listener_id : Nat
  sdp_timer_id : Nat
  sdata : Bool
  deriving DecidableEq, Repr

/-- The struct `btd_device` of device.c. -/
structure btd_device where
  bdaddr : Nat
  type : device_type_t
  path : String
  hash : Nat
  uuids : List cstring
  services : List String
  primaries : List att_primary
  drivers : List btd_device_driver
  watches : List btd_disconnect_data
  temporary : Bool
  agent : Option Nat
  disconn_timer : Nat
  discov_timer : Nat
  browse : Option browse_req
  bonding : Option bonding_req
  authr : Option authentication_req
  disconnects : List DBusMessage
  connected : Bool
  tmp_records : List sdp_record
  trusted : Bool
  paired : Bool
  blocked : Bool
  bonded : Bool
  authorizing : Bool
  ref : Int
  tmp_sdp_io : Option Nat
  deriving DecidableEq, Repr

/-- A reply message built by the code. -/
inductive dbus_reply where
  | method_return (msg : DBusMessage)
  | method_return_path (msg : DBusMessage) (path : String)
  | method_return_records (msg : DBusMessage) (handles : List Nat)
  | error (msg : DBusMessage) (name : String) (text : String)
  | error_errno (msg : DBusMessage) (name : String) (errno : Int)
  deriving DecidableEq, Repr

/-- The search callbacks handed to `bt_search_service`. -/
inductive search_callback where
  | search_cb
  | browse_cb
  deriving DecidableEq, Repr

/-- The timers armed by the code. -/
inductive timer_kind where
  | sdp_timeout
  | start_discovery
  | do_disconnect
  deriving DecidableEq, Repr

/-- Calls that leave the file, in the order in which the code makes them. -/
inductive dev_effect where
  | bt_search_service (uuid : Nat) (cb : search_callback)
  | bt_cancel_discovery
  | gatt_discover_primary (attrib : Nat)
  | bt_io_connect_att (secure : Bool)
  | bt_io_connect_sdp
  | g_io_channel_shutdown (chan : Nat)
  | g_io_channel_unref (chan : Nat)
  | g_attrib_unref (attrib : Nat)
  | g_source_remove (id : Nat)
  | g_timeout_add_seconds (kind : timer_kind)
  | g_dbus_add_disconnect_watch (sender : String)
  | g_dbus_remove_watch (id : Nat)
  | g_dbus_unregister_interface (path : String)
  | g_dbus_send_message (reply : dbus_reply)
  | emit_property_changed (name : String) (value : Bool)
  | emit_uuids_changed (uuids : List cstring)
  | emit_services_changed (services : List String)
  | attrib_client_register (psm : Int)
  | store_device_id (source vendor product version : Nat)
  | store_record (handle : Nat)
  | delete_record (handle : Nat)
  | write_device_profiles (uuids : List cstring)
  | write_device_type (type : device_type_t)
  | write_blocked (blocked : Bool)
  | delete_entry (file : String)
  | delete_all_records
  | delete_device_service
  | delete_le_keys
  | textfile_casedel_linkkey
  | btd_adapter_remove_bonding
  | btd_adapter_unblock_address
  | adapter_create_bonding (capability : Nat)
  | adapter_cancel_bonding
  | adapter_suspend_discovery
  | adapter_resume_discovery
  | agent_create (path : String)
  | agent_cancel (agent : Nat)
  | agent_free (agent : Nat)
  | agent_request (type : auth_type_t) (agent : Nat)
  | auth_callback (cb : Nat) (type : auth_type_t)
  | driver_probe (driver : String) (uuids : List cstring)
  | driver_remove (driver : String)
  | agent_reply (cb : Nat)
  | disconnect_watch (id : Nat) (temporary : Bool)
  | destroy_notify (destroy : Nat) (user_data : Nat)
  | g_dbus_emit_signal (name : String)
  deriving DecidableEq, Repr

/-- Results of the calls that leave the file, and global configuration. -/
structure environment where
  /-- Agent of the adapter (`adapter_get_agent`), `none` for NULL. -/
  adapter_agent : Option Nat
  /-- Return value of `bt_search_service`. -/
  bt_search_service : Int
  /-- Result of `attrib_client_find`, `none` for NULL. -/
  attrib_client_find : Option Nat
  /-- Channel returned by `bt_io_connect`, `none` for NULL. -/
  bt_io_connect : Option Nat
  /-- Id returned by `g_dbus_add_disconnect_watch`. -/
  watch_id : Nat
  /-- Id returned by `g_timeout_add_seconds`. -/
  timer_id : Nat
  /-- Whether `textfile_caseget` finds a link key for the peer. -/
  linkkey_stored : Bool
  /-- Return value of `adapter_create_bonding`. -/
  adapter_create_bonding : Int
  /-- Agent returned by `agent_create`, `none` for NULL. -/
  agent_create : Option Nat
  /-- Return value of the agent request made by `device_request_authentication`. -/
  agent_request : Int
  /-- Records returned by `read_records` from storage. -/
  read_records : List sdp_record
  /-- The function `find_record_in_list` of the storage collaborator. -/
  find_record_in_list : List sdp_record → cstring → Option sdp_record
  /-- The function `gatt_parse_record`: the primary service of a record, if any. -/
  gatt_parse_record : sdp_record → Option att_primary
  /-- Service paths returned by `attrib_client_register`. -/
  attrib_client_register : List String
  /-- The global list `device_drivers`. -/
  device_drivers : List btd_device_driver
  /-- Return value of the `probe` callback of a driver. -/
  probe : btd_device_driver → List cstring → Int
  /-- Return value of `btd_adapter_unblock_address`. -/
  unblock_address : Int
  /-- The policy flag `main_opts.reverse_sdp`. -/
  reverse_sdp : Bool
  /-- Whether `adapter_find_device` finds the device of the timeout data. -/
  adapter_find_device : Bool

/-! ## Service records of a browse -/

/-- The function `rec_cmp` of device.c: the difference of the two 32-bit handles,
computed in `uint32_t` and returned as `int`. -/
def rec_cmp (r1 r2 : sdp_record) : Int :=
  let diff : Nat := (r1.handle % 2 ^ 32 + 2 ^ 32 - r2.handle % 2 ^ 32) % 2 ^ 32
  if diff < 2 ^ 31 then (diff : Int) else (diff : Int) - 2 ^ 32

/-- The SDP library function `sdp_list_find`: the first element `e` with
`f e u = 0`. -/
def sdp_list_find (list : List sdp_record) (u : sdp_record)
    (f : sdp_record → sdp_record → Int) : Option sdp_record :=
  list.find? (fun e => f e u = 0)

/-- The `do ... while (profile_uuid)` loop of `update_services` over the service
classes of one record, from the current class on: each class whose string is not NULL
is added to `profiles_added` if the device does not know it (`strcmp`), else taken
out of `profiles_removed`; the loop ends at the end of the list or at the first class
without string. -/
def update_services_classes (uuids : List cstring) :
    List (Option cstring) → List cstring × List cstring → List cstring × List cstring
  | [], acc => acc
  | none :: _, acc => acc
  | some profile_uuid :: rest, (added, removed) =>
    match g_slist_find_custom uuids profile_uuid strcmp with
    | none => update_services_classes uuids rest (added ++ [profile_uuid], removed)
    | some l_data => update_services_classes uuids rest (added, removed.erase l_data)

/-- The device-identification part of `update_services` for a record whose first
class is `profile_uuid`. -/
def update_services_pnp (rec : sdp_record) (profile_uuid : cstring) : List dev_effect :=
  if strcasecmp profile_uuid PNP_UUID = 0 then
    let source := rec.vendor_id_source.getD 0 % 2 ^ 16
    let vendor := rec.vendor_id.getD 0 % 2 ^ 16
    let product := rec.product_id.getD 0 % 2 ^ 16
    let version := rec.version.getD 0 % 2 ^ 16
    if source ≠ 0 ∨ vendor ≠ 0 ∨ product ≠ 0 ∨ version ≠ 0 then
      [dev_effect.store_device_id source vendor product version]
    else []
  else []

/-- The function `update_services` of device.c for the request `req` of a device with
known ids `uuids`: the request afterwards and the calls made. A NULL record ends the
loop. -/
def update_services (uuids : List cstring) :
    browse_req → List (Option sdp_record) → browse_req × List dev_effect
  | req, [] => (req, [])
  | req, none :: _ => (req, [])
  | req, some rec :: seq =>
    match rec.svclass with
    | none => update_services uuids req seq
    | some [] => update_services uuids req seq
    | some (none :: _) => update_services uuids req seq
    | some (some profile_uuid :: svcclass2) =>
      let pnp := update_services_pnp rec profile_uuid
      match sdp_list_find req.records rec rec_cmp with
      | some _ =>
        let r := update_services uuids req seq
        (r.1, pnp ++ r.2)
      | none =>
        let lists := update_services_classes uuids (some profile_uuid :: svcclass2)
          (req.profiles_added, req.profiles_removed)
        let req1 := { req with records := req.records ++ [rec],
                               profiles_added := lists.1,
                               profiles_removed := lists.2 }
        let r := update_services uuids req1 seq
        (r.1, pnp ++ [dev_effect.store_record rec.handle] ++ r.2)

/-- The function `init_browse` of device.c. -/
def init_browse (uuids : List cstring) (req : browse_req) (reverse : Bool) : browse_req :=
  if reverse then req
  else { req with profiles_removed := req.profiles_removed ++ uuids }

/-- A request as `g_new0` leaves it. -/
def browse_req_new0 : browse_req :=
  { conn := none, msg := none, attrib := none, profiles_added := [], profiles_removed := [],
    records := [], search_uuid := 0, reconnect_attempt := 0, listener_id := 0,
    sdp_timer_id := 0, sdata := false }

/-! ## Drivers -/

/-- The function `record_has_uuid` of device.c. -/
def record_has_uuid (rec : sdp_record) (profile_uuid : cstring) : Bool :=
  rec.pattern.any (fun pat =>
    match pat with
    | none => false
    | some uuid => strcasecmp uuid profile_uuid = 0)

/-- The function `is_audio_driver` of device.c. -/
def is_audio_driver (dest_uuid : cstring) : Bool :=
  [HSP_HS_UUID, HFP_HS_UUID, HSP_AG_UUID, HFP_AG_UUID, ADVANCED_AUDIO_UUID,
    A2DP_SOURCE_UUID, A2DP_SINK_UUID, AVRCP_TARGET_UUID, AVRCP_REMOTE_UUID].any
    (fun uuid => strcasecmp uuid dest_uuid = 0)

/-- The function `all_audio_drivers_removed` of device.c: whether the number of
audio-class ids among `device_uuids` equals the number of those found in
`removed_uuids`. -/
def all_audio_drivers_removed (device_uuids removed_uuids : List cstring) : Bool :=
  let audio_device_uuids := device_uuids.filter is_audio_driver
  let len := audio_device_uuids.length
  let removed_audio_uuids := (audio_device_uuids.filter
    (fun uuid => (g_slist_find_custom removed_uuids uuid strcasecmp).isSome)).length
  len = removed_audio_uuids

/-- The function `btd_device_get_record` of device.c: the record found and the cached
record list afterwards. -/
def btd_device_get_record (env : environment) (tmp_records : List sdp_record)
    (uuid : cstring) : Option sdp_record × List sdp_record :=
  let found := if tmp_records ≠ [] then env.find_record_in_list tmp_records uuid else none
  match found with
  | some record => (some record, tmp_records)
  | none =>
    let tmp_records1 := env.read_records
    if tmp_records1 = [] then (none, tmp_records1)
    else (env.find_record_in_list tmp_records1 uuid, tmp_records1)

/-- The function `device_match_pattern` of device.c: the matching profiles and the
cached record list afterwards. -/
def device_match_pattern (env : environment) (match_uuid : cstring) :
    List cstring → List sdp_record → List cstring × List sdp_record
  | [], tmp_records => ([], tmp_records)
  | profile_uuid :: l, tmp_records =>
    let r := btd_device_get_record env tmp_records profile_uuid
    let rest := device_match_pattern env match_uuid l r.2
    match r.1 with
    | none => rest
    | some rec =>
      if record_has_uuid rec match_uuid then (profile_uuid :: rest.1, rest.2) else rest

/-- The loop of `device_match_driver` of device.c over the declared ids of a driver,
with the ids matched so far. -/
def device_match_driver_loop (env : environment) (profiles : List cstring) :
    List cstring → List cstring → List sdp_record → List cstring × List sdp_record
  | [], uuids, tmp_records => (uuids, tmp_records)
  | uuid :: more, uuids, tmp_records =>
    if (g_slist_find_custom uuids uuid strcasecmp).isSome then
      device_match_driver_loop env profiles more uuids tmp_records
    else
      match g_slist_find_custom profiles uuid strcasecmp with
      | some match_data =>
        device_match_driver_loop env profiles more (uuids ++ [match_data]) tmp_records
      | none =>
        let m := device_match_pattern env uuid profiles tmp_records
        device_match_driver_loop env profiles more (uuids ++ m.1) m.2

/-- The function `device_match_driver` of device.c. -/
def device_match_driver (env : environment) (tmp_records : List sdp_record)
    (driver : btd_device_driver) (profiles : List cstring) :
    List cstring × List sdp_record :=
  device_match_driver_loop env profiles driver.uuids [] tmp_records

/-- The driver loop of `device_probe_drivers` of device.c. -/
def probe_drivers_loop (env : environment) (profiles : List cstring) :
    List btd_device_driver → btd_device → btd_device × List dev_effect
  | [], device => (device, [])
  | driver :: list, device =>
    let m := device_match_driver env device.tmp_records driver profiles
    let device1 := { device with tmp_records := m.2 }
    let probe_uuids := m.1
    if probe_uuids = [] then probe_drivers_loop env profiles list device1
    else
      let err := env.probe driver probe_uuids
      let call := dev_effect.driver_probe driver.name probe_uuids
      if err < 0 then
        let r := probe_drivers_loop env profiles list device1
        (r.1, call :: r.2)
      else
        let r := probe_drivers_loop env profiles list
          { device1 with drivers := device1.drivers ++ [driver] }
        (r.1, call :: r.2)

/-- The loop after the label `add_uuids` of `device_probe_drivers`: each profile not
yet known (`strcasecmp`) is inserted in order. -/
def add_uuids : List cstring → List cstring → List cstring
  | uuids, [] => uuids
  | uuids, data :: list =>
    if (g_slist_find_custom uuids data strcasecmp).isSome then add_uuids uuids list
    else add_uuids (g_slist_insert_sorted uuids data strcasecmp) list

/-- The function `device_probe_drivers` of device.c. -/
def device_probe_drivers (env : environment) (device : btd_device)
    (profiles : List cstring) : btd_device × List dev_effect :=
  let r :=
    if device.blocked then (device, [])
    else probe_drivers_loop env profiles env.device_drivers device
  ({ r.1 with uuids := add_uuids r.1.uuids profiles }, r.2)

/-- The test of `device_remove_drivers` on one bound driver: whether it is unbound.
The first declared id found in the removed list decides: the driver is unbound if
that id is not audio-class, or if `all_audio_drivers_removed` holds. -/
def driver_is_removed (device_uuids uuids : List cstring) (driver : btd_device_driver) :
    Bool :=
  match driver.uuids.find? (fun uuid => (g_slist_find_custom uuids uuid strcasecmp).isSome) with
  | none => false
  | some uuid =>
    !is_audio_driver uuid ||
      (is_audio_driver uuid && all_audio_drivers_removed device_uuids uuids)

/-- The driver loop of `device_remove_drivers` of device.c over the nodes of the
driver list as it was on entry; `drivers` is the list as it is by now. -/
def remove_drivers_loop (device_uuids uuids : List cstring) :
    List btd_device_driver → List btd_device_driver →
      List btd_device_driver × List dev_effect
  | [], drivers => (drivers, [])
  | driver :: next, drivers =>
    if driver_is_removed device_uuids uuids driver then
      let r := remove_drivers_loop device_uuids uuids next (drivers.erase driver)
      (r.1, dev_effect.driver_remove driver.name :: r.2)
    else remove_drivers_loop device_uuids uuids next drivers

/-- The loop of `device_remove_drivers` over the removed ids: each is taken out of the
known ids, and its stored record, if one is found, is deleted. -/
def remove_uuids_loop (env : environment) :
    List cstring → List cstring → List sdp_record → List cstring × List dev_effect
  | [], device_uuids, _ => (device_uuids, [])
  | data :: list, device_uuids, records =>
    let device_uuids1 := device_uuids.erase data
    match env.find_record_in_list records data with
    | none => remove_uuids_loop env list device_uuids1 records
    | some rec =>
      let r := remove_uuids_loop env list device_uuids1 (records.erase rec)
      (r.1, dev_effect.delete_record rec.handle :: r.2)

/-- The function `device_remove_drivers` of device.c. -/
def device_remove_drivers (env : environment) (device : btd_device)
    (uuids : List cstring) : btd_device × List dev_effect :=
  let records := env.read_records
  let d := remove_drivers_loop device.uuids uuids device.drivers device.drivers
  let u := remove_uuids_loop env uuids device.uuids records
  ({ device with drivers := d.1, uuids := u.1 }, d.2 ++ u.2)

/-! ## The browse engine -/

/-- The D-Bus interface name `DEVICE_INTERFACE`. -/
def DEVICE_INTERFACE : String := "org.bluez.Device"
/-- The D-Bus interface name `ADAPTER_INTERFACE`. -/
def ADAPTER_INTERFACE : String := "org.bluez.Adapter"
/-- The D-Bus error prefix `ERROR_INTERFACE`. -/
def ERROR_INTERFACE : String := "org.bluez.Error"

/-- Modelled from the spec: constant `ATT_PSM` of attrib/att.h (header not under src/),
the PSM of the attribute protocol. -/
def ATT_PSM : Int := 31

/-- The connection returned by `get_dbus_connection`. -/
def get_dbus_connection : Nat := 0

/-- The D-Bus library function `dbus_message_is_method_call`. -/
def dbus_message_is_method_call (msg : DBusMessage) (interface member : String) : Bool :=
  msg.interface = interface && msg.member = member

/-- The function `btd_device_unref` of device.c. -/
def btd_device_unref (device : btd_device) : btd_device × List dev_effect :=
  let device1 := { device with ref := device.ref - 1 }
  if device1.ref > 0 then (device1, [])
  else (device1, [dev_effect.g_dbus_unregister_interface device1.path])

/-- The function `browse_request_free` of device.c for a request of `device`. -/
def browse_request_free (device : btd_device) (req : browse_req) :
    btd_device × List dev_effect :=
  let u := btd_device_unref device
  (u.1,
    (if req.listener_id ≠ 0 then [dev_effect.g_dbus_remove_watch req.listener_id] else [])
    ++ (if req.sdp_timer_id ≠ 0 then [dev_effect.g_source_remove req.sdp_timer_id] else [])
    ++ u.2
    ++ (match req.attrib with
        | some attrib => [dev_effect.g_attrib_unref attrib]
        | none => []))

/-- The removal of the SDP timer at the start of `search_cb` and `browse_cb`. -/
def remove_sdp_timer (req : browse_req) : browse_req × List dev_effect :=
  if req.sdp_timer_id ≠ 0 then
    ({ req with sdp_timer_id := 0, sdata := false },
      [dev_effect.g_source_remove req.sdp_timer_id])
  else (req, [])

/-- The function `create_device_reply` of device.c. -/
def create_device_reply (device : btd_device) (req : browse_req) : List dev_effect :=
  match req.msg with
  | none => []
  | some msg => [dev_effect.g_dbus_send_message (dbus_reply.method_return_path msg device.path)]

/-- The function `discover_services_reply` of device.c (the XML rendering of the
records is left to the reply: it carries their handles). -/
def discover_services_reply (req : browse_req) (err : Int) (recs : List sdp_record) :
    List dev_effect :=
  match req.msg with
  | none => []
  | some msg =>
    if err ≠ 0 then
      let err_if :=
        if err = -EHOSTDOWN then ERROR_INTERFACE ++ ".ConnectionAttemptFailed"
        else ERROR_INTERFACE ++ ".Failed"
      [dev_effect.g_dbus_send_message (dbus_reply.error_errno msg err_if (-err))]
    else
      [dev_effect.g_dbus_send_message
        (dbus_reply.method_return_records msg (recs.map (fun rec => rec.handle)))]

/-- The function `store_profiles` of device.c. -/
def store_profiles (device : btd_device) : List dev_effect :=
  [dev_effect.write_device_profiles device.uuids]

/-- The function `device_services_from_record` of device.c: the primary services
found and the cached record list afterwards. -/
def device_services_from_record (env : environment) :
    List cstring → List sdp_record → List att_primary × List sdp_record
  | [], tmp_records => ([], tmp_records)
  | profile_uuid :: l, tmp_records =>
    let r := btd_device_get_record env tmp_records profile_uuid
    let rest := device_services_from_record env l r.2
    match r.1 with
    | none => rest
    | some rec =>
      if record_has_uuid rec ATT_UUID_STR then
        match env.gatt_parse_record rec with
        | none => rest
        | some prim => (prim :: rest.1, rest.2)
      else rest

/-- The function `device_register_services` of device.c. -/
def device_register_services (env : environment) (device : btd_device)
    (prim_list : List att_primary) (psm : Int) : btd_device × List dev_effect :=
  if device.services = [] then
    let device1 := { device with services := env.attrib_client_register,
                                 primaries := device.primaries ++ prim_list }
    (device1, [dev_effect.attrib_client_register psm,
               dev_effect.emit_services_changed device1.services])
  else (device, [])

/-- The part of `search_cb` from `update_services` to `services_changed`, for a
response without error: device and request afterwards, and the calls made. -/
def search_cb_update (env : environment) (device : btd_device) (req : browse_req)
    (recs : List (Option sdp_record)) : btd_device × browse_req × List dev_effect :=
  let u := update_services device.uuids req recs
  let device1 := { device with tmp_records := u.1.records }
  let req1 := { u.1 with records := [] }
  if req1.profiles_added = [] ∧ req1.profiles_removed = [] then (device1, req1, u.2)
  else
    let p : btd_device × List dev_effect :=
      if req1.profiles_added ≠ [] then
        let pr := device_probe_drivers env device1 req1.profiles_added
        let sv := device_services_from_record env req1.profiles_added pr.1.tmp_records
        let device2 := { pr.1 with tmp_records := sv.2 }
        if sv.1 ≠ [] then
          let rg := device_register_services env device2 sv.1 ATT_PSM
          (rg.1, pr.2 ++ rg.2)
        else (device2, pr.2)
      else (device1, [])
    let r : btd_device × List dev_effect :=
      if req1.profiles_removed ≠ [] then device_remove_drivers env p.1 req1.profiles_removed
      else (p.1, [])
    (r.1, req1, u.2 ++ p.2 ++ r.2 ++ [dev_effect.emit_uuids_changed r.1.uuids])

/-- The part of `search_cb` after the label `send_reply`, up to the label `cleanup`. -/
def search_cb_reply (device : btd_device) (req : browse_req) (err : Int) :
    btd_device × List dev_effect :=
  match req.msg with
  | none => (device, [])
  | some msg =>
    if dbus_message_is_method_call msg DEVICE_INTERFACE "DiscoverServices" then
      (device, discover_services_reply req err device.tmp_records)
    else if dbus_message_is_method_call msg ADAPTER_INTERFACE "CreatePairedDevice" then
      (device, create_device_reply device req)
    else if dbus_message_is_method_call msg ADAPTER_INTERFACE
        "CreatePairedDeviceOutOfBand" then
      (device, create_device_reply device req)
    else if dbus_message_is_method_call msg ADAPTER_INTERFACE "CreateDevice" then
      if err < 0 then
        (device, [dev_effect.g_dbus_send_message
          (dbus_reply.error_errno msg (ERROR_INTERFACE ++ ".Failed") (-err))])
      else
        ({ device with temporary := false }, create_device_reply device req)
    else (device, [])

/-- The part of `search_cb` after the label `cleanup`. -/
def search_cb_cleanup (device : btd_device) (req : browse_req) :
    btd_device × List dev_effect :=
  let st : List dev_effect :=
    if ¬ device.temporary then
      store_profiles device ++ [dev_effect.write_device_type device.type]
    else []
  let f := browse_request_free { device with browse := none } req
  (f.1, st ++ f.2)

/-- The function `search_cb` of device.c, called for the active request of `device`
with the records `recs` and the status `err`. The result is `none` when the device
has no active request (the callback would be handed a dangling request). -/
def search_cb (env : environment) (device : btd_device) (recs : List (Option sdp_record))
    (err : Int) : Option (btd_device × List dev_effect) :=
  match device.browse with
  | none => none
  | some req0 =>
    let t := remove_sdp_timer req0
    let up : btd_device × browse_req × List dev_effect :=
      if err < 0 then (device, t.1, [])
      else search_cb_update env device t.1 recs
    let rp := search_cb_reply up.1 up.2.1 err
    let cl := search_cb_cleanup rp.1 up.2.1
    some (cl.1, t.2 ++ up.2.2 ++ rp.2 ++ cl.2)

/-- The function `browse_cb` of device.c, called for the active request of `device`
with the records `recs` and the status `err`. The result is `none` when the device has
no active request, or when `uuid_list` is read outside its bounds. -/
def browse_cb (env : environment) (device : btd_device) (recs : List (Option sdp_record))
    (err : Int) : Option (btd_device × List dev_effect) :=
  match device.browse with
  | none => none
  | some req0 =>
    let t := remove_sdp_timer req0
    let req := t.1
    let done : Option (btd_device × List dev_effect) :=
      match search_cb env { device with browse := some req } recs err with
      | none => none
      | some r => some (r.1, t.2 ++ r.2)
    let go (req : browse_req) : Option (btd_device × List dev_effect) :=
      let u := update_services device.uuids req recs
      match uuid_list_at u.1.search_uuid with
      | none => none
      | some uuid =>
        if uuid ≠ 0 then
          some ({ device with browse := some { u.1 with search_uuid := u.1.search_uuid + 1 } },
            t.2 ++ u.2 ++ [dev_effect.bt_search_service uuid search_callback.browse_cb])
        else
          match search_cb env { device with browse := some u.1 } recs err with
          | none => none
          | some r => some (r.1, t.2 ++ u.2 ++ r.2)
    if err < 0 ∨ (req.search_uuid = 2 ∧ req.records ≠ []) then
      if err = -ECONNRESET ∧ req.reconnect_attempt < 1 then
        go { req with search_uuid := req.search_uuid - 1,
                      reconnect_attempt := req.reconnect_attempt + 1 }
      else done
    else go req

/-- The function `sdp_timeout` of device.c for the timeout data of the active request
of `device`. The final store to `req->sdata`, after `browse_cb` has released the
request, is left out. -/
def sdp_timeout (env : environment) (device : btd_device) :
    Option (btd_device × List dev_effect) :=
  match device.browse with
  | none => some (device, [])
  | some req =>
    let device1 := { device with browse := some { req with sdp_timer_id := 0 } }
    if ¬ env.adapter_find_device then some (device1, [])
    else
      match browse_cb env device1 [] (-ETIMEDOUT) with
      | none => none
      | some r => some (r.1, dev_effect.bt_cancel_discovery :: r.2)

/-- The function `device_browse_sdp` of device.c: return value, device afterwards and
the calls made. `search` is the class to search for, `none` for NULL. -/
def device_browse_sdp (env : environment) (device : btd_device) (conn : Option Nat)
    (msg : Option DBusMessage) (search : Option Nat) (reverse : Bool) :
    Int × btd_device × List dev_effect :=
  if device.browse.isSome then (-EBUSY, device, [])
  else
    let device1 := { device with ref := device.ref + 1 }
    let start : Nat × browse_req × search_callback :=
      match search with
      | some uuid => (uuid, browse_req_new0, search_callback.search_cb)
      | none =>
        ((uuid_list_at browse_req_new0.search_uuid).getD 0,
          init_browse device1.uuids
            { browse_req_new0 with search_uuid := browse_req_new0.search_uuid + 1 } reverse,
          search_callback.browse_cb)
    let req := start.2.1
    let call := dev_effect.bt_search_service start.1 start.2.2
    let err := env.bt_search_service
    if err < 0 then
      let f := browse_request_free device1 req
      (err, f.1, call :: f.2)
    else
      let conn1 := conn.getD get_dbus_connection
      let req1 := { req with conn := some conn1 }
      let w : browse_req × List dev_effect :=
        match msg with
        | some m =>
          ({ req1 with msg := some m, listener_id := env.watch_id },
            [dev_effect.g_dbus_add_disconnect_watch m.sender])
        | none => (req1, [])
      let req2 := { w.1 with sdata := true, sdp_timer_id := env.timer_id }
      (err, { device1 with browse := some req2 },
        call :: w.2 ++ [dev_effect.g_timeout_add_seconds timer_kind.sdp_timeout])

/-- The function `device_browse_primary` of device.c: return value, device afterwards
and the calls made. -/
def device_browse_primary (env : environment) (device : btd_device) (conn : Option Nat)
    (msg : Option DBusMessage) (secure : Bool) : Int × btd_device × List dev_effect :=
  if device.browse.isSome then (-EBUSY, device, [])
  else
    let device1 := { device with ref := device.ref + 1 }
    let req := browse_req_new0
    match env.attrib_client_find with
    | some attrib =>
      (0, { device1 with browse := some req }, [dev_effect.gatt_discover_primary attrib])
    | none =>
      let call := dev_effect.bt_io_connect_att secure
      match env.bt_io_connect with
      | none =>
        let f := browse_request_free device1 req
        (- EIO, f.1, call :: f.2)
      | some _ =>
        let conn1 := conn.getD get_dbus_connection
        let req1 := { req with conn := some conn1 }
        match msg with
        | some m =>
          (0, { device1 with browse := some { req1 with msg := some m,
                                                         listener_id := env.watch_id } },
            [call, dev_effect.g_dbus_add_disconnect_watch m.sender])
        | none => (0, { device1 with browse := some req1 }, [call])

/-! ## Authentication and bonding -/

/-- The function `device_get_agent` of device.c. -/
def device_get_agent (env : environment) (device : btd_device) : Option Nat :=
  match device.agent with
  | some agent => some agent
  | none => env.adapter_agent

/-- The function `close_sdp_channel` of device.c. -/
def close_sdp_channel (device : btd_device) : btd_device × List dev_effect :=
  match device.tmp_sdp_io with
  | none => (device, [])
  | some chan =>
    ({ device with tmp_sdp_io := none },
      [dev_effect.g_io_channel_shutdown chan, dev_effect.g_io_channel_unref chan])

/-- The function `open_sdp_channel` of device.c. -/
def open_sdp_channel (env : environment) (device : btd_device) :
    btd_device × List dev_effect :=
  ({ device with tmp_sdp_io := env.bt_io_connect }, [dev_effect.bt_io_connect_sdp])

/-- The function `isSdpRequired` of device.c: whether the address, printed most
significant byte first, starts with 00:1A:1B. -/
def isSdpRequired (dest : Nat) : Bool := dest / 2 ^ 24 % 2 ^ 24 = 0x001A1B

/-- The function `device_auth_req_free` of device.c. -/
def device_auth_req_free (device : btd_device) : btd_device :=
  { device with authr := none }

/-- The function `device_set_paired` of device.c. -/
def device_set_paired (device : btd_device) (value : Bool) : btd_device × List dev_effect :=
  if device.paired = value then (device, [])
  else ({ device with paired := value }, [dev_effect.emit_property_changed "Paired" value])

/-- The function `device_request_authentication` of device.c: return value, device
afterwards and the calls made. -/
def device_request_authentication (env : environment) (device : btd_device)
    (type : auth_type_t) (_passkey : Nat) (cb : Option Nat) :
    Int × btd_device × List dev_effect :=
  if device.authr.isSome then (-EALREADY, device, [])
  else
    match device_get_agent env device with
    | none => (-EPERM, device, [])
    | some agent =>
      let auth : authentication_req := { type := type, cb := cb, agent := some agent }
      let device1 := { device with authr := some auth }
      let request := dev_effect.agent_request type agent
      let r : Int × btd_device × List dev_effect :=
        match type with
        | auth_type_t.AUTH_TYPE_PINCODE =>
          if isSdpRequired device1.bdaddr then
            let c := close_sdp_channel device1
            let o := open_sdp_channel env c.1
            (env.agent_request, o.1, c.2 ++ o.2 ++ [request])
          else (env.agent_request, device1, [request])
        | auth_type_t.AUTH_TYPE_PASSKEY => (env.agent_request, device1, [request])
        | auth_type_t.AUTH_TYPE_CONFIRM => (env.agent_request, device1, [request])
        | auth_type_t.AUTH_TYPE_NOTIFY => (env.agent_request, device1, [request])
        | auth_type_t.AUTH_TYPE_AUTO => (0, device1, [])
        | auth_type_t.AUTH_TYPE_OOB => (env.agent_request, device1, [request])
        | auth_type_t.AUTH_TYPE_PAIRING_CONSENT => (env.agent_request, device1, [request])
        | auth_type_t.other _ => (-EINVAL, device1, [])
      if r.1 < 0 then (r.1, device_auth_req_free r.2.1, r.2.2)
      else r

/-- The function `cancel_authentication` of device.c for the request `auth` of
`device`: device and request afterwards, and the calls made. The callback is called
with the error `org.bluez.Error.Canceled`. -/
def cancel_authentication (device : btd_device) (auth : authentication_req) :
    btd_device × authentication_req × List dev_effect :=
  match auth.cb with
  | none => (device, auth, [])
  | some cb =>
    let call := dev_effect.auth_callback cb auth.type
    let r : btd_device × List dev_effect :=
      match auth.type with
      | auth_type_t.AUTH_TYPE_PINCODE =>
        let c := close_sdp_channel device
        (c.1, c.2 ++ [call])
      | auth_type_t.AUTH_TYPE_CONFIRM => (device, [call])
      | auth_type_t.AUTH_TYPE_PASSKEY => (device, [call])
      | auth_type_t.AUTH_TYPE_OOB => (device, [call])
      | auth_type_t.AUTH_TYPE_PAIRING_CONSENT => (device, [call])
      | auth_type_t.AUTH_TYPE_NOTIFY => (device, [])
      | auth_type_t.AUTH_TYPE_AUTO => (device, [])
      | auth_type_t.other _ => (device, [])
    (r.1, { auth with cb := none }, r.2)

/-- The function `device_cancel_authentication` of device.c. -/
def device_cancel_authentication (device : btd_device) (aborted : Bool) :
    btd_device × List dev_effect :=
  match device.authr with
  | none => (device, [])
  | some auth =>
    let a : List dev_effect :=
      match auth.agent with
      | some agent => [dev_effect.agent_cancel agent]
      | none => []
    let c : btd_device × List dev_effect :=
      if ¬ aborted then
        let r := cancel_authentication device auth
        ({ r.1 with authr := some r.2.1 }, r.2.2)
      else (device, [])
    let s := close_sdp_channel c.1
    (device_auth_req_free s.1, a ++ c.2 ++ s.2)

/-- The function `new_authentication_return` of device.c. -/
def new_authentication_return (msg : DBusMessage) (status : Nat) : dbus_reply :=
  if status = 0x00 then dbus_reply.method_return msg
  else if status = 0x04 then
    dbus_reply.error msg (ERROR_INTERFACE ++ ".ConnectionAttemptFailed") "Page Timeout"
  else if status = 0x08 then
    dbus_reply.error msg (ERROR_INTERFACE ++ ".ConnectionAttemptFailed") "Connection Timeout"
  else if status = 0x10 ∨ status = 0x22 ∨ status = 0x28 then
    dbus_reply.error msg (ERROR_INTERFACE ++ ".AuthenticationTimeout") "Authentication Timeout"
  else if status = 0x17 then
    dbus_reply.error msg (ERROR_INTERFACE ++ ".RepeatedAttempts") "Repeated Attempts"
  else if status = 0x06 ∨ status = 0x18 then
    dbus_reply.error msg (ERROR_INTERFACE ++ ".AuthenticationRejected")
      "Authentication Rejected"
  else if status = 0x07 ∨ status = 0x09 ∨ status = 0x0a ∨ status = 0x0d ∨ status = 0x13
      ∨ status = 0x14 ∨ status = 0x16 then
    dbus_reply.error msg (ERROR_INTERFACE ++ ".AuthenticationCanceled")
      "Authentication Canceled"
  else
    dbus_reply.error msg (ERROR_INTERFACE ++ ".AuthenticationFailed") "Authentication Failed"

/-- The function `bonding_request_free` of device.c for a request of `device`. -/
def bonding_request_free (device : btd_device) (bonding : Option bonding_req) :
    btd_device × List dev_effect :=
  match bonding with
  | none => (device, [])
  | some b =>
    let pre : List dev_effect :=
      (if b.listener_id ≠ 0 then [dev_effect.g_dbus_remove_watch b.listener_id] else [])
      ++ (match b.io with
          | some chan => [dev_effect.g_io_channel_unref chan]
          | none => [])
    if ¬ b.device then (device, pre)
    else
      let device1 := { device with bonding := none }
      match device1.agent with
      | none => (device1, pre ++ [dev_effect.adapter_resume_discovery])
      | some agent =>
        ({ device1 with agent := none },
          pre ++ [dev_effect.adapter_resume_discovery, dev_effect.agent_cancel agent,
                  dev_effect.agent_free agent])

/-- The function `device_cancel_bonding` of device.c. -/
def device_cancel_bonding (device : btd_device) (status : Nat) :
    btd_device × List dev_effect :=
  match device.bonding with
  | none => (device, [])
  | some bonding =>
    let a : btd_device × List dev_effect :=
      if device.authr.isSome then device_cancel_authentication device false
      else (device, [])
    let reply := new_authentication_return bonding.msg status
    let f := bonding_request_free a.1 (some bonding)
    (f.1, a.2 ++ [dev_effect.g_dbus_send_message reply, dev_effect.adapter_cancel_bonding]
      ++ f.2)

/-- The function `device_remove_bonding` of device.c. -/
def device_remove_bonding (device : btd_device) : btd_device × List dev_effect :=
  if device.type = device_type_t.DEVICE_TYPE_LE then
    (device, [dev_effect.delete_le_keys, dev_effect.btd_adapter_remove_bonding])
  else
    ({ device with bonded := false },
      [dev_effect.textfile_casedel_linkkey, dev_effect.btd_adapter_remove_bonding])

/-- The function `device_unblock` of device.c: return value, device afterwards and the
calls made. -/
def device_unblock (env : environment) (device : btd_device) (silent : Bool) :
    Int × btd_device × List dev_effect :=
  if ¬ device.blocked then (0, device, [])
  else
    let err := env.unblock_address
    if err < 0 then (err, device, [dev_effect.btd_adapter_unblock_address])
    else
      let device1 := { device with blocked := false }
      let pre := [dev_effect.btd_adapter_unblock_address, dev_effect.write_blocked false]
      if ¬ silent then
        let p := device_probe_drivers env device1 device1.uuids
        (0, p.1, pre ++ [dev_effect.emit_property_changed "Blocked" false] ++ p.2)
      else (0, device1, pre)

/-- The function `device_remove_stored` of device.c. -/
def device_remove_stored (env : environment) (device : btd_device) :
    btd_device × List dev_effect :=
  let p : btd_device × List dev_effect :=
    if device.paired then
      let b := device_remove_bonding device
      let s := device_set_paired b.1 false
      (s.1, b.2 ++ s.2)
    else (device, [])
  let del : List dev_effect :=
    [dev_effect.delete_entry "profiles", dev_effect.delete_entry "trusts",
     dev_effect.delete_entry "types", dev_effect.delete_entry "primary",
     dev_effect.delete_entry "lekeys", dev_effect.delete_all_records,
     dev_effect.delete_device_service]
  if p.1.blocked then
    let u := device_unblock env p.1 true
    (u.2.1, p.2 ++ del ++ u.2.2)
  else (p.1, p.2 ++ del)

/-- The function `device_bonding_complete` of device.c. -/
def device_bonding_complete (env : environment) (device : btd_device) (status : Nat) :
    btd_device × List dev_effect :=
  let bonding := device.bonding
  let notify : List dev_effect :=
    match device.authr with
    | some auth =>
      if auth.type = auth_type_t.AUTH_TYPE_NOTIFY then
        match auth.agent with
        | some agent => [dev_effect.agent_cancel agent]
        | none => []
      else []
    | none => []
  if status ≠ 0 then
    let e : btd_device × List dev_effect :=
      if status = HCI_PIN_OR_KEY_MISSING ∨ status = HCI_PAIRING_NOT_ALLOWED ∨
          status = HCI_AUTHENTICATION_FAILURE then
        let r := device_remove_stored env device
        ({ r.1 with tmp_records := [] }, r.2)
      else (device, [])
    let a := device_cancel_authentication e.1 true
    let b := device_cancel_bonding a.1 status
    let c := close_sdp_channel b.1
    (c.1, notify ++ e.2 ++ a.2 ++ b.2 ++ c.2)
  else
    let device1 := device_auth_req_free device
    let p : btd_device × List dev_effect :=
      if ¬ device1.paired then device_set_paired device1 true else (device1, [])
    let device2 :=
      if p.1.tmp_records = [] then { p.1 with tmp_records := env.read_records } else p.1
    if device2.tmp_records ≠ [] then (device2, notify ++ p.2)
    else
      match bonding with
      | some b =>
        let t : btd_device × List dev_effect :=
          if device2.discov_timer ≠ 0 then
            ({ device2 with discov_timer := 0 },
              [dev_effect.g_source_remove device2.discov_timer])
          else (device2, [])
        let br : Int × btd_device × List dev_effect :=
          if t.1.type = device_type_t.DEVICE_TYPE_LE then
            device_browse_primary env t.1 (some b.conn) (some b.msg) false
          else device_browse_sdp env t.1 (some b.conn) (some b.msg) none false
        let f := bonding_request_free br.2.1 (some b)
        (f.1, notify ++ p.2 ++ t.2 ++ br.2.2 ++ f.2)
      | none =>
        if device2.browse.isNone ∧ device2.discov_timer = 0 ∧ env.reverse_sdp then
          ({ device2 with discov_timer := env.timer_id },
            notify ++ p.2 ++ [dev_effect.g_timeout_add_seconds timer_kind.start_discovery])
        else (device2, notify ++ p.2)

/-- The function `bonding_request_new` of device.c: the request, `none` for NULL, the
device afterwards and the calls made. -/
def bonding_request_new (env : environment) (conn : Nat) (msg : DBusMessage)
    (device : btd_device) (agent_path : Option String) :
    Option bonding_req × btd_device × List dev_effect :=
  let bonding : bonding_req :=
    { conn := conn, msg := msg, io := none, listener_id := 0, device := false }
  match agent_path with
  | none => (some bonding, device, [dev_effect.adapter_suspend_discovery])
  | some path =>
    match env.agent_create with
    | none => (none, device, [dev_effect.agent_create path])
    | some agent =>
      (some bonding, { device with agent := some agent },
        [dev_effect.agent_create path, dev_effect.adapter_suspend_discovery])

/-- The function `device_create_bonding` of device.c: the reply returned (`none` for
NULL), the device afterwards and the calls made. -/
def device_create_bonding (env : environment) (device : btd_device) (conn : Nat)
    (msg : DBusMessage) (agent_path : Option String) (capability : Nat) :
    Option dbus_reply × btd_device × List dev_effect :=
  if device.bonding.isSome then
    (some (dbus_reply.error msg (ERROR_INTERFACE ++ ".InProgress") "In Progress"), device, [])
  else if device.type ≠ device_type_t.DEVICE_TYPE_LE ∧ env.linkkey_stored then
    (some (dbus_reply.error msg (ERROR_INTERFACE ++ ".AlreadyExists") "Already Exists"),
      device, [])
  else
    let create := dev_effect.adapter_create_bonding capability
    let err := env.adapter_create_bonding
    if err < 0 then
      (some (dbus_reply.error_errno msg (ERROR_INTERFACE ++ ".Failed") (-err)), device, [create])
    else
      let n := bonding_request_new env conn msg device agent_path
      match n.1 with
      | none => (none, n.2.1, create :: n.2.2 ++ [dev_effect.adapter_cancel_bonding])
      | some bonding =>
        (none,
          { n.2.1 with bonding := some { bonding with listener_id := env.watch_id,
                                                       device := true } },
          create :: n.2.2 ++ [dev_effect.g_dbus_add_disconnect_watch msg.sender])

/-! ## Definitions that follow the specification's wording -/

/-- The request after a sequence of responses, each merged by `update_services`. -/
def update_services_seq (uuids : List cstring) (req : browse_req)
    (responses : List (List (Option sdp_record))) : browse_req :=
  responses.foldl (fun r recs => (update_services uuids r recs).1) req

/-- The handles of the records accumulated by a request. -/
def record_handles (req : browse_req) : List Nat := req.records.map (fun r => r.handle)

/-- Whether an effect is the issue of a search query. -/
def is_search : dev_effect → Bool
  | dev_effect.bt_search_service _ _ => true
  | _ => false

/-- The search queries issued in a log, in order. -/
def searches (log : List dev_effect) : List dev_effect := log.filter is_search

/-- An event delivered to an active browse: the response to the query in flight, or
the expiry of the timer armed by `device_browse_sdp`. -/
inductive browse_event where
  | response (env : environment) (recs : List (Option sdp_record)) (err : Int)
  | timeout (env : environment)

/-- The handler run for an event: `browse_cb` for a response, `sdp_timeout` for the
expiry of the timer. -/
def browse_step (device : btd_device) : browse_event → Option (btd_device × List dev_effect)
  | browse_event.response env recs err => browse_cb env device recs err
  | browse_event.timeout env => sdp_timeout env device

/-- A run of a browse: the events are delivered one after the other for as long as the
device has an active request. The result is `none` when a handler has none. -/
def browse_run : btd_device → List browse_event → Option (btd_device × List dev_effect)
  | device, [] => some (device, [])
  | device, ev :: rest =>
    if device.browse.isNone then some (device, [])
    else
      match browse_step device ev with
      | none => none
      | some r =>
        match browse_run r.1 rest with
        | none => none
        | some r2 => some (r2.1, r.2 ++ r2.2)

/-- The bounds kept by a browse started by `device_browse_sdp`: an active request has
its index in 1..3 and its reconnect counter in 0..1. -/
def browse_bounds (device : btd_device) : Prop :=
  ∀ req, device.browse = some req →
    (1 ≤ req.search_uuid ∧ req.search_uuid ≤ 3)
    ∧ (0 ≤ req.reconnect_attempt ∧ req.reconnect_attempt ≤ 1)

/-- Whether an effect erases something persisted for the device: a stored entry, the
stored records, the stored keys, or the bonding kept by the adapter. -/
def is_erasure : dev_effect → Bool
  | dev_effect.delete_entry _ => true
  | dev_effect.delete_all_records => true
  | dev_effect.delete_device_service => true
  | dev_effect.delete_record _ => true
  | dev_effect.delete_le_keys => true
  | dev_effect.textfile_casedel_linkkey => true
  | dev_effect.btd_adapter_remove_bonding => true
  | _ => false

/-- The erasures made in a log, in order. -/
def erasures (log : List dev_effect) : List dev_effect := log.filter is_erasure

/-- Whether an effect is a D-Bus message sent. -/
def is_reply : dev_effect → Bool
  | dev_effect.g_dbus_send_message _ => true
  | _ => false

/-- The D-Bus messages sent in a log, in order. -/
def replies (log : List dev_effect) : List dev_effect := log.filter is_reply

/-- Whether an effect is the cancellation of an agent call. -/
def is_agent_cancel : dev_effect → Bool
  | dev_effect.agent_cancel _ => true
  | _ => false

/-- The cancellations of agent calls in a log, in order. -/
def agent_cancels (log : List dev_effect) : List dev_effect := log.filter is_agent_cancel

/-- Whether an id is in the removed list, as `device_remove_drivers` tests it. -/
def is_removed (uuids : List cstring) (uuid : cstring) : Bool :=
  (g_slist_find_custom uuids uuid strcasecmp).isSome

/-- The known ids in order of `strcasecmp`. -/
def uuids_sorted (uuids : List cstring) : Prop :=
  uuids.Pairwise (fun a b => strcasecmp a b ≤ 0)

/-- No two of the known ids are equal up to case. -/
def uuids_distinct (uuids : List cstring) : Prop :=
  uuids.Pairwise (fun a b => strcasecmp a b ≠ 0)

/-! ## Sample values -/

/-- A sample record with handle `handle` and the single service class `uuid`. -/
def sample_record (handle : Nat) (uuid : cstring) : sdp_record :=
  { handle := handle, svclass := some [some uuid], pattern := [some uuid],
    vendor_id_source := none, vendor_id := none, product_id := none, version := none }

/-- A sample method call DiscoverServices. -/
def sample_msg : DBusMessage :=
  { sender := ":1.7", interface := "org.bluez.Device", member := "DiscoverServices",
    serial := 1 }

/-- A sample request: the browse just started by `device_browse_sdp`, first query
issued. -/
def sample_req : browse_req :=
  { browse_req_new0 with conn := some 0, search_uuid := 1, sdp_timer_id := 9, sdata := true }

/-- A sample device: classic, not paired, nothing in progress, no ids, no drivers. -/
def sample_device : btd_device :=
  { bdaddr := 0xAABBCCDDEEFF, type := device_type_t.DEVICE_TYPE_BREDR,
    path := "/org/bluez/hci0/dev_AA_BB_CC_DD_EE_FF", hash := 0, uuids := [], services := [],
    primaries := [], drivers := [], watches := [], temporary := false, agent := none,
    disconn_timer := 0, discov_timer := 0, browse := none, bonding := none, authr := none,
    disconnects := [], connected := true, tmp_records := [], trusted := false,
    paired := false, blocked := false, bonded := false, authorizing := false, ref := 1,
    tmp_sdp_io := none }

/-- A sample environment: every call succeeds, storage is empty, no driver is
registered, the adapter has agent 3. -/
def sample_env : environment :=
  { adapter_agent := some 3, bt_search_service := 0, attrib_client_find := none,
    bt_io_connect := some 8, watch_id := 5, timer_id := 9, linkkey_stored := false,
    adapter_create_bonding := 0, agent_create := some 4, agent_request := 0,
    read_records := [], find_record_in_list := fun _ _ => none,
    gatt_parse_record := fun _ => none, attrib_client_register := [],
    device_drivers := [], probe := fun _ _ => 0, unblock_address := 0,
    reverse_sdp := true, adapter_find_device := true }

/-- The serial port class id, not an audio-class id. -/
def SPP_UUID : cstring := cstr "00001101-0000-1000-8000-00805f9b34fb"

/-- A sample driver declaring a serial port id first and the headset id second. -/
def sample_driver : btd_device_driver :=
  { name := "headset", uuids := [SPP_UUID, HSP_HS_UUID] }

/-- A sample device bound to `sample_driver`, with both its ids known. -/
def sample_bound : btd_device :=
  { sample_device with uuids := [SPP_UUID, HSP_HS_UUID], drivers := [sample_driver] }

/-- A sample device with the browse `sample_req` active. -/
def sample_browsing : btd_device := { sample_device with browse := some sample_req }

/-- A sample bonding request of the caller of `sample_msg`. -/
def sample_bonding : bonding_req :=
  { conn := 0, msg := sample_msg, io := none, listener_id := 6, device := true }

/-- A sample authentication request: a PIN code request pending at agent 3. -/
def sample_auth : authentication_req :=
  { type := auth_type_t.AUTH_TYPE_PINCODE, cb := some 1, agent := some 3 }

/-- A sample device with a request of each kind active. -/
def sample_busy : btd_device :=
  { sample_device with browse := some sample_req, bonding := some sample_bonding,
                       authr := some sample_auth }

/-! ## Disconnection -/

/-- The errno value `ECANCELED`. -/
def ECANCELED : Int := 125

/-- The function `device_is_creating` of device.c for a NULL sender. -/
def device_is_creating (device : btd_device) : Bool :=
  let msg : Option DBusMessage :=
    match device.bonding with
    | some bonding => some bonding.msg
    | none =>
      match device.browse with
      | some browse => browse.msg
      | none => none
  match msg with
  | none => false
  | some m =>
    dbus_message_is_method_call m ADAPTER_INTERFACE "CreatePairedDevice"
      || dbus_message_is_method_call m ADAPTER_INTERFACE "CreateDevice"

/-- The function `bonding_request_cancel` of device.c: the call it makes. -/
def bonding_request_cancel : List dev_effect := [dev_effect.adapter_cancel_bonding]

/-- The function `browse_request_cancel` of device.c for the active request `req` of
`device`. -/
def browse_request_cancel (device : btd_device) (req : browse_req) :
    btd_device × List dev_effect :=
  let device1 := if device_is_creating device then { device with temporary := true } else device
  let f := browse_request_free { device1 with browse := none } req
  (f.1, dev_effect.bt_cancel_discovery :: f.2)

/-- The function `device_remove_disconnect_watch` of device.c on the watch list: the
first watch with the id is taken out and its destroy hook, if set, is called. -/
def device_remove_disconnect_watch :
    List btd_disconnect_data → Nat → List btd_disconnect_data × List dev_effect
  | [], _ => ([], [])
  | data :: l, id =>
    if data.id = id then
      (l, match data.destroy with
          | some destroy => [dev_effect.destroy_notify destroy data.user_data]
          | none => [])
    else
      let r := device_remove_disconnect_watch l id
      (data :: r.1, r.2)

/-- What a watch callback does to the device: it calls `device_remove_disconnect_watch`
for each of the ids `ids`, in order. -/
def remove_disconnect_watches :
    List btd_disconnect_data → List Nat → List btd_disconnect_data × List dev_effect
  | watches, [] => (watches, [])
  | watches, id :: ids =>
    let r := device_remove_disconnect_watch watches id
    let s := remove_disconnect_watches r.1 ids
    (s.1, r.2 ++ s.2)

/-- The call `data->watch(device, device->temporary, data->user_data)` in the loop of
`device_request_disconnect`, made when the callback is set: the call `disconnect_watch`
of the log, and the watch list after the callback. `watch data watches` gives the ids
that the callback of `data`, called while the list is `watches`, removes. -/
def disconnect_watch_call
    (watch : btd_disconnect_data → List btd_disconnect_data → List Nat) (temporary : Bool)
    (data : btd_disconnect_data) (watches : List btd_disconnect_data) :
    List btd_disconnect_data × List dev_effect :=
  match data.watch with
  | some _ =>
    let r := remove_disconnect_watches watches (watch data watches)
    (r.1, dev_effect.disconnect_watch data.id temporary :: r.2)
  | none => (watches, [])

/-- The `while (device->watches)` loop of `device_request_disconnect`: the callback of
the first watch is called, then the watch is taken out of the list unless the callback
has removed it. The first argument bounds the number of iterations: the result is
`none` when it is exhausted. -/
def disconnect_watches_loop
    (watch : btd_disconnect_data → List btd_disconnect_data → List Nat) (temporary : Bool) :
    Nat → List btd_disconnect_data → Option (List btd_disconnect_data × List dev_effect)
  | _, [] => some ([], [])
  | 0, _ :: _ => none
  | fuel + 1, data :: rest =>
    let c := disconnect_watch_call watch temporary data (data :: rest)
    let watches := if data ∈ c.1 then c.1.erase data else c.1
    match disconnect_watches_loop watch temporary fuel watches with
    | none => none
    | some r => some (r.1, c.2 ++ r.2)

/-- The function `device_request_disconnect` of device.c. The result is `none` when
the watch loop does not come to an end within as many iterations as there are watches
on entry. -/
def device_request_disconnect (env : environment)
    (watch : btd_disconnect_data → List btd_disconnect_data → List Nat)
    (device : btd_device) (msg : Option DBusMessage) :
    Option (btd_device × List dev_effect) :=
  let b : List dev_effect := if device.bonding.isSome then bonding_request_cancel else []
  let br : btd_device × List dev_effect :=
    match device.browse with
    | some req =>
      let c := browse_request_cancel device req
      (c.1, discover_services_reply req (-ECANCELED) [] ++ c.2)
    | none => (device, [])
  let device1 :=
    match msg with
    | some m => { br.1 with disconnects := br.1.disconnects ++ [m] }
    | none => br.1
  if device1.disconn_timer ≠ 0 then some (device1, b ++ br.2)
  else
    match disconnect_watches_loop watch device1.temporary device1.watches.length
        device1.watches with
    | none => none
    | some w =>
      some ({ device1 with watches := w.1, disconn_timer := env.timer_id },
        b ++ br.2 ++ w.2
          ++ [dev_effect.g_timeout_add_seconds timer_kind.do_disconnect,
              dev_effect.g_dbus_emit_signal "DisconnectRequested"])

/-! ## Replies of the agent -/

/-- The function `pincode_cb` of device.c for the pending request of `device`; the call
`agent_reply` of the log is the call of the stored callback with the reply of the
agent. The result is `none` when the device has no pending request. -/
def pincode_cb (device : btd_device) : Option (btd_device × List dev_effect) :=
  match device.authr with
  | none => none
  | some auth =>
    let c := close_sdp_channel device
    match auth.cb with
    | none => some c
    | some cb =>
      some ({ c.1 with authr := some { auth with cb := none, agent := none } },
        c.2 ++ [dev_effect.agent_reply cb])

/-- The function `confirm_cb` of device.c for the pending request of `device`. -/
def confirm_cb (device : btd_device) : Option (btd_device × List dev_effect) :=
  match device.authr with
  | none => none
  | some auth =>
    match auth.cb with
    | none => some (device, [])
    | some cb =>
      some ({ device with authr := some { auth with cb := none, agent := none } },
        [dev_effect.agent_reply cb])

/-- The function `oob_data_cb` of device.c for the pending request of `device`. -/
def oob_data_cb (device : btd_device) : Option (btd_device × List dev_effect) :=
  match device.authr with
  | none => none
  | some auth =>
    match auth.cb with
    | none => some (device, [])
    | some cb =>
      some ({ device with authr := some { auth with cb := none, agent := none } },
        [dev_effect.agent_reply cb])

/-- The function `passkey_cb` of device.c for the pending request of `device`; it tests
the request for NULL. -/
def passkey_cb (device : btd_device) : Option (btd_device × List dev_effect) :=
  match device.authr with
  | none => some (device, [])
  | some auth =>
    match auth.cb with
    | none => some (device, [])
    | some cb =>
      some ({ device with authr := some { auth with cb := none, agent := none } },
        [dev_effect.agent_reply cb])

/-- The function `pairing_consent_cb` of device.c for the pending request of `device`:
only the callback is cleared. -/
def pairing_consent_cb (device : btd_device) : Option (btd_device × List dev_effect) :=
  match device.authr with
  | none => none
  | some auth =>
    match auth.cb with
    | none => some (device, [])
    | some cb =>
      some ({ device with authr := some { auth with cb := none } },
        [dev_effect.agent_reply cb])

/-! ## Definitions that follow the specification's wording: runs and measures -/

/-- The handler run for an event of a search whose responses go to the callback `cb`
given to `bt_search_service`; the expiry of the timer goes to `sdp_timeout`. -/
def search_step (cb : search_callback) (device : btd_device) :
    browse_event → Option (btd_device × List dev_effect)
  | browse_event.response env recs err =>
    match cb with
    | search_callback.browse_cb => browse_cb env device recs err
    | search_callback.search_cb => search_cb env device recs err
  | browse_event.timeout env => sdp_timeout env device

/-- A run of a search whose responses go to `cb`: the events are delivered one after
the other for as long as the device has an active request. -/
def search_run (cb : search_callback) :
    btd_device → List browse_event → Option (btd_device × List dev_effect)
  | device, [] => some (device, [])
  | device, ev :: rest =>
    if device.browse.isNone then some (device, [])
    else
      match search_step cb device ev with
      | none => none
      | some r =>
        match search_run cb r.1 rest with
        | none => none
        | some r2 => some (r2.1, r.2 ++ r2.2)

/-- The callback that `device_browse_sdp` hands to `bt_search_service`. -/
def browse_callback (search : Option Nat) : search_callback :=
  match search with
  | some _ => search_callback.search_cb
  | none => search_callback.browse_cb

/-- The number of queries a browse can still issue: one for each class of `uuid_list`
behind the index, and one for the reconnect attempt if it is unused. -/
def queries_left (device : btd_device) : Nat :=
  match device.browse with
  | none => 0
  | some req => (3 - req.search_uuid).toNat + (1 - req.reconnect_attempt).toNat

/-- What can happen to a pending authentication request: a reply of the agent, handed
to one of the five reply handlers, or a cancellation. -/
inductive auth_event where
  | pincode
  | passkey
  | confirm
  | oob_data
  | pairing_consent
  | cancel (aborted : Bool)
  deriving DecidableEq, Repr

/-- The handler run for an event on the pending request of `device`. -/
def auth_step (device : btd_device) : auth_event → Option (btd_device × List dev_effect)
  | auth_event.pincode => pincode_cb device
  | auth_event.passkey => passkey_cb device
  | auth_event.confirm => confirm_cb device
  | auth_event.oob_data => oob_data_cb device
  | auth_event.pairing_consent => pairing_consent_cb device
  | auth_event.cancel aborted => some (device_cancel_authentication device aborted)

/-- A sequence of events applied to the pending request of `device`, for as long as
the request exists. -/
def auth_run : btd_device → List auth_event → Option (btd_device × List dev_effect)
  | device, [] => some (device, [])
  | device, ev :: rest =>
    if device.authr.isNone then some (device, [])
    else
      match auth_step device ev with
      | none => none
      | some r =>
        match auth_run r.1 rest with
        | none => none
        | some r2 => some (r2.1, r.2 ++ r2.2)

/-- Whether an effect is a call of the callback stored in an authentication request:
with the reply of the agent, or with the canceled error. -/
def is_callback : dev_effect → Bool
  | dev_effect.agent_reply _ => true
  | dev_effect.auth_callback _ _ => true
  | _ => false

/-- The calls of the stored callback in a log, in order. -/
def callback_calls (log : List dev_effect) : List dev_effect := log.filter is_callback

/-- Whether the callback of the pending request of a device is still stored. -/
def callback_pending (device : btd_device) : Nat :=
  match device.authr with
  | none => 0
  | some auth => if auth.cb.isSome then 1 else 0

/-- Whether an effect starts a service discovery: an SDP search query, or the discovery
of the primary services of a low-energy device (directly or after connecting). -/
def is_browse_start : dev_effect → Bool
  | dev_effect.bt_search_service _ _ => true
  | dev_effect.gatt_discover_primary _ => true
  | dev_effect.bt_io_connect_att _ => true
  | _ => false

/-- The starts of a service discovery in a log, in order. -/
def browse_starts (log : List dev_effect) : List dev_effect := log.filter is_browse_start

/-- Whether an effect arms the discovery-delay timer. -/
def is_discovery_timer : dev_effect → Bool
  | dev_effect.g_timeout_add_seconds timer_kind.start_discovery => true
  | _ => false

/-- The armings of the discovery-delay timer in a log. -/
def discovery_timers (log : List dev_effect) : List dev_effect :=
  log.filter is_discovery_timer

/-- A sample device on which a locally initiated bonding completes while a record of
the peer is cached. -/
def sample_bonding_cached : btd_device :=
  { sample_device with bonding := some sample_bonding,
                       tmp_records := [sample_record 0x10000 HSP_HS_UUID] }

/-- A sample authentication request: a display notification at agent 3 with a callback
stored. -/
def sample_notify : authentication_req :=
  { type := auth_type_t.AUTH_TYPE_NOTIFY, cb := some 1, agent := some 3 }

/-- Whether an effect is a call of a driver hook. -/
def is_driver_call : dev_effect → Bool
  | dev_effect.driver_probe _ _ => true
  | dev_effect.driver_remove _ => true
  | _ => false

/-- The calls of driver hooks in a log, in order. -/
def driver_calls (log : List dev_effect) : List dev_effect := log.filter is_driver_call

/-- A sample environment in which `sample_driver` is registered. -/
def sample_env_driver : environment := { sample_env with device_drivers := [sample_driver] }

/-- A sample device whose browse has accumulated a headset record and has the headset
id among the ids added. -/
def sample_browse_added : btd_device :=
  { sample_device with
    ref := 2,
    browse := some { sample_req with profiles_added := [HSP_HS_UUID],
                                     records := [sample_record 0x10000 HSP_HS_UUID] } }

/-- A sample record with the two service classes headset and serial port. -/
def sample_record_two : sdp_record :=
  { sample_record 0x10000 HSP_HS_UUID with svclass := some [some HSP_HS_UUID, some SPP_UUID] }

/-- The ids of the watches whose callback is called in a log, in order. -/
def watch_calls (log : List dev_effect) : List Nat :=
  log.filterMap (fun e =>
    match e with
    | dev_effect.disconnect_watch id _ => some id
    | _ => none)

/-- Whether an effect is made by the watch loop: the call of a watch callback or of a
destroy hook. -/
def is_watch_effect : dev_effect → Bool
  | dev_effect.disconnect_watch _ _ => true
  | dev_effect.destroy_notify _ _ => true
  | _ => false

/-- Whether a watch has a callback. -/
def has_watch (data : btd_disconnect_data) : Bool := data.watch.isSome

/-- A sample watch with id `id` and a callback. -/
def sample_watch (id : Nat) : btd_disconnect_data :=
  { id := id, watch := some (10 + id), user_data := 0, destroy := none }

/-- A sample device with two watches and no disconnection under way. -/
def sample_watched : btd_device :=
  { sample_device with watches := [sample_watch 1, sample_watch 2], disconn_timer := 0 }

/-- A sample device with a watch and the disconnection timer armed. -/
def sample_disconnecting : btd_device :=
  { sample_device with watches := [sample_watch 1], disconn_timer := 6 }

/-- A sample behaviour of the callbacks: each removes its own watch. -/
def sample_watch_removes (data : btd_disconnect_data) (_ : List btd_disconnect_data) :
    List Nat := [data.id]

end Device

namespace NetworkServer

/-! ## Lemmas on bytes and byte order -/

theorem byte_at_lt (mem : List Nat) (i : Nat) : byte_at mem i < 256 := by
  unfold byte_at; omega

theorem ntohl_bytes (a b c d : Nat) (ha : a < 256) (hb : b < 256) (hc : c < 256)
    (hd : d < 256) :
    ntohl (a + b * 2 ^ 8 + c * 2 ^ 16 + d * 2 ^ 24) = ((a * 256 + b) * 256 + c) * 256 + d := by
  simp only [ntohl]
  norm_num
  have e0 : (a + b * 256 + c * 65536 + d * 16777216) % 256 = a := by omega
  have e1 : (a + b * 256 + c * 65536 + d * 16777216) / 256 % 256 = b := by omega
  have e2 : (a + b * 256 + c * 65536 + d * 16777216) / 65536 % 256 = c := by omega
  have e3 : (a + b * 256 + c * 65536 + d * 16777216) / 16777216 % 256 = d := by omega
  rw [e0, e1, e2, e3]
  ring

/-- A 32-bit load followed by `ntohl` reads the four bytes big-endian. -/
theorem ntohl_load (mem : List Nat) (p : Nat) :
    ntohl (bt_get_unaligned_u32 mem p) = be_value mem p 4 := by
  simp only [bt_get_unaligned_u32, be_value, Nat.add_zero, Nat.zero_mul, Nat.zero_add]
  exact ntohl_bytes _ _ _ _ (byte_at_lt _ _) (byte_at_lt _ _) (byte_at_lt _ _) (byte_at_lt _ _)

/-- A 16-bit load followed by `ntohs` reads the two bytes big-endian. -/
theorem ntohs_load (mem : List Nat) (p : Nat) :
    ntohs (bt_get_unaligned_u16 mem p) = be_value mem p 2 := by
  have h0 := byte_at_lt mem p
  have h1 := byte_at_lt mem (p + 1)
  simp only [ntohs, bt_get_unaligned_u16, be_value, Nat.add_zero, Nat.zero_mul, Nat.zero_add]
  omega

theorem load32_lt (mem : List Nat) (p : Nat) : bt_get_unaligned_u32 mem p < 2 ^ 32 := by
  have h0 := byte_at_lt mem p
  have h1 := byte_at_lt mem (p + 1)
  have h2 := byte_at_lt mem (p + 2)
  have h3 := byte_at_lt mem (p + 3)
  simp only [bt_get_unaligned_u32]
  norm_num
  omega

theorem ntohl_lt (x : Nat) : ntohl x < 2 ^ 32 := by
  simp only [ntohl]; norm_num; omega

theorem be_value4_lt (mem : List Nat) (p : Nat) : be_value mem p 4 < 2 ^ 32 := by
  rw [← ntohl_load]; exact ntohl_lt _

/-- On this host `get_u64` reads eight bytes big-endian: the first four are the high
half of the result. -/
theorem get_u64_eq (mem : List Nat) (p : Nat) :
    get_u64 mem p = be_value mem p 4 * 2 ^ 32 + be_value mem (p + 4) 4 := by
  have ha := load32_lt mem p
  have hb := load32_lt mem (p + 4)
  simp only [get_u64, bt_get_unaligned_u64]
  have e1 : (bt_get_unaligned_u32 mem p + bt_get_unaligned_u32 mem (p + 4) * 2 ^ 32)
      &&& 0xFFFFFFFF = bt_get_unaligned_u32 mem p := by
    have : (0xFFFFFFFF : Nat) = 2 ^ 32 - 1 := by norm_num
    rw [this, Nat.and_pow_two_sub_one_eq_mod]
    omega
  have e2 : (bt_get_unaligned_u32 mem p + bt_get_unaligned_u32 mem (p + 4) * 2 ^ 32) >>> 32
      = bt_get_unaligned_u32 mem (p + 4) := by
    rw [Nat.shiftRight_eq_div_pow]
    omega
  rw [e1, e2, Nat.mod_eq_of_lt ha, Nat.mod_eq_of_lt hb, ntohl_load, ntohl_load]
  have hc := be_value4_lt mem (p + 4)
  have hd := be_value4_lt mem p
  rw [Nat.shiftLeft_eq, Nat.mul_comm, ← Nat.mul_add_lt_is_or hc]
  omega

theorem be_value16_split (mem : List Nat) (p : Nat) :
    be_value mem p 16 = be_value mem p 4 * 2 ^ 96 + be_value mem (p + 4) 4 * 2 ^ 64
      + be_value mem (p + 8) 4 * 2 ^ 32 + be_value mem (p + 12) 4 := by
  simp only [be_value, Nat.add_assoc, Nat.add_zero, Nat.zero_mul, Nat.zero_add]
  norm_num
  ring

/-- A 128-bit value is a base UUID exactly when its two 64-bit halves are the halves of
that UUID. -/
theorem uuid_halves (A B C D r : Nat) (h3 : C < 2 ^ 32) (h4 : D < 2 ^ 32) :
    (A * 2 ^ 32 + B = r * 2 ^ 32 + 0x1000 ∧ C * 2 ^ 32 + D = 0x800000805F9B34FB) ↔
      A * 2 ^ 96 + B * 2 ^ 64 + C * 2 ^ 32 + D = r * 2 ^ 96 + 0x00001000800000805F9B34FB := by
  norm_num at h3 h4 ⊢
  constructor
  · rintro ⟨ha, hb⟩
    omega
  · intro h
    constructor <;> omega

/-- The table lookup of `bnep_setup_decode` fails exactly when the sixteen bytes are
not the base UUID of one of the three roles. -/
theorem svc_loop_eq (mem : List Nat) (p : Nat) :
    (svc_loop (get_u64 mem p) (get_u64 mem (p + 8)) bnep_svc_uuid 0 = bnep_svc_uuid.length)
      ↔ known_role_id 16 (be_value mem p 16) = false := by
  have h3 := be_value4_lt mem (p + 8)
  have h4 := be_value4_lt mem (p + 12)
  have e : p + 8 + 4 = p + 12 := by omega
  rw [get_u64_eq, get_u64_eq, be_value16_split, e]
  generalize be_value mem p 4 = A at *
  generalize be_value mem (p + 4) 4 = B at *
  generalize be_value mem (p + 8) 4 = C at *
  generalize be_value mem (p + 12) 4 = D at *
  have k1 := uuid_halves A B C D 0x1115 h3 h4
  have k2 := uuid_halves A B C D 0x1116 h3 h4
  have k3 := uuid_halves A B C D 0x1117 h3 h4
  simp only [svc_loop, bnep_svc_uuid, PANU_SVC_UUID_H, PANU_SVC_UUID_L, NAP_SVC_UUID_H,
    NAP_SVC_UUID_L, GN_SVC_UUID_H, GN_SVC_UUID_L, known_role_id, pan_roles, base_uuid128,
    List.any, List.length]
  norm_num at k1 k2 k3 ⊢
  rw [← k1, ← k2, ← k3]
  split_ifs with c1 c2 c3
  · simp [c1]
  · simp [c1, c2]
  · simp [c1, c2, c3]
  · simp [c1, c2, c3]

/-- The 32-bit case of `bnep_setup_decode` in terms of big-endian values. -/
theorem decode4 (req : bnep_setup_conn_req) (dst_role src_role : Nat)
    (h : req.uuid_size = 4) :
    bnep_setup_decode req dst_role src_role =
      (if known_role_id 4 (be_value req.service 0 4) = false
        then (0x0001, dst_role, src_role)
       else if known_role_id 4 (be_value req.service 4 4) = false
        then (0x0002, be_value req.service 0 4, src_role)
       else (0, be_value req.service 0 4, be_value req.service 4 4)) := by
  unfold bnep_setup_decode
  rw [if_neg (by omega), if_pos h]
  simp only [h, ntohl_load]
  generalize be_value req.service 0 4 = X
  generalize be_value req.service 4 4 = Y
  simp only [known_role_id, pan_roles, List.any, BNEP_SVC_NAP, BNEP_SVC_GN, BNEP_SVC_PANU,
    BNEP_CONN_INVALID_DST, BNEP_CONN_INVALID_SRC]
  rw [if_neg (by decide : ¬ ((4 : Nat) = 16)), if_neg (by decide : ¬ ((4 : Nat) = 16))]
  by_cases hx : X = 4373 ∨ X = 4374 ∨ X = 4375
  · have hX : X % 2 ^ 16 = X := by norm_num; omega
    have c1 : ¬ (X ≠ 4374 ∧ X ≠ 4375 ∧ X ≠ 4373) := by omega
    have c2 : ¬ ((decide (X = 4373) || (decide (X = 4374) || (decide (X = 4375) || false)))
        = false) := by
      simp only [Bool.or_false, Bool.or_eq_false_iff, decide_eq_false_iff_not]; omega
    rw [if_neg c1, if_neg c2, hX]
    by_cases hy : Y = 4373 ∨ Y = 4374 ∨ Y = 4375
    · have hY : Y % 2 ^ 16 = Y := by norm_num; omega
      have d1 : ¬ (Y ≠ 4374 ∧ Y ≠ 4375 ∧ Y ≠ 4373) := by omega
      have d2 : ¬ ((decide (Y = 4373) || (decide (Y = 4374) || (decide (Y = 4375) || false)))
          = false) := by
        simp only [Bool.or_false, Bool.or_eq_false_iff, decide_eq_false_iff_not]; omega
      rw [if_neg d1, if_neg d2, hY]
    · have d1 : Y ≠ 4374 ∧ Y ≠ 4375 ∧ Y ≠ 4373 := by omega
      have d2 : (decide (Y = 4373) || (decide (Y = 4374) || (decide (Y = 4375) || false)))
          = false := by
        simp only [Bool.or_false, Bool.or_eq_false_iff, decide_eq_false_iff_not]; omega
      rw [if_pos d1, if_pos d2]
  · have c1 : X ≠ 4374 ∧ X ≠ 4375 ∧ X ≠ 4373 := by omega
    have c2 : (decide (X = 4373) || (decide (X = 4374) || (decide (X = 4375) || false)))
        = false := by
      simp only [Bool.or_false, Bool.or_eq_false_iff, decide_eq_false_iff_not]; omega
    rw [if_pos c1, if_pos c2]

/-- The role written by the 128-bit case is the high word of the high half. -/
theorem role_field (A B : Nat) (hA : A < 2 ^ 32) (hB : B < 2 ^ 32) :
    (((A * 2 ^ 32 + B) >>> 32) &&& 0xFFFFFFFF) = A := by
  have : (0xFFFFFFFF : Nat) = 2 ^ 32 - 1 := by norm_num
  rw [this, Nat.and_pow_two_sub_one_eq_mod, Nat.shiftRight_eq_div_pow]
  omega

/-- The 128-bit case of `bnep_setup_decode` in terms of big-endian values. -/
theorem decode16 (req : bnep_setup_conn_req) (dst_role src_role : Nat)
    (h : req.uuid_size = 16) :
    bnep_setup_decode req dst_role src_role =
      (if known_role_id 16 (be_value req.service 0 16) = false
        then (0x0001, dst_role, src_role)
       else if known_role_id 16 (be_value req.service 16 16) = false
        then (0x0002, be_value req.service 0 4 % 2 ^ 16, src_role)
       else (0, be_value req.service 0 4 % 2 ^ 16, be_value req.service 16 4 % 2 ^ 16)) := by
  have e1 := svc_loop_eq req.service 0
  have e2 := svc_loop_eq req.service 16
  have r1 := role_field _ _ (be_value4_lt req.service 0) (be_value4_lt req.service (0 + 4))
  have r2 := role_field _ _ (be_value4_lt req.service 16) (be_value4_lt req.service (16 + 4))
  rw [← get_u64_eq] at r1 r2
  simp only [Nat.zero_add] at e1 r1
  unfold bnep_setup_decode
  rw [if_neg (by omega), if_neg (by omega), if_pos h]
  simp only [h, Nat.zero_add, r1, r2, BNEP_CONN_INVALID_DST, BNEP_CONN_INVALID_SRC]
  by_cases c1 : known_role_id 16 (be_value req.service 0 16) = false
  · rw [if_pos (e1.mpr c1), if_pos c1]
  · rw [if_neg (fun hh => c1 (e1.mp hh)), if_neg c1]
    by_cases c2 : known_role_id 16 (be_value req.service 16 16) = false
    · rw [if_pos (e2.mpr c2), if_pos c2]
    · rw [if_neg (fun hh => c2 (e2.mp hh)), if_neg c2]

/-! ## Role validation and frame codec -/

/-- C1: for every pair (dst_role, src_role), `bnep_setup_chk` returns 0 exactly on
the allowed scenarios (gateway 0x1116 or hub 0x1117 with client source 0x1115;
client destination with client, hub or gateway source), invalid-source 0x0002 on
the other pairs whose destination is one of the three roles, and
invalid-destination 0x0001 when the destination is none of them; of the 9 pairs of
roles, 5 are accepted and 4 rejected. -/
theorem bnep_setup_chk_table (dst_role src_role : Nat) :
    bnep_setup_chk dst_role src_role =
      (if pan_scenario_allowed dst_role src_role then 0
       else if dst_role = 0x1115 ∨ dst_role = 0x1116 ∨ dst_role = 0x1117 then 0x0002
       else 0x0001)
    ∧ ((pan_roles.product pan_roles).filter
        (fun p => bnep_setup_chk p.1 p.2 = 0)).length = 5
    ∧ ((pan_roles.product pan_roles).filter
        (fun p => bnep_setup_chk p.1 p.2 ≠ 0)).length = 4 := by
  refine ⟨?_, by decide, by decide⟩
  simp only [bnep_setup_chk, pan_scenario_allowed, BNEP_SVC_NAP, BNEP_SVC_GN, BNEP_SVC_PANU,
    BNEP_CONN_INVALID_SRC, BNEP_CONN_INVALID_DST]
  split_ifs <;> first | rfl | omega

/-- C2: a setup request whose uuid_size is none of 2, 4 and 16 is answered by
`bnep_setup_decode` with invalid-service 0x0003, whatever its other bytes, and the
output roles are left as they were. -/
theorem bnep_setup_decode_invalid_svc (req : bnep_setup_conn_req) (dst_role src_role : Nat)
    (h : req.uuid_size ≠ 2 ∧ req.uuid_size ≠ 4 ∧ req.uuid_size ≠ 16) :
    bnep_setup_decode req dst_role src_role = (0x0003, dst_role, src_role) := by
  obtain ⟨h2, h4, h16⟩ := h
  simp [bnep_setup_decode, h2, h4, h16, BNEP_CONN_INVALID_SVC]

/-- Witness of C2 at uuid_size 0 and at uuid_size 255. -/
theorem bnep_setup_decode_invalid_svc_witness :
    bnep_setup_decode ⟨0x01, 0x01, 0, [0x11, 0x16, 0x11, 0x15]⟩ 7 9 = (0x0003, 7, 9)
    ∧ bnep_setup_decode ⟨0x01, 0x01, 255, []⟩ 7 9 = (0x0003, 7, 9) :=
  ⟨bnep_setup_decode_invalid_svc _ 7 9 (by decide),
   bnep_setup_decode_invalid_svc _ 7 9 (by decide)⟩

/-- C3: for uuid_size 4 or 16, `bnep_setup_decode` returns invalid-destination
0x0001 when the destination identifier (big-endian) is not one of the three known
roles, whatever the source bytes; invalid-source 0x0002 when the destination is
known and the source identifier is not; and 0 otherwise. -/
theorem bnep_setup_decode_unknown_role (req : bnep_setup_conn_req) (dst_role src_role : Nat)
    (h : req.uuid_size = 4 ∨ req.uuid_size = 16) :
    (bnep_setup_decode req dst_role src_role).1 =
      (if known_role_id req.uuid_size (be_value req.service 0 req.uuid_size) = false
        then 0x0001
       else if known_role_id req.uuid_size
          (be_value req.service req.uuid_size req.uuid_size) = false then 0x0002
       else 0) := by
  rcases h with h | h
  · rw [decode4 req dst_role src_role h, h]
    split_ifs <;> rfl
  · rw [decode16 req dst_role src_role h, h]
    split_ifs <;> rfl

/-- Witness of C3: an unknown 32-bit destination (0x00011116) with a known source,
and a known 128-bit destination with an unknown source (last byte 0xFA). -/
theorem bnep_setup_decode_unknown_role_witness :
    (bnep_setup_decode ⟨0x01, 0x01, 4, [0, 1, 0x11, 0x16, 0, 0, 0x11, 0x15]⟩ 0 0).1 = 0x0001
    ∧ (bnep_setup_decode ⟨0x01, 0x01, 16,
        [0, 0, 0x11, 0x16, 0, 0, 0x10, 0, 0x80, 0, 0, 0x80, 0x5F, 0x9B, 0x34, 0xFB,
         0, 0, 0x11, 0x15, 0, 0, 0x10, 0, 0x80, 0, 0, 0x80, 0x5F, 0x9B, 0x34, 0xFA]⟩ 0 0).1
        = 0x0002 :=
  ⟨bnep_setup_decode_unknown_role ⟨0x01, 0x01, 4, [0, 1, 0x11, 0x16, 0, 0, 0x11, 0x15]⟩ 0 0
    (Or.inl rfl),
   bnep_setup_decode_unknown_role ⟨0x01, 0x01, 16,
        [0, 0, 0x11, 0x16, 0, 0, 0x10, 0, 0x80, 0, 0, 0x80, 0x5F, 0x9B, 0x34, 0xFB,
         0, 0, 0x11, 0x15, 0, 0, 0x10, 0, 0x80, 0, 0, 0x80, 0x5F, 0x9B, 0x34, 0xFA]⟩ 0 0
    (Or.inr rfl)⟩

/-- Bytes behind the part of a buffer that is read do not change the value read. -/
theorem be_value_append (l tail : List Nat) (p n : Nat) (h : p + n ≤ l.length) :
    be_value (l ++ tail) p n = be_value l p n := by
  induction n with
  | zero => rfl
  | succ k ih =>
    have hk : p + k < l.length := by omega
    simp only [be_value, byte_at]
    rw [ih (by omega), List.getD_append _ _ _ _ hk]

/-- Size-2 decoding reads both roles directly, with no validation. -/
theorem decode2_encode (type d s : Nat) (tail : List Nat) (dst_role src_role : Nat)
    (hd : d < 2 ^ 16) (hs : s < 2 ^ 16) :
    bnep_setup_decode (encode_setup_req type 2 d s tail) dst_role src_role = (0, d, s) := by
  simp only [bnep_setup_decode, encode_setup_req, encode_role, ntohs_load, be_value, be_bytes,
    byte_at]
  norm_num at hd hs ⊢
  constructor <;> omega

/-- What the encodings of a pair of known roles hold, read big-endian. -/
theorem encode_role_values (d s : Nat) (hd : d ∈ pan_roles) (hs : s ∈ pan_roles) :
    ((encode_role 4 d ++ encode_role 4 s).length = 8
      ∧ be_value (encode_role 4 d ++ encode_role 4 s) 0 4 = d
      ∧ be_value (encode_role 4 d ++ encode_role 4 s) 4 4 = s
      ∧ known_role_id 4 d = true ∧ known_role_id 4 s = true)
    ∧ ((encode_role 16 d ++ encode_role 16 s).length = 32
      ∧ be_value (encode_role 16 d ++ encode_role 16 s) 0 16 = base_uuid128 d
      ∧ be_value (encode_role 16 d ++ encode_role 16 s) 16 16 = base_uuid128 s
      ∧ be_value (encode_role 16 d ++ encode_role 16 s) 0 4 % 2 ^ 16 = d
      ∧ be_value (encode_role 16 d ++ encode_role 16 s) 16 4 % 2 ^ 16 = s
      ∧ known_role_id 16 (base_uuid128 d) = true
      ∧ known_role_id 16 (base_uuid128 s) = true) := by
  simp only [pan_roles, List.mem_cons, List.mem_singleton, List.not_mem_nil, or_false]
    at hd hs
  rcases hd with rfl | rfl | rfl <;> rcases hs with rfl | rfl | rfl <;> decide

/-- Decoding of the 4- and 16-byte encodings of a pair of known roles. -/
theorem decode_encode_known (type d s : Nat) (tail : List Nat) (dst_role src_role : Nat)
    (hd : d ∈ pan_roles) (hs : s ∈ pan_roles) :
    bnep_setup_decode (encode_setup_req type 4 d s tail) dst_role src_role = (0, d, s)
    ∧ bnep_setup_decode (encode_setup_req type 16 d s tail) dst_role src_role = (0, d, s) := by
  obtain ⟨⟨l4, a4, b4, kd4, ks4⟩, l16, a16, b16, c16, d16, kd16, ks16⟩ :=
    encode_role_values d s hd hs
  rw [decode4 _ _ _ rfl, decode16 _ _ _ rfl]
  simp only [encode_setup_req]
  rw [be_value_append _ tail 0 4 (by omega), be_value_append _ tail 4 4 (by omega),
    be_value_append _ tail 0 16 (by omega), be_value_append _ tail 16 16 (by omega),
    be_value_append _ tail 16 4 (by omega), be_value_append _ tail 0 4 (by omega),
    a4, b4, kd4, ks4, a16, b16, c16, d16, kd16, ks16]
  simp

/-- Decoding of each of the three encodings of a pair of known roles. -/
theorem decode_encode_roles (type d s : Nat) (tail : List Nat) (dst_role src_role : Nat)
    (hd : d ∈ pan_roles) (hs : s ∈ pan_roles) (size : Nat) (hsize : size ∈ [2, 4, 16]) :
    bnep_setup_decode (encode_setup_req type size d s tail) dst_role src_role = (0, d, s) := by
  have hd2 : d < 2 ^ 16 := by
    simp only [pan_roles, List.mem_cons, List.mem_singleton, List.not_mem_nil, or_false] at hd
    norm_num
    omega
  have hs2 : s < 2 ^ 16 := by
    simp only [pan_roles, List.mem_cons, List.mem_singleton, List.not_mem_nil, or_false] at hs
    norm_num
    omega
  simp only [List.mem_cons, List.mem_singleton, List.not_mem_nil, or_false] at hsize
  rcases hsize with rfl | rfl | rfl
  · exact decode2_encode type d s tail dst_role src_role hd2 hs2
  · exact (decode_encode_known type d s tail dst_role src_role hd hs).1
  · exact (decode_encode_known type d s tail dst_role src_role hd hs).2

/-- C4: for destination d and source s among the three roles, `bnep_setup_decode`
returns (0, d, s) on each of the three encodings of the pair (2, 4 and 16 bytes per
identifier, big-endian, the 16-byte form being the base UUID with the role in its
role field, read through `get_u64`), whatever follows the identifiers; and with
2-byte identifiers it returns (0, d, s) for every pair of 16-bit values. -/
theorem bnep_setup_decode_roundtrip (type d s : Nat) (tail : List Nat)
    (dst_role src_role : Nat) :
    (d < 2 ^ 16 → s < 2 ^ 16 →
      bnep_setup_decode (encode_setup_req type 2 d s tail) dst_role src_role = (0, d, s))
    ∧ (d ∈ pan_roles → s ∈ pan_roles → ∀ size ∈ [2, 4, 16],
      bnep_setup_decode (encode_setup_req type size d s tail) dst_role src_role = (0, d, s)) := by
  exact ⟨decode2_encode type d s tail dst_role src_role,
    fun hd hs size hsize => decode_encode_roles type d s tail dst_role src_role hd hs size hsize⟩

/-- Witness of C4: gateway destination and client source in the three encodings, and
an arbitrary pair of 16-bit values (0xFFFF, 0x0000) in the 2-byte encoding. -/
theorem bnep_setup_decode_roundtrip_witness :
    bnep_setup_decode ⟨0x01, 0x01, 2, [0x11, 0x16, 0x11, 0x15]⟩ 0 0 = (0, 0x1116, 0x1115)
    ∧ bnep_setup_decode ⟨0x01, 0x01, 4, [0, 0, 0x11, 0x16, 0, 0, 0x11, 0x15]⟩ 0 0
        = (0, 0x1116, 0x1115)
    ∧ bnep_setup_decode ⟨0x01, 0x01, 16,
        [0, 0, 0x11, 0x16, 0, 0, 0x10, 0, 0x80, 0, 0, 0x80, 0x5F, 0x9B, 0x34, 0xFB,
         0, 0, 0x11, 0x15, 0, 0, 0x10, 0, 0x80, 0, 0, 0x80, 0x5F, 0x9B, 0x34, 0xFB]⟩ 0 0
        = (0, 0x1116, 0x1115)
    ∧ bnep_setup_decode ⟨0x81, 0x01, 2, [0xFF, 0xFF, 0x00, 0x00, 0x2A]⟩ 0 0
        = (0, 0xFFFF, 0x0000) :=
  ⟨(bnep_setup_decode_roundtrip 0x01 0x1116 0x1115 [] 0 0).2 (by decide) (by decide) 2
      (by decide),
   (bnep_setup_decode_roundtrip 0x01 0x1116 0x1115 [] 0 0).2 (by decide) (by decide) 4
      (by decide),
   (bnep_setup_decode_roundtrip 0x01 0x1116 0x1115 [] 0 0).2 (by decide) (by decide) 16
      (by decide),
   (bnep_setup_decode_roundtrip 0x81 0xFFFF 0x0000 [0x2A] 0 0).1 (by decide) (by decide)⟩

/-- C5: for every 16-bit status S, `send_bnep_ctrl_rsp` hands to `send` exactly the
four bytes [0x01, 0x02, S >> 8, S & 0xFF], and reading bytes 2 and 3 of that frame
as a big-endian 16-bit integer gives S again. -/
theorem send_bnep_ctrl_rsp_roundtrip (S : Nat) (h : S < 2 ^ 16) :
    send_bnep_ctrl_rsp S = [0x01, 0x02, S >>> 8, S &&& 0xFF]
    ∧ decode_rsp_status (send_bnep_ctrl_rsp S) = S := by
  have e1 : S >>> 8 = S / 256 := by rw [Nat.shiftRight_eq_div_pow]
  have e2 : S &&& 0xFF = S % 256 := by
    have : (0xFF : Nat) = 2 ^ 8 - 1 := by norm_num
    rw [this, Nat.and_pow_two_sub_one_eq_mod]
  have hS : S < 65536 := by norm_num at h; exact h
  have b1 : S % 2 ^ 16 = S := Nat.mod_eq_of_lt h
  have f : send_bnep_ctrl_rsp S = [0x01, 0x02, S / 256, S % 256] := by
    simp only [send_bnep_ctrl_rsp, bnep_control_rsp_bytes, store_u16, htons, BNEP_CONTROL,
      BNEP_SETUP_CONN_RSP, b1, List.cons_append, List.nil_append]
    have hx : S % 256 < 256 := Nat.mod_lt _ (by decide)
    have hy : S / 256 % 256 = S / 256 := by omega
    rw [hy]
    generalize S % 256 = x at hx
    have hz : S / 256 < 256 := by omega
    generalize S / 256 = y at hz
    have c1 : (x * 256 + y) % 256 = y := by omega
    have c2 : (x * 256 + y) / 256 % 256 = x := by omega
    rw [c1, c2]
  refine ⟨by rw [f, e1, e2], ?_⟩
  rw [f]
  simp only [decode_rsp_status, be_value, byte_at, List.getD_cons_succ, List.getD_cons_zero]
  omega

/-- Witness of C5 at the status 0xABCD. -/
theorem send_bnep_ctrl_rsp_roundtrip_witness :
    send_bnep_ctrl_rsp 0xABCD = [0x01, 0x02, 0xAB, 0xCD]
    ∧ decode_rsp_status (send_bnep_ctrl_rsp 0xABCD) = 0xABCD :=
  send_bnep_ctrl_rsp_roundtrip 0xABCD (by decide)

/-- A byte read behind the end of the buffer is 0. -/
theorem byte_at_beyond (mem : List Nat) (i : Nat) (h : mem.length ≤ i) : byte_at mem i = 0 := by
  unfold byte_at
  rw [List.getD_eq_default _ _ h]

/-- The extension walk does not depend on its bound once the bound reaches past the
end of the buffer: more iterations give the same frames. -/
theorem parse_extension_loop_fuel (mem : List Nat) :
    ∀ fuel ext k : Nat, mem.length < ext + fuel →
      parse_extension_loop (fuel + k) mem ext = parse_extension_loop fuel mem ext := by
  intro fuel
  induction fuel with
  | zero =>
    intro ext k h
    cases k with
    | zero => rfl
    | succ j =>
      have h0 : byte_at mem ext = 0 := byte_at_beyond mem ext (by omega)
      have h2 : byte_at mem (ext + 2) = 0 := byte_at_beyond mem (ext + 2) (by omega)
      simp [parse_extension_loop, ext_header_reply, h0, h2, BNEP_EXT_CONTROL,
        BNEP_FILTER_NET_TYPE_SET, BNEP_FILTER_MULT_ADDR_SET]
  | succ n ih =>
    intro ext k h
    have e : n + 1 + k = (n + k) + 1 := by omega
    rw [e]
    simp only [parse_extension_loop]
    rw [ih (ext + 2 + byte_at mem (ext + 1)) k (by omega)]

/-- A frame sent for one extension header is a filter response. -/
theorem ext_header_reply_frames (mem : List Nat) (ext : Nat) :
    ∀ f ∈ ext_header_reply mem ext,
      f = [0x01, 0x04, 0x00, 0x01] ∨ f = [0x01, 0x06, 0x00, 0x01] := by
  intro g hg
  simp only [ext_header_reply] at hg
  split_ifs at hg
  · left; rw [List.mem_singleton] at hg; rw [hg]; decide
  · right; rw [List.mem_singleton] at hg; rw [hg]; decide
  · simp at hg
  · simp at hg

/-- Every frame sent by the extension walk is a filter response (command 0x04 or
0x06), never a setup response. -/
theorem parse_extension_loop_frames (fuel : Nat) (mem : List Nat) (ext : Nat) :
    ∀ f ∈ parse_extension_loop fuel mem ext,
      f = [0x01, 0x04, 0x00, 0x01] ∨ f = [0x01, 0x06, 0x00, 0x01] := by
  induction fuel generalizing ext with
  | zero => intro f hf; simp [parse_extension_loop] at hf
  | succ k ih =>
    intro f hf
    simp only [parse_extension_loop] at hf
    by_cases c : byte_at mem ext &&& BNEP_EXT_HEADER ≠ 0
    · rw [if_pos c] at hf
      rcases List.mem_append.mp hf with h | h
      · exact ext_header_reply_frames mem ext f h
      · exact ih _ f h
    · rw [if_neg c] at hf
      exact ext_header_reply_frames mem ext f hf

/-- The code after the label `reply` sends exactly one setup response, and it
carries the code it was given. -/
theorem bnep_setup_reply_responses (sk : Nat) (packet : List Nat) (rsp : Nat) :
    setup_responses (bnep_setup_reply sk packet rsp) = [send_bnep_ctrl_rsp rsp]
    ∧ connected_signals (bnep_setup_reply sk packet rsp) = []
    ∧ ∀ e ∈ bnep_setup_reply sk packet rsp, is_send_on sk e = true := by
  have key : ∀ l : List (List Nat),
      (∀ f ∈ l, f = [0x01, 0x04, 0x00, 0x01] ∨ f = [0x01, 0x06, 0x00, 0x01]) →
      (l.map (effect.send sk)).filterMap setup_response_of = []
      ∧ (l.map (effect.send sk)).filterMap connected_signal_of = []
      ∧ ∀ e ∈ l.map (effect.send sk), is_send_on sk e = true := by
    intro l hl
    induction l with
    | nil => simp
    | cons a t ih =>
      have ha := hl a (List.mem_cons_self _ _)
      have ht := ih (fun f hf => hl f (List.mem_cons_of_mem _ hf))
      rcases ha with rfl | rfl <;>
        simp [setup_response_of, connected_signal_of, is_send_on, byte_at,
          BNEP_SETUP_CONN_RSP, ht.1, ht.2.1]
  have hrsp : setup_response_of (effect.send sk (send_bnep_ctrl_rsp rsp))
      = some (send_bnep_ctrl_rsp rsp) := by
    simp [setup_response_of, send_bnep_ctrl_rsp, bnep_control_rsp_bytes, store_u16, byte_at,
      BNEP_SETUP_CONN_RSP, BNEP_CONTROL]
  unfold bnep_setup_reply setup_responses connected_signals
  split_ifs with c
  · obtain ⟨k1, k2, k3⟩ := key _ (parse_extension_loop_frames _ packet (3 + 4))
    unfold parse_extension_data
    refine ⟨?_, ?_, ?_⟩
    · rw [List.filterMap_cons_some hrsp, k1]
    · rw [List.filterMap_cons_none (by rfl), k2]
    · intro e he
      rcases List.mem_cons.mp he with rfl | h
      · simp [is_send_on]
      · exact k3 e h
  · refine ⟨?_, ?_, ?_⟩
    · rw [List.filterMap_cons_some hrsp]; rfl
    · rfl
    · intro e he
      rw [List.mem_singleton] at he
      simp [he, is_send_on]

/-! ## The setup handler -/

/-- How `bnep_setup` handles a control frame whose type byte is exactly 0x01 and whose
command is above 0x06: the three bytes [0x01, 0x00, command] and nothing else. -/
theorem bnep_setup_cmd_not_understood (env : environment) (na : network_adapter)
    (chan cond : Nat) (packet : List Nat) (hc : cond_readable cond)
    (ht : byte_at packet 0 = 0x01) (hcmd : byte_at packet 1 > 0x06) :
    bnep_setup env na chan cond (some packet)
      = some ⟨na, [effect.send chan [0x01, 0x00, byte_at packet 1]]⟩ := by
  obtain ⟨h1, h2⟩ := hc
  simp only [bnep_setup, h1, h2, packet_req, ht, BNEP_CONTROL, BNEP_FILTER_MULT_ADDR_RSP,
    BNEP_CMD_NOT_UNDERSTOOD]
  simp [hcmd]

/-- C6, evaluated where the code departs from it: a control frame with the extension bit set
in its type byte (type 0x81) and the unknown command 0x07 gets no reply at all from
`bnep_setup`: the test for unknown commands compares the whole type byte with
0x01, while the next test masks the extension bit off. -/
theorem bnep_setup_unknown_cmd_with_ext_bit (env : environment) (na : network_adapter)
    (chan : Nat) :
    bnep_setup env na chan 1 (some [0x81, 0x07, 0x00, 0x00]) = some ⟨na, []⟩
    ∧ bnep_setup env na chan 1 (some [0x01, 0x07, 0x00, 0x00])
        = some ⟨na, [effect.send chan [0x01, 0x00, 0x07]]⟩ := by
  constructor
  · simp [bnep_setup, packet_req, byte_at, G_IO_NVAL, G_IO_ERR, G_IO_HUP, BNEP_CONTROL,
      BNEP_FILTER_MULT_ADDR_RSP, BNEP_TYPE_MASK, BNEP_SETUP_CONN_REQ]
  · exact bnep_setup_cmd_not_understood env na chan 1 [0x01, 0x07, 0x00, 0x00]
      (by decide) (by decide) (by decide)

/-- How `bnep_setup` handles a setup request that is rejected by the decoder or the
role check: the state is unchanged and the calls are those after the label
`reply`, with the rejecting code. -/
theorem bnep_setup_rejected (env : environment) (na : network_adapter) (chan cond : Nat)
    (packet : List Nat) (hc : cond_readable cond) (hreq : is_setup_req packet)
    (hrej : setup_reject_code (packet_req packet) env.uninit_dst_role env.uninit_src_role ≠ 0) :
    bnep_setup env na chan cond (some packet)
      = some ⟨na, bnep_setup_reply chan packet
          (setup_reject_code (packet_req packet) env.uninit_dst_role env.uninit_src_role)⟩ := by
  obtain ⟨h1, h2⟩ := hc
  obtain ⟨r1, r2⟩ := hreq
  have e1 : (packet_req packet).type = byte_at packet 0 := rfl
  have e2 : (packet_req packet).ctrl = byte_at packet 1 := rfl
  have n1 : ¬ ((packet_req packet).type = BNEP_CONTROL ∧
      (packet_req packet).ctrl > BNEP_FILTER_MULT_ADDR_RSP) := by
    rw [e2, r2]; intro h; exact absurd h.2 (by decide)
  have n2 : ¬ ((packet_req packet).type &&& BNEP_TYPE_MASK ≠ BNEP_CONTROL ∨
      (packet_req packet).ctrl ≠ BNEP_SETUP_CONN_REQ) := by
    rw [e1, e2]; intro h; rcases h with h | h
    · exact h r1
    · exact h r2
  unfold setup_reject_code at hrej ⊢
  simp only [bnep_setup, h1, h2, ne_eq, not_true_eq_false, if_false, n1, n2]
  by_cases c : (bnep_setup_decode (packet_req packet) env.uninit_dst_role
      env.uninit_src_role).1 = 0
  · simp only [c, ne_eq, not_true_eq_false, if_false] at hrej ⊢
    rw [if_pos hrej]
  · simp only [c, ne_eq, not_false_eq_true, if_true]

/-- C7: a setup request rejected by `bnep_setup_decode`, or failing that by
`bnep_setup_chk` on the decoded roles, is answered by `bnep_setup` with exactly one
setup response, carrying that code; every call made is a send on the socket (no
interface creation, no bridge attachment, no notification) and the adapter, with
its pending setup slot and the session sets of its servers, is unchanged. In
particular gateway to gateway (0x1116, 0x1116), in each of the three encodings, is
answered with invalid-source: the frame [0x01, 0x02, 0x00, 0x02]. -/
theorem bnep_setup_reject (env : environment) (na : network_adapter) (chan cond : Nat)
    (packet : List Nat) (hc : cond_readable cond) (hreq : is_setup_req packet)
    (hrej : setup_reject_code (packet_req packet) env.uninit_dst_role env.uninit_src_role ≠ 0) :
    (∃ log, bnep_setup env na chan cond (some packet) = some ⟨na, log⟩
      ∧ setup_responses log = [send_bnep_ctrl_rsp
          (setup_reject_code (packet_req packet) env.uninit_dst_role env.uninit_src_role)]
      ∧ connected_signals log = []
      ∧ ∀ e ∈ log, is_send_on chan e = true)
    ∧ (∀ size ∈ [2, 4, 16], ∀ tail : List Nat,
        bnep_setup env na chan cond (some ([0x01, 0x01, size]
            ++ (encode_role size 0x1116 ++ encode_role size 0x1116 ++ tail)))
          = some ⟨na, [effect.send chan [0x01, 0x02, 0x00, 0x02]]⟩) := by
  constructor
  · refine ⟨_, bnep_setup_rejected env na chan cond packet hc hreq hrej, ?_⟩
    exact bnep_setup_reply_responses chan packet _
  · intro size hsize tail
    have hdec : bnep_setup_decode (encode_setup_req 0x01 size 0x1116 0x1116 tail)
        env.uninit_dst_role env.uninit_src_role = (0, 0x1116, 0x1116) :=
      decode_encode_roles 0x01 0x1116 0x1116 tail _ _ (by decide) (by decide) size hsize
    have hp : packet_req ([0x01, 0x01, size]
        ++ (encode_role size 0x1116 ++ encode_role size 0x1116 ++ tail))
        = encode_setup_req 0x01 size 0x1116 0x1116 tail := by
      simp only [List.mem_cons, List.mem_singleton, List.not_mem_nil, or_false] at hsize
      rcases hsize with rfl | rfl | rfl <;> rfl
    have hcode : setup_reject_code (packet_req ([0x01, 0x01, size]
        ++ (encode_role size 0x1116 ++ encode_role size 0x1116 ++ tail)))
        env.uninit_dst_role env.uninit_src_role = 0x0002 := by
      rw [hp]; unfold setup_reject_code; rw [hdec]; rfl
    have hq : is_setup_req ([0x01, 0x01, size]
        ++ (encode_role size 0x1116 ++ encode_role size 0x1116 ++ tail)) := by
      simp [is_setup_req, byte_at, BNEP_TYPE_MASK, BNEP_CONTROL, BNEP_SETUP_CONN_REQ]
    have hr := bnep_setup_rejected env na chan cond _ hc hq (by rw [hcode]; decide)
    have h2 : send_bnep_ctrl_rsp 0x0002 = [0x01, 0x02, 0x00, 0x02] := by decide
    rw [hr, hcode]
    simp [bnep_setup_reply, packet_req, byte_at, BNEP_EXT_HEADER, h2]

/-- Witness of C7: gateway to gateway in the 2-byte encoding on the sample adapter,
and in the 16-byte encoding. -/
theorem bnep_setup_reject_witness :
    (∃ log, bnep_setup sample_env sample_adapter 5 1
          (some [0x01, 0x01, 2, 0x11, 0x16, 0x11, 0x16]) = some ⟨sample_adapter, log⟩
      ∧ setup_responses log = [send_bnep_ctrl_rsp (setup_reject_code
          (packet_req [0x01, 0x01, 2, 0x11, 0x16, 0x11, 0x16]) 0 0)]
      ∧ connected_signals log = []
      ∧ ∀ e ∈ log, is_send_on 5 e = true)
    ∧ bnep_setup sample_env sample_adapter 5 1 (some ([0x01, 0x01, 16]
          ++ (encode_role 16 0x1116 ++ encode_role 16 0x1116 ++ [])))
        = some ⟨sample_adapter, [effect.send 5 [0x01, 0x02, 0x00, 0x02]]⟩ :=
  ⟨(bnep_setup_reject sample_env sample_adapter 5 1 [0x01, 0x01, 2, 0x11, 0x16, 0x11, 0x16]
      (by decide) (by decide) (by decide)).1,
   (bnep_setup_reject sample_env sample_adapter 5 1 [0x01, 0x01, 2, 0x11, 0x16, 0x11, 0x16]
      (by decide) (by decide) (by decide)).2 16 (by decide) []⟩

/-- A setup request that decodes and passes the role check reaches the server lookup. -/
theorem bnep_setup_validated (env : environment) (na : network_adapter) (chan cond : Nat)
    (packet : List Nat) (hc : cond_readable cond) (hreq : is_setup_req packet)
    (hok : setup_reject_code (packet_req packet) env.uninit_dst_role env.uninit_src_role = 0) :
    bnep_setup env na chan cond (some packet)
      = bnep_setup_connect env na chan packet
          (bnep_setup_decode (packet_req packet) env.uninit_dst_role env.uninit_src_role).2.1 := by
  obtain ⟨h1, h2⟩ := hc
  obtain ⟨r1, r2⟩ := hreq
  have e1 : (packet_req packet).type = byte_at packet 0 := rfl
  have e2 : (packet_req packet).ctrl = byte_at packet 1 := rfl
  have n1 : ¬ ((packet_req packet).type = BNEP_CONTROL ∧
      (packet_req packet).ctrl > BNEP_FILTER_MULT_ADDR_RSP) := by
    rw [e2, r2]; intro h; exact absurd h.2 (by decide)
  have n2 : ¬ ((packet_req packet).type &&& BNEP_TYPE_MASK ≠ BNEP_CONTROL ∨
      (packet_req packet).ctrl ≠ BNEP_SETUP_CONN_REQ) := by
    rw [e1, e2]; intro h; rcases h with h | h
    · exact h r1
    · exact h r2
  unfold setup_reject_code at hok
  simp only [bnep_setup, h1, h2, ne_eq, not_true_eq_false, if_false, n1, n2]
  by_cases c : (bnep_setup_decode (packet_req packet) env.uninit_dst_role
      env.uninit_src_role).1 = 0
  · simp only [c, ne_eq, not_true_eq_false, if_false] at hok ⊢
    rw [if_neg (by rw [hok]; exact fun h => h rfl)]
  · simp only [c, ne_eq, not_false_eq_true, if_true] at hok

/-- The server returned by `find_server` has the id asked for. -/
theorem find_server_id (l : List network_server) (id : Nat) (ns : network_server)
    (h : find_server l id = some ns) : ns.id = id := by
  induction l with
  | nil => simp [find_server] at h
  | cons a t ih =>
    simp only [find_server] at h
    split_ifs at h with c
    · cases h; exact c
    · exact ih h

/-- After a store through the pointer returned by `find_server`, the lookup returns
the stored server. -/
theorem find_server_store (l : List network_server) (id : Nat) (ns ns1 : network_server)
    (h : find_server l id = some ns) (h1 : ns1.id = id) :
    find_server (store_server l id ns1) id = some ns1 := by
  induction l with
  | nil => simp [find_server] at h
  | cons a t ih =>
    simp only [find_server] at h
    simp only [store_server]
    split_ifs at h ⊢ with c
    · simp [find_server, h1]
    · simp [find_server, c, ih h]

/-- Storing back the server that `find_server` returned changes nothing. -/
theorem store_server_self (l : List network_server) (id : Nat) (ns : network_server)
    (h : find_server l id = some ns) : store_server l id ns = l := by
  induction l with
  | nil => rfl
  | cons a t ih =>
    simp only [find_server] at h
    simp only [store_server]
    split_ifs at h ⊢ with c
    · cases h; rfl
    · rw [ih h]

/-- What `server_connadd` does for a session with a channel on a server with a bridge
name: it fails exactly when interface creation fails or (bridging compiled in) the
bridge attachment fails, and then leaves the server as it was and emits nothing;
otherwise it returns 0, appends the session and emits one DeviceConnected. -/
theorem server_connadd_spec (env : environment) (ns : network_server)
    (session : network_session) (dst_role nsk : Nat) (bridge : String)
    (hio : session.io = some nsk) (hbr : ns.bridge = some bridge) :
    ∃ ret ns1 calls, server_connadd env ns session dst_role = some (ret, ns1, calls)
      ∧ setup_responses calls = []
      ∧ (ret < 0 ↔ (env.connadd_err < 0 ∨
            (env.android_no_bridge = false ∧ env.add_to_bridge < 0)))
      ∧ (ret < 0 → ns1 = ns ∧ connected_signals calls = [])
      ∧ (¬ ret < 0 →
          ns1 = { ns with sessions := ns.sessions ++ [{ session with io_watch := env.watch_id }] }
          ∧ connected_signals calls = [(session.dst, env.devname, dst_role)]) := by
  unfold server_connadd
  simp only [hio, hbr]
  by_cases c1 : env.connadd_err < 0
  · simp only [c1, if_true]
    exact ⟨_, _, _, rfl, rfl, by simp [c1], fun _ => ⟨rfl, rfl⟩, fun h => absurd c1 h⟩
  · simp only [c1, if_false]
    cases hb : env.android_no_bridge
    · simp only [Bool.false_eq_true, if_false]
      by_cases c2 : env.add_to_bridge < 0
      · simp only [c2, if_true]
        refine ⟨_, _, _, rfl, rfl, ?_, fun _ => ⟨rfl, rfl⟩, fun h => absurd ?_ h⟩
        · simp [c2, EPERM]
        · simp [EPERM]
      · simp only [c2, if_false]
        refine ⟨_, _, _, rfl, rfl, ?_, fun h => absurd h (by decide), fun _ => ⟨rfl, rfl⟩⟩
        simp [c1, c2]
    · simp only [if_true]
      have c0 : ¬ ((0 : Int) < 0) := by decide
      simp only [c0, if_false]
      refine ⟨_, _, _, rfl, rfl, ?_, fun h => absurd h (by decide), fun _ => ⟨rfl, rfl⟩⟩
      simp [c1]

/-- Filtering a log for setup responses distributes over concatenation. -/
theorem setup_responses_append (a b : List effect) :
    setup_responses (a ++ b) = setup_responses a ++ setup_responses b := by
  simp [setup_responses, List.filterMap_append]

/-- Filtering a log for DeviceConnected notifications distributes over concatenation. -/
theorem connected_signals_append (a b : List effect) :
    connected_signals (a ++ b) = connected_signals a ++ connected_signals b := by
  simp [connected_signals, List.filterMap_append]

/-- The outcome of `bnep_setup_connect` when a setup with a channel is pending: one
setup response; not-allowed with the adapter unchanged when the request is refused,
success with the session handed over to the server otherwise. -/
theorem bnep_setup_connect_spec (env : environment) (na : network_adapter) (sk : Nat)
    (packet : List Nat) (dst_role : Nat) (session : network_session) (nsk : Nat)
    (hsetup : na.setup = some session) (hio : session.io = some nsk) :
    ∃ o, bnep_setup_connect env na sk packet dst_role = some o
      ∧ (setup_refused env na session dst_role →
          setup_responses o.log = [send_bnep_ctrl_rsp 0x0004]
          ∧ o.na = na ∧ connected_signals o.log = [])
      ∧ (¬ setup_refused env na session dst_role →
          setup_responses o.log = [send_bnep_ctrl_rsp 0x0000]
          ∧ o.na.setup = none
          ∧ connected_signals o.log = [(session.dst, env.devname, dst_role)]
          ∧ ∃ ns, find_server na.servers dst_role = some ns
              ∧ find_server o.na.servers dst_role = some { ns with sessions :=
                  ns.sessions ++ [{ session with io_watch := env.watch_id }] }) := by
  have hr := bnep_setup_reply_responses sk packet
  unfold bnep_setup_connect setup_refused
  cases hns : find_server na.servers dst_role with
  | none =>
    simp only []
    exact ⟨_, rfl, fun _ => ⟨(hr _).1, rfl, (hr _).2.1⟩, fun h => absurd trivial h⟩
  | some ns =>
    simp only []
    by_cases c1 : ns.record_id = 0
    · simp only [c1, if_true, true_or]
      exact ⟨_, rfl, fun _ => ⟨(hr _).1, rfl, (hr _).2.1⟩, fun h => absurd trivial h⟩
    · cases hbr : ns.bridge with
      | none =>
        simp only [c1, if_false, if_true, true_or, or_true]
        exact ⟨_, rfl, fun _ => ⟨(hr _).1, rfl, (hr _).2.1⟩, fun h => absurd trivial h⟩
      | some bridge =>
        obtain ⟨ret, ns1, calls, hc, hs, _, hfail, hok⟩ :=
          server_connadd_spec env ns session dst_role nsk bridge hio hbr
        simp only [c1, if_false, hsetup, hc, false_or, reduceCtorEq]
        by_cases c2 : ret < 0
        · obtain ⟨e1, e2⟩ := hfail c2
          simp only [c2, if_true]
          refine ⟨_, rfl, fun _ => ⟨?_, ?_, ?_⟩, fun h => absurd trivial h⟩
          · rw [setup_responses_append, hs, (hr _).1]; rfl
          · subst e1
            rw [store_server_self _ _ _ hns, ← hsetup]
          · rw [connected_signals_append, e2, (hr _).2.1]; rfl
        · obtain ⟨e1, e2⟩ := hok c2
          simp only [c2, if_false]
          refine ⟨_, rfl, fun h => h.elim, fun _ => ⟨?_, rfl, ?_, ns, rfl, ?_⟩⟩
          · rw [setup_responses_append, hs, (hr _).1]; rfl
          · rw [connected_signals_append, e2, (hr _).2.1]; rfl
          · subst e1
            exact find_server_store _ _ ns _ hns (find_server_id na.servers dst_role ns hns)

/-- C8: a setup request for destination gateway (0x1116) from source client (0x1115),
when the gateway server of the adapter has a non-zero record id and a bridge name,
a setup is pending, and interface creation and bridge attachment succeed: `bnep_setup`
sends the success response [0x01, 0x02, 0x00, 0x00], the pending session is appended
to the session list of that server, the setup slot of the adapter becomes empty, and
exactly one DeviceConnected is emitted, carrying the peer address, the interface
name and the destination role. -/
theorem bnep_setup_success (env : environment) (na : network_adapter) (chan cond : Nat)
    (packet : List Nat) (ns : network_server) (session : network_session) (nsk : Nat)
    (bridge : String)
    (hc : cond_readable cond) (hreq : is_setup_req packet)
    (hdec : bnep_setup_decode (packet_req packet) env.uninit_dst_role env.uninit_src_role
      = (0, 0x1116, 0x1115))
    (hns : find_server na.servers 0x1116 = some ns)
    (hrec : ns.record_id ≠ 0) (hbr : ns.bridge = some bridge)
    (hsetup : na.setup = some session) (hio : session.io = some nsk)
    (hconn : 0 ≤ env.connadd_err)
    (hbridge : env.android_no_bridge = true ∨ 0 ≤ env.add_to_bridge) :
    ∃ o, bnep_setup env na chan cond (some packet) = some o
      ∧ setup_responses o.log = [[0x01, 0x02, 0x00, 0x00]]
      ∧ find_server o.na.servers 0x1116 = some { ns with sessions :=
          ns.sessions ++ [{ session with io_watch := env.watch_id }] }
      ∧ o.na.setup = none
      ∧ connected_signals o.log = [(session.dst, env.devname, 0x1116)] := by
  have hok : setup_reject_code (packet_req packet) env.uninit_dst_role env.uninit_src_role
      = 0 := by
    unfold setup_reject_code; rw [hdec]; rfl
  have hv := bnep_setup_validated env na chan cond packet hc hreq hok
  rw [hdec] at hv
  obtain ⟨o, ho, _, hacc⟩ :=
    bnep_setup_connect_spec env na chan packet 0x1116 session nsk hsetup hio
  obtain ⟨ret, ns1, calls, hcall, _, hiff, _, _⟩ :=
    server_connadd_spec env ns session 0x1116 nsk bridge hio hbr
  have hnot : ¬ setup_refused env na session 0x1116 := by
    simp only [setup_refused, hns, hcall, hbr, hiff, reduceCtorEq, false_or]
    intro h
    rcases h with h | h | ⟨h1, h2⟩
    · exact hrec h
    · omega
    · rcases hbridge with hb | hb
      · rw [hb] at h1; exact absurd h1 (by decide)
      · omega
  obtain ⟨r1, r2, r3, ns0, hn0, hn1⟩ := hacc hnot
  have e : ns0 = ns := by rw [hns] at hn0; exact (Option.some.inj hn0).symm
  subst e
  exact ⟨o, by rw [hv]; exact ho, r1, hn1, r2, r3⟩

/-- Witness of C8 on the sample adapter, with the 2-byte encoding of (gateway, client). -/
theorem bnep_setup_success_witness :
    ∃ o, bnep_setup sample_env sample_adapter 5 1
          (some [0x01, 0x01, 2, 0x11, 0x16, 0x11, 0x15]) = some o
      ∧ setup_responses o.log = [[0x01, 0x02, 0x00, 0x00]]
      ∧ find_server o.na.servers 0x1116 = some { sample_server with sessions :=
          sample_server.sessions ++ [{ sample_session with io_watch := sample_env.watch_id }] }
      ∧ o.na.setup = none
      ∧ connected_signals o.log = [(sample_session.dst, sample_env.devname, 0x1116)] :=
  bnep_setup_success sample_env sample_adapter 5 1 [0x01, 0x01, 2, 0x11, 0x16, 0x11, 0x15]
    sample_server sample_session 5 "pan0" (by decide) (by decide) (by decide) rfl (by decide)
    rfl rfl rfl (by decide) (Or.inr (by decide))

/-- C9: for a setup request that decodes and passes the role check, with a setup
pending, `bnep_setup` sends one setup response: not-allowed [0x01, 0x02, 0x00, 0x04],
with no session added and the adapter unchanged, whenever no server is registered
for the destination role, or its record id is 0, or its bridge name is unset, or
`server_connadd` fails; and success [0x01, 0x02, 0x00, 0x00] exactly when none of
these holds. -/
theorem bnep_setup_not_allowed (env : environment) (na : network_adapter) (chan cond : Nat)
    (packet : List Nat) (session : network_session) (nsk : Nat)
    (hc : cond_readable cond) (hreq : is_setup_req packet)
    (hok : setup_reject_code (packet_req packet) env.uninit_dst_role env.uninit_src_role = 0)
    (hsetup : na.setup = some session) (hio : session.io = some nsk) :
    ∃ o, bnep_setup env na chan cond (some packet) = some o
      ∧ (setup_refused env na session
            (bnep_setup_decode (packet_req packet) env.uninit_dst_role
              env.uninit_src_role).2.1 →
          setup_responses o.log = [[0x01, 0x02, 0x00, 0x04]]
          ∧ o.na = na ∧ connected_signals o.log = [])
      ∧ (setup_responses o.log = [[0x01, 0x02, 0x00, 0x00]] ↔
          ¬ setup_refused env na session
            (bnep_setup_decode (packet_req packet) env.uninit_dst_role
              env.uninit_src_role).2.1) := by
  have hv := bnep_setup_validated env na chan cond packet hc hreq hok
  obtain ⟨o, ho, hrefused, hacc⟩ := bnep_setup_connect_spec env na chan packet
    (bnep_setup_decode (packet_req packet) env.uninit_dst_role env.uninit_src_role).2.1
    session nsk hsetup hio
  refine ⟨o, by rw [hv]; exact ho, hrefused, ?_, fun h => (hacc h).1⟩
  intro h hr
  have h4 := (hrefused hr).1
  rw [h] at h4
  exact absurd h4 (by decide)

/-- Witness of C9: on the sample adapter, interface creation failing (error -1). -/
theorem bnep_setup_not_allowed_witness :
    ∃ o, bnep_setup { sample_env with connadd_err := -1 } sample_adapter 5 1
          (some [0x01, 0x01, 2, 0x11, 0x16, 0x11, 0x15]) = some o
      ∧ (setup_refused { sample_env with connadd_err := -1 } sample_adapter sample_session
            (bnep_setup_decode (packet_req [0x01, 0x01, 2, 0x11, 0x16, 0x11, 0x15]) 0 0).2.1 →
          setup_responses o.log = [[0x01, 0x02, 0x00, 0x04]]
          ∧ o.na = sample_adapter ∧ connected_signals o.log = [])
      ∧ (setup_responses o.log = [[0x01, 0x02, 0x00, 0x00]] ↔
          ¬ setup_refused { sample_env with connadd_err := -1 } sample_adapter sample_session
            (bnep_setup_decode (packet_req [0x01, 0x01, 2, 0x11, 0x16, 0x11, 0x15]) 0 0).2.1) :=
  bnep_setup_not_allowed { sample_env with connadd_err := -1 } sample_adapter 5 1
    [0x01, 0x01, 2, 0x11, 0x16, 0x11, 0x15] sample_session 5
    (by decide) (by decide) (by decide) rfl rfl

/-! ## Incoming connections -/

/-- With a setup pending, `confirm_event` drops the connection and changes nothing. -/
theorem confirm_event_pending (env : environment) (na : network_adapter) (chan : Nat)
    (s : network_session) (h : na.setup = some s) :
    confirm_event env na chan = ⟨na, [effect.g_io_channel_shutdown chan]⟩ := by
  unfold confirm_event
  by_cases c : env.bt_io_get_err = true
  · simp [c]
  · simp [c, h]

/-- C10: if a setup is pending, `confirm_event` shuts the new channel down, requests no
authorization and leaves the adapter, with its pending setup, unchanged; if none is
pending but the gateway server has record id 0 or no bridge name, the connection is
dropped in the same way and no setup is created. Hence over any run of incoming
connections a pending setup stays the one in flight (every connection of the run is
dropped), and `confirm_event` changes the setup slot only when it was empty. -/
theorem confirm_event_single_setup (env : environment) (na : network_adapter) (chan : Nat) :
    (∀ s, na.setup = some s →
      confirm_event env na chan = ⟨na, [effect.g_io_channel_shutdown chan]⟩)
    ∧ (na.setup = none → ∀ ns, find_server na.servers 0x1116 = some ns →
        (ns.record_id = 0 ∨ ns.bridge = none) →
        confirm_event env na chan = ⟨na, [effect.g_io_channel_shutdown chan]⟩)
    ∧ (∀ s, na.setup = some s → ∀ events : List (environment × Nat),
        confirm_events events na
          = ⟨na, events.map (fun ec => effect.g_io_channel_shutdown ec.2)⟩)
    ∧ ((confirm_event env na chan).na.setup ≠ na.setup → na.setup = none) := by
  refine ⟨confirm_event_pending env na chan, ?_, ?_, ?_⟩
  · intro h ns hns hbad
    unfold confirm_event
    by_cases c : env.bt_io_get_err = true
    · simp [c]
    · have hns1 : find_server na.servers BNEP_SVC_NAP = some ns := hns
      simp only [c, h, hns1, Option.isSome_none, Bool.false_eq_true, if_false]
      rcases hbad with hb | hb
      · simp [hb]
      · simp [hb]
  · intro s h events
    induction events with
    | nil => rfl
    | cons ec rest ih =>
      obtain ⟨e, c⟩ := ec
      simp only [confirm_events, confirm_event_pending e na c s h, ih, List.map_cons,
        List.singleton_append]
  · intro hne
    cases hs : na.setup with
    | none => rfl
    | some s =>
      rw [confirm_event_pending env na chan s hs] at hne
      exact absurd rfl hne

/-- Witness of C10: a second connection (channel 9) while the sample setup is pending;
a connection to an adapter whose gateway server has record id 0; and three
connections in a row while the sample setup is pending. -/
theorem confirm_event_single_setup_witness :
    confirm_event sample_env sample_adapter 9
      = ⟨sample_adapter, [effect.g_io_channel_shutdown 9]⟩
    ∧ confirm_event sample_env
        { sample_adapter with setup := none,
                              servers := [{ sample_server with record_id := 0 }] } 9
      = ⟨{ sample_adapter with setup := none,
                               servers := [{ sample_server with record_id := 0 }] },
         [effect.g_io_channel_shutdown 9]⟩
    ∧ confirm_events [(sample_env, 9), (sample_env, 10), (sample_env, 11)] sample_adapter
      = ⟨sample_adapter, [effect.g_io_channel_shutdown 9, effect.g_io_channel_shutdown 10,
          effect.g_io_channel_shutdown 11]⟩ :=
  ⟨(confirm_event_single_setup sample_env sample_adapter 9).1 sample_session rfl,
   (confirm_event_single_setup sample_env
      { sample_adapter with setup := none,
                            servers := [{ sample_server with record_id := 0 }] } 9).2.1
      rfl { sample_server with record_id := 0 } (by decide) (Or.inl rfl),
   (confirm_event_single_setup sample_env sample_adapter 9).2.2.1 sample_session rfl
      [(sample_env, 9), (sample_env, 10), (sample_env, 11)]⟩

/-- C25: a control header without data, followed by a last header of type 3, carries
no filter-set command and the specification gives no response for the chain, but
`parse_extension_data` reads the byte after the header as the command and sends a
net-type filter response: `bnep_setup` on the sample adapter, after the five calls
that set the connection up, sends the setup response and then that response. -/
theorem parse_extension_data_empty_control :
    chain_fits [⟨0x80, []⟩, ⟨0x03, []⟩]
    ∧ chain_reply [⟨0x80, []⟩, ⟨0x03, []⟩] = []
    ∧ parse_extension_data sample_frame_empty_control (3 + 2 * 2)
        = [[0x01, 0x04, 0x00, 0x01]]
    ∧ (bnep_setup sample_env sample_adapter 5 1 (some sample_frame_empty_control)).map
        (fun o => o.log.drop 5)
        = some [effect.send 5 [0x01, 0x02, 0x00, 0x00],
            effect.send 5 [0x01, 0x04, 0x00, 0x01]] := by
  refine ⟨?_, by decide, by decide, by decide⟩
  intro h hh
  simp only [List.mem_cons, List.mem_singleton, List.not_mem_nil, or_false] at hh
  rcases hh with rfl | rfl <;> simp

/-- C26: for a setup request with four-byte roles the walk of `bnep_setup` starts at
frame offset 7, inside the source role, and not at offset 3 + 2 × 4 = 11 where the
extension header is: the filter-set command of the header gets no response, and
`bnep_setup` on the sample adapter, after the five calls that set the connection up,
sends the setup response only. -/
theorem bnep_setup_uuid32_walk :
    (packet_req sample_frame_uuid32).uuid_size = 4
    ∧ parse_extension_data sample_frame_uuid32 (3 + 2 * 4) = [[0x01, 0x04, 0x00, 0x01]]
    ∧ (bnep_setup sample_env sample_adapter 5 1 (some sample_frame_uuid32)).map
        (fun o => o.log.drop 5)
        = some [effect.send 5 [0x01, 0x02, 0x00, 0x00]] := by
  refine ⟨by decide, by decide, by decide⟩

/-- C28: when the watch of the established session of `sample_server_connected`
fires, `bnep_watchdog_cb` emits the notification and releases the session, and the
list of sessions of the server still holds the entry of the released session. -/
theorem bnep_watchdog_cb_keeps_session :
    (bnep_watchdog_cb true sample_server_connected 5).2
      = [effect.emit_DeviceDisconnected 0xAABBCCDDEEFF, effect.g_io_channel_shutdown 5,
          effect.g_io_channel_unref 5, effect.g_source_remove 7]
    ∧ (bnep_watchdog_cb true sample_server_connected 5).1.sessions
      = [{ sample_session with io := none }]
    ∧ find_session_by_addr (bnep_watchdog_cb true sample_server_connected 5).1.sessions
        0xAABBCCDDEEFF = some { sample_session with io := none } := by
  refine ⟨by decide, by decide, by decide⟩

/-- A byte of the second part of a buffer. -/
theorem byte_at_append (pre rest : List Nat) (i : Nat) :
    byte_at (pre ++ rest) (pre.length + i) = byte_at rest i := by
  simp [byte_at, List.getD_eq_getElem?_getD, List.getElem?_append_right]

set_option maxRecDepth 100000 in
/-- The extension bit of a type byte. -/
theorem ext_bit_iff (t : Nat) (h : t < 256) : t &&& BNEP_EXT_HEADER ≠ 0 ↔ 128 ≤ t % 256 := by
  have key : ∀ x : Fin 256, x.val &&& 128 ≠ 0 ↔ 128 ≤ x.val % 256 := by decide
  exact key ⟨t, h⟩

/-- The low seven bits of a type byte. -/
theorem type_mask_eq (t : Nat) : t &&& BNEP_TYPE_MASK = t % 128 :=
  Nat.and_pow_two_sub_one_eq_mod t 7

/-- On a header of a chain whose control headers carry data, the `switch` of
`parse_extension_data` sends what the specification gives for the header. -/
theorem ext_header_reply_chain (pre : List Nat) (h : ext_header) (rest : List Nat)
    (ht : h.type < 256) (hb : ∀ b ∈ h.data, b < 256)
    (hd : h.type % 128 = 0 → h.data ≠ []) :
    ext_header_reply (pre ++ h.type :: h.data.length :: (h.data ++ rest)) pre.length
      = header_reply h := by
  have b0 : byte_at (pre ++ h.type :: h.data.length :: (h.data ++ rest)) pre.length = h.type := by
    have := byte_at_append pre (h.type :: h.data.length :: (h.data ++ rest)) 0
    simp only [Nat.add_zero] at this
    rw [this]
    simp [byte_at, Nat.mod_eq_of_lt ht]
  unfold ext_header_reply header_reply
  simp only [b0, type_mask_eq, BNEP_EXT_CONTROL]
  by_cases hc : h.type % 128 = 0
  · simp only [if_pos hc]
    have hne := hd hc
    cases hdat : h.data with
    | nil => exact absurd hdat hne
    | cons d ds =>
      have hdlt : d < 256 := hb d (by rw [hdat]; exact List.mem_cons_self d ds)
      have b2 : byte_at (pre ++ h.type :: (d :: ds).length :: ((d :: ds) ++ rest))
          (pre.length + 2) = d := by
        rw [byte_at_append]
        simp [byte_at, Nat.mod_eq_of_lt hdlt]
      rw [b2]
      by_cases h3 : d = 3
      · subst h3; rfl
      · by_cases h5 : d = 5
        · subst h5; rfl
        · simp only [BNEP_FILTER_NET_TYPE_SET, BNEP_FILTER_MULT_ADDR_SET, if_neg h3, if_neg h5]
          split
          · rename_i heq; simp only [List.cons.injEq] at heq; exact absurd heq.1 h3
          · rename_i heq; simp only [List.cons.injEq] at heq; exact absurd heq.1 h5
          · rfl
  · simp only [if_neg hc]

/-- The loop of `parse_extension_data` over a chain whose control headers carry data,
with enough iterations to reach the end of the buffer. -/
theorem parse_extension_loop_chain :
    ∀ (chain : List ext_header) (pre : List Nat) (fuel : Nat),
      chain_fits chain → (∀ h ∈ chain, h.type % 128 = 0 → h.data ≠ []) →
      (pre ++ encode_chain chain).length < pre.length + fuel →
      parse_extension_loop fuel (pre ++ encode_chain chain) pre.length = chain_reply chain := by
  intro chain
  induction chain with
  | nil =>
    intro pre fuel _ _ hf
    simp only [encode_chain, List.append_nil] at hf ⊢
    cases fuel with
    | zero => omega
    | succ n =>
      have h0 : byte_at pre pre.length = 0 := byte_at_beyond pre pre.length (by omega)
      have h2 : byte_at pre (pre.length + 2) = 0 := byte_at_beyond pre (pre.length + 2) (by omega)
      simp [parse_extension_loop, ext_header_reply, h0, h2, BNEP_EXT_CONTROL,
        BNEP_FILTER_NET_TYPE_SET, BNEP_FILTER_MULT_ADDR_SET, chain_reply]
  | cons h rest ih =>
    intro pre fuel hfit hdata hf
    obtain ⟨ht, hl, hb⟩ := hfit h (List.mem_cons_self h rest)
    cases fuel with
    | zero => simp only [List.length_append] at hf; omega
    | succ n =>
      have b0 : byte_at (pre ++ h.type :: h.data.length :: (h.data ++ encode_chain rest))
          pre.length = h.type := by
        have := byte_at_append pre (h.type :: h.data.length :: (h.data ++ encode_chain rest)) 0
        simp only [Nat.add_zero] at this
        rw [this]
        simp [byte_at, Nat.mod_eq_of_lt ht]
      have b1 : byte_at (pre ++ h.type :: h.data.length :: (h.data ++ encode_chain rest))
          (pre.length + 1) = h.data.length := by
        rw [byte_at_append]
        simp [byte_at, Nat.mod_eq_of_lt hl]
      simp only [encode_chain, parse_extension_loop, chain_reply]
      rw [ext_header_reply_chain pre h (encode_chain rest) ht hb
        (hdata h (List.mem_cons_self h rest)), b0, b1]
      by_cases hx : 128 ≤ h.type % 256
      · rw [if_pos ((ext_bit_iff h.type ht).mpr hx), if_pos hx]
        have e : pre ++ h.type :: h.data.length :: (h.data ++ encode_chain rest)
            = (pre ++ h.type :: h.data.length :: h.data) ++ encode_chain rest := by simp
        have l : pre.length + 2 + h.data.length
            = (pre ++ h.type :: h.data.length :: h.data).length := by
          simp only [List.length_append, List.length_cons]; omega
        rw [e, l]
        rw [ih (pre ++ h.type :: h.data.length :: h.data) n
          (fun g hg => hfit g (List.mem_cons_of_mem h hg))
          (fun g hg => hdata g (List.mem_cons_of_mem h hg))
          (by
            simp only [encode_chain, List.length_append, List.length_cons] at hf ⊢
            omega)]
      · rw [if_neg (fun c => hx ((ext_bit_iff h.type ht).mp c)), if_neg hx, List.append_nil]

/-- On a buffer that ends with a chain of extension headers whose control headers
carry at least one data byte, `parse_extension_data` started at the chain sends what
the specification gives: the headers are visited in order while the top type bit is
set and every filter-set command is answered with status unsupported. -/
theorem parse_extension_data_chain (pre : List Nat) (chain : List ext_header)
    (hfit : chain_fits chain) (hdata : ∀ h ∈ chain, h.type % 128 = 0 → h.data ≠ []) :
    parse_extension_data (pre ++ encode_chain chain) pre.length = chain_reply chain :=
  parse_extension_loop_chain chain pre _ hfit hdata (by omega)

end NetworkServer

namespace Device

/-! ## One request of each kind -/

/-- C11: while a browse request is active `device_browse_sdp` and
`device_browse_primary` return -EBUSY, while a bonding request is active
`device_create_bonding` returns the in-progress error, and while an authentication
request is active `device_request_authentication` returns -EALREADY; in each case no
call is made (no search, no pairing, no agent call) and the device, with the request
it holds, is unchanged. -/
theorem request_in_progress (env : environment) (device : btd_device) (conn : Option Nat)
    (msg : Option DBusMessage) (search : Option Nat) (flag : Bool) (bconn : Nat)
    (bmsg : DBusMessage) (agent_path : Option String) (capability : Nat)
    (type : auth_type_t) (passkey : Nat) (cb : Option Nat) :
    (device.browse.isSome →
      device_browse_sdp env device conn msg search flag = (-16, device, [])
      ∧ device_browse_primary env device conn msg flag = (-16, device, []))
    ∧ (device.bonding.isSome →
      device_create_bonding env device bconn bmsg agent_path capability
        = (some (dbus_reply.error bmsg "org.bluez.Error.InProgress" "In Progress"),
            device, []))
    ∧ (device.authr.isSome →
      device_request_authentication env device type passkey cb = (-114, device, [])) := by
  refine ⟨fun h => ⟨?_, ?_⟩, fun h => ?_, fun h => ?_⟩
  · simp [device_browse_sdp, h, EBUSY]
  · simp [device_browse_primary, h, EBUSY]
  · simp only [device_create_bonding, h, if_true]
    rfl
  · simp [device_request_authentication, h, EALREADY]

/-! ## Records of a browse -/

/-- The function `rec_cmp` returns 0 exactly when the 32-bit handles are equal. -/
theorem rec_cmp_eq_zero (r1 r2 : sdp_record) (h1 : r1.handle < 2 ^ 32)
    (h2 : r2.handle < 2 ^ 32) : rec_cmp r1 r2 = 0 ↔ r1.handle = r2.handle := by
  unfold rec_cmp
  rw [Nat.mod_eq_of_lt h1, Nat.mod_eq_of_lt h2]
  norm_num at h1 h2 ⊢
  split_ifs with c <;> constructor <;> intro h <;> omega

/-- The duplicate check of `update_services` finds a record exactly when its handle is
among the handles accumulated. -/
theorem sdp_list_find_none (records : List sdp_record) (rec : sdp_record)
    (hr : ∀ r ∈ records, r.handle < 2 ^ 32) (h : rec.handle < 2 ^ 32) :
    sdp_list_find records rec rec_cmp = none ↔ rec.handle ∉ records.map (fun r => r.handle) := by
  unfold sdp_list_find
  rw [List.find?_eq_none]
  simp only [List.mem_map, not_exists, not_and, decide_eq_true_eq]
  constructor
  · intro hh r hr1 he
    exact hh r hr1 ((rec_cmp_eq_zero r rec (hr r hr1) h).mpr he)
  · intro hh r hr1 he
    exact hh r hr1 ((rec_cmp_eq_zero r rec (hr r hr1) h).mp he)

/-- One call of `update_services` keeps the accumulated handles 32-bit and pairwise
different. -/
theorem update_services_inv (uuids : List cstring) :
    ∀ (recs : List (Option sdp_record)) (req : browse_req),
      (∀ r ∈ req.records, r.handle < 2 ^ 32) →
      (req.records.map (fun r => r.handle)).Nodup →
      (∀ rec, some rec ∈ recs → rec.handle < 2 ^ 32) →
      (∀ x ∈ (update_services uuids req recs).1.records, x.handle < 2 ^ 32)
      ∧ ((update_services uuids req recs).1.records.map (fun r => r.handle)).Nodup := by
  intro recs
  induction recs with
  | nil => intro req hb hn _; exact ⟨hb, hn⟩
  | cons o seq ih =>
    intro req hb hn hrecs
    have hseq : ∀ rec, some rec ∈ seq → rec.handle < 2 ^ 32 :=
      fun rec h => hrecs rec (List.mem_cons_of_mem _ h)
    cases o with
    | none => exact ⟨hb, hn⟩
    | some rec =>
      have hrec : rec.handle < 2 ^ 32 := hrecs rec (List.mem_cons_self _ _)
      unfold update_services
      split
      · exact ih req hb hn hseq
      · exact ih req hb hn hseq
      · exact ih req hb hn hseq
      · rename_i profile_uuid svcclass2 _
        split
        · exact ih req hb hn hseq
        · rename_i hfind
          have hnot := (sdp_list_find_none req.records rec hb hrec).mp hfind
          apply ih
          · intro r hr
            rcases List.mem_append.mp hr with h | h
            · exact hb r h
            · rw [List.mem_singleton] at h; rw [h]; exact hrec
          · simp only [List.map_append, List.map_cons, List.map_nil]
            rw [List.nodup_append]
            refine ⟨hn, List.nodup_singleton _, ?_⟩
            intro a ha hb2
            rw [List.mem_singleton] at hb2
            rw [hb2] at ha
            exact hnot ha
          · exact hseq

/-- The function `strcmp` returns 0 exactly on equal strings. -/
theorem strcmp_eq_zero : ∀ (a b : cstring), strcmp a b = 0 ↔ a = b := by
  intro a
  induction a with
  | nil =>
    intro b
    cases b with
    | nil => simp [strcmp]
    | cons y r => simp [strcmp]
  | cons x l ih =>
    intro b
    cases b with
    | nil => simp [strcmp]
    | cons y r =>
      simp only [strcmp]
      by_cases c : x = y
      · simp [c, ih r]
      · simp only [c, if_false, List.cons.injEq, false_and, iff_false]
        omega

/-- The lookup of a profile among the known ids with `strcmp`: it fails exactly when
the profile is not known, and what it finds is the profile. -/
theorem find_strcmp (uuids : List cstring) (u : cstring) :
    (u ∉ uuids → g_slist_find_custom uuids u strcmp = none)
    ∧ (u ∈ uuids → g_slist_find_custom uuids u strcmp = some u) := by
  unfold g_slist_find_custom
  constructor
  · intro h
    rw [List.find?_eq_none]
    intro e he
    simp only [decide_eq_true_eq, strcmp_eq_zero]
    intro hh
    exact h (hh ▸ he)
  · intro h
    induction uuids with
    | nil => simp at h
    | cons a t ih =>
      simp only [List.find?_cons]
      by_cases c : a = u
      · simp [c, (strcmp_eq_zero u u).mpr rfl]
      · have hne : ¬ strcmp a u = 0 := fun hh => c ((strcmp_eq_zero a u).mp hh)
        simp only [hne, decide_False]
        exact ih (by
          rcases List.mem_cons.mp h with h1 | h1
          · exact absurd h1.symm c
          · exact h1)

/-- What `update_services` accumulates from records that carry one service class each
and whose handles are new and pairwise different: the classes not known, in order, are
appended to `profiles_added`; the classes known are taken out of `profiles_removed`. -/
theorem update_services_single (P : List cstring) :
    ∀ (recs : List sdp_record) (ids : List cstring) (req : browse_req),
      recs.map (fun r => r.svclass) = ids.map (fun u => some [some u]) →
      (∀ r ∈ req.records, r.handle < 2 ^ 32) →
      (∀ r ∈ recs, r.handle < 2 ^ 32) →
      ((req.records ++ recs).map (fun r => r.handle)).Nodup →
      (update_services P req (recs.map some)).1.profiles_added
          = req.profiles_added ++ ids.filter (fun u => decide (u ∉ P))
      ∧ (update_services P req (recs.map some)).1.profiles_removed
          = (ids.filter (fun u => decide (u ∈ P))).foldl List.erase req.profiles_removed := by
  intro recs
  induction recs with
  | nil =>
    intro ids req h _ _ _
    cases ids with
    | nil => simp [update_services]
    | cons u t => simp at h
  | cons rec seq ih =>
    intro ids req h hb hr hn
    cases ids with
    | nil => simp at h
    | cons u t =>
      simp only [List.map_cons, List.cons.injEq] at h
      obtain ⟨hc, ht⟩ := h
      have hrec : rec.handle < 2 ^ 32 := hr rec (List.mem_cons_self _ _)
      have hnew : rec.handle ∉ req.records.map (fun r => r.handle) := by
        intro hin
        rw [List.map_append, List.map_cons] at hn
        have := (List.nodup_append.mp hn).2.2
        exact this hin (List.mem_cons_self _ _)
      have hfind := (sdp_list_find_none req.records rec hb hrec).mpr hnew
      simp only [List.map_cons]
      unfold update_services
      simp only [hc, hfind]
      have hn1 : (((req.records ++ [rec]) ++ seq).map (fun r => r.handle)).Nodup := by
        rw [List.append_assoc]; exact hn
      have hb1 : ∀ r ∈ req.records ++ [rec], r.handle < 2 ^ 32 := by
        intro r h1
        rcases List.mem_append.mp h1 with h2 | h2
        · exact hb r h2
        · rw [List.mem_singleton] at h2; rw [h2]; exact hrec
      have hr1 : ∀ r ∈ seq, r.handle < 2 ^ 32 := fun r h1 => hr r (List.mem_cons_of_mem _ h1)
      by_cases hu : u ∈ P
      · have f := (find_strcmp P u).2 hu
        have step := ih t
          { req with records := req.records ++ [rec],
                     profiles_added := req.profiles_added,
                     profiles_removed := req.profiles_removed.erase u } ht hb1 hr1 hn1
        simp only [update_services_classes, f]
        rw [step.1, step.2]
        simp [hu]
      · have f := (find_strcmp P u).1 hu
        have step := ih t
          { req with records := req.records ++ [rec],
                     profiles_added := req.profiles_added ++ [u],
                     profiles_removed := req.profiles_removed } ht hb1 hr1 hn1
        simp only [update_services_classes, f]
        rw [step.1, step.2]
        simp [hu]

/-- Membership in a duplicate-free list after erasing the elements of another list. -/
theorem mem_foldl_erase (L : List cstring) :
    ∀ (P : List cstring), P.Nodup →
      ∀ u, u ∈ L.foldl List.erase P ↔ u ∈ P ∧ u ∉ L := by
  induction L with
  | nil => intro P _ u; simp
  | cons a t ih =>
    intro P hP u
    simp only [List.foldl_cons]
    rw [ih (P.erase a) (hP.erase a) u, hP.mem_erase_iff]
    simp only [List.mem_cons, not_or]
    tauto

/-- C15, evaluated where the code departs from it: a forward browse of a device that
knows no id discovers two records with the same handle, one of the class A2DP source
and one of the class A2DP sink. The second record is taken for a duplicate of the
first: only the first class is in `profiles_added`. -/
theorem update_services_same_handle :
    ([sample_record 0x10001 A2DP_SOURCE_UUID, sample_record 0x10001 A2DP_SINK_UUID].map
        (fun r => r.svclass)) = [some [some A2DP_SOURCE_UUID], some [some A2DP_SINK_UUID]]
    ∧ A2DP_SINK_UUID ≠ A2DP_SOURCE_UUID
    ∧ (update_services [] (init_browse [] browse_req_new0 false)
        ([sample_record 0x10001 A2DP_SOURCE_UUID,
          sample_record 0x10001 A2DP_SINK_UUID].map some)).1.profiles_added
      = [A2DP_SOURCE_UUID] := by
  refine ⟨rfl, by decide, by decide⟩

/-- C15, amended: for a forward browse of a device whose known ids P are pairwise different,
where every discovered record carries one service-class id (the ids `ids`, the
handles being pairwise different): after `init_browse` and `update_services` an id is
in `profiles_added` exactly when it is discovered and not in P, and in
`profiles_removed` exactly when it is in P and not discovered. -/
theorem update_services_added_removed (P ids : List cstring) (recs : List sdp_record)
    (req : browse_req) (hP : P.Nodup)
    (hreq : req.profiles_added = [] ∧ req.profiles_removed = [] ∧ req.records = [])
    (hclass : recs.map (fun r => r.svclass) = ids.map (fun u => some [some u]))
    (hb : ∀ r ∈ recs, r.handle < 2 ^ 32)
    (hn : (recs.map (fun r => r.handle)).Nodup) :
    (∀ u, u ∈ (update_services P (init_browse P req false) (recs.map some)).1.profiles_added
        ↔ u ∈ ids ∧ u ∉ P)
    ∧ (∀ u, u ∈ (update_services P (init_browse P req false) (recs.map some)).1.profiles_removed
        ↔ u ∈ P ∧ u ∉ ids) := by
  obtain ⟨ha, hr, hrec⟩ := hreq
  have hi : init_browse P req false = { req with profiles_removed := P } := by
    simp [init_browse, hr]
  have key := update_services_single P recs ids (init_browse P req false) hclass
    (by rw [hi]; simp [hrec]) hb (by rw [hi]; simpa [hrec] using hn)
  rw [key.1, key.2, hi]
  constructor
  · intro u
    simp [ha]
  · intro u
    rw [mem_foldl_erase _ P hP u]
    simp only [List.mem_filter, decide_eq_true_eq, not_and]
    tauto

/-- Witness of C15: no known id and the ids A2DP source and A2DP sink discovered; both
ids known and only the first discovered. -/
theorem update_services_added_removed_witness :
    ((∀ u, u ∈ (update_services [] (init_browse [] browse_req_new0 false)
          ([sample_record 0x10001 A2DP_SOURCE_UUID,
            sample_record 0x10002 A2DP_SINK_UUID].map some)).1.profiles_added
        ↔ u ∈ [A2DP_SOURCE_UUID, A2DP_SINK_UUID] ∧ u ∉ ([] : List cstring))
      ∧ (∀ u, u ∈ (update_services [] (init_browse [] browse_req_new0 false)
          ([sample_record 0x10001 A2DP_SOURCE_UUID,
            sample_record 0x10002 A2DP_SINK_UUID].map some)).1.profiles_removed
        ↔ u ∈ ([] : List cstring) ∧ u ∉ [A2DP_SOURCE_UUID, A2DP_SINK_UUID]))
    ∧ ((∀ u, u ∈ (update_services [A2DP_SOURCE_UUID, A2DP_SINK_UUID]
          (init_browse [A2DP_SOURCE_UUID, A2DP_SINK_UUID] browse_req_new0 false)
          ([sample_record 0x10001 A2DP_SOURCE_UUID].map some)).1.profiles_added
        ↔ u ∈ [A2DP_SOURCE_UUID] ∧ u ∉ [A2DP_SOURCE_UUID, A2DP_SINK_UUID])
      ∧ (∀ u, u ∈ (update_services [A2DP_SOURCE_UUID, A2DP_SINK_UUID]
          (init_browse [A2DP_SOURCE_UUID, A2DP_SINK_UUID] browse_req_new0 false)
          ([sample_record 0x10001 A2DP_SOURCE_UUID].map some)).1.profiles_removed
        ↔ u ∈ [A2DP_SOURCE_UUID, A2DP_SINK_UUID] ∧ u ∉ [A2DP_SOURCE_UUID])) :=
  ⟨update_services_added_removed [] [A2DP_SOURCE_UUID, A2DP_SINK_UUID]
      [sample_record 0x10001 A2DP_SOURCE_UUID, sample_record 0x10002 A2DP_SINK_UUID]
      browse_req_new0 (by decide) (by decide) (by decide) (by decide) (by decide),
   update_services_added_removed [A2DP_SOURCE_UUID, A2DP_SINK_UUID] [A2DP_SOURCE_UUID]
      [sample_record 0x10001 A2DP_SOURCE_UUID]
      browse_req_new0 (by decide) (by decide) (by decide) (by decide) (by decide)⟩

/-- C16: `rec_cmp` returns 0 exactly when the two 32-bit handles are equal, whatever
their difference; a record whose handle is already accumulated is skipped by
`update_services` and changes neither the accumulated records nor `profiles_added`
nor `profiles_removed`; and after any sequence of responses no two accumulated
records share a handle. -/
theorem update_services_dedup (uuids : List cstring) (req : browse_req) (rec : sdp_record)
    (seq : List (Option sdp_record)) (responses : List (List (Option sdp_record)))
    (hb : ∀ r ∈ req.records, r.handle < 2 ^ 32)
    (hn : (record_handles req).Nodup)
    (hrec : rec.handle < 2 ^ 32)
    (hr : ∀ recs ∈ responses, ∀ x, some x ∈ recs → x.handle < 2 ^ 32) :
    (∀ r ∈ req.records, (rec_cmp r rec = 0 ↔ r.handle = rec.handle))
    ∧ (rec.handle ∈ record_handles req →
        (update_services uuids req (some rec :: seq)).1 = (update_services uuids req seq).1)
    ∧ (record_handles (update_services_seq uuids req responses)).Nodup := by
  refine ⟨fun r h => rec_cmp_eq_zero r rec (hb r h) hrec, ?_, ?_⟩
  · intro hin
    have hfind : sdp_list_find req.records rec rec_cmp ≠ none := fun h =>
      (sdp_list_find_none req.records rec hb hrec).mp h hin
    conv_lhs => unfold update_services
    split
    · rfl
    · rfl
    · rfl
    · split
      · rfl
      · rename_i h; exact absurd h hfind
  · unfold update_services_seq record_handles
    have gen : ∀ (rs : List (List (Option sdp_record))) (q : browse_req),
        (∀ r ∈ q.records, r.handle < 2 ^ 32) →
        (q.records.map (fun r => r.handle)).Nodup →
        (∀ recs ∈ rs, ∀ x, some x ∈ recs → x.handle < 2 ^ 32) →
        ((rs.foldl (fun r recs => (update_services uuids r recs).1) q).records.map
          (fun r => r.handle)).Nodup := by
      intro rs
      induction rs with
      | nil => intro q _ h _; exact h
      | cons a t ih =>
        intro q h1 h2 h3
        have st := update_services_inv uuids a q h1 h2 (h3 a (List.mem_cons_self _ _))
        exact ih _ st.1 st.2 (fun recs hm => h3 recs (List.mem_cons_of_mem _ hm))
    exact gen responses req hb hn hr

/-- Witness of C16: a request holding handle 0xFFFFFFFF, a response repeating that
handle (with another class), and two further responses. -/
theorem update_services_dedup_witness :
    (∀ r ∈ ({ browse_req_new0 with records := [sample_record 0xFFFFFFFF A2DP_SINK_UUID] } :
        browse_req).records,
      (rec_cmp r (sample_record 0xFFFFFFFF HSP_HS_UUID) = 0
        ↔ r.handle = (sample_record 0xFFFFFFFF HSP_HS_UUID).handle))
    ∧ ((sample_record 0xFFFFFFFF HSP_HS_UUID).handle ∈
        record_handles { browse_req_new0 with
          records := [sample_record 0xFFFFFFFF A2DP_SINK_UUID] } →
        (update_services [] { browse_req_new0 with
            records := [sample_record 0xFFFFFFFF A2DP_SINK_UUID] }
          (some (sample_record 0xFFFFFFFF HSP_HS_UUID) :: [])).1
        = (update_services [] { browse_req_new0 with
            records := [sample_record 0xFFFFFFFF A2DP_SINK_UUID] } []).1)
    ∧ (record_handles (update_services_seq [] { browse_req_new0 with
          records := [sample_record 0xFFFFFFFF A2DP_SINK_UUID] }
        [[some (sample_record 0 HSP_HS_UUID)],
         [some (sample_record 0 HFP_HS_UUID), some (sample_record 1 HFP_HS_UUID)]])).Nodup :=
  update_services_dedup [] { browse_req_new0 with
      records := [sample_record 0xFFFFFFFF A2DP_SINK_UUID] }
    (sample_record 0xFFFFFFFF HSP_HS_UUID) []
    [[some (sample_record 0 HSP_HS_UUID)],
     [some (sample_record 0 HFP_HS_UUID), some (sample_record 1 HFP_HS_UUID)]]
    (by decide) (by decide) (by decide) (by simp [sample_record])

/-! ## The browse engine -/

/-- One call of `update_services` changes only the record list and the two profile
lists of a request. -/
theorem update_services_fields (uuids : List cstring) :
    ∀ (recs : List (Option sdp_record)) (req : browse_req),
      (update_services uuids req recs).1.search_uuid = req.search_uuid
      ∧ (update_services uuids req recs).1.reconnect_attempt = req.reconnect_attempt
      ∧ (update_services uuids req recs).1.msg = req.msg
      ∧ (update_services uuids req recs).1.sdp_timer_id = req.sdp_timer_id := by
  intro recs
  induction recs with
  | nil => intro req; exact ⟨rfl, rfl, rfl, rfl⟩
  | cons o seq ih =>
    intro req
    cases o with
    | none => exact ⟨rfl, rfl, rfl, rfl⟩
    | some rec =>
      unfold update_services
      split
      · exact ih req
      · exact ih req
      · exact ih req
      · split
        · exact ih req
        · exact ih _

/-- No search query is issued by `update_services`. -/
theorem update_services_no_search (uuids : List cstring) :
    ∀ (recs : List (Option sdp_record)) (req : browse_req),
      searches (update_services uuids req recs).2 = [] := by
  intro recs
  induction recs with
  | nil => intro req; rfl
  | cons o seq ih =>
    intro req
    cases o with
    | none => rfl
    | some rec =>
      have hp : ∀ p, searches (update_services_pnp rec p) = [] := by
        intro p
        simp only [update_services_pnp]
        split_ifs <;> rfl
      unfold update_services
      split
      · exact ih req
      · exact ih req
      · exact ih req
      · split
        · simp only [searches, List.filter_append] at hp ih ⊢
          rw [hp, ih]; rfl
        · simp only [searches, List.filter_append] at hp ih ⊢
          rw [hp, ih]; rfl

/-- After the cleanup of `search_cb` the device has no active request. -/
theorem search_cb_cleanup_browse (device : btd_device) (req : browse_req) :
    (search_cb_cleanup device req).1.browse = none := by
  simp only [search_cb_cleanup, browse_request_free, btd_device_unref]
  split_ifs <;> rfl

/-- The function `search_cb` ends the browse: with an active request it returns, and
the device has no active request afterwards. -/
theorem search_cb_ends (env : environment) (device : btd_device)
    (recs : List (Option sdp_record)) (err : Int) (req : browse_req)
    (h : device.browse = some req) :
    ∃ d log, search_cb env device recs err = some (d, log) ∧ d.browse = none := by
  unfold search_cb
  rw [h]
  exact ⟨_, _, rfl, search_cb_cleanup_browse _ _⟩

/-- No search query is issued by `search_cb` on an error. -/
theorem search_cb_error_no_search (env : environment) (device : btd_device)
    (recs : List (Option sdp_record)) (err : Int) (req : browse_req)
    (h : device.browse = some req) (herr : err < 0) :
    ∃ d log, search_cb env device recs err = some (d, log) ∧ d.browse = none
      ∧ searches log = [] := by
  unfold search_cb
  rw [h]
  refine ⟨_, _, rfl, search_cb_cleanup_browse _ _, ?_⟩
  simp only [herr, if_true, searches, List.filter_append, List.append_nil]
  have t : List.filter is_search (remove_sdp_timer req).2 = [] := by
    unfold remove_sdp_timer; split_ifs <;> rfl
  have r : ∀ d q, List.filter is_search (search_cb_reply d q err).2 = [] := by
    intro d q
    unfold search_cb_reply discover_services_reply create_device_reply
    split
    · rfl
    · split_ifs <;> simp_all [is_search]
  have c : ∀ d q, List.filter is_search (search_cb_cleanup d q).2 = [] := by
    intro d q
    unfold search_cb_cleanup browse_request_free btd_device_unref store_profiles
    simp only [List.filter_append]
    split_ifs <;> (try split) <;> simp [is_search]
  rw [t, r, c]
  rfl

/-- The removal of the SDP timer changes neither index nor counter nor records, and
issues no query. -/
theorem remove_sdp_timer_fields (req : browse_req) :
    (remove_sdp_timer req).1.search_uuid = req.search_uuid
    ∧ (remove_sdp_timer req).1.reconnect_attempt = req.reconnect_attempt
    ∧ (remove_sdp_timer req).1.records = req.records
    ∧ searches (remove_sdp_timer req).2 = [] := by
  unfold remove_sdp_timer
  split_ifs <;> exact ⟨rfl, rfl, rfl, rfl⟩

/-- An error that is not a connection-reset with the reconnect attempt still unused
makes `browse_cb` hand the response to `search_cb` at once: the browse ends, no query
is issued, and the request handed over has the index and the counter it had. -/
theorem browse_cb_terminal (env : environment) (device : btd_device)
    (recs : List (Option sdp_record)) (err : Int) (req : browse_req)
    (h : device.browse = some req) (herr : err < 0)
    (hterm : ¬ (err = -ECONNRESET ∧ req.reconnect_attempt < 1)) :
    ∃ d log, browse_cb env device recs err = some (d, log) ∧ d.browse = none
      ∧ searches log = []
      ∧ search_cb env { device with browse := some (remove_sdp_timer req).1 } recs err
          = some (d, log.drop (remove_sdp_timer req).2.length) := by
  obtain ⟨f1, f2, _, f4⟩ := remove_sdp_timer_fields req
  obtain ⟨d, log, hs, hb, hl⟩ := search_cb_error_no_search env
    { device with browse := some (remove_sdp_timer req).1 } recs err _ rfl herr
  have hterm2 : ¬ (err = -ECONNRESET ∧ (remove_sdp_timer req).1.reconnect_attempt < 1) := by
    rw [f2]; exact hterm
  refine ⟨d, (remove_sdp_timer req).2 ++ log, ?_, hb, ?_, ?_⟩
  · unfold browse_cb
    simp only [h, herr, true_or, if_true, hterm2, if_false, hs]
  · simp only [searches, List.filter_append] at f4 hl ⊢
    rw [f4, hl]; rfl
  · rw [List.drop_left]; exact hs

/-- A connection-reset with the reconnect attempt unused makes `browse_cb` rewind the
index by one, count the attempt and, the class at the rewound index being non-zero,
issue the query for that class again. -/
theorem browse_cb_retry (env : environment) (device : btd_device)
    (recs : List (Option sdp_record)) (req : browse_req) (uuid : Nat)
    (h : device.browse = some req) (hrec : req.reconnect_attempt < 1)
    (hu : uuid_list_at (req.search_uuid - 1) = some uuid) (hnz : uuid ≠ 0) :
    ∃ d log r, browse_cb env device recs (-ECONNRESET) = some (d, log)
      ∧ d.browse = some r
      ∧ r.search_uuid = req.search_uuid
      ∧ r.reconnect_attempt = req.reconnect_attempt + 1
      ∧ searches log = [dev_effect.bt_search_service uuid search_callback.browse_cb] := by
  obtain ⟨f1, f2, _, f4⟩ := remove_sdp_timer_fields req
  have herr : -ECONNRESET < 0 := by decide
  generalize hq : remove_sdp_timer req = T at f1 f2 f4
  obtain ⟨q, tl⟩ := T
  simp only at f1 f2 f4
  have hrec2 : q.reconnect_attempt < 1 := by rw [f2]; exact hrec
  rw [← f1] at hu
  obtain ⟨g1, g2, _, _⟩ := update_services_fields device.uuids recs
    { q with search_uuid := q.search_uuid - 1, reconnect_attempt := q.reconnect_attempt + 1 }
  have hs := update_services_no_search device.uuids recs
    { q with search_uuid := q.search_uuid - 1, reconnect_attempt := q.reconnect_attempt + 1 }
  simp only at g1 g2
  unfold browse_cb
  simp only [h, hq, herr, true_or, if_true, hrec2, and_self, g1, hu, hnz, ne_eq,
    not_false_eq_true]
  refine ⟨_, _, _, rfl, rfl, ?_, ?_, ?_⟩
  · simp only; omega
  · simp only; rw [g2, f2]
  · simp only [searches, List.filter_append] at f4 hs ⊢
    rw [f4, hs]; rfl

/-- The entries of `uuid_list` at the indices 0 to 3. -/
theorem uuid_list_at_values :
    uuid_list_at 0 = some 0x0100 ∧ uuid_list_at 1 = some 0x1200
    ∧ uuid_list_at 2 = some 0x1002 ∧ uuid_list_at 3 = some 0 := by decide

/-- One call of `browse_cb` on a request within the bounds returns and leaves the
device within the bounds. -/
theorem browse_cb_bounds (env : environment) (device : btd_device)
    (recs : List (Option sdp_record)) (err : Int) (req : browse_req)
    (h : device.browse = some req) (hb : browse_bounds device) :
    ∃ d log, browse_cb env device recs err = some (d, log) ∧ browse_bounds d := by
  obtain ⟨⟨b1, b2⟩, b3, b4⟩ := hb req h
  obtain ⟨v0, v1, v2, v3⟩ := uuid_list_at_values
  obtain ⟨f1, f2, _, _⟩ := remove_sdp_timer_fields req
  have none_ok : ∀ d : btd_device, d.browse = none → browse_bounds d := by
    intro d hd r hr; rw [hd] at hr; exact absurd hr (by simp)
  by_cases hA : err < 0 ∨ (req.search_uuid = 2 ∧ req.records ≠ [])
  · by_cases hR : err = -ECONNRESET ∧ req.reconnect_attempt < 1
    · obtain ⟨he, hr⟩ := hR
      have hsu : req.search_uuid - 1 = 0 ∨ req.search_uuid - 1 = 1 ∨ req.search_uuid - 1 = 2 := by
        omega
      have hu : ∃ uuid, uuid_list_at (req.search_uuid - 1) = some uuid ∧ uuid ≠ 0 := by
        rcases hsu with e | e | e <;> rw [e]
        · exact ⟨_, v0, by decide⟩
        · exact ⟨_, v1, by decide⟩
        · exact ⟨_, v2, by decide⟩
      obtain ⟨uuid, hu1, hu2⟩ := hu
      obtain ⟨d, log, r, hb1, hb2, hb3, hb4, _⟩ :=
        browse_cb_retry env device recs req uuid h hr hu1 hu2
      rw [he]
      refine ⟨d, log, hb1, ?_⟩
      intro r1 hr1
      rw [hb2] at hr1
      cases hr1
      exact ⟨⟨by omega, by omega⟩, by omega, by omega⟩
    · generalize hq : remove_sdp_timer req = T at f1 f2
      obtain ⟨q, tl⟩ := T
      simp only at f1 f2
      obtain ⟨d, log, hs, hn⟩ := search_cb_ends env { device with browse := some q } recs err
        q rfl
      have hA2 : err < 0 ∨ (q.search_uuid = 2 ∧ q.records ≠ []) := by
        have := (remove_sdp_timer_fields req).2.2.1
        rw [hq] at this
        simp only at this
        rw [f1, this]; exact hA
      have hR2 : ¬ (err = -ECONNRESET ∧ q.reconnect_attempt < 1) := by rw [f2]; exact hR
      refine ⟨d, tl ++ log, ?_, none_ok d hn⟩
      unfold browse_cb
      simp only [h, hq, hA2, if_true, hR2, if_false, hs]
  · generalize hq : remove_sdp_timer req = T at f1 f2
    obtain ⟨q, tl⟩ := T
    simp only at f1 f2
    have hA2 : ¬ (err < 0 ∨ (q.search_uuid = 2 ∧ q.records ≠ [])) := by
      have := (remove_sdp_timer_fields req).2.2.1
      rw [hq] at this
      simp only at this
      rw [f1, this]; exact hA
    obtain ⟨g1, g2, _, _⟩ := update_services_fields device.uuids recs q
    unfold browse_cb
    simp only [h, hq, hA2, if_false, g1]
    have hsu : q.search_uuid = 1 ∨ q.search_uuid = 2 ∨ q.search_uuid = 3 := by omega
    rcases hsu with e | e | e
    · simp only [e, v1]
      refine ⟨_, _, rfl, ?_⟩
      intro r1 hr1
      simp only [Option.some.injEq] at hr1
      subst hr1
      simp only [g2, f2]
      exact ⟨⟨by omega, by omega⟩, b3, b4⟩
    · simp only [e, v2]
      refine ⟨_, _, rfl, ?_⟩
      intro r1 hr1
      simp only [Option.some.injEq] at hr1
      subst hr1
      simp only [g2, f2]
      exact ⟨⟨by omega, by omega⟩, b3, b4⟩
    · simp only [e, v3]
      obtain ⟨d, log, hs, hn⟩ := search_cb_ends env
        { device with browse := some (update_services device.uuids q recs).1 } recs err _ rfl
      simp only [ne_eq, not_true_eq_false, if_false, hs]
      exact ⟨_, _, rfl, none_ok d hn⟩

/-- The expiry of the timer on a request within the bounds returns and leaves the
device within the bounds. -/
theorem sdp_timeout_bounds (env : environment) (device : btd_device) (req : browse_req)
    (h : device.browse = some req) (hb : browse_bounds device) :
    ∃ d log, sdp_timeout env device = some (d, log) ∧ browse_bounds d := by
  have hb1 : browse_bounds { device with browse := some { req with sdp_timer_id := 0 } } := by
    intro r hr
    simp only [Option.some.injEq] at hr
    subst hr
    exact hb req h
  unfold sdp_timeout
  simp only [h]
  by_cases c : env.adapter_find_device = true
  · obtain ⟨d, log, h1, h2⟩ := browse_cb_bounds env
      { device with browse := some { req with sdp_timer_id := 0 } } [] (-ETIMEDOUT) _ rfl hb1
    simp only [c, not_true_eq_false, if_false, h1]
    exact ⟨_, _, rfl, h2⟩
  · simp only [c, not_false_eq_true, if_true]
    exact ⟨_, _, rfl, hb1⟩

/-- A run of a browse from a device within the bounds returns and ends within the
bounds. -/
theorem browse_run_bounds :
    ∀ (events : List browse_event) (device : btd_device),
      browse_bounds device →
      ∃ d log, browse_run device events = some (d, log) ∧ browse_bounds d := by
  intro events
  induction events with
  | nil => intro device hb; exact ⟨device, [], rfl, hb⟩
  | cons ev rest ih =>
    intro device hb
    cases hbr : device.browse with
    | none =>
      refine ⟨device, [], ?_, hb⟩
      simp [browse_run, hbr]
    | some req =>
      have hstep : ∃ d log, browse_step device ev = some (d, log) ∧ browse_bounds d := by
        cases ev with
        | response env recs err => exact browse_cb_bounds env device recs err req hbr hb
        | timeout env => exact sdp_timeout_bounds env device req hbr hb
      obtain ⟨d1, log1, h1, hb1⟩ := hstep
      obtain ⟨d2, log2, h2, hb2⟩ := ih d1 hb1
      refine ⟨d2, log1 ++ log2, ?_, hb2⟩
      simp [browse_run, hbr, h1, h2]

/-- The browse started by `device_browse_sdp` without search class is within the
bounds: index 1, counter 0. -/
theorem device_browse_sdp_bounds (env : environment) (device : btd_device)
    (conn : Option Nat) (msg : Option DBusMessage) (reverse : Bool)
    (h : device.browse = none) :
    browse_bounds (device_browse_sdp env device conn msg none reverse).2.1 := by
  intro req hreq
  unfold device_browse_sdp at hreq
  simp only [h, Option.isSome_none, Bool.false_eq_true, if_false] at hreq
  by_cases c : env.bt_search_service < 0
  · simp only [c, if_true, browse_request_free, btd_device_unref] at hreq
    split_ifs at hreq
  · simp only [c, if_false] at hreq
    cases msg with
    | none =>
      simp only [Option.some.injEq] at hreq
      subst hreq
      simp only [init_browse, browse_req_new0]
      split_ifs <;> simp
    | some m =>
      simp only [Option.some.injEq] at hreq
      subst hreq
      simp only [init_browse, browse_req_new0]
      split_ifs <;> simp

/-! ## The reconnect attempt of a browse -/

/-- C12: for a browse whose first query (index 0 of `uuid_list`, the request having
index 1 and counter 0) is answered with a connection-reset, `browse_cb` issues the
query of index 0 again, exactly once, and leaves the request with index 1 and counter
1; a connection-reset in answer to the retried query ends the browse: the error is
handed to `search_cb`, no query is issued and the device has no active request. In
every state reached by a browse started by `device_browse_sdp`, whatever the
responses and timer expiries, the handlers return and the counter is at most 1. -/
theorem browse_cb_reconnect_once (env : environment) (device : btd_device)
    (recs : List (Option sdp_record)) (req : browse_req)
    (h : device.browse = some req) (hidx : req.search_uuid = 1)
    (hcnt : req.reconnect_attempt = 0) :
    (∃ d1 log1 r, browse_cb env device recs (-ECONNRESET) = some (d1, log1)
      ∧ d1.browse = some r ∧ r.search_uuid = 1 ∧ r.reconnect_attempt = 1
      ∧ uuid_list_at 0 = some L2CAP_UUID
      ∧ searches log1 = [dev_effect.bt_search_service L2CAP_UUID search_callback.browse_cb]
      ∧ ∀ (env2 : environment) (recs2 : List (Option sdp_record)),
          ∃ d2 log2, browse_cb env2 d1 recs2 (-ECONNRESET) = some (d2, log2)
            ∧ d2.browse = none ∧ searches log2 = []
            ∧ search_cb env2 { d1 with browse := some (remove_sdp_timer r).1 } recs2
                (-ECONNRESET) = some (d2, log2.drop (remove_sdp_timer r).2.length))
    ∧ (∀ (env0 : environment) (d0 : btd_device) (conn : Option Nat)
        (msg : Option DBusMessage) (reverse : Bool) (events : List browse_event),
        d0.browse = none →
        ∃ d log, browse_run (device_browse_sdp env0 d0 conn msg none reverse).2.1 events
            = some (d, log)
          ∧ ∀ q, d.browse = some q → q.reconnect_attempt ≤ 1) := by
  constructor
  · have hu : uuid_list_at (req.search_uuid - 1) = some L2CAP_UUID := by rw [hidx]; decide
    obtain ⟨d1, log1, r, h1, h2, h3, h4, h5⟩ :=
      browse_cb_retry env device recs req L2CAP_UUID h (by omega) hu (by decide)
    refine ⟨d1, log1, r, h1, h2, by omega, by omega, by decide, h5, ?_⟩
    intro env2 recs2
    exact browse_cb_terminal env2 d1 recs2 (-ECONNRESET) r h2 (by decide)
      (by intro c; omega)
  · intro env0 d0 conn msg reverse events hd
    obtain ⟨d, log, hr, hb⟩ := browse_run_bounds events _
      (device_browse_sdp_bounds env0 d0 conn msg reverse hd)
    exact ⟨d, log, hr, fun q hq => (hb q hq).2.2⟩

/-- C13: an error other than a connection-reset handed to `browse_cb` ends the browse
at once: `browse_cb` hands the response to `search_cb` with the index and the counter
of the request as they were, no query is issued, and the device has no active request
afterwards. The expiry of the timer does the same after cancelling the discovery in
flight: `sdp_timeout` calls `bt_cancel_discovery` first and then `browse_cb` with
-ETIMEDOUT. -/
theorem browse_cb_error_terminal (env : environment) (device : btd_device)
    (recs : List (Option sdp_record)) (err : Int) (req : browse_req)
    (h : device.browse = some req) (herr : err < 0) (hne : err ≠ -ECONNRESET) :
    (∃ d log, browse_cb env device recs err = some (d, log) ∧ d.browse = none
      ∧ searches log = []
      ∧ (remove_sdp_timer req).1.search_uuid = req.search_uuid
      ∧ (remove_sdp_timer req).1.reconnect_attempt = req.reconnect_attempt
      ∧ search_cb env { device with browse := some (remove_sdp_timer req).1 } recs err
          = some (d, log.drop (remove_sdp_timer req).2.length))
    ∧ (env.adapter_find_device = true →
        ∃ d log, sdp_timeout env device = some (d, dev_effect.bt_cancel_discovery :: log)
          ∧ browse_cb env { device with browse := some { req with sdp_timer_id := 0 } } []
              (-ETIMEDOUT) = some (d, log)
          ∧ d.browse = none ∧ searches log = []) := by
  constructor
  · obtain ⟨d, log, h1, h2, h3, h4⟩ :=
      browse_cb_terminal env device recs err req h herr (fun c => hne c.1)
    obtain ⟨f1, f2, _, _⟩ := remove_sdp_timer_fields req
    exact ⟨d, log, h1, h2, h3, f1, f2, h4⟩
  · intro hf
    obtain ⟨d, log, h1, h2, h3, _⟩ :=
      browse_cb_terminal env { device with browse := some { req with sdp_timer_id := 0 } } []
        (-ETIMEDOUT) _ rfl (by decide) (fun c => absurd c.1 (by decide))
    refine ⟨d, log, ?_, h1, h2, h3⟩
    unfold sdp_timeout
    simp only [h, hf, not_true_eq_false, if_false, h1]

/-- C14, evaluated where the code departs from it: a request with index 2, one record
accumulated and the counter at 0 receives a connection-reset. The browse goes on:
the counter becomes 1 and the query of index 1 (class 0x1200) is issued again. -/
theorem browse_cb_checkpoint_reset_retries :
    (browse_cb sample_env
        { sample_device with
          browse := some { sample_req with search_uuid := 2,
                                           records := [sample_record 0x10000 PNP_UUID] } }
        [] (-ECONNRESET)).map
      (fun r => (r.1.browse.map (fun q => (q.search_uuid, q.reconnect_attempt)), searches r.2))
    = some (some (2, 1),
        [dev_effect.bt_search_service PNP_INFO_SVCLASS_ID search_callback.browse_cb]) := by
  rfl

/-- C14, amended: a connection-reset received once the checkpoint has been passed
(index 2 with a non-empty record set) is terminal when the reconnect attempt has been
used (counter at least 1): no query is issued and the browse ends. With the counter
still at 0 `browse_cb` rewinds the index by one, sets the counter to 1 and issues the
query of index 1 again. -/
theorem browse_cb_checkpoint_reset (env : environment) (device : btd_device)
    (recs : List (Option sdp_record)) (req : browse_req)
    (h : device.browse = some req) (hidx : req.search_uuid = 2)
    (_hrecs : req.records ≠ []) :
    (1 ≤ req.reconnect_attempt →
      ∃ d log, browse_cb env device recs (-ECONNRESET) = some (d, log) ∧ d.browse = none
        ∧ searches log = [])
    ∧ (req.reconnect_attempt < 1 →
      ∃ d log r, browse_cb env device recs (-ECONNRESET) = some (d, log)
        ∧ d.browse = some r ∧ r.search_uuid = 2
        ∧ r.reconnect_attempt = req.reconnect_attempt + 1
        ∧ searches log
            = [dev_effect.bt_search_service PNP_INFO_SVCLASS_ID search_callback.browse_cb]) := by
  constructor
  · intro hc
    obtain ⟨d, log, h1, h2, h3, _⟩ :=
      browse_cb_terminal env device recs (-ECONNRESET) req h (by decide)
        (by intro c; omega)
    exact ⟨d, log, h1, h2, h3⟩
  · intro hc
    have hu : uuid_list_at (req.search_uuid - 1) = some PNP_INFO_SVCLASS_ID := by
      rw [hidx]; decide
    obtain ⟨d, log, r, h1, h2, h3, h4, h5⟩ :=
      browse_cb_retry env device recs req PNP_INFO_SVCLASS_ID h hc hu (by decide)
    exact ⟨d, log, r, h1, h2, by omega, h4, h5⟩

/-- Witness of C11 at the device `sample_busy`, which has a request of each kind. -/
theorem request_in_progress_witness :
    sample_busy.browse.isSome = true ∧ sample_busy.bonding.isSome = true
    ∧ sample_busy.authr.isSome = true
    ∧ device_browse_sdp sample_env sample_busy none (some sample_msg) none false
        = (-16, sample_busy, [])
    ∧ device_browse_primary sample_env sample_busy none (some sample_msg) false
        = (-16, sample_busy, [])
    ∧ device_create_bonding sample_env sample_busy 0 sample_msg none 3
        = (some (dbus_reply.error sample_msg "org.bluez.Error.InProgress" "In Progress"),
            sample_busy, [])
    ∧ device_request_authentication sample_env sample_busy auth_type_t.AUTH_TYPE_CONFIRM
        123456 (some 2) = (-114, sample_busy, []) :=
  ⟨rfl, rfl, rfl,
   ((request_in_progress sample_env sample_busy none (some sample_msg) none false 0
      sample_msg none 3 auth_type_t.AUTH_TYPE_CONFIRM 123456 (some 2)).1 rfl).1,
   ((request_in_progress sample_env sample_busy none (some sample_msg) none false 0
      sample_msg none 3 auth_type_t.AUTH_TYPE_CONFIRM 123456 (some 2)).1 rfl).2,
   (request_in_progress sample_env sample_busy none (some sample_msg) none false 0
      sample_msg none 3 auth_type_t.AUTH_TYPE_CONFIRM 123456 (some 2)).2.1 rfl,
   (request_in_progress sample_env sample_busy none (some sample_msg) none false 0
      sample_msg none 3 auth_type_t.AUTH_TYPE_CONFIRM 123456 (some 2)).2.2 rfl⟩

/-- Witness of C12 at the browse `sample_req`, whose first query is in flight. -/
theorem browse_cb_reconnect_once_witness :
    sample_browsing.browse = some sample_req ∧ sample_req.search_uuid = 1
    ∧ sample_req.reconnect_attempt = 0
    ∧ ∃ d1 log1 r, browse_cb sample_env sample_browsing [] (-ECONNRESET) = some (d1, log1)
        ∧ d1.browse = some r ∧ r.search_uuid = 1 ∧ r.reconnect_attempt = 1
        ∧ searches log1 = [dev_effect.bt_search_service L2CAP_UUID search_callback.browse_cb]
        ∧ ∃ d2 log2, browse_cb sample_env d1 [] (-ECONNRESET) = some (d2, log2)
            ∧ d2.browse = none ∧ searches log2 = [] :=
  ⟨rfl, rfl, rfl,
   match (browse_cb_reconnect_once sample_env sample_browsing [] sample_req rfl rfl rfl).1 with
   | ⟨d1, log1, r, h1, h2, h3, h4, _, h6, h7⟩ =>
     ⟨d1, log1, r, h1, h2, h3, h4, h6,
      match h7 sample_env [] with
      | ⟨d2, log2, g1, g2, g3, _⟩ => ⟨d2, log2, g1, g2, g3⟩⟩⟩

/-- Witness of C13 at the browse `sample_req` and the error -EHOSTDOWN. -/
theorem browse_cb_error_terminal_witness :
    sample_browsing.browse = some sample_req ∧ -EHOSTDOWN < 0 ∧ -EHOSTDOWN ≠ -ECONNRESET
    ∧ (∃ d log, browse_cb sample_env sample_browsing [] (-EHOSTDOWN) = some (d, log)
        ∧ d.browse = none ∧ searches log = [])
    ∧ (∃ d log, sdp_timeout sample_env sample_browsing
          = some (d, dev_effect.bt_cancel_discovery :: log)
        ∧ d.browse = none ∧ searches log = []) :=
  ⟨rfl, by decide, by decide,
   match (browse_cb_error_terminal sample_env sample_browsing [] (-EHOSTDOWN) sample_req rfl
      (by decide) (by decide)).1 with
   | ⟨d, log, h1, h2, h3, _⟩ => ⟨d, log, h1, h2, h3⟩,
   match (browse_cb_error_terminal sample_env sample_browsing [] (-EHOSTDOWN) sample_req rfl
      (by decide) (by decide)).2 rfl with
   | ⟨d, log, h1, _, h3, h4⟩ => ⟨d, log, h1, h3, h4⟩⟩

/-- Witness of C14, amended: index 2 with one record accumulated, the reconnect attempt
used. -/
theorem browse_cb_checkpoint_reset_witness :
    ∃ d log, browse_cb sample_env
        { sample_device with
          browse := some { sample_req with search_uuid := 2, reconnect_attempt := 1,
                                           records := [sample_record 0x10000 PNP_UUID] } }
        [] (-ECONNRESET) = some (d, log)
      ∧ d.browse = none ∧ searches log = [] :=
  (browse_cb_checkpoint_reset sample_env
    { sample_device with
      browse := some { sample_req with search_uuid := 2, reconnect_attempt := 1,
                                       records := [sample_record 0x10000 PNP_UUID] } }
    [] { sample_req with search_uuid := 2, reconnect_attempt := 1,
                         records := [sample_record 0x10000 PNP_UUID] }
    rfl rfl (by simp)).1 (by decide)

/-! ## The order of the known ids -/

/-- A string compares equal to itself. -/
theorem strcasecmp_self : ∀ a : cstring, strcasecmp a a = 0 := by
  intro a
  induction a with
  | nil => rfl
  | cons x l ih => simp [strcasecmp, ih]

/-- Swapping the arguments of `strcasecmp` swaps the sign. -/
theorem strcasecmp_swap :
    ∀ a b : cstring, (0 < strcasecmp a b ↔ strcasecmp b a < 0)
      ∧ (strcasecmp a b = 0 ↔ strcasecmp b a = 0) := by
  intro a
  induction a with
  | nil =>
    intro b
    cases b with
    | nil => simp [strcasecmp]
    | cons y r => simp [strcasecmp]
  | cons x l ih =>
    intro b
    cases b with
    | nil => simp [strcasecmp]
    | cons y r =>
      simp only [strcasecmp]
      by_cases c : tolower x = tolower y
      · simp only [c, if_true]
        exact ih r
      · have c2 : ¬ tolower y = tolower x := fun e => c e.symm
        simp only [c, c2, if_false]
        constructor <;> constructor <;> intro h <;> omega

/-- The order given by `strcasecmp` is transitive. -/
theorem strcasecmp_trans :
    ∀ a b c : cstring, strcasecmp a b ≤ 0 → strcasecmp b c ≤ 0 → strcasecmp a c ≤ 0 := by
  intro a
  induction a with
  | nil =>
    intro b c _ _
    cases c with
    | nil => simp [strcasecmp]
    | cons z t => simp [strcasecmp]
  | cons x l ih =>
    intro b c h1 h2
    cases b with
    | nil => simp [strcasecmp] at h1
    | cons y r =>
      cases c with
      | nil => simp [strcasecmp] at h2
      | cons z t =>
        simp only [strcasecmp] at h1 h2 ⊢
        by_cases c1 : tolower x = tolower y
        · by_cases c2 : tolower y = tolower z
          · have c3 : tolower x = tolower z := c1.trans c2
            simp only [c1, c2, c3, if_true] at h1 h2 ⊢
            exact ih r t h1 h2
          · have c3 : ¬ tolower x = tolower z := fun e => c2 (c1.symm.trans e)
            simp only [c1, c2, c3, if_true, if_false] at h1 h2 ⊢
            exact h2
        · by_cases c2 : tolower y = tolower z
          · have c3 : ¬ tolower x = tolower z := fun e => c1 (e.trans c2.symm)
            simp only [c1, c2, c3, if_true, if_false] at h1 h2 ⊢
            exact h1
          · simp only [c1, c2, if_false] at h1 h2
            have c3 : ¬ tolower x = tolower z := by omega
            simp only [c3, if_false]
            omega

/-- The list after `g_slist_insert_sorted` has the elements of the list before and the
one inserted. -/
theorem g_slist_insert_sorted_perm (data : cstring) (func : cstring → cstring → Int) :
    ∀ list : List cstring, (g_slist_insert_sorted list data func).Perm (data :: list) := by
  intro list
  induction list with
  | nil => exact List.Perm.refl _
  | cons e rest ih =>
    unfold g_slist_insert_sorted
    split_ifs with c
    · exact (List.Perm.cons e ih).trans (List.Perm.swap data e rest)
    · exact List.Perm.refl _

/-- The list stays in order under `g_slist_insert_sorted` with `strcasecmp`. -/
theorem g_slist_insert_sorted_pairwise (data : cstring) :
    ∀ list : List cstring, list.Pairwise (fun a b => strcasecmp a b ≤ 0) →
      (g_slist_insert_sorted list data strcasecmp).Pairwise (fun a b => strcasecmp a b ≤ 0) := by
  intro list
  induction list with
  | nil => intro _; simp [g_slist_insert_sorted]
  | cons e rest ih =>
    intro hs
    rw [List.pairwise_cons] at hs
    unfold g_slist_insert_sorted
    split_ifs with c
    · rw [List.pairwise_cons]
      refine ⟨?_, ih hs.2⟩
      intro x hx
      rw [(g_slist_insert_sorted_perm data strcasecmp rest).mem_iff, List.mem_cons] at hx
      rcases hx with hx | hx
      · rw [hx]
        have := ((strcasecmp_swap data e).1.mp c)
        omega
      · exact hs.1 x hx
    · rw [List.pairwise_cons]
      refine ⟨?_, List.pairwise_cons.mpr hs⟩
      intro x hx
      rw [List.mem_cons] at hx
      rcases hx with hx | hx
      · rw [hx]; omega
      · exact strcasecmp_trans data e x (by omega) (hs.1 x hx)

/-- What the loop `add_uuids` keeps and adds. -/
theorem add_uuids_spec :
    ∀ (profiles uuids : List cstring),
      (uuids.Pairwise (fun a b => strcasecmp a b ≤ 0) →
        (add_uuids uuids profiles).Pairwise (fun a b => strcasecmp a b ≤ 0))
      ∧ (uuids.Nodup → (add_uuids uuids profiles).Nodup)
      ∧ (uuids.Pairwise (fun a b => strcasecmp a b ≠ 0) →
        (add_uuids uuids profiles).Pairwise (fun a b => strcasecmp a b ≠ 0))
      ∧ (∀ x ∈ uuids, x ∈ add_uuids uuids profiles)
      ∧ (∀ x ∈ add_uuids uuids profiles, x ∈ uuids ∨ x ∈ profiles)
      ∧ (∀ c ∈ profiles, ∃ x ∈ add_uuids uuids profiles, strcasecmp x c = 0) := by
  intro profiles
  induction profiles with
  | nil =>
    intro uuids
    simp [add_uuids]
  | cons data list ih =>
    intro uuids
    unfold add_uuids
    by_cases c : (g_slist_find_custom uuids data strcasecmp).isSome = true
    · simp only [c, if_true]
      obtain ⟨i1, i2, i3, i4, i5, i6⟩ := ih uuids
      refine ⟨i1, i2, i3, i4, ?_, ?_⟩
      · intro x hx
        rcases i5 x hx with h | h
        · exact Or.inl h
        · exact Or.inr (List.mem_cons_of_mem _ h)
      · intro p hp
        rw [List.mem_cons] at hp
        rcases hp with hp | hp
        · rw [Option.isSome_iff_exists] at c
          obtain ⟨e, he⟩ := c
          unfold g_slist_find_custom at he
          have hm := List.mem_of_find?_eq_some he
          have hz := List.find?_some he
          simp only [decide_eq_true_eq] at hz
          exact ⟨e, i4 e hm, by rw [hp]; exact hz⟩
        · exact i6 p hp
    · simp only [c, if_false]
      have hnone : ∀ e ∈ uuids, strcasecmp e data ≠ 0 := by
        intro e he
        have : g_slist_find_custom uuids data strcasecmp = none := by
          cases h : g_slist_find_custom uuids data strcasecmp with
          | none => rfl
          | some v => rw [h] at c; simp at c
        unfold g_slist_find_custom at this
        rw [List.find?_eq_none] at this
        simpa using this e he
      have hperm := g_slist_insert_sorted_perm data strcasecmp uuids
      obtain ⟨i1, i2, i3, i4, i5, i6⟩ := ih (g_slist_insert_sorted uuids data strcasecmp)
      refine ⟨?_, ?_, ?_, ?_, ?_, ?_⟩
      · intro hs
        exact i1 (g_slist_insert_sorted_pairwise data uuids hs)
      · intro hn
        apply i2
        rw [hperm.nodup_iff, List.nodup_cons]
        refine ⟨?_, hn⟩
        intro hmem
        exact hnone data hmem (strcasecmp_self data)
      · intro hd
        apply i3
        have hsymm : ∀ a b : cstring, strcasecmp a b ≠ 0 → strcasecmp b a ≠ 0 := by
          intro a b h1 h2
          exact h1 ((strcasecmp_swap a b).2.mpr h2)
        refine (List.Perm.pairwise_iff (fun {a b} h => hsymm a b h) hperm).mpr ?_
        rw [List.pairwise_cons]
        refine ⟨?_, hd⟩
        intro e he
        exact hsymm e data (hnone e he)
      · intro x hx
        exact i4 x (hperm.mem_iff.mpr (List.mem_cons_of_mem _ hx))
      · intro x hx
        rcases i5 x hx with h | h
        · rw [hperm.mem_iff, List.mem_cons] at h
          rcases h with h | h
          · exact Or.inr (by rw [h]; exact List.mem_cons_self _ _)
          · exact Or.inl h
        · exact Or.inr (List.mem_cons_of_mem _ h)
      · intro p hp
        rw [List.mem_cons] at hp
        rcases hp with hp | hp
        · refine ⟨data, i4 data (hperm.mem_iff.mpr (List.mem_cons_self _ _)), ?_⟩
          rw [hp]; exact strcasecmp_self data
        · exact i6 p hp

/-- The driver loop of `device_probe_drivers` leaves the known ids alone. -/
theorem probe_drivers_loop_uuids (env : environment) (profiles : List cstring) :
    ∀ (list : List btd_device_driver) (device : btd_device),
      (probe_drivers_loop env profiles list device).1.uuids = device.uuids := by
  intro list
  induction list with
  | nil => intro device; rfl
  | cons driver rest ih =>
    intro device
    simp only [probe_drivers_loop]
    split_ifs <;> simp only [ih]

/-! ## Known ids and drivers -/

/-- C17: for a device whose known ids are in order of `strcasecmp` and free of
duplicates, and for every candidate list, the known ids after `device_probe_drivers`
are still in order and free of duplicates (also up to case, if they were); every prior
id is kept, every id of the result is a prior id or a candidate, and every candidate
is in the result up to case, in its own spelling if no other spelling of it is among
the prior ids and candidates. The result does not depend on the drivers registered or
the results of their probes; on a blocked device no driver is probed or bound. -/
theorem device_probe_drivers_uuids (env : environment) (device : btd_device)
    (profiles : List cstring) (hs : uuids_sorted device.uuids) (hn : device.uuids.Nodup) :
    uuids_sorted (device_probe_drivers env device profiles).1.uuids
    ∧ (device_probe_drivers env device profiles).1.uuids.Nodup
    ∧ (uuids_distinct device.uuids →
        uuids_distinct (device_probe_drivers env device profiles).1.uuids)
    ∧ (∀ x ∈ device.uuids, x ∈ (device_probe_drivers env device profiles).1.uuids)
    ∧ (∀ x ∈ (device_probe_drivers env device profiles).1.uuids,
        x ∈ device.uuids ∨ x ∈ profiles)
    ∧ (∀ c ∈ profiles, ∃ x ∈ (device_probe_drivers env device profiles).1.uuids,
        strcasecmp x c = 0)
    ∧ (∀ c ∈ profiles, (∀ x ∈ device.uuids ++ profiles, strcasecmp x c = 0 → x = c) →
        c ∈ (device_probe_drivers env device profiles).1.uuids)
    ∧ (∀ env2 : environment, (device_probe_drivers env2 device profiles).1.uuids
        = (device_probe_drivers env device profiles).1.uuids)
    ∧ (device.blocked = true →
        (device_probe_drivers env device profiles).1.drivers = device.drivers
        ∧ (device_probe_drivers env device profiles).2 = []) := by
  have hu : ∀ e : environment, (device_probe_drivers e device profiles).1.uuids
      = add_uuids device.uuids profiles := by
    intro e
    unfold device_probe_drivers
    by_cases hb : device.blocked = true
    · simp only [hb, if_true]
    · simp only [hb, Bool.false_eq_true, if_false, probe_drivers_loop_uuids]
  obtain ⟨i1, i2, i3, i4, i5, i6⟩ := add_uuids_spec profiles device.uuids
  rw [hu env]
  refine ⟨i1 hs, i2 hn, i3, i4, i5, i6, ?_, ?_, ?_⟩
  · intro c hc hx
    obtain ⟨x, hx1, hx2⟩ := i6 c hc
    have : x = c := hx x (by
      rcases i5 x hx1 with h | h
      · exact List.mem_append_left _ h
      · exact List.mem_append_right _ h) hx2
    rw [← this]; exact hx1
  · intro env2
    exact hu env2
  · intro hb
    unfold device_probe_drivers
    simp only [hb, if_true, and_self]

/-- Witness of C17: the known ids are the headset id and the A2DP source id; the
candidates are the A2DP source id in upper case and the serial port id. -/
theorem device_probe_drivers_uuids_witness :
    uuids_sorted (device_probe_drivers sample_env
        { sample_device with uuids := [HSP_HS_UUID, A2DP_SOURCE_UUID] }
        [cstr "0000110A-0000-1000-8000-00805F9B34FB", SPP_UUID]).1.uuids
    ∧ (device_probe_drivers sample_env
        { sample_device with uuids := [HSP_HS_UUID, A2DP_SOURCE_UUID] }
        [cstr "0000110A-0000-1000-8000-00805F9B34FB", SPP_UUID]).1.uuids
      = [SPP_UUID, HSP_HS_UUID, A2DP_SOURCE_UUID] :=
  ⟨(device_probe_drivers_uuids sample_env
      { sample_device with uuids := [HSP_HS_UUID, A2DP_SOURCE_UUID] }
      [cstr "0000110A-0000-1000-8000-00805F9B34FB", SPP_UUID]
      (by unfold uuids_sorted; decide) (by decide)).1, by decide⟩

/-- The function `all_audio_drivers_removed` holds exactly when every audio-class id
among the device's known ids is in the removed list. -/
theorem all_audio_drivers_removed_iff (device_uuids removed_uuids : List cstring) :
    all_audio_drivers_removed device_uuids removed_uuids = true
      ↔ ∀ a ∈ device_uuids, is_audio_driver a = true → is_removed removed_uuids a = true := by
  unfold all_audio_drivers_removed
  simp only [decide_eq_true_eq]
  constructor
  · intro h a ha hau
    have := (List.filter_length_eq_length.mp h.symm) a (List.mem_filter.mpr ⟨ha, hau⟩)
    exact this
  · intro h
    symm
    rw [List.filter_length_eq_length]
    intro a ha
    rw [List.mem_filter] at ha
    exact h a ha.1 ha.2

/-- The test `driver_is_removed` in words: a declared id is in the removed list, and
the first such id is not audio-class or every audio-class known id of the device is in
the removed list. -/
theorem driver_is_removed_iff (device_uuids uuids : List cstring)
    (driver : btd_device_driver) :
    driver_is_removed device_uuids uuids driver = true
      ↔ ∃ u, driver.uuids.find? (is_removed uuids) = some u
          ∧ (is_audio_driver u = true →
              ∀ a ∈ device_uuids, is_audio_driver a = true → is_removed uuids a = true) := by
  unfold driver_is_removed
  have e : (fun uuid => (g_slist_find_custom uuids uuid strcasecmp).isSome) = is_removed uuids :=
    rfl
  rw [e]
  cases h : driver.uuids.find? (is_removed uuids) with
  | none => simp
  | some u =>
    simp only [Option.some.injEq, exists_eq_left']
    rw [← all_audio_drivers_removed_iff]
    cases is_audio_driver u <;> cases all_audio_drivers_removed device_uuids uuids <;> simp

/-- The drivers left by the driver loop of `device_remove_drivers`, by multiplicity. -/
theorem remove_drivers_loop_count (device_uuids uuids : List cstring)
    (x : btd_device_driver) :
    ∀ (pending drivers : List btd_device_driver),
      List.count x (remove_drivers_loop device_uuids uuids pending drivers).1
        = if driver_is_removed device_uuids uuids x = true
          then List.count x drivers - List.count x pending
          else List.count x drivers := by
  intro pending
  induction pending with
  | nil => intro drivers; simp [remove_drivers_loop]
  | cons d next ih =>
    intro drivers
    unfold remove_drivers_loop
    by_cases c : driver_is_removed device_uuids uuids d = true
    · simp only [c, if_true]
      rw [ih]
      by_cases hx : x = d
      · subst hx
        simp only [c, if_true, List.count_erase_self, List.count_cons_self]
        omega
      · rw [List.count_erase_of_ne hx, List.count_cons_of_ne hx]
    · simp only [c, Bool.false_eq_true, if_false]
      rw [ih]
      by_cases hx : x = d
      · subst hx
        simp only [c, Bool.false_eq_true, if_false]
      · rw [List.count_cons_of_ne hx]

/-- The driver loop of `device_remove_drivers` calls the remove hook of each pending
driver that it unbinds. -/
theorem remove_drivers_loop_log (device_uuids uuids : List cstring)
    (x : btd_device_driver) (hx : driver_is_removed device_uuids uuids x = true) :
    ∀ (pending drivers : List btd_device_driver), x ∈ pending →
      dev_effect.driver_remove x.name
        ∈ (remove_drivers_loop device_uuids uuids pending drivers).2 := by
  intro pending
  induction pending with
  | nil => intro drivers h; simp at h
  | cons d next ih =>
    intro drivers h
    unfold remove_drivers_loop
    rw [List.mem_cons] at h
    by_cases c : driver_is_removed device_uuids uuids d = true
    · simp only [c, if_true, List.mem_cons]
      rcases h with h | h
      · exact Or.inl (by rw [h])
      · exact Or.inr (ih _ h)
    · simp only [c, Bool.false_eq_true, if_false]
      rcases h with h | h
      · rw [h] at hx; exact absurd hx c
      · exact ih _ h

/-- C18, evaluated where the code departs from it: a bound driver declares the serial
port id and the headset id, and only the serial port id is removed. The headset id is
audio-class and is not in the removed list, and the driver is unbound. -/
theorem device_remove_drivers_partial_audio :
    is_audio_driver HSP_HS_UUID = true
    ∧ is_removed [SPP_UUID] HSP_HS_UUID = false
    ∧ sample_bound.drivers = [sample_driver]
    ∧ sample_driver.uuids = [SPP_UUID, HSP_HS_UUID]
    ∧ device_remove_drivers sample_env sample_bound [SPP_UUID]
        = ({ sample_bound with drivers := [], uuids := [HSP_HS_UUID] },
            [dev_effect.driver_remove "headset"]) := by
  decide

/-- C18, amended: `device_remove_drivers` unbinds a bound driver exactly when one of
its declared ids is in the removed list and the first such id, in the order declared,
either is not an audio-class id or every audio-class id among the known ids of the
device is in the removed list; the remove hook of a driver that is unbound is called.
So a driver whose first removed declared id is audio-class stays bound while an
audio-class known id of the device has not been removed. -/
theorem device_remove_drivers_unbinds (env : environment) (device : btd_device)
    (uuids : List cstring) (driver : btd_device_driver) (hmem : driver ∈ device.drivers) :
    (driver ∉ (device_remove_drivers env device uuids).1.drivers
      ↔ ∃ u, driver.uuids.find? (is_removed uuids) = some u
          ∧ (is_audio_driver u = true →
              ∀ a ∈ device.uuids, is_audio_driver a = true → is_removed uuids a = true))
    ∧ (driver ∉ (device_remove_drivers env device uuids).1.drivers →
        dev_effect.driver_remove driver.name ∈ (device_remove_drivers env device uuids).2) := by
  have hc := remove_drivers_loop_count device.uuids uuids driver device.drivers device.drivers
  have key : driver ∉ (device_remove_drivers env device uuids).1.drivers
      ↔ driver_is_removed device.uuids uuids driver = true := by
    unfold device_remove_drivers
    simp only
    rw [← List.count_eq_zero, hc]
    have hpos : 0 < List.count driver device.drivers := List.count_pos_iff.mpr hmem
    by_cases c : driver_is_removed device.uuids uuids driver = true
    · simp [c]
    · simp only [c, Bool.false_eq_true, if_false, iff_false]
      omega
  refine ⟨key.trans (driver_is_removed_iff device.uuids uuids driver), ?_⟩
  intro h
  have hr := key.mp h
  unfold device_remove_drivers
  simp only [List.mem_append]
  exact Or.inl (remove_drivers_loop_log device.uuids uuids driver hr _ _ hmem)

/-- Witness of C18, amended, at the driver of `sample_bound` with the serial port id
removed. -/
theorem device_remove_drivers_unbinds_witness :
    sample_driver ∈ sample_bound.drivers
    ∧ (sample_driver ∉ (device_remove_drivers sample_env sample_bound [SPP_UUID]).1.drivers
      ↔ ∃ u, sample_driver.uuids.find? (is_removed [SPP_UUID]) = some u
          ∧ (is_audio_driver u = true →
              ∀ a ∈ sample_bound.uuids, is_audio_driver a = true →
                is_removed [SPP_UUID] a = true)) :=
  ⟨by decide,
   (device_remove_drivers_unbinds sample_env sample_bound [SPP_UUID] sample_driver
      (by decide)).1⟩

/-! ## Completion of a bonding -/

/-- What `close_sdp_channel` leaves alone. -/
theorem close_sdp_channel_frame (device : btd_device) :
    (close_sdp_channel device).1.paired = device.paired
    ∧ (close_sdp_channel device).1.tmp_records = device.tmp_records
    ∧ (close_sdp_channel device).1.authr = device.authr
    ∧ (close_sdp_channel device).1.bonding = device.bonding
    ∧ (close_sdp_channel device).1.agent = device.agent
    ∧ erasures (close_sdp_channel device).2 = []
    ∧ replies (close_sdp_channel device).2 = [] := by
  unfold close_sdp_channel
  cases device.tmp_sdp_io <;> exact ⟨rfl, rfl, rfl, rfl, rfl, rfl, rfl⟩

/-- What `cancel_authentication` leaves alone. -/
theorem cancel_authentication_frame (device : btd_device) (auth : authentication_req) :
    (cancel_authentication device auth).1.paired = device.paired
    ∧ (cancel_authentication device auth).1.tmp_records = device.tmp_records
    ∧ (cancel_authentication device auth).1.bonding = device.bonding
    ∧ (cancel_authentication device auth).1.agent = device.agent
    ∧ erasures (cancel_authentication device auth).2.2 = []
    ∧ replies (cancel_authentication device auth).2.2 = [] := by
  unfold cancel_authentication
  cases hcb : auth.cb <;> cases hty : auth.type <;> cases hio : device.tmp_sdp_io <;>
    simp [close_sdp_channel, erasures, replies, is_erasure, is_reply, hio]

/-- What `device_cancel_authentication` leaves alone; the request is gone afterwards. -/
theorem device_cancel_authentication_frame (device : btd_device) (aborted : Bool) :
    (device_cancel_authentication device aborted).1.paired = device.paired
    ∧ (device_cancel_authentication device aborted).1.tmp_records = device.tmp_records
    ∧ (device_cancel_authentication device aborted).1.bonding = device.bonding
    ∧ (device_cancel_authentication device aborted).1.agent = device.agent
    ∧ (device_cancel_authentication device aborted).1.authr = none
    ∧ erasures (device_cancel_authentication device aborted).2 = []
    ∧ replies (device_cancel_authentication device aborted).2 = [] := by
  unfold device_cancel_authentication
  cases h : device.authr with
  | none => exact ⟨rfl, rfl, rfl, rfl, h, rfl, rfl⟩
  | some auth =>
    have ha : erasures (match auth.agent with
          | some agent => [dev_effect.agent_cancel agent]
          | none => []) = []
        ∧ replies (match auth.agent with
          | some agent => [dev_effect.agent_cancel agent]
          | none => []) = [] := by
      cases auth.agent <;> exact ⟨rfl, rfl⟩
    cases aborted with
    | true =>
      obtain ⟨c1, c2, _, c4, c5, c6, c7⟩ := close_sdp_channel_frame device
      simp only [not_true_eq_false, if_false, List.append_nil, device_auth_req_free]
      simp only [erasures, replies, List.filter_append] at c6 c7 ha ⊢
      rw [c6, c7, ha.1, ha.2]
      refine ⟨c1, c2, c4, c5, ?_, ?_, ?_⟩ <;> first | rfl | trivial
    | false =>
      obtain ⟨a1, a2, a3, a4, a5, a6⟩ := cancel_authentication_frame device auth
      obtain ⟨c1, c2, _, c4, c5, c6, c7⟩ := close_sdp_channel_frame
        { (cancel_authentication device auth).1 with
          authr := some (cancel_authentication device auth).2.1 }
      simp only [Bool.false_eq_true, not_false_eq_true, if_true, device_auth_req_free]
      simp only [erasures, replies, List.filter_append] at c6 c7 a5 a6 ha ⊢
      rw [c6, c7, a5, a6, ha.1, ha.2]
      refine ⟨c1.trans a1, c2.trans a2, c4.trans a3, c5.trans a4, ?_, ?_, ?_⟩ <;>
        first | rfl | trivial

/-- What `bonding_request_free` leaves alone. -/
theorem bonding_request_free_frame (device : btd_device) (bonding : Option bonding_req) :
    (bonding_request_free device bonding).1.paired = device.paired
    ∧ (bonding_request_free device bonding).1.tmp_records = device.tmp_records
    ∧ (bonding_request_free device bonding).1.authr = device.authr
    ∧ erasures (bonding_request_free device bonding).2 = []
    ∧ replies (bonding_request_free device bonding).2 = []
    ∧ (device.agent = none → agent_cancels (bonding_request_free device bonding).2 = []) := by
  unfold bonding_request_free
  cases bonding with
  | none => exact ⟨rfl, rfl, rfl, rfl, rfl, fun _ => rfl⟩
  | some b =>
    cases hio : b.io <;> cases hd : b.device <;> cases hag : device.agent <;>
      by_cases c : b.listener_id = 0 <;>
      simp [erasures, replies, agent_cancels, is_erasure, is_reply, is_agent_cancel, c,
        hio, hd, hag]

/-- What `device_cancel_bonding` leaves alone; the caller of an active bonding request
is sent the reply for the status. -/
theorem device_cancel_bonding_frame (device : btd_device) (status : Nat) :
    (device_cancel_bonding device status).1.paired = device.paired
    ∧ (device_cancel_bonding device status).1.tmp_records = device.tmp_records
    ∧ erasures (device_cancel_bonding device status).2 = []
    ∧ (∀ b, device.bonding = some b →
        dev_effect.g_dbus_send_message (new_authentication_return b.msg status)
          ∈ (device_cancel_bonding device status).2) := by
  unfold device_cancel_bonding
  cases h : device.bonding with
  | none => exact ⟨rfl, rfl, rfl, fun b hb => by simp at hb⟩
  | some bonding =>
    have ha : ∃ a : btd_device × List dev_effect,
        (if device.authr.isSome = true then device_cancel_authentication device false
          else (device, [])) = a
        ∧ a.1.paired = device.paired ∧ a.1.tmp_records = device.tmp_records
        ∧ erasures a.2 = [] := by
      by_cases c : device.authr.isSome = true
      · obtain ⟨a1, a2, _, _, _, a6, _⟩ := device_cancel_authentication_frame device false
        exact ⟨_, rfl, by simp only [c, if_true]; exact ⟨a1, a2, a6⟩⟩
      · exact ⟨_, rfl, by simp only [c, if_false]; exact ⟨rfl, rfl, rfl⟩⟩
    obtain ⟨a, hae, a1, a2, a3⟩ := ha
    obtain ⟨f1, f2, _, f4, _, _⟩ := bonding_request_free_frame a.1 (some bonding)
    simp only [hae]
    refine ⟨f1.trans a1, f2.trans a2, ?_, ?_⟩
    · simp only [erasures, List.filter_append] at a3 f4 ⊢
      rw [a3, f4]
      rfl
    · intro b hb
      simp only [Option.some.injEq] at hb
      subst hb
      simp

/-- What `device_remove_stored` does: the device is not paired afterwards, its requests
are kept, the stored entries and records are deleted, after the keys if the device was
paired, and no message is sent. -/
theorem device_remove_stored_spec (env : environment) (device : btd_device) :
    (device_remove_stored env device).1.paired = false
    ∧ (device_remove_stored env device).1.bonding = device.bonding
    ∧ (device_remove_stored env device).1.authr = device.authr
    ∧ erasures (device_remove_stored env device).2
        = (if device.paired = true then (device_remove_bonding device).2 else [])
          ++ [dev_effect.delete_entry "profiles", dev_effect.delete_entry "trusts",
              dev_effect.delete_entry "types", dev_effect.delete_entry "primary",
              dev_effect.delete_entry "lekeys", dev_effect.delete_all_records,
              dev_effect.delete_device_service]
    ∧ replies (device_remove_stored env device).2 = [] := by
  unfold device_remove_stored
  cases hp : device.paired <;> cases hb : device.blocked <;>
    by_cases ht : device.type = device_type_t.DEVICE_TYPE_LE <;>
    by_cases hu : env.unblock_address < 0 <;>
    simp [device_remove_bonding, device_set_paired, device_unblock, erasures, replies,
      is_erasure, is_reply, hp, hb, ht, hu]

/-- What `browse_request_free` leaves alone. -/
theorem browse_request_free_frame (device : btd_device) (req : browse_req) :
    (browse_request_free device req).1.paired = device.paired
    ∧ (browse_request_free device req).1.authr = device.authr
    ∧ (browse_request_free device req).1.agent = device.agent
    ∧ agent_cancels (browse_request_free device req).2 = [] := by
  unfold browse_request_free btd_device_unref
  cases req.attrib <;> by_cases c1 : req.listener_id = 0 <;>
    by_cases c2 : req.sdp_timer_id = 0 <;> by_cases c3 : device.ref - 1 > 0 <;>
    simp [agent_cancels, is_agent_cancel, c1, c2, c3]

/-- What `device_browse_sdp` leaves alone. -/
theorem device_browse_sdp_frame (env : environment) (device : btd_device)
    (conn : Option Nat) (msg : Option DBusMessage) (search : Option Nat) (reverse : Bool) :
    (device_browse_sdp env device conn msg search reverse).2.1.paired = device.paired
    ∧ (device_browse_sdp env device conn msg search reverse).2.1.authr = device.authr
    ∧ (device_browse_sdp env device conn msg search reverse).2.1.agent = device.agent
    ∧ agent_cancels (device_browse_sdp env device conn msg search reverse).2.2 = [] := by
  have hf := fun req => browse_request_free_frame { device with ref := device.ref + 1 } req
  unfold device_browse_sdp
  by_cases hb : device.browse.isSome = true
  · simp only [hb, if_true]
    refine ⟨?_, ?_, ?_, ?_⟩ <;> first | rfl | trivial
  · simp only [hb, Bool.false_eq_true, if_false]
    by_cases he : env.bt_search_service < 0
    · simp only [he, if_true]
      refine ⟨(hf _).1, (hf _).2.1, (hf _).2.2.1, ?_⟩
      have := (hf (match search with
        | some uuid => (uuid, browse_req_new0, search_callback.search_cb)
        | none =>
          ((uuid_list_at browse_req_new0.search_uuid).getD 0,
            init_browse device.uuids
              { browse_req_new0 with search_uuid := browse_req_new0.search_uuid + 1 } reverse,
            search_callback.browse_cb)).2.1).2.2.2
      simp only [agent_cancels] at this ⊢
      rw [List.filter_cons]
      simp only [is_agent_cancel, Bool.false_eq_true, if_false]
      exact this
    · simp only [he, if_false]
      cases msg <;> simp [agent_cancels, is_agent_cancel]

/-- What `device_browse_primary` leaves alone. -/
theorem device_browse_primary_frame (env : environment) (device : btd_device)
    (conn : Option Nat) (msg : Option DBusMessage) (secure : Bool) :
    (device_browse_primary env device conn msg secure).2.1.paired = device.paired
    ∧ (device_browse_primary env device conn msg secure).2.1.authr = device.authr
    ∧ (device_browse_primary env device conn msg secure).2.1.agent = device.agent
    ∧ agent_cancels (device_browse_primary env device conn msg secure).2.2 = [] := by
  have hf := browse_request_free_frame { device with ref := device.ref + 1 } browse_req_new0
  unfold device_browse_primary
  by_cases hb : device.browse.isSome = true
  · simp only [hb, if_true]
    refine ⟨?_, ?_, ?_, ?_⟩ <;> first | rfl | trivial
  · simp only [hb, Bool.false_eq_true, if_false]
    cases env.attrib_client_find with
    | some attrib => simp [agent_cancels, is_agent_cancel]
    | none =>
      cases env.bt_io_connect with
      | none =>
        refine ⟨hf.1, hf.2.1, hf.2.2.1, ?_⟩
        have := hf.2.2.2
        simp only [agent_cancels] at this ⊢
        rw [List.filter_cons]
        simp only [is_agent_cancel, Bool.false_eq_true, if_false]
        exact this
      | some chan => cases msg <;> simp [agent_cancels, is_agent_cancel]

/-- The calls made by `device_bonding_complete` before anything else: the cancellation
of a display notification pending at an agent. -/
theorem notify_cancel_frame (authr : Option authentication_req) :
    erasures (match authr with
      | some auth =>
        if auth.type = auth_type_t.AUTH_TYPE_NOTIFY then
          match auth.agent with
          | some agent => [dev_effect.agent_cancel agent]
          | none => []
        else []
      | none => []) = []
    ∧ replies (match authr with
      | some auth =>
        if auth.type = auth_type_t.AUTH_TYPE_NOTIFY then
          match auth.agent with
          | some agent => [dev_effect.agent_cancel agent]
          | none => []
        else []
      | none => []) = [] := by
  cases authr with
  | none => exact ⟨rfl, rfl⟩
  | some auth =>
    simp only
    split_ifs
    · cases auth.agent <;> exact ⟨rfl, rfl⟩
    · exact ⟨rfl, rfl⟩

/-- The reply of `new_authentication_return` for the three statuses that erase the
stored data: an error, rejected for 0x06 and 0x18, failed for 0x05. -/
theorem new_authentication_return_failure (msg : DBusMessage) (status : Nat)
    (h : status = 0x06 ∨ status = 0x18 ∨ status = 0x05) :
    new_authentication_return msg status
      = dbus_reply.error msg
          (ERROR_INTERFACE ++ (if status = 0x05 then ".AuthenticationFailed"
                               else ".AuthenticationRejected"))
          (if status = 0x05 then "Authentication Failed" else "Authentication Rejected") := by
  rcases h with h | h | h <;> subst h <;> rfl

/-- The messages sent by `device_cancel_bonding`: the reply for the status to the
caller of the bonding request, and no other. -/
theorem device_cancel_bonding_replies (device : btd_device) (status : Nat) :
    (∀ b, device.bonding = some b →
      replies (device_cancel_bonding device status).2
        = [dev_effect.g_dbus_send_message (new_authentication_return b.msg status)])
    ∧ (device.bonding = none → replies (device_cancel_bonding device status).2 = []) := by
  unfold device_cancel_bonding
  cases h : device.bonding with
  | none => exact ⟨fun b hb => by simp at hb, fun _ => rfl⟩
  | some bonding =>
    have ha : ∃ a : btd_device × List dev_effect,
        (if device.authr.isSome = true then device_cancel_authentication device false
          else (device, [])) = a
        ∧ replies a.2 = [] := by
      by_cases c : device.authr.isSome = true
      · obtain ⟨_, _, _, _, _, _, a7⟩ := device_cancel_authentication_frame device false
        exact ⟨_, rfl, by simp only [c, if_true]; exact a7⟩
      · exact ⟨_, rfl, by simp only [c, if_false]; rfl⟩
    obtain ⟨a, hae, a1⟩ := ha
    obtain ⟨_, _, _, _, f5, _⟩ := bonding_request_free_frame a.1 (some bonding)
    simp only [hae]
    refine ⟨?_, fun c => by simp at c⟩
    intro b hb
    simp only [Option.some.injEq] at hb
    subst hb
    simp only [replies, List.filter_append] at a1 f5 ⊢
    rw [a1, f5]
    rfl

/-- C19: on a status equal to PIN-or-key-missing (0x06), pairing-not-allowed (0x18) or
authentication-failure (0x05), `device_bonding_complete` erases what is persisted for
the device: the stored keys and the bonding kept by the adapter when the device was
paired (the long-term keys of a low-energy device, the link key of another), then the
stored profiles, trusts, types, primaries and keys entries, the stored records and the
stored services. The device is not paired afterwards and its cached record list is
empty, and the error reply (rejected for 0x06 and 0x18, failed for 0x05) is sent to
the caller of the bonding request, if there is one, only after all of that. On any
other non-zero status nothing is erased, and the paired flag and the cached records
are unchanged. -/
theorem device_bonding_complete_failure (env : environment) (device : btd_device)
    (status : Nat) (hs : status ≠ 0) :
    ((status = 0x06 ∨ status = 0x18 ∨ status = 0x05) →
      (device_bonding_complete env device status).1.paired = false
      ∧ (device_bonding_complete env device status).1.tmp_records = []
      ∧ ∃ pre post, (device_bonding_complete env device status).2 = pre ++ post
          ∧ erasures pre
              = (if device.paired = true then
                   (if device.type = device_type_t.DEVICE_TYPE_LE then
                      [dev_effect.delete_le_keys, dev_effect.btd_adapter_remove_bonding]
                    else
                      [dev_effect.textfile_casedel_linkkey,
                       dev_effect.btd_adapter_remove_bonding])
                 else [])
                ++ [dev_effect.delete_entry "profiles", dev_effect.delete_entry "trusts",
                    dev_effect.delete_entry "types", dev_effect.delete_entry "primary",
                    dev_effect.delete_entry "lekeys", dev_effect.delete_all_records,
                    dev_effect.delete_device_service]
          ∧ replies pre = [] ∧ erasures post = []
          ∧ (∀ b, device.bonding = some b →
              replies post
                = [dev_effect.g_dbus_send_message
                    (dbus_reply.error b.msg
                      (ERROR_INTERFACE ++ (if status = 0x05 then ".AuthenticationFailed"
                                           else ".AuthenticationRejected"))
                      (if status = 0x05 then "Authentication Failed"
                       else "Authentication Rejected"))])
          ∧ (device.bonding = none → replies post = []))
    ∧ (¬ (status = 0x06 ∨ status = 0x18 ∨ status = 0x05) →
      (device_bonding_complete env device status).1.paired = device.paired
      ∧ (device_bonding_complete env device status).1.tmp_records = device.tmp_records
      ∧ erasures (device_bonding_complete env device status).2 = []) := by
  obtain ⟨n1, n2⟩ := notify_cancel_frame device.authr
  constructor
  · intro hd
    have hd2 : status = HCI_PIN_OR_KEY_MISSING ∨ status = HCI_PAIRING_NOT_ALLOWED ∨
        status = HCI_AUTHENTICATION_FAILURE := by
      simpa [HCI_PIN_OR_KEY_MISSING, HCI_PAIRING_NOT_ALLOWED, HCI_AUTHENTICATION_FAILURE]
        using hd
    obtain ⟨s1, s2, _, s4, s5⟩ := device_remove_stored_spec env device
    have s4b : erasures (device_remove_stored env device).2
        = (if device.paired = true then
             (if device.type = device_type_t.DEVICE_TYPE_LE then
                [dev_effect.delete_le_keys, dev_effect.btd_adapter_remove_bonding]
              else
                [dev_effect.textfile_casedel_linkkey, dev_effect.btd_adapter_remove_bonding])
           else [])
          ++ [dev_effect.delete_entry "profiles", dev_effect.delete_entry "trusts",
              dev_effect.delete_entry "types", dev_effect.delete_entry "primary",
              dev_effect.delete_entry "lekeys", dev_effect.delete_all_records,
              dev_effect.delete_device_service] := by
      rw [s4]
      unfold device_remove_bonding
      split_ifs <;> rfl
    obtain ⟨a1, a2, a3, _, _, a6, a7⟩ := device_cancel_authentication_frame
      { (device_remove_stored env device).1 with tmp_records := [] } true
    obtain ⟨b1, b2, b3, _⟩ := device_cancel_bonding_frame
      (device_cancel_authentication
        { (device_remove_stored env device).1 with tmp_records := [] } true).1 status
    obtain ⟨r1, r2⟩ := device_cancel_bonding_replies
      (device_cancel_authentication
        { (device_remove_stored env device).1 with tmp_records := [] } true).1 status
    obtain ⟨c1, c2, _, _, _, c6, c7⟩ := close_sdp_channel_frame
      (device_cancel_bonding (device_cancel_authentication
        { (device_remove_stored env device).1 with tmp_records := [] } true).1 status).1
    have hbond : (device_cancel_authentication
        { (device_remove_stored env device).1 with tmp_records := [] } true).1.bonding
        = device.bonding := a3.trans s2
    unfold device_bonding_complete
    simp only [hs, ne_eq, not_false_eq_true, if_true, hd2]
    have hsplit : ∀ (n e a b c : List dev_effect),
        n ++ e ++ a ++ b ++ c = (n ++ e) ++ (a ++ b ++ c) := by
      intros; simp only [List.append_assoc]
    refine ⟨c1.trans (b1.trans (a1.trans s1)), c2.trans (b2.trans a2), _, _,
      hsplit _ _ _ _ _, ?_, ?_, ?_, ?_, ?_⟩
    · simp only [erasures, List.filter_append] at n1 s4b ⊢
      rw [n1, s4b]; rfl
    · simp only [replies, List.filter_append] at n2 s5 ⊢
      rw [n2, s5]; rfl
    · simp only [erasures, List.filter_append] at a6 b3 c6 ⊢
      rw [a6, b3, c6]; rfl
    · intro b hb
      have := r1 b (hbond.trans hb)
      rw [new_authentication_return_failure b.msg status hd] at this
      simp only [replies, List.filter_append] at a7 c7 this ⊢
      rw [a7, c7, this]; rfl
    · intro hb
      have := r2 (hbond.trans hb)
      simp only [replies, List.filter_append] at a7 c7 this ⊢
      rw [a7, c7, this]; rfl
  · intro hd
    have hd2 : ¬ (status = HCI_PIN_OR_KEY_MISSING ∨ status = HCI_PAIRING_NOT_ALLOWED ∨
        status = HCI_AUTHENTICATION_FAILURE) := by
      simpa [HCI_PIN_OR_KEY_MISSING, HCI_PAIRING_NOT_ALLOWED, HCI_AUTHENTICATION_FAILURE]
        using hd
    obtain ⟨a1, a2, _, _, _, a6, _⟩ := device_cancel_authentication_frame device true
    obtain ⟨b1, b2, b3, _⟩ := device_cancel_bonding_frame
      (device_cancel_authentication device true).1 status
    obtain ⟨c1, c2, _, _, _, c6, _⟩ := close_sdp_channel_frame
      (device_cancel_bonding (device_cancel_authentication device true).1 status).1
    unfold device_bonding_complete
    simp only [hs, ne_eq, not_false_eq_true, if_true, hd2, if_false]
    refine ⟨c1.trans (b1.trans a1), c2.trans (b2.trans a2), ?_⟩
    simp only [erasures, List.filter_append] at n1 a6 b3 c6 ⊢
    rw [n1, a6, b3, c6]; rfl

/-- Witness of C19 at the status authentication-failure and the paired device with the
bonding request `sample_bonding` and a cached record: the link key and the bonding of
the adapter are erased, then the stored entries, and the caller is sent the error
`AuthenticationFailed` after that. -/
theorem device_bonding_complete_failure_witness :
    (5 : Nat) ≠ 0
    ∧ (device_bonding_complete sample_env
        { sample_device with paired := true, bonding := some sample_bonding,
                             tmp_records := [sample_record 0x10000 HSP_HS_UUID] } 5).1.paired
        = false
    ∧ (device_bonding_complete sample_env
        { sample_device with paired := true, bonding := some sample_bonding,
                             tmp_records := [sample_record 0x10000 HSP_HS_UUID] } 5).1.tmp_records
        = []
    ∧ ∃ pre post, (device_bonding_complete sample_env
          { sample_device with paired := true, bonding := some sample_bonding,
                               tmp_records := [sample_record 0x10000 HSP_HS_UUID] } 5).2
          = pre ++ post
        ∧ erasures pre
            = [dev_effect.textfile_casedel_linkkey, dev_effect.btd_adapter_remove_bonding,
               dev_effect.delete_entry "profiles", dev_effect.delete_entry "trusts",
               dev_effect.delete_entry "types", dev_effect.delete_entry "primary",
               dev_effect.delete_entry "lekeys", dev_effect.delete_all_records,
               dev_effect.delete_device_service]
        ∧ replies pre = [] ∧ erasures post = []
        ∧ replies post
            = [dev_effect.g_dbus_send_message
                (dbus_reply.error sample_msg "org.bluez.Error.AuthenticationFailed"
                  "Authentication Failed")] := by
  obtain ⟨h1, h2, pre, post, h3, h4, h5, h6, h7, _⟩ :=
    (device_bonding_complete_failure sample_env
      { sample_device with paired := true, bonding := some sample_bonding,
                           tmp_records := [sample_record 0x10000 HSP_HS_UUID] } 5
      (by decide)).1 (Or.inr (Or.inr rfl))
  exact ⟨by decide, h1, h2, pre, post, h3, h4, h5, h6, h7 sample_bonding rfl⟩

/-- C20, evaluated where the code departs from it: a PIN code request is pending at
agent 3 when the bonding completes with status 0 on a device without bonding request.
The device is paired and the request is gone, and no agent call is cancelled: the
calls made are the change of the Paired property and the arming of the discovery
timer. -/
theorem device_bonding_complete_no_cancel :
    sample_auth.type = auth_type_t.AUTH_TYPE_PINCODE ∧ sample_auth.agent = some 3
    ∧ device_bonding_complete sample_env { sample_device with authr := some sample_auth } 0
      = ({ sample_device with paired := true, discov_timer := 9 },
          [dev_effect.emit_property_changed "Paired" true,
           dev_effect.g_timeout_add_seconds timer_kind.start_discovery]) := by
  decide

/-- C20, amended: `device_bonding_complete` with status 0 leaves the device, from every
state, with paired = true and without pending authentication request. The outstanding
call of the agent of that request is cancelled, first of all, when the request is a
display notification (AUTH_TYPE_NOTIFY) with an agent; for a request of another kind
no agent call is cancelled, unless the device holds an agent of its own and a bonding
request that is released. -/
theorem device_bonding_complete_success (env : environment) (device : btd_device) :
    (device_bonding_complete env device 0).1.paired = true
    ∧ (device_bonding_complete env device 0).1.authr = none
    ∧ (∀ auth agent, device.authr = some auth → auth.type = auth_type_t.AUTH_TYPE_NOTIFY →
        auth.agent = some agent →
        ∃ rest, (device_bonding_complete env device 0).2 = dev_effect.agent_cancel agent :: rest)
    ∧ (∀ auth, device.authr = some auth → auth.type ≠ auth_type_t.AUTH_TYPE_NOTIFY →
        device.bonding = none ∨ device.agent = none →
        agent_cancels (device_bonding_complete env device 0).2 = []) := by
  -- the device after the request is released and the paired flag set
  have hp : ∃ p : btd_device × List dev_effect,
      (if ¬ (device_auth_req_free device).paired = true
        then device_set_paired (device_auth_req_free device) true
        else (device_auth_req_free device, [])) = p
      ∧ p.1.paired = true ∧ p.1.authr = none ∧ p.1.agent = device.agent
      ∧ p.1.bonding = device.bonding ∧ agent_cancels p.2 = [] := by
    refine ⟨_, rfl, ?_⟩
    cases hpd : device.paired <;>
      simp [device_auth_req_free, device_set_paired, hpd, agent_cancels, is_agent_cancel]
  obtain ⟨p, hpe, p1, p2, p3, p4, p5⟩ := hp
  have h2 : ∃ d2 : btd_device,
      (if p.1.tmp_records = [] then { p.1 with tmp_records := env.read_records } else p.1) = d2
      ∧ d2.paired = true ∧ d2.authr = none ∧ d2.agent = device.agent := by
    refine ⟨_, rfl, ?_⟩
    split_ifs <;> exact ⟨p1, p2, p3⟩
  obtain ⟨d2, hd2, q1, q2, q3⟩ := h2
  -- the branch taken after the cached records are looked up
  have key : ∃ (d : btd_device) (tail : List dev_effect),
      device_bonding_complete env device 0
        = (d, (match device.authr with
            | some auth =>
              if auth.type = auth_type_t.AUTH_TYPE_NOTIFY then
                match auth.agent with
                | some agent => [dev_effect.agent_cancel agent]
                | none => []
              else []
            | none => []) ++ tail)
      ∧ d.paired = true ∧ d.authr = none
      ∧ (device.bonding = none ∨ device.agent = none → agent_cancels tail = []) := by
    unfold device_bonding_complete
    simp only [hpe, hd2]
    rw [if_neg (show ¬ ((0 : Nat) ≠ 0) from fun h => h rfl)]
    by_cases ht : d2.tmp_records ≠ []
    · rw [if_pos ht]
      exact ⟨_, _, rfl, q1, q2, fun _ => p5⟩
    · rw [if_neg ht]
      cases hb : device.bonding with
      | none =>
        simp only
        split_ifs
        · refine ⟨_, _, by rw [List.append_assoc], ?_, ?_, fun _ => ?_⟩
          · exact q1
          · exact q2
          · simp only [agent_cancels, List.filter_append] at p5 ⊢
            rw [p5]; rfl
        · exact ⟨_, _, rfl, q1, q2, fun _ => p5⟩
      | some b =>
        simp only
        have ht : ∃ t : btd_device × List dev_effect,
            (if d2.discov_timer ≠ 0 then
              ({ d2 with discov_timer := 0 }, [dev_effect.g_source_remove d2.discov_timer])
             else (d2, [])) = t
            ∧ t.1.paired = true ∧ t.1.authr = none ∧ t.1.agent = device.agent
            ∧ agent_cancels t.2 = [] := by
          refine ⟨_, rfl, ?_⟩
          split_ifs <;> exact ⟨q1, q2, q3, rfl⟩
        obtain ⟨t, hte, t1, t2, t3, t4⟩ := ht
        simp only [hte]
        have hbr : ∃ br : Int × btd_device × List dev_effect,
            (if t.1.type = device_type_t.DEVICE_TYPE_LE then
              device_browse_primary env t.1 (some b.conn) (some b.msg) false
             else device_browse_sdp env t.1 (some b.conn) (some b.msg) none false) = br
            ∧ br.2.1.paired = true ∧ br.2.1.authr = none ∧ br.2.1.agent = device.agent
            ∧ agent_cancels br.2.2 = [] := by
          refine ⟨_, rfl, ?_⟩
          obtain ⟨x1, x2, x3, x4⟩ :=
            device_browse_primary_frame env t.1 (some b.conn) (some b.msg) false
          obtain ⟨y1, y2, y3, y4⟩ :=
            device_browse_sdp_frame env t.1 (some b.conn) (some b.msg) none false
          split_ifs
          · exact ⟨x1.trans t1, x2.trans t2, x3.trans t3, x4⟩
          · exact ⟨y1.trans t1, y2.trans t2, y3.trans t3, y4⟩
        obtain ⟨br, hbre, r1, r2, r3, r4⟩ := hbr
        simp only [hbre]
        obtain ⟨f1, _, f3, _, _, f6⟩ := bonding_request_free_frame br.2.1 (some b)
        refine ⟨_, _, by rw [List.append_assoc, List.append_assoc, List.append_assoc],
          ?_, ?_, ?_⟩
        · exact f1.trans r1
        · exact f3.trans r2
        · intro h
          rcases h with h | h
          · simp at h
          · simp only [agent_cancels, List.filter_append] at p5 t4 r4 f6 ⊢
            rw [p5, t4, r4, f6 (r3.trans h)]; rfl
  obtain ⟨d, tail, he, k1, k2, k3⟩ := key
  rw [he]
  refine ⟨k1, k2, ?_, ?_⟩
  · intro auth agent ha hty hag
    simp only [ha, hty, hag, if_true]
    exact ⟨tail, rfl⟩
  · intro auth ha hty hor
    simp only [ha, hty, if_false, List.nil_append]
    exact k3 hor

/-- Witness of C20, amended: a PIN code request on a device without bonding request,
and a display notification pending at agent 3. -/
theorem device_bonding_complete_success_witness :
    agent_cancels
        (device_bonding_complete sample_env { sample_device with authr := some sample_auth } 0).2
      = []
    ∧ ∃ rest, (device_bonding_complete sample_env
        { sample_device with
          authr := some { sample_auth with type := auth_type_t.AUTH_TYPE_NOTIFY } } 0).2
        = dev_effect.agent_cancel 3 :: rest :=
  ⟨(device_bonding_complete_success sample_env
      { sample_device with authr := some sample_auth }).2.2.2 sample_auth rfl (by decide)
      (Or.inl rfl),
   (device_bonding_complete_success sample_env
      { sample_device with
        authr := some { sample_auth with type := auth_type_t.AUTH_TYPE_NOTIFY } }).2.2.1
      { sample_auth with type := auth_type_t.AUTH_TYPE_NOTIFY } 3 rfl rfl rfl⟩

/-! ## The number of queries of a browse -/

/-- The driver loop of `device_probe_drivers` calls nothing but probe hooks. -/
theorem probe_drivers_loop_log (env : environment) (profiles : List cstring) :
    ∀ (list : List btd_device_driver) (device : btd_device),
      ∀ e ∈ (probe_drivers_loop env profiles list device).2,
        ∃ n u, e = dev_effect.driver_probe n u := by
  intro list
  induction list with
  | nil => intro device e he; simp [probe_drivers_loop] at he
  | cons driver rest ih =>
    intro device e he
    simp only [probe_drivers_loop] at he
    split_ifs at he
    · exact ih _ e he
    · rw [List.mem_cons] at he
      rcases he with he | he
      · exact ⟨_, _, he⟩
      · exact ih _ e he
    · rw [List.mem_cons] at he
      rcases he with he | he
      · exact ⟨_, _, he⟩
      · exact ih _ e he

/-- The function `device_probe_drivers` calls nothing but probe hooks. -/
theorem device_probe_drivers_log (env : environment) (device : btd_device)
    (profiles : List cstring) :
    ∀ e ∈ (device_probe_drivers env device profiles).2,
      ∃ n u, e = dev_effect.driver_probe n u := by
  intro e he
  unfold device_probe_drivers at he
  by_cases hb : device.blocked = true
  · simp [hb] at he
  · simp only [hb, Bool.false_eq_true, if_false] at he
    exact probe_drivers_loop_log env profiles _ _ e he

/-- The driver loop of `device_remove_drivers` calls nothing but remove hooks. -/
theorem remove_drivers_loop_effects (device_uuids uuids : List cstring) :
    ∀ (pending drivers : List btd_device_driver),
      ∀ e ∈ (remove_drivers_loop device_uuids uuids pending drivers).2,
        ∃ n, e = dev_effect.driver_remove n := by
  intro pending
  induction pending with
  | nil => intro drivers e he; simp [remove_drivers_loop] at he
  | cons d next ih =>
    intro drivers e he
    unfold remove_drivers_loop at he
    split_ifs at he
    · rw [List.mem_cons] at he
      rcases he with he | he
      · exact ⟨_, he⟩
      · exact ih _ e he
    · exact ih _ e he

/-- The loop of `device_remove_drivers` over the removed ids calls nothing but
`delete_record`. -/
theorem remove_uuids_loop_effects (env : environment) :
    ∀ (uuids device_uuids : List cstring) (records : List sdp_record),
      ∀ e ∈ (remove_uuids_loop env uuids device_uuids records).2,
        ∃ h, e = dev_effect.delete_record h := by
  intro uuids
  induction uuids with
  | nil => intro du records e he; simp [remove_uuids_loop] at he
  | cons data list ih =>
    intro du records e he
    unfold remove_uuids_loop at he
    split at he
    · exact ih _ _ e he
    · rw [List.mem_cons] at he
      rcases he with he | he
      · exact ⟨_, he⟩
      · exact ih _ _ e he

/-- The function `device_remove_drivers` calls nothing but remove hooks and
`delete_record`. -/
theorem device_remove_drivers_log (env : environment) (device : btd_device)
    (uuids : List cstring) :
    ∀ e ∈ (device_remove_drivers env device uuids).2,
      (∃ n, e = dev_effect.driver_remove n) ∨ (∃ h, e = dev_effect.delete_record h) := by
  intro e he
  unfold device_remove_drivers at he
  simp only [List.mem_append] at he
  rcases he with he | he
  · exact Or.inl (remove_drivers_loop_effects _ _ _ _ e he)
  · exact Or.inr (remove_uuids_loop_effects env _ _ _ e he)

/-- No search query is issued by the part of `search_cb` that updates the device. -/
theorem search_cb_update_no_search (env : environment) (device : btd_device)
    (req : browse_req) (recs : List (Option sdp_record)) :
    searches (search_cb_update env device req recs).2.2 = [] := by
  have hu := update_services_no_search device.uuids recs req
  have hp : ∀ d p, searches (device_probe_drivers env d p).2 = [] := by
    intro d p
    unfold searches
    rw [List.filter_eq_nil_iff]
    intro e he
    obtain ⟨n, u, h⟩ := device_probe_drivers_log env d p e he
    rw [h]; simp [is_search]
  have hr : ∀ d p, searches (device_remove_drivers env d p).2 = [] := by
    intro d p
    unfold searches
    rw [List.filter_eq_nil_iff]
    intro e he
    rcases device_remove_drivers_log env d p e he with ⟨n, h⟩ | ⟨n, h⟩ <;>
      (rw [h]; simp [is_search])
  have hg : ∀ d l psm, searches (device_register_services env d l psm).2 = [] := by
    intro d l psm
    unfold device_register_services
    split_ifs <;> rfl
  unfold search_cb_update
  simp only [searches, List.filter_append] at hu hp hr hg ⊢
  split_ifs <;> simp only [List.filter_append, hu, hp, hr, hg, List.append_nil, List.nil_append,
    List.filter_nil] <;> rfl

/-- The function `search_cb` ends the browse without issuing a search query, whatever
the status. -/
theorem search_cb_no_search (env : environment) (device : btd_device)
    (recs : List (Option sdp_record)) (err : Int) (req : browse_req)
    (h : device.browse = some req) :
    ∃ d log, search_cb env device recs err = some (d, log) ∧ d.browse = none
      ∧ searches log = [] := by
  by_cases herr : err < 0
  · exact search_cb_error_no_search env device recs err req h herr
  · unfold search_cb
    rw [h]
    refine ⟨_, _, rfl, search_cb_cleanup_browse _ _, ?_⟩
    have hup := search_cb_update_no_search env device (remove_sdp_timer req).1 recs
    simp only [herr, if_false, searches, List.filter_append] at hup ⊢
    have t : List.filter is_search (remove_sdp_timer req).2 = [] := by
      unfold remove_sdp_timer; split_ifs <;> rfl
    have r : ∀ d q, List.filter is_search (search_cb_reply d q err).2 = [] := by
      intro d q
      unfold search_cb_reply discover_services_reply create_device_reply
      split
      · rfl
      · split_ifs <;> simp_all [is_search]
    have c : ∀ d q, List.filter is_search (search_cb_cleanup d q).2 = [] := by
      intro d q
      unfold search_cb_cleanup browse_request_free btd_device_unref store_profiles
      simp only [List.filter_append]
      split_ifs <;> (try split) <;> simp [is_search]
    rw [t, r, c, hup]
    rfl

/-- One call of `browse_cb` on a request within the bounds returns, leaves the device
within the bounds, and uses up one of the queries left for each query it issues. -/
theorem browse_cb_budget (env : environment) (device : btd_device)
    (recs : List (Option sdp_record)) (err : Int) (req : browse_req)
    (h : device.browse = some req) (hb : browse_bounds device) :
    ∃ d log, browse_cb env device recs err = some (d, log) ∧ browse_bounds d
      ∧ (searches log).length + queries_left d ≤ queries_left device := by
  obtain ⟨⟨b1, b2⟩, b3, b4⟩ := hb req h
  obtain ⟨v0, v1, v2, v3⟩ := uuid_list_at_values
  obtain ⟨f1, f2, f3, f4⟩ := remove_sdp_timer_fields req
  have none_ok : ∀ d : btd_device, d.browse = none → browse_bounds d := by
    intro d hd r hr; rw [hd] at hr; exact absurd hr (by simp)
  have none_left : ∀ d : btd_device, d.browse = none → queries_left d = 0 := by
    intro d hd; unfold queries_left; rw [hd]
  have hql : queries_left device
      = (3 - req.search_uuid).toNat + (1 - req.reconnect_attempt).toNat := by
    unfold queries_left; rw [h]
  by_cases hA : err < 0 ∨ (req.search_uuid = 2 ∧ req.records ≠ [])
  · by_cases hR : err = -ECONNRESET ∧ req.reconnect_attempt < 1
    · obtain ⟨he, hr⟩ := hR
      have hsu : req.search_uuid - 1 = 0 ∨ req.search_uuid - 1 = 1 ∨ req.search_uuid - 1 = 2 := by
        omega
      have hu : ∃ uuid, uuid_list_at (req.search_uuid - 1) = some uuid ∧ uuid ≠ 0 := by
        rcases hsu with e | e | e <;> rw [e]
        · exact ⟨_, v0, by decide⟩
        · exact ⟨_, v1, by decide⟩
        · exact ⟨_, v2, by decide⟩
      obtain ⟨uuid, hu1, hu2⟩ := hu
      obtain ⟨d, log, r, hb1, hb2, hb3, hb4, hb5⟩ :=
        browse_cb_retry env device recs req uuid h hr hu1 hu2
      rw [he]
      refine ⟨d, log, hb1, ?_, ?_⟩
      · intro r1 hr1
        rw [hb2] at hr1
        cases hr1
        exact ⟨⟨by omega, by omega⟩, by omega, by omega⟩
      · rw [hb5, hql]
        unfold queries_left
        rw [hb2]
        simp only [List.length_singleton, hb3, hb4]
        omega
    · generalize hq : remove_sdp_timer req = T at f1 f2 f3 f4
      obtain ⟨q, tl⟩ := T
      simp only at f1 f2 f3 f4
      obtain ⟨d, log, hs, hn, hl⟩ := search_cb_no_search env { device with browse := some q }
        recs err q rfl
      have hA2 : err < 0 ∨ (q.search_uuid = 2 ∧ q.records ≠ []) := by
        rw [f1, f3]; exact hA
      have hR2 : ¬ (err = -ECONNRESET ∧ q.reconnect_attempt < 1) := by rw [f2]; exact hR
      refine ⟨d, tl ++ log, ?_, none_ok d hn, ?_⟩
      · unfold browse_cb
        simp only [h, hq, hA2, if_true, hR2, if_false, hs]
      · rw [none_left d hn]
        simp only [searches, List.filter_append] at f4 hl ⊢
        rw [f4, hl]
        simp
  · generalize hq : remove_sdp_timer req = T at f1 f2 f3 f4
    obtain ⟨q, tl⟩ := T
    simp only at f1 f2 f3 f4
    have hA2 : ¬ (err < 0 ∨ (q.search_uuid = 2 ∧ q.records ≠ [])) := by
      rw [f1, f3]; exact hA
    obtain ⟨g1, g2, _, _⟩ := update_services_fields device.uuids recs q
    have hs := update_services_no_search device.uuids recs q
    unfold browse_cb
    simp only [h, hq, hA2, if_false, g1]
    have hsu : q.search_uuid = 1 ∨ q.search_uuid = 2 ∨ q.search_uuid = 3 := by omega
    have step : ∀ uuid : Nat,
        (searches (tl ++ (update_services device.uuids q recs).2
          ++ [dev_effect.bt_search_service uuid search_callback.browse_cb])).length = 1 := by
      intro uuid
      simp only [searches, List.filter_append] at f4 hs ⊢
      rw [f4, hs]
      rfl
    rcases hsu with e | e | e
    · simp only [e, v1]
      refine ⟨_, _, rfl, ?_, ?_⟩
      · intro r1 hr1
        simp only [Option.some.injEq] at hr1
        subst hr1
        simp only [g2, f2]
        exact ⟨⟨by omega, by omega⟩, b3, b4⟩
      · rw [hql]
        unfold queries_left
        simp only [g2, f2]
        have := step 4608
        simp only [ne_eq] at this ⊢
        omega
    · simp only [e, v2]
      refine ⟨_, _, rfl, ?_, ?_⟩
      · intro r1 hr1
        simp only [Option.some.injEq] at hr1
        subst hr1
        simp only [g2, f2]
        exact ⟨⟨by omega, by omega⟩, b3, b4⟩
      · rw [hql]
        unfold queries_left
        simp only [g2, f2]
        have := step 4098
        simp only [ne_eq] at this ⊢
        omega
    · simp only [e, v3]
      obtain ⟨d, log, hs2, hn, hl⟩ := search_cb_no_search env
        { device with browse := some (update_services device.uuids q recs).1 } recs err _ rfl
      simp only [ne_eq, not_true_eq_false, if_false, hs2]
      refine ⟨_, _, rfl, none_ok d hn, ?_⟩
      rw [none_left d hn]
      simp only [searches, List.filter_append] at f4 hs hl ⊢
      rw [f4, hs, hl]
      simp

/-- The expiry of the timer on a request within the bounds returns, leaves the device
within the bounds and issues no query. -/
theorem sdp_timeout_budget (env : environment) (device : btd_device) (req : browse_req)
    (h : device.browse = some req) (hb : browse_bounds device) :
    ∃ d log, sdp_timeout env device = some (d, log) ∧ browse_bounds d
      ∧ (searches log).length + queries_left d ≤ queries_left device := by
  have hb1 : browse_bounds { device with browse := some { req with sdp_timer_id := 0 } } := by
    intro r hr
    simp only [Option.some.injEq] at hr
    subst hr
    exact hb req h
  have hq : queries_left { device with browse := some { req with sdp_timer_id := 0 } }
      = queries_left device := by
    unfold queries_left; rw [h]
  unfold sdp_timeout
  simp only [h]
  by_cases c : env.adapter_find_device = true
  · obtain ⟨d, log, h1, h2, h3⟩ := browse_cb_budget env
      { device with browse := some { req with sdp_timer_id := 0 } } [] (-ETIMEDOUT) _ rfl hb1
    simp only [c, not_true_eq_false, if_false, h1]
    refine ⟨_, _, rfl, h2, ?_⟩
    rw [hq] at h3
    simp only [searches, List.filter_cons, is_search, Bool.false_eq_true, if_false] at h3 ⊢
    exact h3
  · simp only [c, not_false_eq_true, if_true]
    refine ⟨_, _, rfl, hb1, ?_⟩
    rw [hq]
    simp [searches]

/-- A run of a browse whose responses go to `browse_cb`, from a device within the
bounds: the handlers return, the device stays within the bounds, and no more queries
are issued than were left. -/
theorem search_run_browse_cb :
    ∀ (events : List browse_event) (device : btd_device),
      browse_bounds device →
      ∃ d log, search_run search_callback.browse_cb device events = some (d, log)
        ∧ browse_bounds d
        ∧ (searches log).length + queries_left d ≤ queries_left device := by
  intro events
  induction events with
  | nil => intro device hb; exact ⟨device, [], rfl, hb, by simp [searches]⟩
  | cons ev rest ih =>
    intro device hb
    cases hbr : device.browse with
    | none =>
      refine ⟨device, [], ?_, hb, by simp [searches]⟩
      simp [search_run, hbr]
    | some req =>
      have hstep : ∃ d log, search_step search_callback.browse_cb device ev = some (d, log)
          ∧ browse_bounds d
          ∧ (searches log).length + queries_left d ≤ queries_left device := by
        cases ev with
        | response env recs err => exact browse_cb_budget env device recs err req hbr hb
        | timeout env => exact sdp_timeout_budget env device req hbr hb
      obtain ⟨d1, log1, h1, hb1, hq1⟩ := hstep
      obtain ⟨d2, log2, h2, hb2, hq2⟩ := ih d1 hb1
      refine ⟨d2, log1 ++ log2, ?_, hb2, ?_⟩
      · simp [search_run, hbr, h1, h2]
      · simp only [searches, List.filter_append, List.length_append] at hq1 hq2 ⊢
        omega

/-- A run of a search for one class, whose responses go to `search_cb`: the handlers
return, no query is issued, and the index of an active request is the one it had. -/
theorem search_run_search_cb :
    ∀ (events : List browse_event) (device : btd_device),
      ∃ d log, search_run search_callback.search_cb device events = some (d, log)
        ∧ searches log = []
        ∧ ∀ q, d.browse = some q →
            ∃ q0, device.browse = some q0 ∧ q.search_uuid = q0.search_uuid := by
  intro events
  induction events with
  | nil => intro device; exact ⟨device, [], rfl, rfl, fun q hq => ⟨q, hq, rfl⟩⟩
  | cons ev rest ih =>
    intro device
    cases hbr : device.browse with
    | none =>
      refine ⟨device, [], ?_, rfl, ?_⟩
      · simp [search_run, hbr]
      · intro q hq; rw [hbr] at hq; exact absurd hq (by simp)
    | some req =>
      have hstep : ∃ d log, search_step search_callback.search_cb device ev = some (d, log)
          ∧ searches log = []
          ∧ ∀ q, d.browse = some q → q.search_uuid = req.search_uuid := by
        cases ev with
        | response env recs err =>
          obtain ⟨d, log, h1, h2, h3⟩ := search_cb_no_search env device recs err req hbr
          refine ⟨d, log, h1, h3, ?_⟩
          intro q hq; rw [h2] at hq; exact absurd hq (by simp)
        | timeout env =>
          simp only [search_step, sdp_timeout, hbr]
          by_cases c : env.adapter_find_device = true
          · obtain ⟨d, log, h1, h2, h3, _⟩ := browse_cb_terminal env
              { device with browse := some { req with sdp_timer_id := 0 } } [] (-ETIMEDOUT)
              _ rfl (by decide) (fun c => absurd c.1 (by decide))
            simp only [c, not_true_eq_false, if_false, h1]
            refine ⟨_, _, rfl, ?_, ?_⟩
            · simp only [searches, List.filter_cons, is_search, Bool.false_eq_true,
                if_false] at h3 ⊢
              exact h3
            · intro q hq; rw [h2] at hq; exact absurd hq (by simp)
          · simp only [c, not_false_eq_true, if_true]
            refine ⟨_, _, rfl, rfl, ?_⟩
            intro q hq
            simp only [Option.some.injEq] at hq
            subst hq
            rfl
      obtain ⟨d1, log1, h1, hs1, hi1⟩ := hstep
      obtain ⟨d2, log2, h2, hs2, hi2⟩ := ih d1
      refine ⟨d2, log1 ++ log2, ?_, ?_, ?_⟩
      · simp [search_run, hbr, h1, h2]
      · simp only [searches, List.filter_append] at hs1 hs2 ⊢
        rw [hs1, hs2]; rfl
      · intro q hq
        obtain ⟨q0, hq0, e⟩ := hi2 q hq
        exact ⟨req, rfl, e.trans (hi1 q0 hq0)⟩

/-- The state and the calls of `device_browse_sdp` on a device without active request:
one query is issued; a request for one class has index 0, a browse over `uuid_list`
is within the bounds and has three queries left. -/
theorem device_browse_sdp_start (env : environment) (device : btd_device)
    (conn : Option Nat) (msg : Option DBusMessage) (search : Option Nat) (reverse : Bool)
    (h : device.browse = none) :
    (searches (device_browse_sdp env device conn msg search reverse).2.2).length = 1
    ∧ (search = none →
        browse_bounds (device_browse_sdp env device conn msg search reverse).2.1
        ∧ queries_left (device_browse_sdp env device conn msg search reverse).2.1 ≤ 3)
    ∧ (search ≠ none → ∀ q,
        (device_browse_sdp env device conn msg search reverse).2.1.browse = some q →
        q.search_uuid = 0) := by
  have hf : ∀ (d : btd_device) (req : browse_req),
      searches (browse_request_free d req).2 = [] ∧ (d.browse = none →
        (browse_request_free d req).1.browse = none) := by
    intro d req
    unfold browse_request_free btd_device_unref
    cases req.attrib <;> by_cases c1 : req.listener_id = 0 <;>
      by_cases c2 : req.sdp_timer_id = 0 <;> by_cases c3 : d.ref - 1 > 0 <;>
      simp [searches, is_search, c1, c2, c3]
  refine ⟨?_, ?_, ?_⟩
  · unfold device_browse_sdp
    simp only [h, Option.isSome_none, Bool.false_eq_true, if_false]
    by_cases c : env.bt_search_service < 0
    · simp only [c, if_true]
      have key : ∀ d req, List.filter is_search (browse_request_free d req).2 = [] :=
        fun d req => (hf d req).1
      simp only [searches, List.filter_cons, is_search, if_true]
      rw [key]; rfl
    · simp only [c, if_false]
      cases msg <;> simp [searches, is_search]
  · intro hs
    subst hs
    refine ⟨device_browse_sdp_bounds env device conn msg reverse h, ?_⟩
    unfold queries_left device_browse_sdp
    simp only [h, Option.isSome_none, Bool.false_eq_true, if_false]
    by_cases c : env.bt_search_service < 0
    · simp only [c, if_true]
      rw [(hf _ _).2 rfl]
      simp
    · simp only [c, if_false]
      cases msg <;> simp [init_browse, browse_req_new0] <;> split_ifs <;> simp
  · intro hs q hq
    cases search with
    | none => exact absurd rfl hs
    | some uuid =>
      unfold device_browse_sdp at hq
      simp only [h, Option.isSome_none, Bool.false_eq_true, if_false] at hq
      by_cases c : env.bt_search_service < 0
      · simp only [c, if_true] at hq
        rw [(hf _ _).2 rfl] at hq
        exact absurd hq (by simp)
      · simp only [c, if_false] at hq
        cases msg <;> simp only [Option.some.injEq] at hq <;> subst hq <;> rfl

/-- C30: in every state reached by a browse started by `device_browse_sdp`, whatever
the responses and timer expiries, the handlers return (no read of `uuid_list` is out
of bounds) and the index of the active request lies in 0..3, where `uuid_list` has an
entry; while `browse_cb` is the callback the index is at least 1, so the rewind on a
connection-reset does not make it negative. The queries issued, the first one by
`device_browse_sdp` included, are at most 4. -/
theorem browse_index_bounds (env0 : environment) (d0 : btd_device) (conn : Option Nat)
    (msg : Option DBusMessage) (search : Option Nat) (reverse : Bool)
    (events : List browse_event) (h : d0.browse = none) :
    ∃ d log, search_run (browse_callback search)
        (device_browse_sdp env0 d0 conn msg search reverse).2.1 events = some (d, log)
      ∧ (∀ q, d.browse = some q →
          0 ≤ q.search_uuid ∧ q.search_uuid ≤ 3 ∧ (uuid_list_at q.search_uuid).isSome = true)
      ∧ (∀ q, d.browse = some q → browse_callback search = search_callback.browse_cb →
          1 ≤ q.search_uuid ∧ (uuid_list_at (q.search_uuid - 1)).isSome = true)
      ∧ (searches ((device_browse_sdp env0 d0 conn msg search reverse).2.2 ++ log)).length
          ≤ 4 := by
  obtain ⟨s1, s2, s3⟩ := device_browse_sdp_start env0 d0 conn msg search reverse h
  obtain ⟨v0, v1, v2, v3⟩ := uuid_list_at_values
  have hread : ∀ i : Int, 0 ≤ i → i ≤ 3 → (uuid_list_at i).isSome = true := by
    intro i h0 h3
    have : i = 0 ∨ i = 1 ∨ i = 2 ∨ i = 3 := by omega
    rcases this with e | e | e | e <;> rw [e]
    · rw [v0]; rfl
    · rw [v1]; rfl
    · rw [v2]; rfl
    · rw [v3]; rfl
  cases search with
  | none =>
    obtain ⟨hb, hq⟩ := s2 rfl
    obtain ⟨d, log, hr, hbd, hql⟩ := search_run_browse_cb events _ hb
    refine ⟨d, log, hr, ?_, ?_, ?_⟩
    · intro q hqd
      obtain ⟨⟨b1, b2⟩, _, _⟩ := hbd q hqd
      exact ⟨by omega, b2, hread _ (by omega) b2⟩
    · intro q hqd _
      obtain ⟨⟨b1, b2⟩, _, _⟩ := hbd q hqd
      exact ⟨b1, hread _ (by omega) (by omega)⟩
    · simp only [searches, List.filter_append, List.length_append] at s1 hql ⊢
      omega
  | some uuid =>
    obtain ⟨d, log, hr, hs, hi⟩ := search_run_search_cb events
      (device_browse_sdp env0 d0 conn msg (some uuid) reverse).2.1
    refine ⟨d, log, hr, ?_, ?_, ?_⟩
    · intro q hqd
      obtain ⟨q0, hq0, e⟩ := hi q hqd
      have := s3 (by simp) q0 hq0
      rw [e, this]
      exact ⟨by decide, by decide, by rw [v0]; rfl⟩
    · intro q _ hcb
      exact absurd hcb (by simp [browse_callback])
    · simp only [searches, List.filter_append, List.length_append] at s1 hs ⊢
      rw [hs]
      simp only [List.length_nil]
      omega

/-- Witness of C30: a browse of `sample_device` that is answered by a connection-reset,
then by three responses without records. -/
theorem browse_index_bounds_witness :
    sample_device.browse = none
    ∧ ∃ d log, search_run (browse_callback none)
        (device_browse_sdp sample_env sample_device none (some sample_msg) none false).2.1
        [browse_event.response sample_env [] (-ECONNRESET),
         browse_event.response sample_env [] 0,
         browse_event.response sample_env [] 0,
         browse_event.response sample_env [] 0] = some (d, log)
      ∧ (searches ((device_browse_sdp sample_env sample_device none (some sample_msg) none
            false).2.2 ++ log)).length ≤ 4 :=
  ⟨rfl,
   match browse_index_bounds sample_env sample_device none (some sample_msg) none false
      [browse_event.response sample_env [] (-ECONNRESET),
       browse_event.response sample_env [] 0,
       browse_event.response sample_env [] 0,
       browse_event.response sample_env [] 0] rfl with
   | ⟨d, log, h1, _, _, h4⟩ => ⟨d, log, h1, h4⟩⟩

/-! ## The callback of an authentication request -/

/-- The callback calls of `cancel_authentication`: at most one, and none when no
callback is stored. -/
theorem cancel_authentication_calls (device : btd_device) (auth : authentication_req) :
    (callback_calls (cancel_authentication device auth).2.2).length
      ≤ (if auth.cb.isSome then 1 else 0) := by
  unfold cancel_authentication
  cases hcb : auth.cb <;> cases hty : auth.type <;> cases hio : device.tmp_sdp_io <;>
    simp [close_sdp_channel, callback_calls, is_callback, hio]

/-- One event on a pending request: the handler returns, and it calls the stored
callback at most once and only if it was still stored; afterwards it is not. -/
theorem auth_step_calls (device : btd_device) (ev : auth_event) (auth : authentication_req)
    (h : device.authr = some auth) :
    ∃ d log, auth_step device ev = some (d, log)
      ∧ (callback_calls log).length + callback_pending d ≤ callback_pending device
      ∧ ((callback_calls log).length = 1 → callback_pending d = 0) := by
  have hp : callback_pending device = if auth.cb.isSome then 1 else 0 := by
    unfold callback_pending; rw [h]
  have hc : callback_calls (close_sdp_channel device).2 = [] := by
    unfold close_sdp_channel
    cases device.tmp_sdp_io <;> rfl
  cases ev with
  | pincode =>
    have hau := (close_sdp_channel_frame device).2.2.1
    simp only [auth_step, pincode_cb, h]
    generalize close_sdp_channel device = C at hc hau
    obtain ⟨c1, c2⟩ := C
    simp only at hc hau
    cases hcb : auth.cb with
    | none =>
      refine ⟨c1, c2, rfl, ?_, ?_⟩
      · rw [hc, hp, hcb]
        unfold callback_pending
        rw [hau, h]
        simp [hcb]
      · rw [hc]; simp
    | some cb =>
      refine ⟨_, _, rfl, ?_, ?_⟩
      · rw [hp, hcb]
        simp only [callback_calls, List.filter_append] at hc ⊢
        rw [hc]
        simp [callback_pending, is_callback]
      · intro _; simp [callback_pending]
  | passkey =>
    simp only [auth_step, passkey_cb, h]
    cases hcb : auth.cb with
    | none => exact ⟨_, _, rfl, by simp [callback_calls], by simp [callback_calls]⟩
    | some cb =>
      refine ⟨_, _, rfl, ?_, ?_⟩
      · rw [hp, hcb]; simp [callback_pending, callback_calls, is_callback]
      · intro _; simp [callback_pending]
  | confirm =>
    simp only [auth_step, confirm_cb, h]
    cases hcb : auth.cb with
    | none => exact ⟨_, _, rfl, by simp [callback_calls], by simp [callback_calls]⟩
    | some cb =>
      refine ⟨_, _, rfl, ?_, ?_⟩
      · rw [hp, hcb]; simp [callback_pending, callback_calls, is_callback]
      · intro _; simp [callback_pending]
  | oob_data =>
    simp only [auth_step, oob_data_cb, h]
    cases hcb : auth.cb with
    | none => exact ⟨_, _, rfl, by simp [callback_calls], by simp [callback_calls]⟩
    | some cb =>
      refine ⟨_, _, rfl, ?_, ?_⟩
      · rw [hp, hcb]; simp [callback_pending, callback_calls, is_callback]
      · intro _; simp [callback_pending]
  | pairing_consent =>
    simp only [auth_step, pairing_consent_cb, h]
    cases hcb : auth.cb with
    | none => exact ⟨_, _, rfl, by simp [callback_calls], by simp [callback_calls]⟩
    | some cb =>
      refine ⟨_, _, rfl, ?_, ?_⟩
      · rw [hp, hcb]; simp [callback_pending, callback_calls, is_callback]
      · intro _; simp [callback_pending]
  | cancel aborted =>
    refine ⟨(device_cancel_authentication device aborted).1,
      (device_cancel_authentication device aborted).2, rfl, ?_, ?_⟩
    · have hn := (device_cancel_authentication_frame device aborted).2.2.2.2.1
      have hz : callback_pending (device_cancel_authentication device aborted).1 = 0 := by
        unfold callback_pending; rw [hn]
      rw [hz, hp]
      unfold device_cancel_authentication
      simp only [h]
      have hcl : ∀ d, List.filter is_callback (close_sdp_channel d).2 = [] := by
        intro d
        unfold close_sdp_channel
        cases d.tmp_sdp_io <;> rfl
      have hca := cancel_authentication_calls device auth
      simp only [callback_calls] at hca
      cases auth.agent <;> cases aborted <;>
        simp only [callback_calls, List.filter_append, List.length_append, hcl,
          List.filter_nil, List.length_nil, not_true_eq_false, Bool.false_eq_true,
          not_false_eq_true, if_true, if_false, List.filter_cons, is_callback] <;>
        omega
    · intro _
      unfold callback_pending
      rw [(device_cancel_authentication_frame device aborted).2.2.2.2.1]

/-- C29: for every sequence of agent replies (`pincode_cb`, `passkey_cb`, `confirm_cb`,
`oob_data_cb`, `pairing_consent_cb`) and cancellations (`device_cancel_authentication`
with either value of `aborted`) applied to the pending request of a device, the
handlers return and the stored callback is called at most once in all: the handler
that calls it clears it, or releases the request, so that once it has been called it
is no longer stored. -/
theorem auth_callback_at_most_once :
    ∀ (events : List auth_event) (device : btd_device),
      ∃ d log, auth_run device events = some (d, log)
        ∧ (callback_calls log).length ≤ 1
        ∧ (callback_calls log).length + callback_pending d ≤ callback_pending device
        ∧ ((callback_calls log).length = 1 → callback_pending d = 0) := by
  have hle : ∀ d : btd_device, callback_pending d ≤ 1 := by
    intro d
    unfold callback_pending
    cases d.authr with
    | none => simp
    | some a => simp only; split_ifs <;> simp
  intro events
  induction events with
  | nil =>
    intro device
    exact ⟨device, [], rfl, by simp [callback_calls], by simp [callback_calls],
      by simp [callback_calls]⟩
  | cons ev rest ih =>
    intro device
    cases ha : device.authr with
    | none =>
      refine ⟨device, [], ?_, by simp [callback_calls], by simp [callback_calls],
        by simp [callback_calls]⟩
      simp [auth_run, ha]
    | some auth =>
      obtain ⟨d1, log1, h1, c1, z1⟩ := auth_step_calls device ev auth ha
      obtain ⟨d2, log2, h2, _, c2, z2⟩ := ih d1
      have := hle device
      refine ⟨d2, log1 ++ log2, ?_, ?_, ?_, ?_⟩
      · simp [auth_run, ha, h1, h2]
      · simp only [callback_calls, List.filter_append, List.length_append] at c1 c2 ⊢
        omega
      · simp only [callback_calls, List.filter_append, List.length_append] at c1 c2 ⊢
        omega
      · simp only [callback_calls, List.filter_append, List.length_append] at c1 c2 z1 z2 ⊢
        omega

/-! ## Cancellation of an authentication request -/

/-- C22, evaluated where the code departs from it: a display notification with a stored
callback is pending at agent 3. The cancellation with `aborted = false` cancels the
agent call and releases the request, and does not call the callback. -/
theorem device_cancel_authentication_notify :
    sample_notify.cb = some 1
    ∧ device_cancel_authentication { sample_device with authr := some sample_notify } false
      = (sample_device, [dev_effect.agent_cancel 3]) := by
  decide

/-- C22, amended: for a pending request with a stored callback,
`device_cancel_authentication` with `aborted = false` calls the callback exactly once,
with the canceled error, when the request is a PIN code, passkey, confirmation,
out-of-band or pairing consent request, and does not call it for a request of another
kind; with `aborted = true` it does not call it. In both cases the call at the agent
of the request is cancelled, the auxiliary connection, if there is one, is shut down,
and the device has no pending request and no auxiliary connection afterwards. -/
theorem device_cancel_authentication_spec (device : btd_device) (auth : authentication_req)
    (cb : Nat) (h : device.authr = some auth) (hcb : auth.cb = some cb) :
    ((auth.type = auth_type_t.AUTH_TYPE_PINCODE ∨ auth.type = auth_type_t.AUTH_TYPE_PASSKEY
        ∨ auth.type = auth_type_t.AUTH_TYPE_CONFIRM ∨ auth.type = auth_type_t.AUTH_TYPE_OOB
        ∨ auth.type = auth_type_t.AUTH_TYPE_PAIRING_CONSENT) →
      callback_calls (device_cancel_authentication device false).2
        = [dev_effect.auth_callback cb auth.type])
    ∧ (¬ (auth.type = auth_type_t.AUTH_TYPE_PINCODE ∨ auth.type = auth_type_t.AUTH_TYPE_PASSKEY
        ∨ auth.type = auth_type_t.AUTH_TYPE_CONFIRM ∨ auth.type = auth_type_t.AUTH_TYPE_OOB
        ∨ auth.type = auth_type_t.AUTH_TYPE_PAIRING_CONSENT) →
      callback_calls (device_cancel_authentication device false).2 = [])
    ∧ callback_calls (device_cancel_authentication device true).2 = []
    ∧ ∀ aborted : Bool,
        (device_cancel_authentication device aborted).1.authr = none
        ∧ (device_cancel_authentication device aborted).1.tmp_sdp_io = none
        ∧ (∀ agent, auth.agent = some agent →
            dev_effect.agent_cancel agent ∈ (device_cancel_authentication device aborted).2)
        ∧ (∀ chan, device.tmp_sdp_io = some chan →
            dev_effect.g_io_channel_shutdown chan
              ∈ (device_cancel_authentication device aborted).2) := by
  refine ⟨?_, ?_, ?_, ?_⟩
  · intro hk
    unfold device_cancel_authentication
    simp only [h]
    rcases hk with e | e | e | e | e <;> cases hag : auth.agent <;>
      cases hio : device.tmp_sdp_io <;>
      simp [cancel_authentication, close_sdp_channel, callback_calls, is_callback, hcb, e, hio]
  · intro hk
    unfold device_cancel_authentication
    simp only [h]
    cases hty : auth.type <;> simp only [hty, reduceCtorEq, or_self, or_false, or_true,
      not_true_eq_false, false_or, true_or] at hk <;> cases hag : auth.agent <;>
      cases hio : device.tmp_sdp_io <;>
      simp [cancel_authentication, close_sdp_channel, callback_calls, is_callback, hcb, hty,
        hio]
  · unfold device_cancel_authentication
    simp only [h]
    cases hag : auth.agent <;> cases hio : device.tmp_sdp_io <;>
      simp [close_sdp_channel, callback_calls, is_callback, hio]
  · intro aborted
    unfold device_cancel_authentication
    simp only [h]
    cases aborted <;> cases hty : auth.type <;> cases hag : auth.agent <;>
      cases hio : device.tmp_sdp_io <;>
      simp [cancel_authentication, close_sdp_channel, device_auth_req_free, hcb, hty, hio]

/-- Witness of C22, amended: a PIN code request with a stored callback pending at
agent 3. -/
theorem device_cancel_authentication_spec_witness :
    callback_calls (device_cancel_authentication
        { sample_device with authr := some sample_auth } false).2
      = [dev_effect.auth_callback 1 auth_type_t.AUTH_TYPE_PINCODE]
    ∧ callback_calls (device_cancel_authentication
        { sample_device with authr := some sample_auth } true).2 = [] :=
  ⟨(device_cancel_authentication_spec { sample_device with authr := some sample_auth }
      sample_auth 1 rfl rfl).1 (Or.inl rfl),
   (device_cancel_authentication_spec { sample_device with authr := some sample_auth }
      sample_auth 1 rfl rfl).2.2.1⟩

/-! ## Service discovery after a bonding -/

/-- The first steps of `device_bonding_complete` on success: the request is released
and the paired flag set, with a property change if it was not set. -/
theorem bonding_paired_step (device : btd_device) :
    (if ¬ (device_auth_req_free device).paired = true
      then device_set_paired (device_auth_req_free device) true
      else (device_auth_req_free device, []))
    = ({ device with authr := none, paired := true },
        if device.paired = true then []
        else [dev_effect.emit_property_changed "Paired" true]) := by
  cases hp : device.paired <;>
    simp [device_auth_req_free, device_set_paired, hp]

/-- C21, evaluated where the code departs from it: a locally initiated bonding
completes with status 0 on a device of which a record is cached. No discovery is
started and the device still has its bonding request. -/
theorem device_bonding_complete_cached :
    sample_bonding_cached.bonding = some sample_bonding
    ∧ sample_bonding_cached.tmp_records ≠ []
    ∧ device_bonding_complete sample_env sample_bonding_cached 0
      = ({ sample_bonding_cached with paired := true },
          [dev_effect.emit_property_changed "Paired" true]) := by
  decide

/-- The function `device_bonding_complete` on success, after the release of the
request and the setting of the paired flag: `notify` stands for the cancellation of a
display notification, which starts no discovery and arms no timer. -/
theorem device_bonding_complete_success_eq (env : environment) (device : btd_device) :
    ∃ notify : List dev_effect,
      browse_starts notify = [] ∧ discovery_timers notify = []
      ∧ device_bonding_complete env device 0
        = (if (if device.tmp_records = [] then env.read_records else device.tmp_records) ≠ []
           then
             ({ device with authr := none, paired := true,
                            tmp_records := if device.tmp_records = [] then env.read_records
                                           else device.tmp_records },
               notify ++ (if device.paired = true then []
                          else [dev_effect.emit_property_changed "Paired" true]))
           else
             match device.bonding with
             | some b =>
               ((bonding_request_free
                  (if device.type = device_type_t.DEVICE_TYPE_LE then
                     device_browse_primary env
                       { device with authr := none, paired := true, tmp_records := [],
                                     discov_timer := 0 }
                       (some b.conn) (some b.msg) false
                   else
                     device_browse_sdp env
                       { device with authr := none, paired := true, tmp_records := [],
                                     discov_timer := 0 }
                       (some b.conn) (some b.msg) none false).2.1
                  (some b)).1,
                notify ++ (if device.paired = true then []
                           else [dev_effect.emit_property_changed "Paired" true])
                  ++ (if device.discov_timer ≠ 0
                      then [dev_effect.g_source_remove device.discov_timer] else [])
                  ++ (if device.type = device_type_t.DEVICE_TYPE_LE then
                        device_browse_primary env
                          { device with authr := none, paired := true, tmp_records := [],
                                        discov_timer := 0 }
                          (some b.conn) (some b.msg) false
                      else
                        device_browse_sdp env
                          { device with authr := none, paired := true, tmp_records := [],
                                        discov_timer := 0 }
                          (some b.conn) (some b.msg) none false).2.2
                  ++ (bonding_request_free
                       (if device.type = device_type_t.DEVICE_TYPE_LE then
                          device_browse_primary env
                            { device with authr := none, paired := true, tmp_records := [],
                                          discov_timer := 0 }
                            (some b.conn) (some b.msg) false
                        else
                          device_browse_sdp env
                            { device with authr := none, paired := true, tmp_records := [],
                                          discov_timer := 0 }
                            (some b.conn) (some b.msg) none false).2.1
                       (some b)).2)
             | none =>
               if device.browse.isNone = true ∧ device.discov_timer = 0
                   ∧ env.reverse_sdp = true then
                 ({ device with authr := none, paired := true, tmp_records := [],
                                discov_timer := env.timer_id },
                   notify ++ (if device.paired = true then []
                              else [dev_effect.emit_property_changed "Paired" true])
                     ++ [dev_effect.g_timeout_add_seconds timer_kind.start_discovery])
               else
                 ({ device with authr := none, paired := true, tmp_records := [] },
                   notify ++ (if device.paired = true then []
                              else [dev_effect.emit_property_changed "Paired" true]))) := by
  have hn : ∀ authr : Option authentication_req,
      browse_starts (match authr with
        | some auth =>
          if auth.type = auth_type_t.AUTH_TYPE_NOTIFY then
            match auth.agent with
            | some agent => [dev_effect.agent_cancel agent]
            | none => []
          else []
        | none => []) = []
      ∧ discovery_timers (match authr with
        | some auth =>
          if auth.type = auth_type_t.AUTH_TYPE_NOTIFY then
            match auth.agent with
            | some agent => [dev_effect.agent_cancel agent]
            | none => []
          else []
        | none => []) = [] := by
    intro authr
    cases authr with
    | none => exact ⟨rfl, rfl⟩
    | some auth =>
      simp only
      split_ifs
      · cases auth.agent <;> exact ⟨rfl, rfl⟩
      · exact ⟨rfl, rfl⟩
  refine ⟨_, (hn device.authr).1, (hn device.authr).2, ?_⟩
  unfold device_bonding_complete
  simp only [bonding_paired_step]
  rw [if_neg (show ¬ ((0 : Nat) ≠ 0) from fun h => h rfl)]
  by_cases ht : device.tmp_records = []
  · by_cases hr : env.read_records = []
    · simp only [ht, hr, if_true, ne_eq, not_true_eq_false, if_false]
      cases device.bonding with
      | none => simp only
      | some b =>
        simp only
        by_cases hd : device.discov_timer = 0
        · simp only [hd, not_true_eq_false, if_false, List.append_nil]
        · simp only [hd, not_false_eq_true, if_true]
    · simp only [ht, hr, if_true, ne_eq, not_false_eq_true]
  · simp only [ht, if_false, ne_eq, not_false_eq_true, if_true]

/-- What `browse_request_free` leaves alone, and that it starts nothing. -/
theorem browse_request_free_timers (device : btd_device) (req : browse_req) :
    (browse_request_free device req).1.discov_timer = device.discov_timer
    ∧ (browse_request_free device req).1.browse = device.browse
    ∧ browse_starts (browse_request_free device req).2 = []
    ∧ discovery_timers (browse_request_free device req).2 = [] := by
  unfold browse_request_free btd_device_unref
  cases req.attrib <;> by_cases c1 : req.listener_id = 0 <;>
    by_cases c2 : req.sdp_timer_id = 0 <;> by_cases c3 : device.ref - 1 > 0 <;>
    simp [browse_starts, discovery_timers, is_browse_start, is_discovery_timer, c1, c2, c3]

/-- The discovery-delay timer is left alone by `device_browse_sdp` and
`device_browse_primary`. -/
theorem device_browse_timers (env : environment) (device : btd_device)
    (conn : Option Nat) (msg : Option DBusMessage) (search : Option Nat) (flag : Bool) :
    ((device_browse_sdp env device conn msg search flag).2.1.discov_timer = device.discov_timer
      ∧ discovery_timers (device_browse_sdp env device conn msg search flag).2.2 = [])
    ∧ ((device_browse_primary env device conn msg flag).2.1.discov_timer
        = device.discov_timer
      ∧ discovery_timers (device_browse_primary env device conn msg flag).2.2 = []) := by
  have hf := fun req => browse_request_free_timers { device with ref := device.ref + 1 } req
  constructor
  · unfold device_browse_sdp
    by_cases hb : device.browse.isSome = true
    · simp [hb, discovery_timers]
    · simp only [hb, Bool.false_eq_true, if_false]
      by_cases he : env.bt_search_service < 0
      · simp only [he, if_true]
        refine ⟨(hf _).1, ?_⟩
        have key : ∀ req, List.filter is_discovery_timer
            (browse_request_free { device with ref := device.ref + 1 } req).2 = [] :=
          fun req => (hf req).2.2.2
        simp only [discovery_timers, List.filter_cons, is_discovery_timer, Bool.false_eq_true,
          if_false]
        rw [key]
      · simp only [he, if_false]
        cases msg <;> simp [discovery_timers, is_discovery_timer]
  · have hf0 := hf browse_req_new0
    unfold device_browse_primary
    by_cases hb : device.browse.isSome = true
    · simp [hb, discovery_timers]
    · simp only [hb, Bool.false_eq_true, if_false]
      cases env.attrib_client_find with
      | some attrib => simp [discovery_timers, is_discovery_timer]
      | none =>
        cases env.bt_io_connect with
        | none =>
          refine ⟨hf0.1, ?_⟩
          have := hf0.2.2.2
          simp only [discovery_timers] at this ⊢
          rw [List.filter_cons]
          simp only [is_discovery_timer, Bool.false_eq_true, if_false]
          exact this
        | some chan => cases msg <;> simp [discovery_timers, is_discovery_timer]

/-- The browse that `device_browse_sdp` starts with the connection and message of a
bonding request, when no browse is active and the first query is accepted. -/
theorem device_browse_sdp_started (env : environment) (device : btd_device)
    (conn : Nat) (msg : DBusMessage) (h : device.browse = none)
    (herr : 0 ≤ env.bt_search_service) :
    (∃ r, (device_browse_sdp env device (some conn) (some msg) none false).2.1.browse = some r
      ∧ r.msg = some msg ∧ r.conn = some conn ∧ r.search_uuid = 1)
    ∧ browse_starts (device_browse_sdp env device (some conn) (some msg) none false).2.2
        = [dev_effect.bt_search_service L2CAP_UUID search_callback.browse_cb] := by
  have he : ¬ env.bt_search_service < 0 := by omega
  unfold device_browse_sdp
  simp only [h, Option.isSome_none, Bool.false_eq_true, if_false, he]
  constructor
  · refine ⟨_, rfl, ?_⟩
    simp [init_browse, browse_req_new0]
  · simp [browse_starts, is_browse_start]
    decide

/-- The browse that `device_browse_primary` starts when the attribute client already
has a connection to the device. -/
theorem device_browse_primary_started (env : environment) (device : btd_device)
    (conn : Option Nat) (msg : Option DBusMessage) (secure : Bool) (attrib : Nat)
    (h : device.browse = none) (ha : env.attrib_client_find = some attrib) :
    (device_browse_primary env device conn msg secure).2.1.browse.isSome = true
    ∧ browse_starts (device_browse_primary env device conn msg secure).2.2
        = [dev_effect.gatt_discover_primary attrib] := by
  unfold device_browse_primary
  simp only [h, Option.isSome_none, Bool.false_eq_true, if_false, ha]
  exact ⟨rfl, rfl⟩

/-- The outcome of `device_browse_sdp` called with the connection and message of a
bonding request: with a browse active nothing is done; without, the first query is
issued, and the browse is active afterwards exactly when the query is accepted. -/
theorem device_browse_sdp_outcome (env : environment) (device : btd_device)
    (conn : Nat) (msg : DBusMessage) :
    (∀ r0, device.browse = some r0 →
      (device_browse_sdp env device (some conn) (some msg) none false).2.1.browse = some r0
      ∧ browse_starts (device_browse_sdp env device (some conn) (some msg) none false).2.2
          = [])
    ∧ (device.browse = none →
        browse_starts (device_browse_sdp env device (some conn) (some msg) none false).2.2
          = [dev_effect.bt_search_service L2CAP_UUID search_callback.browse_cb]
        ∧ (0 ≤ env.bt_search_service →
            ∃ r, (device_browse_sdp env device (some conn) (some msg) none false).2.1.browse
                = some r
              ∧ r.msg = some msg ∧ r.conn = some conn ∧ r.search_uuid = 1)
        ∧ (env.bt_search_service < 0 →
            (device_browse_sdp env device (some conn) (some msg) none false).2.1.browse
              = none)) := by
  constructor
  · intro r0 h
    unfold device_browse_sdp
    simp only [h, Option.isSome_some, if_true]
    exact ⟨trivial, rfl⟩
  · intro h
    have hf := fun d req => browse_request_free_timers d req
    by_cases he : env.bt_search_service < 0
    · refine ⟨?_, fun c => absurd he (by omega), fun _ => ?_⟩
      · unfold device_browse_sdp
        simp only [h, Option.isSome_none, Bool.false_eq_true, if_false, he, if_true]
        have key : ∀ d req, List.filter is_browse_start
            (browse_request_free d req).2 = [] :=
          fun d req => (hf d req).2.2.1
        simp only [browse_starts, List.filter_cons, is_browse_start, if_true]
        rw [key]
        decide
      · unfold device_browse_sdp
        simp only [h, Option.isSome_none, Bool.false_eq_true, if_false, he, if_true]
        rw [(hf _ _).2.1]
    · obtain ⟨g1, g2⟩ := device_browse_sdp_started env device conn msg h (by omega)
      exact ⟨g2, fun _ => g1, fun c => absurd c he⟩

/-- The outcome of `device_browse_primary` called with the connection and message of
a bonding request: with a browse active nothing is done; without, the discovery of the
primary services is issued on the attribute channel that exists (the request then
keeps neither the connection nor the message), or else a connection is opened, and
the browse is active afterwards exactly when that succeeds. -/
theorem device_browse_primary_outcome (env : environment) (device : btd_device)
    (conn : Nat) (msg : DBusMessage) :
    (∀ r0, device.browse = some r0 →
      (device_browse_primary env device (some conn) (some msg) false).2.1.browse = some r0
      ∧ browse_starts (device_browse_primary env device (some conn) (some msg) false).2.2
          = [])
    ∧ (device.browse = none →
        (∀ attrib, env.attrib_client_find = some attrib →
          (device_browse_primary env device (some conn) (some msg) false).2.1.browse
            = some browse_req_new0
          ∧ browse_starts (device_browse_primary env device (some conn) (some msg) false).2.2
              = [dev_effect.gatt_discover_primary attrib])
        ∧ (env.attrib_client_find = none →
            browse_starts (device_browse_primary env device (some conn) (some msg) false).2.2
              = [dev_effect.bt_io_connect_att false]
            ∧ (∀ chan, env.bt_io_connect = some chan →
                ∃ r, (device_browse_primary env device (some conn) (some msg) false).2.1.browse
                    = some r
                  ∧ r.msg = some msg ∧ r.conn = some conn)
            ∧ (env.bt_io_connect = none →
                (device_browse_primary env device (some conn) (some msg) false).2.1.browse
                  = none))) := by
  constructor
  · intro r0 h
    unfold device_browse_primary
    simp only [h, Option.isSome_some, if_true]
    exact ⟨trivial, rfl⟩
  · intro h
    have hf := fun d => browse_request_free_timers d browse_req_new0
    constructor
    · intro attrib ha
      unfold device_browse_primary
      simp only [h, Option.isSome_none, Bool.false_eq_true, if_false, ha]
      exact ⟨trivial, rfl⟩
    · intro ha
      cases hio : env.bt_io_connect with
      | none =>
        refine ⟨?_, fun chan c => by simp at c, fun _ => ?_⟩
        · unfold device_browse_primary
          simp only [h, Option.isSome_none, Bool.false_eq_true, if_false, ha, hio]
          have key : ∀ d, List.filter is_browse_start
              (browse_request_free d browse_req_new0).2 = [] := fun d => (hf d).2.2.1
          simp only [browse_starts]
          rw [List.filter_cons]
          simp only [is_browse_start, if_true]
          rw [key]
        · unfold device_browse_primary
          simp only [h, Option.isSome_none, Bool.false_eq_true, if_false, ha, hio]
          rw [(hf _).2.1]
      | some chan =>
        refine ⟨?_, fun c _ => ?_, fun c => by simp at c⟩
        · unfold device_browse_primary
          simp only [h, Option.isSome_none, Bool.false_eq_true, if_false, ha, hio]
          rfl
        · unfold device_browse_primary
          simp only [h, Option.isSome_none, Bool.false_eq_true, if_false, ha, hio]
          exact ⟨_, rfl, rfl, rfl⟩

/-- C21, amended: `device_bonding_complete` with status 0 on a device of which no record
is cached or stored. If the device has a bonding request (the bonding was locally
initiated), a pending discovery-delay timer is removed, a browse is requested with the
connection and the message of the bonding request, and the bonding request is
released: the device has no bonding request afterwards. The browse requested is
started when no browse is active and its first step succeeds: for a classic device the
first query (L2CAP) is issued and, when it is accepted, the browse is active with the
connection and message of the bonding request; for a low-energy device the discovery
of the primary services is issued on the attribute channel that exists (the browse
then keeps neither connection nor message), or else a connection is opened and, when
that succeeds, the browse is active with the connection and message. With a browse
already active nothing is started and that browse stays; when the first step fails no
browse is active afterwards. If the device has no bonding request (the peer
initiated), no discovery is started and the discovery-delay timer is armed exactly
when the reverse-discovery flag is set and neither a browse nor the timer is active.
On a device with cached or stored records no discovery is started and no timer is
armed. -/
theorem device_bonding_complete_browse (env : environment) (device : btd_device) :
    (device.tmp_records = [] → env.read_records = [] →
      (∀ b, device.bonding = some b → b.device = true →
        (device_bonding_complete env device 0).1.bonding = none
        ∧ (device_bonding_complete env device 0).1.discov_timer = 0
        ∧ discovery_timers (device_bonding_complete env device 0).2 = []
        ∧ (∀ r0, device.browse = some r0 →
            (device_bonding_complete env device 0).1.browse = some r0
            ∧ browse_starts (device_bonding_complete env device 0).2 = [])
        ∧ (device.type ≠ device_type_t.DEVICE_TYPE_LE → device.browse = none →
            browse_starts (device_bonding_complete env device 0).2
                = [dev_effect.bt_search_service L2CAP_UUID search_callback.browse_cb]
            ∧ (0 ≤ env.bt_search_service →
                ∃ r, (device_bonding_complete env device 0).1.browse = some r
                  ∧ r.msg = some b.msg ∧ r.conn = some b.conn ∧ r.search_uuid = 1)
            ∧ (env.bt_search_service < 0 →
                (device_bonding_complete env device 0).1.browse = none))
        ∧ (device.type = device_type_t.DEVICE_TYPE_LE → device.browse = none →
            (∀ attrib, env.attrib_client_find = some attrib →
              (device_bonding_complete env device 0).1.browse = some browse_req_new0
              ∧ browse_starts (device_bonding_complete env device 0).2
                  = [dev_effect.gatt_discover_primary attrib])
            ∧ (env.attrib_client_find = none →
                browse_starts (device_bonding_complete env device 0).2
                  = [dev_effect.bt_io_connect_att false]
                ∧ (∀ chan, env.bt_io_connect = some chan →
                    ∃ r, (device_bonding_complete env device 0).1.browse = some r
                      ∧ r.msg = some b.msg ∧ r.conn = some b.conn)
                ∧ (env.bt_io_connect = none →
                    (device_bonding_complete env device 0).1.browse = none))))
      ∧ (device.bonding = none →
        (device_bonding_complete env device 0).1.browse = device.browse
        ∧ browse_starts (device_bonding_complete env device 0).2 = []
        ∧ ((device.browse = none ∧ device.discov_timer = 0 ∧ env.reverse_sdp = true) →
            (device_bonding_complete env device 0).1.discov_timer = env.timer_id
            ∧ discovery_timers (device_bonding_complete env device 0).2
                = [dev_effect.g_timeout_add_seconds timer_kind.start_discovery])
        ∧ (¬ (device.browse = none ∧ device.discov_timer = 0 ∧ env.reverse_sdp = true) →
            (device_bonding_complete env device 0).1.discov_timer = device.discov_timer
            ∧ discovery_timers (device_bonding_complete env device 0).2 = [])))
    ∧ ((device.tmp_records ≠ [] ∨ env.read_records ≠ []) →
        (device_bonding_complete env device 0).1.browse = device.browse
        ∧ (device_bonding_complete env device 0).1.discov_timer = device.discov_timer
        ∧ browse_starts (device_bonding_complete env device 0).2 = []
        ∧ discovery_timers (device_bonding_complete env device 0).2 = []) := by
  obtain ⟨N, hN1, hN2, heq⟩ := device_bonding_complete_success_eq env device
  have hpl : browse_starts (if device.paired = true then []
        else [dev_effect.emit_property_changed "Paired" true]) = []
      ∧ discovery_timers (if device.paired = true then []
        else [dev_effect.emit_property_changed "Paired" true]) = [] := by
    split_ifs <;> exact ⟨rfl, rfl⟩
  obtain ⟨hp1, hp2⟩ := hpl
  have htl : browse_starts (if device.discov_timer ≠ 0
        then [dev_effect.g_source_remove device.discov_timer] else []) = []
      ∧ discovery_timers (if device.discov_timer ≠ 0
        then [dev_effect.g_source_remove device.discov_timer] else []) = [] := by
    split_ifs <;> exact ⟨rfl, rfl⟩
  obtain ⟨ht1, ht2⟩ := htl
  have hfree : ∀ (d : btd_device) (b : bonding_req),
      browse_starts (bonding_request_free d (some b)).2 = []
      ∧ discovery_timers (bonding_request_free d (some b)).2 = []
      ∧ (bonding_request_free d (some b)).1.browse = d.browse
      ∧ (bonding_request_free d (some b)).1.discov_timer = d.discov_timer
      ∧ (b.device = true → (bonding_request_free d (some b)).1.bonding = none) := by
    intro d b
    unfold bonding_request_free
    cases hio : b.io <;> cases hd : b.device <;> cases hag : d.agent <;>
      by_cases c : b.listener_id = 0 <;>
      simp [browse_starts, discovery_timers, is_browse_start, is_discovery_timer, c, hio, hd,
        hag]
  simp only [browse_starts, discovery_timers] at hN1 hN2 hp1 hp2 ht1 ht2 hfree
  rw [heq]
  constructor
  · intro ht hr
    simp only [ht, hr, if_true, ne_eq, not_true_eq_false, if_false]
    constructor
    · intro b hb hbd
      simp only [hb]
      obtain ⟨f1, f2, f3, f4, f5⟩ := hfree
        (if device.type = device_type_t.DEVICE_TYPE_LE then
          device_browse_primary env
            { device with authr := none, paired := true, tmp_records := [],
                          discov_timer := 0, bonding := some b }
            (some b.conn) (some b.msg) false
         else
          device_browse_sdp env
            { device with authr := none, paired := true, tmp_records := [],
                          discov_timer := 0, bonding := some b }
            (some b.conn) (some b.msg) none false).2.1 b
      obtain ⟨⟨s1, s2⟩, p1, p2⟩ := device_browse_timers env
        { device with authr := none, paired := true, tmp_records := [],
                      discov_timer := 0, bonding := some b }
        (some b.conn) (some b.msg) none false
      simp only [discovery_timers] at s2 p2
      have hB : ∀ X : Int × btd_device × List dev_effect,
          (bonding_request_free X.2.1 (some b)).1.browse = X.2.1.browse :=
        fun X => (hfree X.2.1 b).2.2.1
      have hS : ∀ X : Int × btd_device × List dev_effect,
          List.filter is_browse_start
            (N ++ (if device.paired = true then []
                    else [dev_effect.emit_property_changed "Paired" true])
              ++ (if device.discov_timer ≠ 0
                  then [dev_effect.g_source_remove device.discov_timer] else [])
              ++ X.2.2 ++ (bonding_request_free X.2.1 (some b)).2)
            = List.filter is_browse_start X.2.2 := by
        intro X
        simp only [List.filter_append, hN1, hp1, ht1, (hfree X.2.1 b).1, List.append_nil,
          List.nil_append]
      obtain ⟨o1, o2⟩ := device_browse_sdp_outcome env
        { device with authr := none, paired := true, tmp_records := [],
                      discov_timer := 0, bonding := some b }
        b.conn b.msg
      obtain ⟨q1, q2⟩ := device_browse_primary_outcome env
        { device with authr := none, paired := true, tmp_records := [],
                      discov_timer := 0, bonding := some b }
        b.conn b.msg
      simp only [browse_starts] at o1 o2 q1 q2
      refine ⟨f5 hbd, ?_, ?_, ?_, ?_, ?_⟩
      · rw [f4]
        by_cases hle : device.type = device_type_t.DEVICE_TYPE_LE
        · simp only [if_pos hle]; exact p1
        · simp only [if_neg hle]; exact s1
      · simp only [discovery_timers, List.filter_append, hN2, hp2, ht2, f2, List.append_nil,
          List.nil_append]
        by_cases hle : device.type = device_type_t.DEVICE_TYPE_LE
        · simp only [if_pos hle]; exact p2
        · simp only [if_neg hle]; exact s2
      · intro r0 hr0
        simp only [browse_starts]
        rw [hB, hS]
        by_cases hle : device.type = device_type_t.DEVICE_TYPE_LE
        · simp only [if_pos hle]; exact q1 r0 hr0
        · simp only [if_neg hle]; exact o1 r0 hr0
      · intro hle hbr
        simp only [browse_starts]
        rw [hB, hS]
        simp only [if_neg hle]
        exact o2 hbr
      · intro hle hbr
        simp only [browse_starts]
        rw [hB, hS]
        simp only [if_pos hle]
        exact q2 hbr
    · intro hb
      simp only [hb]
      by_cases c : device.browse = none ∧ device.discov_timer = 0 ∧ env.reverse_sdp = true
      · obtain ⟨c1, c2, c3⟩ := c
        simp only [c1, c2, c3, Option.isNone_none, and_self, if_true, browse_starts,
          discovery_timers, List.filter_append, hN1, hN2, hp1, hp2, true_and,
          not_true_eq_false, false_implies, and_true, forall_true_left]
        exact ⟨rfl, rfl⟩
      · have c2 : ¬ (device.browse.isNone = true ∧ device.discov_timer = 0
            ∧ env.reverse_sdp = true) := by
          rw [Option.isNone_iff_eq_none]; exact c
        simp only [c2, c, if_false, browse_starts, discovery_timers, List.filter_append, hN1,
          hN2, hp1, hp2, not_false_eq_true, forall_true_left, false_implies, and_true,
          List.append_nil, true_and]
  · intro hc
    have hne : (if device.tmp_records = [] then env.read_records else device.tmp_records) ≠ [] := by
      by_cases ht : device.tmp_records = []
      · simp only [ht, if_true]
        rcases hc with h | h
        · exact absurd ht h
        · exact h
      · simp only [ht, if_false]; exact ht
    simp only [hne, ne_eq, not_false_eq_true, if_true, browse_starts, discovery_timers,
      List.filter_append, hN1, hN2, hp1, hp2, List.append_nil, and_self]

/-- Witness of C21, amended: a locally initiated bonding completes on `sample_device`,
of which no record is cached or stored and which has no browse active: the bonding
request is released, the first query is issued and the browse is active with the
message of the bonding request. -/
theorem device_bonding_complete_browse_witness :
    (device_bonding_complete sample_env
        { sample_device with bonding := some sample_bonding } 0).1.bonding = none
    ∧ browse_starts (device_bonding_complete sample_env
        { sample_device with bonding := some sample_bonding } 0).2
      = [dev_effect.bt_search_service L2CAP_UUID search_callback.browse_cb]
    ∧ ∃ r, (device_bonding_complete sample_env
          { sample_device with bonding := some sample_bonding } 0).1.browse = some r
        ∧ r.msg = some sample_bonding.msg ∧ r.conn = some sample_bonding.conn
        ∧ r.search_uuid = 1 :=
  ⟨(((device_bonding_complete_browse sample_env
        { sample_device with bonding := some sample_bonding }).1 rfl rfl).1
      sample_bonding rfl rfl).1,
   ((((device_bonding_complete_browse sample_env
        { sample_device with bonding := some sample_bonding }).1 rfl rfl).1
      sample_bonding rfl rfl).2.2.2.2.1 (by decide) rfl).1,
   ((((device_bonding_complete_browse sample_env
        { sample_device with bonding := some sample_bonding }).1 rfl rfl).1
      sample_bonding rfl rfl).2.2.2.2.1 (by decide) rfl).2.1 (by decide)⟩

/-! ## The end of a browse -/

/-- C24, evaluated where the code departs from it: a browse that has accumulated a
headset record and the headset id as added ends with the error -ETIMEDOUT, while a
driver declaring that id is registered. No driver hook is called, the device is bound
to no driver, knows no id and has no cached record; the same browse ending without
error probes and binds the driver. -/
theorem search_cb_error_skips :
    (search_cb sample_env_driver sample_browse_added [] (-ETIMEDOUT)).map
        (fun r => (r.1.drivers, r.1.uuids, r.1.tmp_records, driver_calls r.2))
      = some ([], [], [], [])
    ∧ (search_cb sample_env_driver sample_browse_added [] 0).map
        (fun r => (r.1.drivers, r.1.uuids, driver_calls r.2))
      = some ([sample_driver], [HSP_HS_UUID],
          [dev_effect.driver_probe "headset" [HSP_HS_UUID]]) := by
  decide

/-- No profile to match: `device_match_driver_loop` matches nothing. -/
theorem device_match_driver_loop_nil (env : environment) :
    ∀ (declared uuids : List cstring) (tmp_records : List sdp_record),
      device_match_driver_loop env [] declared uuids tmp_records = (uuids, tmp_records) := by
  intro declared
  induction declared with
  | nil => intro uuids tmp; rfl
  | cons u more ih =>
    intro uuids tmp
    unfold device_match_driver_loop
    split_ifs
    · exact ih uuids tmp
    · simp only [g_slist_find_custom, List.find?_nil, device_match_pattern, List.append_nil]
      exact ih uuids tmp

/-- No profile to probe: the driver loop of `device_probe_drivers` does nothing. -/
theorem probe_drivers_loop_nil (env : environment) :
    ∀ (list : List btd_device_driver) (device : btd_device),
      probe_drivers_loop env [] list device = (device, []) := by
  intro list
  induction list with
  | nil => intro device; rfl
  | cons driver rest ih =>
    intro device
    simp only [probe_drivers_loop, device_match_driver, device_match_driver_loop_nil, if_true]
    exact ih device

/-- The function `device_probe_drivers` with no profile leaves the device as it is and
calls nothing. -/
theorem device_probe_drivers_nil (env : environment) (device : btd_device) :
    device_probe_drivers env device [] = (device, []) := by
  unfold device_probe_drivers
  simp only [probe_drivers_loop_nil, ite_self, add_uuids]

/-- The function `device_remove_drivers` with no id removed leaves the drivers and the
known ids as they are and calls nothing. -/
theorem device_remove_drivers_nil (env : environment) (device : btd_device) :
    (device_remove_drivers env device []).1.drivers = device.drivers
    ∧ (device_remove_drivers env device []).1.uuids = device.uuids
    ∧ (device_remove_drivers env device []).2 = [] := by
  have hl : ∀ (pending drivers : List btd_device_driver),
      remove_drivers_loop device.uuids [] pending drivers = (drivers, []) := by
    intro pending
    induction pending with
    | nil => intro drivers; rfl
    | cons d next ih =>
      intro drivers
      have hd : driver_is_removed device.uuids [] d = false := by
        unfold driver_is_removed
        have : d.uuids.find? (fun uuid => (g_slist_find_custom [] uuid strcasecmp).isSome)
            = none := by
          rw [List.find?_eq_none]
          intro x _
          simp [g_slist_find_custom]
        rw [this]
      unfold remove_drivers_loop
      simp only [hd, Bool.false_eq_true, if_false]
      exact ih drivers
  unfold device_remove_drivers
  simp only [hl, remove_uuids_loop, List.append_nil, and_self]

/-- The drivers and known ids after `device_remove_drivers` depend only on the drivers
and known ids before; so do the hooks called. -/
theorem device_remove_drivers_congr (env : environment) (d1 d2 : btd_device)
    (uuids : List cstring) (hd : d1.drivers = d2.drivers) (hu : d1.uuids = d2.uuids) :
    (device_remove_drivers env d1 uuids).1.drivers
      = (device_remove_drivers env d2 uuids).1.drivers
    ∧ (device_remove_drivers env d1 uuids).1.uuids
      = (device_remove_drivers env d2 uuids).1.uuids
    ∧ (device_remove_drivers env d1 uuids).2 = (device_remove_drivers env d2 uuids).2 := by
  unfold device_remove_drivers
  simp only [hd, hu, and_self]

/-- No driver hook is called by `update_services`. -/
theorem update_services_no_driver_call (uuids : List cstring) :
    ∀ (recs : List (Option sdp_record)) (req : browse_req),
      driver_calls (update_services uuids req recs).2 = [] := by
  intro recs
  induction recs with
  | nil => intro req; rfl
  | cons o seq ih =>
    intro req
    cases o with
    | none => rfl
    | some rec =>
      have hp : ∀ p, driver_calls (update_services_pnp rec p) = [] := by
        intro p
        simp only [update_services_pnp]
        split_ifs <;> rfl
      unfold update_services
      split
      · exact ih req
      · exact ih req
      · exact ih req
      · split
        · simp only [driver_calls, List.filter_append] at hp ih ⊢
          rw [hp, ih]; rfl
        · simp only [driver_calls, List.filter_append] at hp ih ⊢
          rw [hp, ih]; rfl

/-- The reply and the cleanup of `search_cb` leave the drivers, the known ids and the
cached records alone and call no driver hook. -/
theorem search_cb_tail_frame (device : btd_device) (req : browse_req) (err : Int) :
    (search_cb_cleanup (search_cb_reply device req err).1 req).1.drivers = device.drivers
    ∧ (search_cb_cleanup (search_cb_reply device req err).1 req).1.uuids = device.uuids
    ∧ (search_cb_cleanup (search_cb_reply device req err).1 req).1.tmp_records
        = device.tmp_records
    ∧ driver_calls (search_cb_reply device req err).2 = []
    ∧ driver_calls (search_cb_cleanup (search_cb_reply device req err).1 req).2 = [] := by
  have hr : (search_cb_reply device req err).1.drivers = device.drivers
      ∧ (search_cb_reply device req err).1.uuids = device.uuids
      ∧ (search_cb_reply device req err).1.tmp_records = device.tmp_records
      ∧ driver_calls (search_cb_reply device req err).2 = [] := by
    unfold search_cb_reply discover_services_reply create_device_reply
    split
    · exact ⟨rfl, rfl, rfl, rfl⟩
    · split_ifs <;> simp_all [driver_calls, is_driver_call]
  have hc : ∀ d : btd_device, (search_cb_cleanup d req).1.drivers = d.drivers
      ∧ (search_cb_cleanup d req).1.uuids = d.uuids
      ∧ (search_cb_cleanup d req).1.tmp_records = d.tmp_records
      ∧ driver_calls (search_cb_cleanup d req).2 = [] := by
    intro d
    unfold search_cb_cleanup browse_request_free btd_device_unref store_profiles
    simp only [driver_calls, List.filter_append]
    split_ifs <;> (try split) <;> simp [is_driver_call]
  obtain ⟨r1, r2, r3, r4⟩ := hr
  obtain ⟨c1, c2, c3, c4⟩ := hc (search_cb_reply device req err).1
  exact ⟨c1.trans r1, c2.trans r2, c3.trans r3, r4, c4⟩

/-- The function `device_register_services` leaves the drivers and the known ids alone
and calls no driver hook. -/
theorem device_register_services_frame (env : environment) (device : btd_device)
    (prim_list : List att_primary) (psm : Int) :
    (device_register_services env device prim_list psm).1.drivers = device.drivers
    ∧ (device_register_services env device prim_list psm).1.uuids = device.uuids
    ∧ driver_calls (device_register_services env device prim_list psm).2 = [] := by
  unfold device_register_services
  split_ifs <;> exact ⟨rfl, rfl, rfl⟩

/-- The part of `search_cb` that updates the device: the records accumulated are
installed, then drivers are probed for the added ids and removed for the removed ids. -/
theorem search_cb_update_spec (env : environment) (device : btd_device) (req : browse_req)
    (recs : List (Option sdp_record)) :
    ∃ probed : btd_device,
      probed.drivers = (device_probe_drivers env
          { device with tmp_records := (update_services device.uuids req recs).1.records }
          (update_services device.uuids req recs).1.profiles_added).1.drivers
      ∧ probed.uuids = (device_probe_drivers env
          { device with tmp_records := (update_services device.uuids req recs).1.records }
          (update_services device.uuids req recs).1.profiles_added).1.uuids
      ∧ (search_cb_update env device req recs).1.drivers
          = (device_remove_drivers env probed
              (update_services device.uuids req recs).1.profiles_removed).1.drivers
      ∧ (search_cb_update env device req recs).1.uuids
          = (device_remove_drivers env probed
              (update_services device.uuids req recs).1.profiles_removed).1.uuids
      ∧ driver_calls (search_cb_update env device req recs).2.2
          = driver_calls (device_probe_drivers env
              { device with tmp_records := (update_services device.uuids req recs).1.records }
              (update_services device.uuids req recs).1.profiles_added).2
            ++ driver_calls (device_remove_drivers env probed
              (update_services device.uuids req recs).1.profiles_removed).2
      ∧ ((update_services device.uuids req recs).1.profiles_added = [] →
          (search_cb_update env device req recs).1.tmp_records
            = (update_services device.uuids req recs).1.records) := by
  have N3 : ∀ d, (device_remove_drivers env d []).2 = [] :=
    fun d => (device_remove_drivers_nil env d).2.2
  have G : ∀ d l psm, List.filter is_driver_call (device_register_services env d l psm).2 = [] :=
    fun d l psm => (device_register_services_frame env d l psm).2.2
  have hu := update_services_no_driver_call device.uuids recs req
  unfold search_cb_update
  generalize update_services device.uuids req recs = U at hu ⊢
  simp only [driver_calls] at hu
  simp only []
  by_cases hA : U.1.profiles_added = []
  · by_cases hR : U.1.profiles_removed = []
    · simp only [if_pos (And.intro hA hR)]
      obtain ⟨n1, n2, n3⟩ := device_remove_drivers_nil env
        { device with tmp_records := U.1.records }
      refine ⟨{ device with tmp_records := U.1.records }, ?_, ?_, ?_, ?_, ?_, ?_⟩
      · rw [hA, device_probe_drivers_nil]
      · rw [hA, device_probe_drivers_nil]
      · rw [hR, n1]
      · rw [hR, n2]
      · rw [hA, hR, device_probe_drivers_nil, N3]
        simp only [driver_calls, hu]; rfl
      · intro _; trivial
    · simp only [if_neg (fun c : U.1.profiles_added = [] ∧ U.1.profiles_removed = [] => hR c.2),
        if_neg (not_not.mpr hA), if_pos hR]
      refine ⟨{ device with tmp_records := U.1.records }, ?_, ?_, rfl, rfl, ?_, ?_⟩
      · rw [hA, device_probe_drivers_nil]
      · rw [hA, device_probe_drivers_nil]
      · rw [hA, device_probe_drivers_nil]
        simp only [driver_calls, List.filter_append, hu]
        simp [is_driver_call]
      · intro _
        simp [device_remove_drivers]
  · simp only [if_neg (fun c : U.1.profiles_added = [] ∧ U.1.profiles_removed = [] => hA c.1),
      if_pos hA]
    have hP : ∃ P : btd_device × List dev_effect,
        (if (device_services_from_record env U.1.profiles_added
              (device_probe_drivers env { device with tmp_records := U.1.records }
                U.1.profiles_added).1.tmp_records).1 ≠ [] then
            ((device_register_services env
                { (device_probe_drivers env { device with tmp_records := U.1.records }
                    U.1.profiles_added).1 with
                  tmp_records := (device_services_from_record env U.1.profiles_added
                    (device_probe_drivers env { device with tmp_records := U.1.records }
                      U.1.profiles_added).1.tmp_records).2 }
                (device_services_from_record env U.1.profiles_added
                  (device_probe_drivers env { device with tmp_records := U.1.records }
                    U.1.profiles_added).1.tmp_records).1 ATT_PSM).1,
              (device_probe_drivers env { device with tmp_records := U.1.records }
                  U.1.profiles_added).2
                ++ (device_register_services env
                  { (device_probe_drivers env { device with tmp_records := U.1.records }
                      U.1.profiles_added).1 with
                    tmp_records := (device_services_from_record env U.1.profiles_added
                      (device_probe_drivers env { device with tmp_records := U.1.records }
                        U.1.profiles_added).1.tmp_records).2 }
                  (device_services_from_record env U.1.profiles_added
                    (device_probe_drivers env { device with tmp_records := U.1.records }
                      U.1.profiles_added).1.tmp_records).1 ATT_PSM).2)
          else
            ({ (device_probe_drivers env { device with tmp_records := U.1.records }
                  U.1.profiles_added).1 with
                tmp_records := (device_services_from_record env U.1.profiles_added
                  (device_probe_drivers env { device with tmp_records := U.1.records }
                    U.1.profiles_added).1.tmp_records).2 },
              (device_probe_drivers env { device with tmp_records := U.1.records }
                  U.1.profiles_added).2)) = P
        ∧ P.1.drivers = (device_probe_drivers env { device with tmp_records := U.1.records }
            U.1.profiles_added).1.drivers
        ∧ P.1.uuids = (device_probe_drivers env { device with tmp_records := U.1.records }
            U.1.profiles_added).1.uuids
        ∧ List.filter is_driver_call P.2
            = List.filter is_driver_call
                (device_probe_drivers env { device with tmp_records := U.1.records }
                  U.1.profiles_added).2 := by
      refine ⟨_, rfl, ?_⟩
      split_ifs
      · refine ⟨(device_register_services_frame env _ _ _).1,
          (device_register_services_frame env _ _ _).2.1, ?_⟩
        simp only [List.filter_append, G, List.append_nil]
      · exact ⟨rfl, rfl, rfl⟩
    obtain ⟨P, hPe, p1, p2, p3⟩ := hP
    simp only [hPe]
    by_cases hR : U.1.profiles_removed = []
    · simp only [if_neg (not_not.mpr hR)]
      obtain ⟨n1, n2, n3⟩ := device_remove_drivers_nil env P.1
      refine ⟨P.1, p1, p2, ?_, ?_, ?_, ?_⟩
      · rw [hR, n1]
      · rw [hR, n2]
      · simp only [driver_calls, List.filter_append, hu, p3]
        rw [hR, N3]
        simp [is_driver_call]
      · intro c; exact absurd c hA
    · simp only [if_pos hR]
      refine ⟨P.1, p1, p2, rfl, rfl, ?_, ?_⟩
      · simp only [driver_calls, List.filter_append, hu, p3]
        simp [is_driver_call]
      · intro c; exact absurd c hA

/-- The cached records after `btd_device_get_record` are the cached records before, or
the records read from the storage. -/
theorem btd_device_get_record_records (env : environment) (tmp : List sdp_record)
    (uuid : cstring) :
    (btd_device_get_record env tmp uuid).2 = tmp
      ∨ (btd_device_get_record env tmp uuid).2 = env.read_records := by
  unfold btd_device_get_record
  simp only
  split
  · exact Or.inl rfl
  · split_ifs <;> exact Or.inr rfl

/-- The cached records after `device_match_pattern` are the cached records before, or
the records read from the storage. -/
theorem device_match_pattern_records (env : environment) (match_uuid : cstring) :
    ∀ (l : List cstring) (tmp : List sdp_record),
      (device_match_pattern env match_uuid l tmp).2 = tmp
        ∨ (device_match_pattern env match_uuid l tmp).2 = env.read_records := by
  intro l
  induction l with
  | nil => intro tmp; exact Or.inl rfl
  | cons p l ih =>
    intro tmp
    have h1 := btd_device_get_record_records env tmp p
    have h2 := ih (btd_device_get_record env tmp p).2
    have key : (device_match_pattern env match_uuid (p :: l) tmp).2
        = (device_match_pattern env match_uuid l (btd_device_get_record env tmp p).2).2 := by
      simp only [device_match_pattern]
      split
      · rfl
      · split_ifs <;> rfl
    rw [key]
    rcases h2 with h2 | h2
    · rcases h1 with h1 | h1
      · exact Or.inl (h2.trans h1)
      · exact Or.inr (h2.trans h1)
    · exact Or.inr h2

/-- The cached records after the loop of `device_match_driver` are the cached records
before, or the records read from the storage. -/
theorem device_match_driver_loop_records (env : environment) (profiles : List cstring) :
    ∀ (declared acc : List cstring) (tmp : List sdp_record),
      (device_match_driver_loop env profiles declared acc tmp).2 = tmp
        ∨ (device_match_driver_loop env profiles declared acc tmp).2 = env.read_records := by
  intro declared
  induction declared with
  | nil => intro acc tmp; exact Or.inl rfl
  | cons u more ih =>
    intro acc tmp
    unfold device_match_driver_loop
    split_ifs
    · exact ih acc tmp
    · split
      · exact ih _ tmp
      · have h1 := device_match_pattern_records env u profiles tmp
        have h2 := ih (acc ++ (device_match_pattern env u profiles tmp).1)
          (device_match_pattern env u profiles tmp).2
        rcases h2 with h2 | h2
        · rcases h1 with h1 | h1
          · exact Or.inl (h2.trans h1)
          · exact Or.inr (h2.trans h1)
        · exact Or.inr h2

/-- The loop of `device_match_driver` matches at least one id when the driver declares
an id that is among the profiles up to case. -/
theorem device_match_driver_loop_ne_nil (env : environment) (profiles : List cstring) :
    ∀ (declared acc : List cstring) (tmp : List sdp_record),
      (acc ≠ [] ∨ ∃ v ∈ declared, ∃ c ∈ profiles, strcasecmp c v = 0) →
      (device_match_driver_loop env profiles declared acc tmp).1 ≠ [] := by
  intro declared
  induction declared with
  | nil =>
    intro acc tmp h
    rcases h with h | ⟨v, hv, _⟩
    · exact h
    · simp at hv
  | cons u more ih =>
    intro acc tmp h
    unfold device_match_driver_loop
    split_ifs with hf
    · refine ih acc tmp (Or.inl ?_)
      intro c
      rw [c] at hf
      simp [g_slist_find_custom] at hf
    · split
      · exact ih _ tmp (Or.inl (by simp))
      · rename_i hnone
        refine ih _ _ ?_
        rcases h with h | ⟨v, hv, c, hc, hcv⟩
        · exact Or.inl (by simp [h])
        · rcases List.mem_cons.mp hv with e | e
          · subst e
            simp only [g_slist_find_custom, List.find?_eq_none, decide_eq_true_eq] at hnone
            exact absurd hcv (hnone c hc)
          · exact Or.inr ⟨v, e, c, hc, hcv⟩

/-- The cached records after the driver loop of `device_probe_drivers` are the cached
records before, or the records read from the storage. -/
theorem probe_drivers_loop_records (env : environment) (profiles : List cstring) :
    ∀ (list : List btd_device_driver) (device : btd_device),
      (probe_drivers_loop env profiles list device).1.tmp_records = device.tmp_records
        ∨ (probe_drivers_loop env profiles list device).1.tmp_records = env.read_records := by
  intro list
  induction list with
  | nil => intro device; exact Or.inl rfl
  | cons driver rest ih =>
    intro device
    have h1 := device_match_driver_loop_records env profiles driver.uuids [] device.tmp_records
    have step : ∀ d : btd_device,
        d.tmp_records = (device_match_driver env device.tmp_records driver profiles).2 →
        (probe_drivers_loop env profiles rest d).1.tmp_records = device.tmp_records
          ∨ (probe_drivers_loop env profiles rest d).1.tmp_records = env.read_records := by
      intro d hd
      rcases ih d with h2 | h2
      · rw [h2, hd]
        exact h1
      · exact Or.inr h2
    unfold probe_drivers_loop
    simp only
    split_ifs
    · exact step _ rfl
    · exact step _ rfl
    · exact step _ rfl

/-- The drivers bound on entry stay bound through the driver loop of
`device_probe_drivers`, and a driver bound afterwards was bound on entry or is a
driver of the list. -/
theorem probe_drivers_loop_drivers (env : environment) (profiles : List cstring) :
    ∀ (list : List btd_device_driver) (device : btd_device),
      (∀ x ∈ device.drivers, x ∈ (probe_drivers_loop env profiles list device).1.drivers)
      ∧ (∀ x ∈ (probe_drivers_loop env profiles list device).1.drivers,
          x ∈ device.drivers ∨ x ∈ list) := by
  intro list
  induction list with
  | nil =>
    intro device
    exact ⟨fun x hx => hx, fun x hx => Or.inl hx⟩
  | cons driver rest ih =>
    intro device
    unfold probe_drivers_loop
    simp only
    split_ifs
    · obtain ⟨i1, i2⟩ := ih { device with
        tmp_records := (device_match_driver env device.tmp_records driver profiles).2 }
      refine ⟨i1, fun x hx => ?_⟩
      rcases i2 x hx with h | h
      · exact Or.inl h
      · exact Or.inr (List.mem_cons_of_mem _ h)
    · obtain ⟨i1, i2⟩ := ih { device with
        tmp_records := (device_match_driver env device.tmp_records driver profiles).2 }
      refine ⟨i1, fun x hx => ?_⟩
      rcases i2 x hx with h | h
      · exact Or.inl h
      · exact Or.inr (List.mem_cons_of_mem _ h)
    · obtain ⟨i1, i2⟩ := ih { device with
        tmp_records := (device_match_driver env device.tmp_records driver profiles).2,
        drivers := device.drivers ++ [driver] }
      refine ⟨fun x hx => i1 x (List.mem_append_left _ hx), fun x hx => ?_⟩
      rcases i2 x hx with h | h
      · rcases List.mem_append.mp h with h | h
        · exact Or.inl h
        · rw [List.mem_singleton] at h
          subst h
          exact Or.inr (List.mem_cons_self _ _)
      · exact Or.inr (List.mem_cons_of_mem _ h)

/-- The driver loop of `device_probe_drivers` calls the probe hook of every driver of
the list that declares an id among the profiles up to case, with at least one id, and
binds the driver when the hook does not fail. -/
theorem probe_drivers_loop_called (env : environment) (profiles : List cstring) :
    ∀ (list : List btd_device_driver) (device : btd_device),
      ∀ drv ∈ list, (∃ v ∈ drv.uuids, ∃ c ∈ profiles, strcasecmp c v = 0) →
        ∃ ids, ids ≠ []
          ∧ dev_effect.driver_probe drv.name ids ∈ (probe_drivers_loop env profiles list device).2
          ∧ (0 ≤ env.probe drv ids →
              drv ∈ (probe_drivers_loop env profiles list device).1.drivers) := by
  intro list
  induction list with
  | nil => intro device drv hd; simp at hd
  | cons driver rest ih =>
    intro device drv hd hm
    rcases List.mem_cons.mp hd with e | e
    · subst e
      have hne : (device_match_driver env device.tmp_records drv profiles).1 ≠ [] :=
        device_match_driver_loop_ne_nil env profiles drv.uuids [] device.tmp_records
          (Or.inr hm)
      refine ⟨(device_match_driver env device.tmp_records drv profiles).1, hne, ?_, ?_⟩
      · unfold probe_drivers_loop
        simp only [if_neg hne]
        split_ifs <;> exact List.mem_cons_self _ _
      · intro hp
        unfold probe_drivers_loop
        simp only [if_neg hne, if_neg (not_lt.mpr hp)]
        exact (probe_drivers_loop_drivers env profiles rest _).1 drv
          (List.mem_append_right _ (List.mem_singleton.mpr rfl))
    · have step : ∀ d : btd_device, ∃ ids, ids ≠ []
          ∧ dev_effect.driver_probe drv.name ids ∈ (probe_drivers_loop env profiles rest d).2
          ∧ (0 ≤ env.probe drv ids → drv ∈ (probe_drivers_loop env profiles rest d).1.drivers) :=
        fun d => ih d drv e hm
      unfold probe_drivers_loop
      simp only
      split_ifs
      · exact step _
      · obtain ⟨ids, a1, a2, a3⟩ := step { device with
          tmp_records := (device_match_driver env device.tmp_records driver profiles).2 }
        exact ⟨ids, a1, List.mem_cons_of_mem _ a2, a3⟩
      · obtain ⟨ids, a1, a2, a3⟩ := step { device with
          tmp_records := (device_match_driver env device.tmp_records driver profiles).2,
          drivers := device.drivers ++ [driver] }
        exact ⟨ids, a1, List.mem_cons_of_mem _ a2, a3⟩

/-- What `device_probe_drivers` does for the profiles `profiles`: the known ids become
`add_uuids` of the known ids and the profiles; the cached records stay or are read
from the storage; the drivers bound stay bound, and a driver bound afterwards was bound
before or is registered; on a device that is not blocked the probe hook of every
registered driver declaring one of the profiles is called and the driver is bound
when the hook does not fail. -/
theorem device_probe_drivers_spec (env : environment) (device : btd_device)
    (profiles : List cstring) :
    (device_probe_drivers env device profiles).1.uuids = add_uuids device.uuids profiles
    ∧ ((device_probe_drivers env device profiles).1.tmp_records = device.tmp_records
        ∨ (device_probe_drivers env device profiles).1.tmp_records = env.read_records)
    ∧ (∀ x ∈ device.drivers, x ∈ (device_probe_drivers env device profiles).1.drivers)
    ∧ (∀ x ∈ (device_probe_drivers env device profiles).1.drivers,
        x ∈ device.drivers ∨ x ∈ env.device_drivers)
    ∧ (device.blocked = false → ∀ drv ∈ env.device_drivers,
        (∃ v ∈ drv.uuids, ∃ c ∈ profiles, strcasecmp c v = 0) →
        ∃ ids, ids ≠ []
          ∧ dev_effect.driver_probe drv.name ids ∈ (device_probe_drivers env device profiles).2
          ∧ (0 ≤ env.probe drv ids →
              drv ∈ (device_probe_drivers env device profiles).1.drivers)) := by
  unfold device_probe_drivers
  cases hb : device.blocked with
  | true =>
    simp only [if_true]
    exact ⟨trivial, Or.inl trivial, fun x hx => hx, fun x hx => Or.inl hx,
      fun c => by simp at c⟩
  | false =>
    simp only [Bool.false_eq_true, if_false]
    obtain ⟨d1, d2⟩ := probe_drivers_loop_drivers env profiles env.device_drivers device
    refine ⟨?_, probe_drivers_loop_records env profiles env.device_drivers device, d1, d2,
      fun _ drv hd hm => probe_drivers_loop_called env profiles env.device_drivers device
        drv hd hm⟩
    rw [probe_drivers_loop_uuids]

/-- The cached records after `device_services_from_record` are the cached records
before, or the records read from the storage. -/
theorem device_services_from_record_records (env : environment) :
    ∀ (l : List cstring) (tmp : List sdp_record),
      (device_services_from_record env l tmp).2 = tmp
        ∨ (device_services_from_record env l tmp).2 = env.read_records := by
  intro l
  induction l with
  | nil => intro tmp; exact Or.inl rfl
  | cons p l ih =>
    intro tmp
    have h1 := btd_device_get_record_records env tmp p
    have h2 := ih (btd_device_get_record env tmp p).2
    have key : (device_services_from_record env (p :: l) tmp).2
        = (device_services_from_record env l (btd_device_get_record env tmp p).2).2 := by
      simp only [device_services_from_record]
      split
      · rfl
      · split_ifs
        · split <;> rfl
        · rfl
    rw [key]
    rcases h2 with h2 | h2
    · rcases h1 with h1 | h1
      · exact Or.inl (h2.trans h1)
      · exact Or.inr (h2.trans h1)
    · exact Or.inr h2

/-- The known ids after the loop of `device_remove_drivers` over the removed ids: an id
known afterwards was known before, an id known before is known afterwards or is among
the removed ids, and when the known ids are pairwise different no removed id is known
afterwards. -/
theorem remove_uuids_loop_uuids (env : environment) :
    ∀ (uuids device_uuids : List cstring) (records : List sdp_record),
      (∀ y ∈ (remove_uuids_loop env uuids device_uuids records).1, y ∈ device_uuids)
      ∧ (∀ y ∈ device_uuids,
          y ∈ (remove_uuids_loop env uuids device_uuids records).1 ∨ y ∈ uuids)
      ∧ (device_uuids.Nodup →
          ∀ r ∈ uuids, r ∉ (remove_uuids_loop env uuids device_uuids records).1) := by
  intro uuids
  induction uuids with
  | nil =>
    intro du records
    exact ⟨fun y hy => hy, fun y hy => Or.inl hy, fun _ r hr => by simp at hr⟩
  | cons data list ih =>
    intro du records
    have key : ∃ recs, (remove_uuids_loop env (data :: list) du records).1
        = (remove_uuids_loop env list (du.erase data) recs).1 := by
      simp only [remove_uuids_loop]
      split
      · exact ⟨_, rfl⟩
      · exact ⟨_, rfl⟩
    obtain ⟨recs, hk⟩ := key
    obtain ⟨i1, i2, i3⟩ := ih (du.erase data) recs
    rw [hk]
    refine ⟨fun y hy => List.mem_of_mem_erase (i1 y hy), ?_, ?_⟩
    · intro y hy
      by_cases e : y = data
      · exact Or.inr (by rw [e]; exact List.mem_cons_self _ _)
      · rcases i2 y ((List.mem_erase_of_ne e).mpr hy) with h | h
        · exact Or.inl h
        · exact Or.inr (List.mem_cons_of_mem _ h)
    · intro hn r hr
      rcases List.mem_cons.mp hr with e | e
      · subst e
        intro c
        exact ((hn.mem_erase_iff).mp (i1 r c)).1 rfl
      · exact i3 (hn.erase data) r e

/-- What `device_remove_drivers` does for the removed ids `uuids`: a driver bound
before stays bound exactly when the test of the function does not unbind it, the
remove hook of a driver that is unbound is called, and each removed id is taken out of
the known ids. -/
theorem device_remove_drivers_spec (env : environment) (device : btd_device)
    (uuids : List cstring) :
    (∀ x, x ∈ (device_remove_drivers env device uuids).1.drivers
        ↔ x ∈ device.drivers ∧ driver_is_removed device.uuids uuids x = false)
    ∧ (∀ x ∈ device.drivers, driver_is_removed device.uuids uuids x = true →
        dev_effect.driver_remove x.name ∈ (device_remove_drivers env device uuids).2)
    ∧ (∀ y ∈ (device_remove_drivers env device uuids).1.uuids, y ∈ device.uuids)
    ∧ (∀ y ∈ device.uuids, y ∈ (device_remove_drivers env device uuids).1.uuids ∨ y ∈ uuids)
    ∧ (device.uuids.Nodup →
        ∀ r ∈ uuids, r ∉ (device_remove_drivers env device uuids).1.uuids)
    ∧ (device_remove_drivers env device uuids).1.tmp_records = device.tmp_records := by
  obtain ⟨u1, u2, u3⟩ := remove_uuids_loop_uuids env uuids device.uuids env.read_records
  unfold device_remove_drivers
  refine ⟨?_, ?_, u1, u2, u3, rfl⟩
  · intro x
    have hc := remove_drivers_loop_count device.uuids uuids x device.drivers device.drivers
    simp only
    rw [← List.count_pos_iff, hc]
    cases hr : driver_is_removed device.uuids uuids x with
    | true => simp
    | false => simp [List.count_pos_iff]
  · intro x hx hr
    exact List.mem_append_left _
      (remove_drivers_loop_log device.uuids uuids x hr device.drivers device.drivers hx)

/-- The cached records after the part of `search_cb` that updates the device are the
records accumulated by the browse, or the records read from the storage. -/
theorem search_cb_update_records (env : environment) (device : btd_device)
    (req : browse_req) (recs : List (Option sdp_record)) :
    (search_cb_update env device req recs).1.tmp_records
        = (update_services device.uuids req recs).1.records
      ∨ (search_cb_update env device req recs).1.tmp_records = env.read_records := by
  have P := fun d l => (device_probe_drivers_spec env d l).2.1
  have S := fun l tmp => device_services_from_record_records env l tmp
  have R := fun d l => (device_remove_drivers_spec env d l).2.2.2.2.2
  have G : ∀ d l psm, (device_register_services env d l psm).1.tmp_records = d.tmp_records := by
    intro d l psm
    unfold device_register_services
    split_ifs <;> rfl
  unfold search_cb_update
  generalize update_services device.uuids req recs = U
  simp only []
  have hp : ∀ d : btd_device, d.tmp_records = U.1.records →
      (if ¬ U.1.profiles_added = [] then
        (if (device_services_from_record env U.1.profiles_added
              (device_probe_drivers env d U.1.profiles_added).1.tmp_records).1 ≠ [] then
          ((device_register_services env
              { (device_probe_drivers env d U.1.profiles_added).1 with
                tmp_records := (device_services_from_record env U.1.profiles_added
                  (device_probe_drivers env d U.1.profiles_added).1.tmp_records).2 }
              (device_services_from_record env U.1.profiles_added
                (device_probe_drivers env d U.1.profiles_added).1.tmp_records).1 ATT_PSM).1,
            (device_probe_drivers env d U.1.profiles_added).2
              ++ (device_register_services env
                { (device_probe_drivers env d U.1.profiles_added).1 with
                  tmp_records := (device_services_from_record env U.1.profiles_added
                    (device_probe_drivers env d U.1.profiles_added).1.tmp_records).2 }
                (device_services_from_record env U.1.profiles_added
                  (device_probe_drivers env d U.1.profiles_added).1.tmp_records).1 ATT_PSM).2)
        else
          ({ (device_probe_drivers env d U.1.profiles_added).1 with
              tmp_records := (device_services_from_record env U.1.profiles_added
                (device_probe_drivers env d U.1.profiles_added).1.tmp_records).2 },
            (device_probe_drivers env d U.1.profiles_added).2))
       else (d, [])).1.tmp_records = U.1.records
      ∨ (if ¬ U.1.profiles_added = [] then
        (if (device_services_from_record env U.1.profiles_added
              (device_probe_drivers env d U.1.profiles_added).1.tmp_records).1 ≠ [] then
          ((device_register_services env
              { (device_probe_drivers env d U.1.profiles_added).1 with
                tmp_records := (device_services_from_record env U.1.profiles_added
                  (device_probe_drivers env d U.1.profiles_added).1.tmp_records).2 }
              (device_services_from_record env U.1.profiles_added
                (device_probe_drivers env d U.1.profiles_added).1.tmp_records).1 ATT_PSM).1,
            (device_probe_drivers env d U.1.profiles_added).2
              ++ (device_register_services env
                { (device_probe_drivers env d U.1.profiles_added).1 with
                  tmp_records := (device_services_from_record env U.1.profiles_added
                    (device_probe_drivers env d U.1.profiles_added).1.tmp_records).2 }
                (device_services_from_record env U.1.profiles_added
                  (device_probe_drivers env d U.1.profiles_added).1.tmp_records).1 ATT_PSM).2)
        else
          ({ (device_probe_drivers env d U.1.profiles_added).1 with
              tmp_records := (device_services_from_record env U.1.profiles_added
                (device_probe_drivers env d U.1.profiles_added).1.tmp_records).2 },
            (device_probe_drivers env d U.1.profiles_added).2))
       else (d, [])).1.tmp_records = env.read_records := by
    intro d hd
    have hsv : (device_services_from_record env U.1.profiles_added
          (device_probe_drivers env d U.1.profiles_added).1.tmp_records).2 = U.1.records
        ∨ (device_services_from_record env U.1.profiles_added
          (device_probe_drivers env d U.1.profiles_added).1.tmp_records).2
            = env.read_records := by
      rcases S U.1.profiles_added (device_probe_drivers env d U.1.profiles_added).1.tmp_records
        with h | h
      · rcases P d U.1.profiles_added with h2 | h2
        · exact Or.inl (h.trans (h2.trans hd))
        · exact Or.inr (h.trans h2)
      · exact Or.inr h
    by_cases hA : U.1.profiles_added = []
    · rw [if_neg (not_not.mpr hA)]
      exact Or.inl hd
    · rw [if_pos hA]
      split_ifs
      · rw [G]; exact hsv
      · exact hsv
  by_cases hAR : U.1.profiles_added = [] ∧ U.1.profiles_removed = []
  · simp only [if_pos hAR]
    exact Or.inl trivial
  · simp only [if_neg hAR]
    by_cases hR : U.1.profiles_removed = []
    · simp only [if_neg (not_not.mpr hR)]
      exact hp { device with tmp_records := U.1.records } rfl
    · simp only [if_pos hR]
      rw [R]
      exact hp { device with tmp_records := U.1.records } rfl

/-- C24, amended: when a browse ends without error, `search_cb` merges the response,
installs the records accumulated by the browse as the cached records of the device,
and then probes drivers for the added ids and removes drivers for the removed ids.
Afterwards the cached records are the accumulated records, or the records read from
the storage when a lookup made for the added ids has read them; the known ids are
those known before and the added ones, without the removed ones; on a device that is
not blocked the probe hook of every registered driver declaring an added id is called,
and the driver is bound when the hook does not fail, unless the removal unbinds it; a
driver bound before is unbound, its remove hook being called, exactly when its first
declared id that is removed is not audio-class or every audio-class id known is
removed. When the browse ends by an error, `search_cb` does none of this: the drivers,
the known ids and the cached records are unchanged and no driver hook is called. -/
theorem search_cb_completion (env : environment) (device : btd_device)
    (recs : List (Option sdp_record)) (err : Int) (req U : browse_req)
    (h : device.browse = some req)
    (hU : (update_services device.uuids (remove_sdp_timer req).1 recs).1 = U) :
    (0 ≤ err →
      ∃ d log, search_cb env device recs err = some (d, log)
        ∧ (d.tmp_records = U.records ∨ d.tmp_records = env.read_records)
        ∧ (U.profiles_added = [] → d.tmp_records = U.records)
        ∧ (∀ x ∈ d.uuids, x ∈ device.uuids ∨ x ∈ U.profiles_added)
        ∧ (∀ x ∈ device.uuids, x ∈ d.uuids ∨ x ∈ U.profiles_removed)
        ∧ (∀ c ∈ U.profiles_added,
            ∃ x, strcasecmp x c = 0 ∧ (x ∈ d.uuids ∨ x ∈ U.profiles_removed))
        ∧ (device.uuids.Nodup → ∀ r ∈ U.profiles_removed, r ∉ d.uuids)
        ∧ (device.blocked = false → ∀ drv ∈ env.device_drivers,
            (∃ v ∈ drv.uuids, ∃ c ∈ U.profiles_added, strcasecmp c v = 0) →
            ∃ ids, ids ≠ [] ∧ dev_effect.driver_probe drv.name ids ∈ log
              ∧ (0 ≤ env.probe drv ids →
                  drv ∈ d.drivers
                  ∨ ∃ u, drv.uuids.find? (is_removed U.profiles_removed) = some u
                      ∧ (is_audio_driver u = true →
                          ∀ a ∈ add_uuids device.uuids U.profiles_added,
                            is_audio_driver a = true →
                            is_removed U.profiles_removed a = true)))
        ∧ (∀ drv ∈ device.drivers,
            (drv ∉ d.drivers
              ↔ ∃ u, drv.uuids.find? (is_removed U.profiles_removed) = some u
                  ∧ (is_audio_driver u = true →
                      ∀ a ∈ add_uuids device.uuids U.profiles_added,
                        is_audio_driver a = true → is_removed U.profiles_removed a = true))
            ∧ (drv ∉ d.drivers → dev_effect.driver_remove drv.name ∈ log))
        ∧ (∀ drv ∈ d.drivers, drv ∈ device.drivers ∨ drv ∈ env.device_drivers))
    ∧ (err < 0 →
      ∃ d log, search_cb env device recs err = some (d, log)
        ∧ d.drivers = device.drivers ∧ d.uuids = device.uuids
        ∧ d.tmp_records = device.tmp_records ∧ driver_calls log = []) := by
  have ht : driver_calls (remove_sdp_timer req).2 = [] := by
    unfold remove_sdp_timer; split_ifs <;> rfl
  constructor
  · intro herr
    have hneg : ¬ err < 0 := by omega
    have heq : search_cb env device recs err
        = some ((search_cb_cleanup (search_cb_reply
              (search_cb_update env device (remove_sdp_timer req).1 recs).1
              (search_cb_update env device (remove_sdp_timer req).1 recs).2.1 err).1
              (search_cb_update env device (remove_sdp_timer req).1 recs).2.1).1,
            (remove_sdp_timer req).2
              ++ (search_cb_update env device (remove_sdp_timer req).1 recs).2.2
              ++ (search_cb_reply (search_cb_update env device (remove_sdp_timer req).1 recs).1
                  (search_cb_update env device (remove_sdp_timer req).1 recs).2.1 err).2
              ++ (search_cb_cleanup (search_cb_reply
                  (search_cb_update env device (remove_sdp_timer req).1 recs).1
                  (search_cb_update env device (remove_sdp_timer req).1 recs).2.1 err).1
                  (search_cb_update env device (remove_sdp_timer req).1 recs).2.1).2) := by
      unfold search_cb
      simp only [h, hneg, if_false]
    obtain ⟨probed, u1, u2, u3, u4, u5, u6⟩ :=
      search_cb_update_spec env device (remove_sdp_timer req).1 recs
    have urec := search_cb_update_records env device (remove_sdp_timer req).1 recs
    rw [hU] at u1 u2 u3 u4 u5 u6 urec
    obtain ⟨t1, t2, t3, _, _⟩ := search_cb_tail_frame
      (search_cb_update env device (remove_sdp_timer req).1 recs).1
      (search_cb_update env device (remove_sdp_timer req).1 recs).2.1 err
    obtain ⟨pu, _, pd1, pd2, pc⟩ := device_probe_drivers_spec env
      { device with tmp_records := U.records } U.profiles_added
    obtain ⟨r1, r2, r3, r4, r5, _⟩ := device_remove_drivers_spec env probed U.profiles_removed
    obtain ⟨_, an, _, a1, a2, a3⟩ := add_uuids_spec U.profiles_added device.uuids
    have hpu : probed.uuids = add_uuids device.uuids U.profiles_added := u2.trans pu
    rw [hpu] at r1 r2 r3 r4 r5
    rw [← u3] at r1
    rw [← u4] at r3 r4 r5
    rw [← t1] at r1
    rw [← t2] at r3 r4 r5
    have hlog : ∀ e, is_driver_call e = true →
        (e ∈ (device_probe_drivers env { device with tmp_records := U.records }
                U.profiles_added).2
          ∨ e ∈ (device_remove_drivers env probed U.profiles_removed).2) →
        e ∈ (remove_sdp_timer req).2
              ++ (search_cb_update env device (remove_sdp_timer req).1 recs).2.2
              ++ (search_cb_reply (search_cb_update env device (remove_sdp_timer req).1 recs).1
                  (search_cb_update env device (remove_sdp_timer req).1 recs).2.1 err).2
              ++ (search_cb_cleanup (search_cb_reply
                  (search_cb_update env device (remove_sdp_timer req).1 recs).1
                  (search_cb_update env device (remove_sdp_timer req).1 recs).2.1 err).1
                  (search_cb_update env device (remove_sdp_timer req).1 recs).2.1).2 := by
      intro e he hm
      have hin : e ∈ driver_calls (search_cb_update env device (remove_sdp_timer req).1 recs).2.2 := by
        rw [u5]
        rcases hm with hm | hm
        · exact List.mem_append_left _ (List.mem_filter.mpr ⟨hm, he⟩)
        · exact List.mem_append_right _ (List.mem_filter.mpr ⟨hm, he⟩)
      exact List.mem_append_left _ (List.mem_append_left _
        (List.mem_append_right _ (List.mem_filter.mp hin).1))
    have hrem : ∀ drv, driver_is_removed (add_uuids device.uuids U.profiles_added)
          U.profiles_removed drv = true
        ↔ ∃ u, drv.uuids.find? (is_removed U.profiles_removed) = some u
            ∧ (is_audio_driver u = true →
                ∀ a ∈ add_uuids device.uuids U.profiles_added,
                  is_audio_driver a = true → is_removed U.profiles_removed a = true) :=
      fun drv => driver_is_removed_iff _ _ drv
    refine ⟨_, _, heq, ?_, ?_, ?_, ?_, ?_, ?_, ?_, ?_, ?_⟩
    · rw [t3]; exact urec
    · intro hA; exact t3.trans (u6 hA)
    · intro x hx; exact a2 x (r3 x hx)
    · intro x hx; exact r4 x (a1 x hx)
    · intro c hc
      obtain ⟨x, hx, hxc⟩ := a3 c hc
      exact ⟨x, hxc, r4 x hx⟩
    · intro hn; exact r5 (an hn)
    · intro hb drv hd hm
      obtain ⟨ids, i1, i2, i3⟩ := pc hb drv hd hm
      refine ⟨ids, i1, hlog _ rfl (Or.inl i2), fun hp => ?_⟩
      have hin : drv ∈ probed.drivers := by rw [u1]; exact i3 hp
      cases hr : driver_is_removed (add_uuids device.uuids U.profiles_added)
          U.profiles_removed drv with
      | true => exact Or.inr ((hrem drv).mp hr)
      | false => exact Or.inl ((r1 drv).mpr ⟨hin, hr⟩)
    · intro drv hd
      have hin : drv ∈ probed.drivers := by rw [u1]; exact pd1 drv hd
      constructor
      · rw [← hrem drv, r1 drv]
        cases driver_is_removed (add_uuids device.uuids U.profiles_added)
          U.profiles_removed drv <;> simp [hin]
      · intro hnot
        have hr : driver_is_removed (add_uuids device.uuids U.profiles_added)
            U.profiles_removed drv = true := by
          cases hr : driver_is_removed (add_uuids device.uuids U.profiles_added)
              U.profiles_removed drv with
          | true => rfl
          | false => exact absurd ((r1 drv).mpr ⟨hin, hr⟩) hnot
        exact hlog _ rfl (Or.inr (r2 drv hin hr))
    · intro drv hd
      have := ((r1 drv).mp hd).1
      rw [u1] at this
      exact pd2 drv this
  · intro herr
    obtain ⟨t1, t2, t3, t4, t5⟩ := search_cb_tail_frame device (remove_sdp_timer req).1 err
    unfold search_cb
    simp only [h, herr, if_true]
    refine ⟨_, _, rfl, t1, t2, t3, ?_⟩
    simp only [driver_calls, List.filter_append] at ht t4 t5 ⊢
    rw [ht, t4, t5]; rfl

/-- Witness of C24, amended: the browse of `sample_browse_added`, which has accumulated
a headset record and the headset id as added, ends without error while the driver
`sample_driver`, which declares that id, is registered: its probe hook is called, the
driver is bound and the id is known afterwards; the cached records are the accumulated
record or, the lookup having missed, the records read from the storage. The same
browse ending by an error leaves the device as it was. -/
theorem search_cb_completion_witness :
    (∃ d log, search_cb sample_env_driver sample_browse_added [] 0 = some (d, log)
      ∧ (d.tmp_records = [sample_record 0x10000 HSP_HS_UUID]
          ∨ d.tmp_records = sample_env_driver.read_records)
      ∧ (∃ ids, ids ≠ [] ∧ dev_effect.driver_probe "headset" ids ∈ log)
      ∧ sample_driver ∈ d.drivers
      ∧ ∃ x ∈ d.uuids, strcasecmp x HSP_HS_UUID = 0)
    ∧ (∃ d log, search_cb sample_env_driver sample_browse_added [] (-1) = some (d, log)
      ∧ d.drivers = sample_browse_added.drivers ∧ d.uuids = sample_browse_added.uuids
      ∧ d.tmp_records = sample_browse_added.tmp_records ∧ driver_calls log = []) := by
  constructor
  · obtain ⟨d, log, h1, h2, _, _, _, h6, _, h8, _, _⟩ :=
      (search_cb_completion sample_env_driver sample_browse_added [] 0 _ _ rfl rfl).1
        (by decide)
    obtain ⟨x, hx, hm⟩ := h6 HSP_HS_UUID (List.mem_singleton.mpr rfl)
    obtain ⟨ids, i1, i2, i3⟩ := h8 rfl sample_driver (List.mem_singleton.mpr rfl)
      ⟨HSP_HS_UUID, by decide, HSP_HS_UUID, List.mem_singleton.mpr rfl, by decide⟩
    refine ⟨d, log, h1, h2, ⟨ids, i1, i2⟩, ?_, x, ?_, hx⟩
    · rcases i3 (le_refl _) with c | ⟨u, hu, _⟩
      · exact c
      · have hnone : sample_driver.uuids.find? (is_removed []) = none := by decide
        exact Option.noConfusion (hnone.symm.trans hu)
    · rcases hm with c | c
      · exact c
      · exact absurd c (List.not_mem_nil x)
  · exact (search_cb_completion sample_env_driver sample_browse_added [] (-1) _ _ rfl rfl).2
      (by decide)

/-- C27: for the record `sample_record_two`, whose classes are the headset and the
serial port, `update_services` walks both classes: the second class is added to
`profiles_added` of a device that knows neither, and is taken out of
`profiles_removed` of a device that knows the serial port. -/
theorem update_services_all_classes :
    sample_record_two.svclass = some [some HSP_HS_UUID, some SPP_UUID]
    ∧ (update_services [] browse_req_new0 [some sample_record_two]).1.profiles_added
        = [HSP_HS_UUID, SPP_UUID]
    ∧ (init_browse [SPP_UUID] browse_req_new0 false).profiles_removed = [SPP_UUID]
    ∧ (update_services [SPP_UUID] (init_browse [SPP_UUID] browse_req_new0 false)
        [some sample_record_two]).1.profiles_removed = [] := by
  refine ⟨rfl, by decide, rfl, by decide⟩

/-- C23: with the disconnection timer already armed, `device_request_disconnect`
returns before the watch loop: the watch of `sample_disconnecting` has a callback, is
not called, and stays in the list. -/
theorem device_request_disconnect_armed :
    has_watch (sample_watch 1) = true
    ∧ sample_disconnecting.watches = [sample_watch 1]
    ∧ (device_request_disconnect sample_env sample_watch_removes sample_disconnecting none).map
        (fun r => (r.1.watches, watch_calls r.2)) = some ([sample_watch 1], []) := by
  refine ⟨rfl, rfl, rfl⟩

/-- The watch calls of two logs one after the other. -/
theorem watch_calls_append (a b : List dev_effect) :
    watch_calls (a ++ b) = watch_calls a ++ watch_calls b := by
  simp [watch_calls, List.filterMap_append]

/-- A log of watch effects arms no timer and has no other call. -/
theorem watch_effects_append (a b : List dev_effect)
    (ha : ∀ e ∈ a, is_watch_effect e = true) (hb : ∀ e ∈ b, is_watch_effect e = true) :
    ∀ e ∈ a ++ b, is_watch_effect e = true := by
  intro e he
  rcases List.mem_append.mp he with h | h
  · exact ha e h
  · exact hb e h

/-- The function `device_remove_disconnect_watch` takes watches out only: a watch with
another id stays, and no watch callback is called. -/
theorem device_remove_disconnect_watch_spec (id : Nat) :
    ∀ l : List btd_disconnect_data,
      (device_remove_disconnect_watch l id).1.Sublist l
      ∧ (∀ x ∈ l, x.id ≠ id → x ∈ (device_remove_disconnect_watch l id).1)
      ∧ watch_calls (device_remove_disconnect_watch l id).2 = []
      ∧ (∀ e ∈ (device_remove_disconnect_watch l id).2, is_watch_effect e = true) := by
  intro l
  induction l with
  | nil =>
    refine ⟨List.Sublist.refl _, ?_, rfl, ?_⟩
    · intro x hx; simp at hx
    · intro e he; simp [device_remove_disconnect_watch] at he
  | cons data l ih =>
    obtain ⟨i1, i2, i3, i4⟩ := ih
    by_cases hid : data.id = id
    · simp only [device_remove_disconnect_watch, if_pos hid]
      refine ⟨List.sublist_cons_self data l, ?_, ?_, ?_⟩
      · intro x hx hne
        rcases List.mem_cons.mp hx with h | h
        · subst h; exact absurd hid hne
        · exact h
      · cases data.destroy <;> rfl
      · intro e he
        cases hd : data.destroy with
        | none => simp [hd] at he
        | some destroy =>
          simp only [hd, List.mem_singleton] at he
          subst he; rfl
    · simp only [device_remove_disconnect_watch, if_neg hid]
      refine ⟨List.Sublist.cons₂ data i1, ?_, i3, i4⟩
      intro x hx hne
      rcases List.mem_cons.mp hx with h | h
      · subst h; exact List.mem_cons_self _ _
      · exact List.mem_cons_of_mem _ (i2 x h hne)

/-- A callback that removes the watches with ids `ids` takes watches out only: a watch
with an id outside `ids` stays, and no watch callback is called. -/
theorem remove_disconnect_watches_spec :
    ∀ (ids : List Nat) (l : List btd_disconnect_data),
      (remove_disconnect_watches l ids).1.Sublist l
      ∧ (∀ x ∈ l, x.id ∉ ids → x ∈ (remove_disconnect_watches l ids).1)
      ∧ watch_calls (remove_disconnect_watches l ids).2 = []
      ∧ (∀ e ∈ (remove_disconnect_watches l ids).2, is_watch_effect e = true) := by
  intro ids
  induction ids with
  | nil =>
    intro l
    refine ⟨List.Sublist.refl _, fun x hx _ => hx, rfl, ?_⟩
    intro e he; simp [remove_disconnect_watches] at he
  | cons id ids ih =>
    intro l
    obtain ⟨r1, r2, r3, r4⟩ := device_remove_disconnect_watch_spec id l
    obtain ⟨s1, s2, s3, s4⟩ := ih (device_remove_disconnect_watch l id).1
    simp only [remove_disconnect_watches]
    refine ⟨s1.trans r1, ?_, ?_, watch_effects_append _ _ r4 s4⟩
    · intro x hx hne
      have h1 : x.id ≠ id := fun c => hne (by rw [c]; exact List.mem_cons_self _ _)
      have h2 : x.id ∉ ids := fun c => hne (List.mem_cons_of_mem _ c)
      exact s2 x (r2 x hx h1) h2
    · rw [watch_calls_append, r3, s3]; rfl

/-- The call of the callback of a watch: watches are taken out only, a watch that the
callback does not remove stays, and the callback is called once if it is set. -/
theorem disconnect_watch_call_spec
    (watch : btd_disconnect_data → List btd_disconnect_data → List Nat) (temporary : Bool)
    (data : btd_disconnect_data) (l : List btd_disconnect_data) :
    (disconnect_watch_call watch temporary data l).1.Sublist l
    ∧ (∀ x ∈ l, x.id ∉ watch data l → x ∈ (disconnect_watch_call watch temporary data l).1)
    ∧ watch_calls (disconnect_watch_call watch temporary data l).2
        = (if has_watch data then [data.id] else [])
    ∧ (∀ e ∈ (disconnect_watch_call watch temporary data l).2, is_watch_effect e = true) := by
  obtain ⟨s1, s2, s3, s4⟩ := remove_disconnect_watches_spec (watch data l) l
  unfold disconnect_watch_call has_watch
  cases data.watch with
  | none =>
    refine ⟨List.Sublist.refl _, fun x hx _ => hx, rfl, ?_⟩
    intro e he; simp at he
  | some w =>
    refine ⟨s1, s2, ?_, ?_⟩
    · show watch_calls (dev_effect.disconnect_watch data.id temporary
          :: (remove_disconnect_watches l (watch data l)).2) = [data.id]
      have := watch_calls_append [dev_effect.disconnect_watch data.id temporary]
        (remove_disconnect_watches l (watch data l)).2
      simp only [List.singleton_append] at this
      rw [this, s3]; rfl
    · intro e he
      rcases List.mem_cons.mp he with h | h
      · subst h; rfl
      · exact s4 e h

/-- The watch loop of `device_request_disconnect` comes to an end within as many
iterations as there are watches and leaves the list empty; the callbacks called are,
in order, callbacks of watches of the list on entry, and every watch with a callback
that no callback of another watch of the list removes is called. -/
theorem disconnect_watches_loop_spec
    (watch : btd_disconnect_data → List btd_disconnect_data → List Nat) (temporary : Bool) :
    ∀ (fuel : Nat) (watches : List btd_disconnect_data), watches.length ≤ fuel →
      ∃ log, disconnect_watches_loop watch temporary fuel watches = some ([], log)
        ∧ (watch_calls log).Sublist ((watches.filter has_watch).map (fun d => d.id))
        ∧ (∀ x ∈ watches, has_watch x = true →
            (∀ other ∈ watches, other ≠ x → ∀ ws, x.id ∉ watch other ws) →
            x.id ∈ watch_calls log)
        ∧ (∀ e ∈ log, is_watch_effect e = true) := by
  intro fuel
  induction fuel with
  | zero =>
    intro watches hl
    cases watches with
    | nil =>
      refine ⟨[], rfl, List.Sublist.refl _, ?_, ?_⟩
      · intro x hx; simp at hx
      · intro e he; simp at he
    | cons d r => simp at hl
  | succ n ih =>
    intro watches hl
    cases watches with
    | nil =>
      refine ⟨[], rfl, List.Sublist.refl _, ?_, ?_⟩
      · intro x hx; simp at hx
      · intro e he; simp at he
    | cons data rest =>
      obtain ⟨c1, c2, c3, c4⟩ := disconnect_watch_call_spec watch temporary data (data :: rest)
      have hsub : (if data ∈ (disconnect_watch_call watch temporary data (data :: rest)).1
            then (disconnect_watch_call watch temporary data (data :: rest)).1.erase data
            else (disconnect_watch_call watch temporary data (data :: rest)).1).Sublist rest := by
        split_ifs with hm
        · have := List.Sublist.erase data c1
          rwa [List.erase_cons_head] at this
        · rcases List.sublist_cons_iff.mp c1 with h | ⟨r, hr, _⟩
          · exact h
          · exact absurd (by rw [hr]; exact List.mem_cons_self _ _) hm
      have hmem : ∀ x ∈ rest, x ≠ data → x.id ∉ watch data (data :: rest) →
          x ∈ (if data ∈ (disconnect_watch_call watch temporary data (data :: rest)).1
            then (disconnect_watch_call watch temporary data (data :: rest)).1.erase data
            else (disconnect_watch_call watch temporary data (data :: rest)).1) := by
        intro x hx hne hid
        have hx1 := c2 x (List.mem_cons_of_mem _ hx) hid
        split_ifs
        · exact (List.mem_erase_of_ne hne).mpr hx1
        · exact hx1
      have hlen := hsub.length_le
      simp only [List.length_cons] at hl
      obtain ⟨log, e1, e2, e3, e4⟩ := ih
        (if data ∈ (disconnect_watch_call watch temporary data (data :: rest)).1
          then (disconnect_watch_call watch temporary data (data :: rest)).1.erase data
          else (disconnect_watch_call watch temporary data (data :: rest)).1) (by omega)
      refine ⟨(disconnect_watch_call watch temporary data (data :: rest)).2 ++ log, ?_, ?_, ?_,
        watch_effects_append _ _ c4 e4⟩
      · simp only [disconnect_watches_loop, e1]
      · rw [watch_calls_append, c3]
        have h2 := e2.trans ((hsub.filter has_watch).map (fun d => d.id))
        by_cases hw : has_watch data = true
        · simp only [hw, if_true, List.filter_cons_of_pos, List.map_cons, List.singleton_append]
          exact List.Sublist.cons₂ _ h2
        · simp only [hw, List.filter_cons_of_neg hw, List.nil_append]
          simpa using h2
      · intro x hx hw hother
        rw [watch_calls_append, c3]
        by_cases hxd : x = data
        · subst hxd
          simp [hw]
        · rcases List.mem_cons.mp hx with h | h
          · exact absurd h hxd
          · exact List.mem_append_right _
              (e3 x (hmem x h hxd (hother data (List.mem_cons_self _ _)
                  (fun c => hxd c.symm) (data :: rest))) hw
                (fun other ho hne ws =>
                  hother other (List.mem_cons_of_mem _ (hsub.subset ho)) hne ws))

/-- The function `browse_request_free` leaves the watches and the disconnection timer
alone, calls no watch and arms no timer. -/
theorem browse_request_free_watches (device : btd_device) (req : browse_req) :
    (browse_request_free device req).1.watches = device.watches
    ∧ (browse_request_free device req).1.disconn_timer = device.disconn_timer
    ∧ (browse_request_free device req).1.browse = device.browse
    ∧ watch_calls (browse_request_free device req).2 = []
    ∧ dev_effect.g_timeout_add_seconds timer_kind.do_disconnect
        ∉ (browse_request_free device req).2 := by
  unfold browse_request_free btd_device_unref
  cases req.attrib <;> by_cases c1 : req.listener_id = 0 <;>
    by_cases c2 : req.sdp_timer_id = 0 <;> by_cases c3 : device.ref - 1 > 0 <;>
    simp [watch_calls, c1, c2, c3]

/-- The function `browse_request_cancel` cancels the discovery and clears the browse;
it leaves the watches and the disconnection timer alone, calls no watch and arms no
timer. -/
theorem browse_request_cancel_watches (device : btd_device) (req : browse_req) :
    (browse_request_cancel device req).1.watches = device.watches
    ∧ (browse_request_cancel device req).1.disconn_timer = device.disconn_timer
    ∧ (browse_request_cancel device req).1.browse = none
    ∧ dev_effect.bt_cancel_discovery ∈ (browse_request_cancel device req).2
    ∧ watch_calls (browse_request_cancel device req).2 = []
    ∧ dev_effect.g_timeout_add_seconds timer_kind.do_disconnect
        ∉ (browse_request_cancel device req).2 := by
  have F := fun d => browse_request_free_watches d req
  unfold browse_request_cancel
  simp only
  refine ⟨?_, ?_, (F _).2.2.1, List.mem_cons_self _ _, ?_, ?_⟩
  · rw [(F _).1]; split_ifs <;> rfl
  · rw [(F _).2.1]; split_ifs <;> rfl
  · have := watch_calls_append [dev_effect.bt_cancel_discovery]
      (browse_request_free
        { (if device_is_creating device = true then { device with temporary := true }
            else device) with browse := none } req).2
    simp only [List.singleton_append] at this
    rw [this, (F _).2.2.2.1]; rfl
  · intro h
    rcases List.mem_cons.mp h with h | h
    · exact absurd h (by decide)
    · exact (F _).2.2.2.2 h

/-- The reply of `discover_services_reply` calls no watch and arms no timer. -/
theorem discover_services_reply_watches (req : browse_req) (err : Int)
    (recs : List sdp_record) :
    watch_calls (discover_services_reply req err recs) = []
    ∧ dev_effect.g_timeout_add_seconds timer_kind.do_disconnect
        ∉ discover_services_reply req err recs := by
  unfold discover_services_reply
  cases req.msg with
  | none => simp [watch_calls]
  | some m => split_ifs <;> simp [watch_calls]

/-- The part of `device_request_disconnect` before the test of the timer: the bonding
and the browse are cancelled, the watches and the timer are left alone, no watch is
called and no timer is armed. -/
theorem device_request_disconnect_eq (env : environment)
    (watch : btd_disconnect_data → List btd_disconnect_data → List Nat)
    (device : btd_device) (msg : Option DBusMessage) :
    ∃ (device1 : btd_device) (P : List dev_effect),
      device1.watches = device.watches ∧ device1.disconn_timer = device.disconn_timer
      ∧ device1.browse = none
      ∧ (device.bonding.isSome → dev_effect.adapter_cancel_bonding ∈ P)
      ∧ (device.browse.isSome → dev_effect.bt_cancel_discovery ∈ P)
      ∧ watch_calls P = []
      ∧ dev_effect.g_timeout_add_seconds timer_kind.do_disconnect ∉ P
      ∧ (device1.disconn_timer ≠ 0 →
          device_request_disconnect env watch device msg = some (device1, P))
      ∧ (device1.disconn_timer = 0 → ∀ w,
          disconnect_watches_loop watch device1.temporary device1.watches.length
            device1.watches = some w →
          device_request_disconnect env watch device msg
            = some ({ device1 with watches := w.1, disconn_timer := env.timer_id },
                P ++ w.2 ++ [dev_effect.g_timeout_add_seconds timer_kind.do_disconnect,
                  dev_effect.g_dbus_emit_signal "DisconnectRequested"])) := by
  have hbr : ∃ br : btd_device × List dev_effect,
      (match device.browse with
        | some req =>
          ((browse_request_cancel device req).1,
            discover_services_reply req (-ECANCELED) [] ++ (browse_request_cancel device req).2)
        | none => (device, [])) = br
      ∧ br.1.watches = device.watches ∧ br.1.disconn_timer = device.disconn_timer
      ∧ br.1.browse = none
      ∧ (device.browse.isSome → dev_effect.bt_cancel_discovery ∈ br.2)
      ∧ watch_calls br.2 = []
      ∧ dev_effect.g_timeout_add_seconds timer_kind.do_disconnect ∉ br.2 := by
    refine ⟨_, rfl, ?_⟩
    cases hb : device.browse with
    | none => simp [hb, watch_calls]
    | some req =>
      obtain ⟨c1, c2, c3, c4, c5, c6⟩ := browse_request_cancel_watches device req
      have r1 := discover_services_reply_watches req (-ECANCELED) []
      refine ⟨c1, c2, c3, fun _ => List.mem_append_right _ c4, ?_, ?_⟩
      · rw [watch_calls_append, r1.1, c5]; rfl
      · intro h
        rcases List.mem_append.mp h with h | h
        · exact r1.2 h
        · exact c6 h
  obtain ⟨br, hbe, f1, f2, f3, f4, f5, f6⟩ := hbr
  have hb : ∃ b : List dev_effect,
      (if device.bonding.isSome then bonding_request_cancel else []) = b
      ∧ (device.bonding.isSome → dev_effect.adapter_cancel_bonding ∈ b)
      ∧ watch_calls b = []
      ∧ dev_effect.g_timeout_add_seconds timer_kind.do_disconnect ∉ b := by
    refine ⟨_, rfl, ?_⟩
    cases device.bonding <;> simp [bonding_request_cancel, watch_calls]
  obtain ⟨b, hbb, g1, g2, g3⟩ := hb
  have hd : ∃ device1 : btd_device,
      (match msg with
        | some m => { br.1 with disconnects := br.1.disconnects ++ [m] }
        | none => br.1) = device1
      ∧ device1.watches = device.watches ∧ device1.disconn_timer = device.disconn_timer
      ∧ device1.browse = none := by
    refine ⟨_, rfl, ?_⟩
    cases msg
    · exact ⟨f1, f2, f3⟩
    · exact ⟨f1, f2, f3⟩
  obtain ⟨device1, hde, d1, d2, d3⟩ := hd
  refine ⟨device1, b ++ br.2, d1, d2, d3, ?_, ?_, ?_, ?_, ?_, ?_⟩
  · intro h; exact List.mem_append_left _ (g1 h)
  · intro h; exact List.mem_append_right _ (f4 h)
  · rw [watch_calls_append, g2, f5]; rfl
  · intro h
    rcases List.mem_append.mp h with h | h
    · exact g3 h
    · exact f6 h
  · intro ht
    unfold device_request_disconnect
    simp only [hbe, hbb, hde, if_pos ht]
  · intro ht w hw
    unfold device_request_disconnect
    simp only [hbe, hbb, hde, if_neg (not_not.mpr ht), hw]

/-- C23, amended: `device_request_disconnect` cancels an active bonding and an active
browse. With the disconnection timer already armed it does no more: no watch is
called, the watch list and the timer are unchanged. With the timer not armed, watches
with distinct ids and callbacks that at most remove watches, it comes to an end with
the watch list empty and the timer armed once; no watch is called twice, each call is
the callback of a watch of the list on entry, and every watch on entry that has a
callback and that the callback of no other watch of the list removes is called. In
particular, when each callback removes at most its own watch, the callbacks called
are those of all the watches on entry that have one, each once, in the order of the
list. -/
theorem device_request_disconnect_spec (env : environment)
    (watch : btd_disconnect_data → List btd_disconnect_data → List Nat)
    (device : btd_device) (msg : Option DBusMessage)
    (hid : (device.watches.map (fun d => d.id)).Nodup) :
    ∃ d log, device_request_disconnect env watch device msg = some (d, log)
      ∧ (device.bonding.isSome → dev_effect.adapter_cancel_bonding ∈ log)
      ∧ (device.browse.isSome → dev_effect.bt_cancel_discovery ∈ log)
      ∧ d.browse = none
      ∧ (device.disconn_timer ≠ 0 →
          d.watches = device.watches ∧ watch_calls log = []
          ∧ d.disconn_timer = device.disconn_timer
          ∧ dev_effect.g_timeout_add_seconds timer_kind.do_disconnect ∉ log)
      ∧ (device.disconn_timer = 0 →
          d.watches = [] ∧ d.disconn_timer = env.timer_id
          ∧ log.count (dev_effect.g_timeout_add_seconds timer_kind.do_disconnect) = 1
          ∧ (watch_calls log).Nodup
          ∧ (∀ id ∈ watch_calls log,
              ∃ data ∈ device.watches, data.id = id ∧ has_watch data = true)
          ∧ (∀ data ∈ device.watches, has_watch data = true →
              (∀ other ∈ device.watches, other ≠ data → ∀ ws, data.id ∉ watch other ws) →
              data.id ∈ watch_calls log)
          ∧ ((∀ other ∈ device.watches, ∀ ws, ∀ id ∈ watch other ws, id = other.id) →
              watch_calls log = (device.watches.filter has_watch).map (fun d => d.id))) := by
  obtain ⟨device1, P, d1, d2, d3, p1, p2, p3, p4, e1, e2⟩ :=
    device_request_disconnect_eq env watch device msg
  by_cases ht : device.disconn_timer = 0
  · obtain ⟨wlog, w1, w2, w3, w4⟩ := disconnect_watches_loop_spec watch device1.temporary
      device1.watches.length device1.watches (Nat.le_refl _)
    have hcalls : watch_calls (P ++ wlog
        ++ [dev_effect.g_timeout_add_seconds timer_kind.do_disconnect,
            dev_effect.g_dbus_emit_signal "DisconnectRequested"]) = watch_calls wlog := by
      rw [watch_calls_append, watch_calls_append, p3]
      simp [watch_calls]
    have hnot : dev_effect.g_timeout_add_seconds timer_kind.do_disconnect ∉ wlog :=
      fun c => by have := w4 _ c; simp [is_watch_effect] at this
    rw [d1] at w2 w3
    refine ⟨_, _, e2 (d2.trans ht) _ w1, ?_, ?_, d3, fun c => absurd ht c, fun _ => ?_⟩
    · intro h
      exact List.mem_append_left _ (List.mem_append_left _ (p1 h))
    · intro h
      exact List.mem_append_left _ (List.mem_append_left _ (p2 h))
    · refine ⟨rfl, rfl, ?_, ?_, ?_, ?_, ?_⟩
      · rw [List.count_append, List.count_append, List.count_eq_zero_of_not_mem p4,
          List.count_eq_zero_of_not_mem hnot]
        decide
      · rw [hcalls]
        exact (w2.trans (List.Sublist.map _ (List.filter_sublist _))).nodup hid
      · intro id hin
        rw [hcalls] at hin
        obtain ⟨data, hdm, hde⟩ := List.mem_map.mp (w2.subset hin)
        exact ⟨data, (List.mem_filter.mp hdm).1, hde, (List.mem_filter.mp hdm).2⟩
      · intro data hdm hw hother
        rw [hcalls]
        exact w3 data hdm hw hother
      · intro hself
        rw [hcalls]
        have hnd : ((device.watches.filter has_watch).map (fun d => d.id)).Nodup :=
          (List.Sublist.map _ (List.filter_sublist _)).nodup hid
        have hall : (device.watches.filter has_watch).map (fun d => d.id)
            ⊆ watch_calls wlog := by
          intro id hin
          obtain ⟨data, hdm, hde⟩ := List.mem_map.mp hin
          rw [← hde]
          refine w3 data (List.mem_filter.mp hdm).1 (List.mem_filter.mp hdm).2 ?_
          intro other ho hne ws hmem
          exact hne (List.inj_on_of_nodup_map hid ho (List.mem_filter.mp hdm).1
            (hself other ho ws _ hmem).symm)
        exact w2.eq_of_length_le (List.subperm_of_subset hnd hall).length_le
  · have ht1 : device1.disconn_timer ≠ 0 := by rw [d2]; exact ht
    refine ⟨device1, P, e1 ht1, p1, p2, d3, fun _ => ⟨d1, p3, d2, p4⟩, fun c => absurd c ht⟩

/-- Witness of C23, amended: `sample_watched` has two watches with distinct ids and
callbacks that remove their own watch; both callbacks are called, in the order of the
list, the list is empty afterwards and the timer is armed once. -/
theorem device_request_disconnect_spec_witness :
    (sample_watched.watches.map (fun d => d.id)).Nodup
    ∧ ∃ d log, device_request_disconnect sample_env sample_watch_removes sample_watched none
          = some (d, log)
        ∧ d.watches = [] ∧ d.disconn_timer = sample_env.timer_id
        ∧ log.count (dev_effect.g_timeout_add_seconds timer_kind.do_disconnect) = 1
        ∧ watch_calls log = [1, 2] := by
  obtain ⟨d, log, h1, _, _, _, _, h6⟩ :=
    device_request_disconnect_spec sample_env sample_watch_removes sample_watched none
      (by decide)
  obtain ⟨w1, w2, w3, _, _, _, w7⟩ := h6 rfl
  refine ⟨by decide, d, log, h1, w1, w2, w3, ?_⟩
  rw [w7 (fun other _ ws id hmem => by
    simpa [sample_watch_removes] using hmem)]
  rfl

end Device
